import Mathlib

/-!
# SNEX JIT: branching operations (`snex_jit_OperationsBranching.cpp`)

A shallow embedding of the pass-specific behaviour of the statement and
expression nodes defined in `snex_jit_OperationsBranching.cpp` (statement block,
return, ternary, while-loop, for-each loop, break/continue, if), followed by
theorems about it.

The syntax tree is a value of type `Statement`; the fields that the C++ code
mutates on the nodes (`reg`, `parentLoop`, `iterator`, `loopTargetType`, ...) are
kept in the `Compiler` state, indexed by the node's identity.  Every call into a
collaborator that is not part of this file is logged as an `Event`, so that the
order and the number of such calls can be stated.  A C++ exception is the
`Result.error` outcome and carries the state reached at the `throw`.
-/

namespace snex
namespace jit

/-! ## Data model -/

/-- Modelled from the spec: the compiler passes (`BaseCompiler::Pass`), in the
order in which the pass driver runs them.  The enumeration itself is declared
outside this file. -/
inductive Pass where
  | DataAllocation
  | TypeCheck
  | RegisterAllocation
  | CodeGeneration
deriving DecidableEq, Repr

/-- Modelled from the spec: a source location (line, column) as carried by
every node and by every error. -/
structure Location where
  line : Nat
  col : Nat
deriving DecidableEq, Repr

/-- Modelled from the spec: the structured compile error `{message, source line,
source column}` raised by `throwError`. -/
structure Error where
  message : String
  location : Location
deriving DecidableEq, Repr

/-- Modelled from the spec: the primitive type ids (`Types::ID`), declared
outside this file; the code of this file names `Void`, `Integer`, `Float` and
`Block`, and a type that is still unset is `Dynamic`. -/
inductive TypeID where
  | Void
  | Pointer
  | Float
  | Double
  | Integer
  | Block
  | Dynamic
deriving DecidableEq, Repr

/-- Modelled from the spec: a namespaced identifier (`NamespacedIdentifier`), the
list of its path components, outermost first. -/
abbrev NamespacedIdentifier := List String

/-- Modelled from the spec: the parent of a namespaced identifier
(`NamespacedIdentifier::getParent`), the identifier without its last component. -/
def NamespacedIdentifier.getParent (id : NamespacedIdentifier) : NamespacedIdentifier :=
  id.dropLast

/-- Modelled from the spec: a type descriptor (`TypeInfo`), declared outside this
file: a primitive type or a complex type, with the const and reference
modifiers.  The complex types the code distinguishes are
the fixed-size span, the dynamically sized `dyn`, and struct types; a struct
type carries what the code reads from its function table (whether the begin
iterator and the size function are resolved, and the begin function's return
type) and whether it has a destructor. -/
inductive TypeInfo where
  | native (type : TypeID) (const_ ref_ : Bool)
  | SpanType (elementType : TypeInfo) (size : Nat) (hasDestructor : Bool) (const_ ref_ : Bool)
  | DynType (elementType : TypeInfo) (hasDestructor : Bool) (const_ ref_ : Bool)
  | StructType (id : NamespacedIdentifier) (beginResolved : Bool) (beginReturnType : TypeInfo)
      (sizeResolved : Bool) (hasDestructor : Bool) (const_ ref_ : Bool)
  | otherComplex (name : String) (hasDestructor : Bool) (const_ ref_ : Bool)
deriving DecidableEq, Repr

namespace TypeInfo

/-- Modelled from the spec: the primitive id of a type (`TypeInfo::getType`);
complex types are pointers. -/
def getType : TypeInfo → TypeID
  | native t _ _ => t
  | _ => TypeID.Pointer

def isConst : TypeInfo → Bool
  | native _ c _ => c
  | SpanType _ _ _ c _ => c
  | DynType _ _ c _ => c
  | StructType _ _ _ _ _ c _ => c
  | otherComplex _ _ c _ => c

def isRef : TypeInfo → Bool
  | native _ _ r => r
  | SpanType _ _ _ _ r => r
  | DynType _ _ _ r => r
  | StructType _ _ _ _ _ _ r => r
  | otherComplex _ _ _ r => r

/-- Modelled from the spec: the same type with the given modifiers
(`TypeInfo::withModifiers`). -/
def withModifiers : TypeInfo → Bool → Bool → TypeInfo
  | native t _ _, c, r => native t c r
  | SpanType e n d _ _, c, r => SpanType e n d c r
  | DynType e d _ _, c, r => DynType e d c r
  | StructType i b bt s d _ _, c, r => StructType i b bt s d c r
  | otherComplex n d _ _, c, r => otherComplex n d c r

/-- Modelled from the spec: a type is dynamic when it is still unset
(`TypeInfo::isDynamic`). -/
def isDynamic (t : TypeInfo) : Bool :=
  decide (t.getType = TypeID.Dynamic)

def isComplexType : TypeInfo → Bool
  | native _ _ _ => false
  | _ => true

/-- Modelled from the spec: the destructor flag of the complex type
(`ComplexType::hasDestructor`). -/
def hasDestructor : TypeInfo → Bool
  | native _ _ _ => false
  | SpanType _ _ d _ _ => d
  | DynType _ d _ _ => d
  | StructType _ _ _ _ d _ _ => d
  | otherComplex _ d _ _ => d

/-- Modelled from the spec: the element type when the type is a span
(`getTypedIfComplexType<SpanType>()` followed by `getElementType()`). -/
def getTypedIfSpanType : TypeInfo → Option TypeInfo
  | SpanType e _ _ _ _ => some e
  | _ => none

/-- Modelled from the spec: the element type when the type is a dyn
(`getTypedIfComplexType<DynType>()` followed by `elementType`). -/
def getTypedIfDynType : TypeInfo → Option TypeInfo
  | DynType e _ _ _ => some e
  | _ => none

/-- Modelled from the spec: the element type when the type is an array type
(`getTypedIfComplexType<ArrayTypeBase>()` followed by `getElementType()`); the
array types are the two indexable ones with an element type, span and dyn. -/
def getTypedIfArrayTypeBase : TypeInfo → Option TypeInfo
  | SpanType e _ _ _ _ => some e
  | DynType e _ _ _ => some e
  | _ => none

end TypeInfo

/-- Modelled from the spec: a symbol (`Symbol`), an identifier with its type. -/
structure Symbol where
  id : NamespacedIdentifier
  typeInfo : TypeInfo
deriving DecidableEq, Repr

def Symbol.isConst (s : Symbol) : Bool := s.typeInfo.isConst

def Symbol.isReference (s : Symbol) : Bool := s.typeInfo.isRef

/-- Modelled from the spec: a compile-time constant (`VariableStorage`), given by
its type and by the integer that `toInt()` converts it to. -/
structure VariableStorage where
  type : TypeID
  toInt : Int
deriving DecidableEq, Repr

/-- Modelled from the spec: the operator tokens (`JitTokens`) that the code of
this file compares against, and any other token. -/
inductive Token where
  | greaterThan
  | lessThan
  | lessThanOrEqual
  | greaterThanOrEqual
  | equals
  | notEquals
  | assign_
  | other (name : String)
deriving DecidableEq, Repr

/-- Modelled from the spec: the node kinds (the classes derived from
`Statement`, which give a node its dynamic type), each with the fields that are
fixed once the tree is built.  The kinds whose `process` is defined in this
file come first; `Other` stands for every kind this file never names. -/
inductive Kind where
  | StatementBlock (path : NamespacedIdentifier) (isInlinedFunction : Bool) (hasReturnType : Bool)
  | ReturnStatement
  | TernaryOp
  | WhileLoop
  | Loop
  | ControlFlowStatement (isBreak : Bool)
  | IfStatement
  | Compare (op : Token)
  | VariableReference (id : Symbol)
  | Assignment (assignmentType : Token)
  | ComplexTypeDefinition (type : TypeInfo) (instanceIds : List NamespacedIdentifier)
  | InlinedArgument (s : Symbol)
  | Noop
  | Immediate (value : VariableStorage)
  | Other (name : String)
deriving DecidableEq, Repr

/-- Modelled from the spec: a syntax tree node (`Statement`): its identity (the
object's address in the C++ code), its source location, its kind and its
ordered child statements. -/
inductive Statement where
  | node (id : Nat) (location : Location) (kind : Kind) (children : List Statement)
deriving Repr

namespace Statement

def id : Statement → Nat
  | node i _ _ _ => i

def location : Statement → Location
  | node _ l _ _ => l

def kind : Statement → Kind
  | node _ _ k _ => k

def children : Statement → List Statement
  | node _ _ _ cs => cs

/-- Modelled from the spec: the i-th child, if there is one (`getSubExpr(i)`, a
null pointer otherwise). -/
def getSubExpr (s : Statement) (i : Nat) : Option Statement :=
  s.children.get? i

end Statement

/-- Modelled from the spec: the kinds of lexical scope (`BaseScope::ScopeType`
and the scope classes), declared outside this file. -/
inductive ScopeType where
  | Class
  | Function
  | Block
  | Register
deriving DecidableEq, Repr

/-- Modelled from the spec: a scope of the parent-linked scope chain
(`BaseScope`). -/
inductive BaseScope where
  | mk (scopeType : ScopeType) (path : NamespacedIdentifier) (parent : Option BaseScope)
deriving Repr

namespace BaseScope

def getScopeType : BaseScope → ScopeType
  | mk t _ _ => t

def getParent : BaseScope → Option BaseScope
  | mk _ _ p => p

/-- The scope object created by `new RegisterScope(parent, path)`. -/
def RegisterScope (parent : BaseScope) (path : NamespacedIdentifier) : BaseScope :=
  mk ScopeType.Register path (some parent)

end BaseScope

/-- Modelled from the spec: a virtual register handle. -/
abbrev Reg := Nat

/-- Modelled from the spec: the shape of a for-each loop's target (the values of
`Loop::loopTargetType`). -/
inductive LoopTargetType where
  | Undefined
  | Span
  | Dyn
  | CustomObject
deriving DecidableEq, Repr

/-- A memory operand of four bytes at a byte offset from the runtime error flag
(`x86::ptr(getRuntimeErrorFlag())` resized and adjusted). -/
structure ErrorFlagPtr where
  offset : Nat
  size : Nat
deriving DecidableEq, Repr

/-- The instructions that this file issues directly to the assembler
(`acg.cc`).  Labels and the counter register are numbered in the order in which
they are requested. -/
inductive Instr where
  | xor_ (a b : Nat)
  | nop
  | bind (label : Nat)
  | setInlineComment (text : String)
  | cmpImm (reg : Nat) (imm : Int)
  | cmpRegZero (cReg : Option Reg)
  | inc (reg : Nat)
  | movImm (reg : Nat) (imm : Int)
  | movErrorKindWhileLoop (reg : Nat)
  | movToErrorFlag (dst : ErrorFlagPtr) (reg : Nat)
  | jle (label : Nat)
  | jge (label : Nat)
  | jg (label : Nat)
  | jl (label : Nat)
  | jne (label : Nat)
  | je (label : Nat)
  | jb (label : Nat)
  | jmp (label : Nat)
deriving DecidableEq, Repr

/-- The observable steps of a pass: each call of a node's `process`, and each
call from this file into a collaborator defined elsewhere, with the arguments
that matter. -/
inductive Event where
  | process (id : Nat) (pass : Pass)
  | processBaseWithChildren (id : Nat)
  | processBaseWithoutChildren (id : Nat)
  | callDestructor (block : Nat) (id : Symbol)
  | allocateReturnRegister (block : Nat)
  | checkAndSetType (id : Nat) (index : Nat) (expected : TypeInfo)
  | emitReturn (target source : Option Reg)
  | writeDirtyGlobals
  | emitTernaryOp (id : Nat)
  | tryToResolveType (id : Nat)
  | setTypeInfo (id : NamespacedIdentifier) (type : TypeInfo)
  | allocateDirtyGlobalVariables (block : Option Nat)
  | emitLoop (targetType : LoopTargetType) (iterator : Symbol) (targetReg : Option Reg)
      (loopBlock : Option Nat) (loadIterator : Bool) (customFunctions : Option (TypeInfo × Bool))
  | emitLoopControlFlow (parentLoop : Option Nat) (isBreak : Bool)
  | emitBranch (cond trueBranch falseBranch : Option Nat)
  | asm (i : Instr)
deriving DecidableEq, Repr

/-- The state a pass works on: the mutable fields of the nodes (indexed by node
identity), the namespace handler's variable types, the counters of the
assembler's label and register requests, and the log of events so far. -/
structure Compiler where
  typeInfo : Nat → TypeInfo
  reg : Nat → Option Reg
  returnRegister : Nat → Option Reg
  blockScope : Nat → Option BaseScope
  parentLoop : Nat → Option Nat
  iterator : Nat → Symbol
  loopTargetType : Nat → LoopTargetType
  customBegin : Nat → Bool × TypeInfo
  customSizeFunction : Nat → Bool
  loadIterator : Nat → Bool
  storeIterator : Nat → Bool
  useAsmFlag : Nat → Bool
  namespaceHandler : NamespacedIdentifier → Option TypeInfo
  nextLabel : Nat
  nextGpd : Nat
  nextReg : Nat
  trace : List Event

/-- The outcome of running code on a compiler state: normal return, a thrown
compile error (with the state reached at the throw), or behaviour the source
leaves undefined (a null pointer is dereferenced). -/
inductive Result where
  | ok (c : Compiler)
  | error (e : Error) (c : Compiler)
  | undefined (c : Compiler)

namespace Compiler

/-- Append an event to the log. -/
def log (c : Compiler) (e : Event) : Compiler :=
  { c with trace := c.trace ++ [e] }

def setTypeOf (c : Compiler) (i : Nat) (t : TypeInfo) : Compiler :=
  { c with typeInfo := fun j => if j = i then t else c.typeInfo j }

def setReg (c : Compiler) (i : Nat) (r : Option Reg) : Compiler :=
  { c with reg := fun j => if j = i then r else c.reg j }

def setReturnRegister (c : Compiler) (i : Nat) (r : Option Reg) : Compiler :=
  { c with returnRegister := fun j => if j = i then r else c.returnRegister j }

def setBlockScope (c : Compiler) (i : Nat) (s : BaseScope) : Compiler :=
  { c with blockScope := fun j => if j = i then some s else c.blockScope j }

def setParentLoop (c : Compiler) (i : Nat) (l : Option Nat) : Compiler :=
  { c with parentLoop := fun j => if j = i then l else c.parentLoop j }

def setIterator (c : Compiler) (i : Nat) (s : Symbol) : Compiler :=
  { c with iterator := fun j => if j = i then s else c.iterator j }

def setLoopTargetType (c : Compiler) (i : Nat) (t : LoopTargetType) : Compiler :=
  { c with loopTargetType := fun j => if j = i then t else c.loopTargetType j }

def setCustomFunctions (c : Compiler) (i : Nat) (b : Bool × TypeInfo) (s : Bool) : Compiler :=
  { c with customBegin := fun j => if j = i then b else c.customBegin j,
           customSizeFunction := fun j => if j = i then s else c.customSizeFunction j }

def setLoadIterator (c : Compiler) (i : Nat) (b : Bool) : Compiler :=
  { c with loadIterator := fun j => if j = i then b else c.loadIterator j }

def setStoreIterator (c : Compiler) (i : Nat) (b : Bool) : Compiler :=
  { c with storeIterator := fun j => if j = i then b else c.storeIterator j }

def setUseAsmFlag (c : Compiler) (i : Nat) : Compiler :=
  { c with useAsmFlag := fun j => if j = i then true else c.useAsmFlag j }

def registerType (c : Compiler) (id : NamespacedIdentifier) (t : TypeInfo) : Compiler :=
  { c with namespaceHandler := fun j => if j = id then some t else c.namespaceHandler j }

/-- Modelled from the spec: the register of a node's i-th child
(`getSubRegister(i)`); none when there is no such child or it has no register. -/
def getSubRegister (c : Compiler) (s : Statement) (i : Nat) : Option Reg :=
  (s.getSubExpr i).bind (fun e => c.reg e.id)

end Compiler

/-- Modelled from the spec: throwing a compile error at a location
(`location.throwError`, which is also what a node's `throwError` does with the
node's own location). -/
def Location.throwError (location : Location) (message : String) (c : Compiler) : Result :=
  Result.error { message := message, location := location } c

namespace Result

/-- Sequencing: continue with the next step after a normal return, propagate a
thrown error or undefined behaviour. -/
def bind (r : Result) (f : Compiler → Result) : Result :=
  match r with
  | ok c => f c
  | error e c => error e c
  | undefined c => undefined c

/-- The state a result ends in. -/
def state : Result → Compiler
  | ok c => c
  | error _ c => c
  | undefined c => c

/-- The thrown error, if the result is one. -/
def thrown : Result → Option Error
  | error e _ => some e
  | _ => none

def isOk : Result → Bool
  | ok _ => true
  | _ => false

end Result

/-- The collaborators of this file that are defined elsewhere in the repository,
taken as parameters.  Each is a function of its arguments (and of the compiler
state where it reads it). -/
structure Env where
  /-- The pass-specific work of a node whose kind is defined in another file,
  run after the traversal of its children: it throws, or it leaves the node
  with a type and a register. -/
  ext : Pass → Statement → Compiler → Except Error (TypeInfo × Option Reg)
  /-- The value of a node that `isConstExpr()` reports as a compile-time
  constant (`getConstExprValue()`), none for any other node. -/
  constExpr : Statement → Option VariableStorage
  /-- The answer of `ComplexTypeDefinition::isStackDefinition(scope)`. -/
  isStackDefinition : Statement → BaseScope → Bool
  /-- The failure message of `ComplexType::callDestructor` for a symbol, none
  when the call succeeds. -/
  callDestructor : Symbol → Option String
  /-- The outcome of `checkAndSetType(index, expected)` on a node: the resulting
  type, or the error it throws. -/
  checkAndSetType : Statement → Nat → TypeInfo → Compiler → Except Error TypeInfo
  /-- The register returned by `AsmCodeGenerator::emitTernaryOp`. -/
  emitTernaryOp : Statement → Compiler → Option Reg
  /-- The type a node has after `tryToResolveType` was called on it. -/
  tryToResolveType : Statement → Compiler → TypeInfo
  /-- The failure message of `NamespaceHandler::setTypeInfo`, none on success. -/
  setTypeInfo : NamespacedIdentifier → TypeInfo → Option String
  /-- The comparison `operator==` of two `TypeInfo` values. -/
  typeEq : TypeInfo → TypeInfo → Bool
  /-- The text of a type (`toString()`). -/
  toString : TypeInfo → String
  /-- The result of `findRoot()` for a node with the given chain of ancestors
  (innermost first), none for a null pointer. -/
  findRoot : Statement → List Statement → Option Statement
  /-- The setting `GlobalScope::isRuntimeErrorCheckEnabled()`. -/
  isRuntimeErrorCheckEnabled : Bool
  /-- The answer of `hasSideEffect()` on a node. -/
  hasSideEffect : Statement → Bool
  /-- The comparison `operator==` of two `Symbol` values. -/
  symbolEq : Symbol → Symbol → Bool

/-! ## Tree queries -/

mutual
/-- Modelled from the spec: `Statement::forEachRecursive`, the walk of a node's
structural sub-tree: the callback is applied to the node, then to each child's
sub-tree in order, and the walk stops as soon as the callback returns true.
The callback's captured variables are the accumulator. -/
def Statement.forEachRecursive {σ : Type} (f : Statement → σ → σ × Bool) :
    Statement → σ → σ × Bool
  | Statement.node i l k cs, acc =>
    match f (Statement.node i l k cs) acc with
    | (acc1, true) => (acc1, true)
    | (acc1, false) => forEachRecursiveChildren f cs acc1
/-- The walk of `forEachRecursive` over the list of children. -/
def forEachRecursiveChildren {σ : Type} (f : Statement → σ → σ × Bool) :
    List Statement → σ → σ × Bool
  | [], acc => (acc, false)
  | c :: rest, acc =>
    match Statement.forEachRecursive f c acc with
    | (acc1, true) => (acc1, true)
    | (acc1, false) => forEachRecursiveChildren f rest acc1
end

mutual
/-- Modelled from the spec: the statements a `SyntaxTreeWalker` started at a
node yields, in walking order (the node, then each child's sub-tree), each with
its chain of ancestors, innermost first. -/
def Statement.walk (anc : List Statement) : Statement → List (Statement × List Statement)
  | Statement.node i l k cs =>
    (Statement.node i l k cs, anc) :: walkChildren (Statement.node i l k cs :: anc) cs
/-- The walk of a `SyntaxTreeWalker` over a list of children. -/
def walkChildren (anc : List Statement) : List Statement → List (Statement × List Statement)
  | [] => []
  | c :: rest => Statement.walk anc c ++ walkChildren anc rest
end

/-- Modelled from the spec: `findParentStatementOfType<T>(p)`, the nearest node
of the wanted type on the chain that starts at `p` and follows the parent
links; `anc` are the ancestors of `p`, innermost first. -/
def findParentStatementOfType (isT : Kind → Bool) (p : Statement) (anc : List Statement) :
    Option Statement :=
  (p :: anc).find? (fun s => isT s.kind)

def Kind.isLoop : Kind → Bool
  | Kind.Loop => true
  | _ => false

def Kind.isWhileLoop : Kind → Bool
  | Kind.WhileLoop => true
  | _ => false

def Kind.isAssignment : Kind → Bool
  | Kind.Assignment _ => true
  | _ => false

def Kind.isStatementBlock : Kind → Bool
  | Kind.StatementBlock _ _ _ => true
  | _ => false

/-- Modelled from the spec: the scope that `findFunctionScope(scope)` returns,
the nearest function-level scope on the parent chain, cast to `FunctionScope`. -/
def findFunctionScope : BaseScope → Option BaseScope
  | BaseScope.mk t p parent =>
    if t = ScopeType.Function then some (BaseScope.mk t p parent)
    else
      match parent with
      | none => none
      | some q => findFunctionScope q

/-! ## Statement block -/

/-- `StatementBlock::createOrGetBlockScope`: the enclosing scope itself when it
is class-level, otherwise the block's own scope, created on first use. -/
def StatementBlock.createOrGetBlockScope (i : Nat) (path : NamespacedIdentifier)
    (parent : BaseScope) (c : Compiler) : BaseScope × Compiler :=
  if parent.getScopeType = ScopeType.Class then (parent, c)
  else
    match c.blockScope i with
    | some blockScope => (blockScope, c)
    | none => (BaseScope.RegisterScope parent path, c.setBlockScope i (BaseScope.RegisterScope parent path))

/-- `StatementBlock::isRealStatement`: the chain of casts on the dynamic type of
the statement; a return statement is real when its type is not void, the type
being read from the state `c`. -/
def StatementBlock.isRealStatement (s : Statement) (c : Compiler) : Bool :=
  match s.kind with
  | Kind.InlinedArgument _ => false
  | Kind.Noop => false
  | Kind.ReturnStatement => decide ((c.typeInfo s.id).getType ≠ TypeID.Void)
  | Kind.VariableReference _ => false
  | _ => true

/-- The callback that `StatementBlock::process` passes to `forEachRecursive` in
the Data Allocation pass: for a stack definition of a complex type with a
destructor it adds, in order, the instance ids whose parent is the block's
path; it always returns false. -/
def StatementBlock.collectDestructorIds (env : Env) (path : NamespacedIdentifier)
    (scope : BaseScope) (p : Statement) (destructorIds : List Symbol) : List Symbol × Bool :=
  match p.kind with
  | Kind.ComplexTypeDefinition type instanceIds =>
    if env.isStackDefinition p scope then
      if type.hasDestructor then
        (destructorIds ++
          (instanceIds.filter (fun id => decide (path = id.getParent))).map
            (fun id => Symbol.mk id type), false)
      else (destructorIds, false)
    else (destructorIds, false)
  | _ => (destructorIds, false)

/-- The loop `for (int i = destructorIds.size() - 1; i >= 0; i--)` of
`StatementBlock::process`, entered with `n = destructorIds.size()`; the
iteration with `n + 1` left works on index `n`.  A failed destructor call is
thrown by `location.test(r)`. -/
def StatementBlock.callDestructors (env : Env) (block : Nat) (location : Location)
    (destructorIds : List Symbol) : Nat → Compiler → Result
  | 0, c => Result.ok c
  | n + 1, c =>
    match destructorIds.get? n with
    | none => Result.undefined c
    | some id =>
      match env.callDestructor id with
      | some message => location.throwError message (c.log (Event.callDestructor block id))
      | none =>
        StatementBlock.callDestructors env block location destructorIds n
          (c.log (Event.callDestructor block id))

/-- The destructor ids that the Data Allocation pass of a block collects. -/
def StatementBlock.destructorIds (env : Env) (self : Statement) (path : NamespacedIdentifier)
    (scope : BaseScope) : List Symbol :=
  (self.forEachRecursive (StatementBlock.collectDestructorIds env path scope) []).1

/-- The Data Allocation block of `StatementBlock::process`. -/
def StatementBlock.dataAllocation (env : Env) (self : Statement) (path : NamespacedIdentifier)
    (scope : BaseScope) (c : Compiler) : Result :=
  StatementBlock.callDestructors env self.id self.location
    (StatementBlock.destructorIds env self path scope)
    (StatementBlock.destructorIds env self path scope).length c

/-- Modelled from the spec: `allocateReturnRegister`, which reserves the return
register of the block from the register pool. -/
def StatementBlock.allocateReturnRegister (i : Nat) (c : Compiler) : Compiler :=
  { (c.log (Event.allocateReturnRegister i)).setReturnRegister i (some c.nextReg) with
    nextReg := c.nextReg + 1 }

/-- The Register Allocation block of `StatementBlock::process`. -/
def StatementBlock.registerAllocation (i : Nat) (isInlinedFunction hasReturnType : Bool)
    (c : Compiler) : Result :=
  let c1 :=
    if hasReturnType then
      if !isInlinedFunction then StatementBlock.allocateReturnRegister i c else c
    else c
  Result.ok (c1.setReg i (c1.returnRegister i))

/-! ## Return statement -/

/-- Modelled from the spec: `ReturnStatement::isVoid()`, which holds when the
statement's type, the return type of its function, is void. -/
def ReturnStatement.isVoid (self : Statement) (c : Compiler) : Bool :=
  decide ((c.typeInfo self.id).getType = TypeID.Void)

/-- The local `actualType` of the Type Check block of `ReturnStatement::process`:
the type of sub-expression 0, void when there is none. -/
def ReturnStatement.actualType (self : Statement) (c : Compiler) : TypeInfo :=
  match self.getSubExpr 0 with
  | some first => c.typeInfo first.id
  | none => TypeInfo.native TypeID.Void false false

/-- The statement `checkAndSetType(0, getTypeInfo())` of `ReturnStatement::process`. -/
def ReturnStatement.checkType (env : Env) (self : Statement) (c : Compiler) : Result :=
  match env.checkAndSetType self 0 (c.typeInfo self.id) c with
  | Except.error e => Result.error e (c.log (Event.checkAndSetType self.id 0 (c.typeInfo self.id)))
  | Except.ok _ => Result.ok (c.log (Event.checkAndSetType self.id 0 (c.typeInfo self.id)))

/-- The Type Check block of `ReturnStatement::process`. -/
def ReturnStatement.typeCheck (env : Env) (self : Statement) (scope : BaseScope)
    (c : Compiler) : Result :=
  match findFunctionScope scope with
  | some _ =>
    if ReturnStatement.isVoid self c &&
        decide ((ReturnStatement.actualType self c).getType ≠ TypeID.Void) then
      self.location.throwError "Can't return a value from a void function." c
    else if !ReturnStatement.isVoid self c &&
        decide ((ReturnStatement.actualType self c).getType = TypeID.Void) then
      self.location.throwError "function must return a value" c
    else ReturnStatement.checkType env self c
  | none => self.location.throwError "Can't deduce return type." c

/-- `ReturnStatement::findInlinedRoot`: the root found by `findRoot()` when it
is a statement block marked as an inlined function. -/
def ReturnStatement.findInlinedRoot (env : Env) (self : Statement) (anc : List Statement) :
    Option Statement :=
  match env.findRoot self anc with
  | some sl =>
    match sl.kind with
    | Kind.StatementBlock _ isInlinedFunction _ => if isInlinedFunction then some sl else none
    | _ => none
  | none => none

/-- The part of the Code Generation block of `ReturnStatement::process` that
binds the statement's register (the `if (!isVoid())` statement). -/
def ReturnStatement.bindRegister (env : Env) (self : Statement) (anc : List Statement)
    (c : Compiler) : Result :=
  if !ReturnStatement.isVoid self c then
    let c1 : Compiler :=
      match ReturnStatement.findInlinedRoot env self anc with
      | some sb => (c.setReg self.id (c.getSubRegister self 0)).setReg sb.id (c.getSubRegister self 0)
      | none =>
        match env.findRoot self anc with
        | some sl => c.setReg self.id (c.returnRegister sl.id)
        | none => c
    match c1.reg self.id with
    | none => self.location.throwError "Can't find return register" c1
    | some _ => Result.ok c1
  else Result.ok c

/-- The Code Generation block of `ReturnStatement::process`. -/
def ReturnStatement.codeGeneration (env : Env) (self : Statement) (anc : List Statement)
    (c : Compiler) : Result :=
  (ReturnStatement.bindRegister env self anc c).bind fun c1 =>
    match ReturnStatement.findInlinedRoot env self anc with
    | none =>
      Result.ok (c1.log (Event.emitReturn (c1.reg self.id)
        (if ReturnStatement.isVoid self c1 then none else c1.getSubRegister self 0)))
    | some _ => Result.ok (c1.log Event.writeDirtyGlobals)

/-! ## Ternary expression -/

/-- The Type Check block of `TernaryOp::process`: `type = checkAndSetType(1, type)`. -/
def TernaryOp.typeCheck (env : Env) (self : Statement) (c : Compiler) : Result :=
  match env.checkAndSetType self 1 (c.typeInfo self.id) c with
  | Except.error e => Result.error e (c.log (Event.checkAndSetType self.id 1 (c.typeInfo self.id)))
  | Except.ok t =>
    Result.ok ((c.log (Event.checkAndSetType self.id 1 (c.typeInfo self.id))).setTypeOf self.id t)

/-- The Code Generation block of `TernaryOp::process`: `reg = asg.emitTernaryOp(...)`. -/
def TernaryOp.codeGeneration (env : Env) (self : Statement) (c : Compiler) : Result :=
  Result.ok ((c.log (Event.emitTernaryOp self.id)).setReg self.id (env.emitTernaryOp self c))

/-! ## While loop -/

/-- The Type Check block of `WhileLoop::process`: a constant condition with a
non-zero integer value is an endless loop. -/
def WhileLoop.typeCheck (env : Env) (self : Statement) (c : Compiler) : Result :=
  match self.getSubExpr 0 with
  | none => Result.undefined c
  | some cond =>
    match env.constExpr cond with
    | some v =>
      if v.toInt ≠ 0 then self.location.throwError "Endless loop detected" c
      else Result.ok c
    | none => Result.ok c

/-- Modelled from the spec: the node kinds that derive from
`Statement::ConditionalBranch` (ternary, while-loop, for-each loop, if). -/
def Kind.isConditionalBranch : Kind → Bool
  | Kind.TernaryOp => true
  | Kind.WhileLoop => true
  | Kind.Loop => true
  | Kind.IfStatement => true
  | _ => false

def Kind.isCompare : Kind → Bool
  | Kind.Compare _ => true
  | _ => false

/-- The loop `for (auto s : *sb)` of `WhileLoop::getCompareCondition`. -/
def WhileLoop.findCompareInBlock : List Statement → Option Statement
  | [] => none
  | s :: rest =>
    if s.kind.isConditionalBranch then none
    else
      match s.kind with
      | Kind.ReturnStatement =>
        match s.getSubExpr 0 with
        | some e => if e.kind.isCompare then some e else none
        | none => none
      | _ => WhileLoop.findCompareInBlock rest

/-- `WhileLoop::getCompareCondition`: the comparison that is the condition, or
that the condition block returns. -/
def WhileLoop.getCompareCondition (self : Statement) : Option Statement :=
  match self.getSubExpr 0 with
  | none => none
  | some cond =>
    if cond.kind.isCompare then some cond
    else
      match cond.kind with
      | Kind.StatementBlock _ _ _ => WhileLoop.findCompareInBlock cond.children
      | _ => none

/-- The operator of a comparison node. -/
def Statement.compareOp (s : Statement) : Option Token :=
  match s.kind with
  | Kind.Compare op => some op
  | _ => none

/-- The six `INT_COMPARE` lines of `WhileLoop::process`: for each operator the
jump on the negated condition to the exit label. -/
def WhileLoop.intCompare (op : Token) (exit : Nat) : List Instr :=
  (if op = Token.greaterThan then [Instr.jle exit] else []) ++
  (if op = Token.lessThan then [Instr.jge exit] else []) ++
  (if op = Token.lessThanOrEqual then [Instr.jg exit] else []) ++
  (if op = Token.greaterThanOrEqual then [Instr.jl exit] else []) ++
  (if op = Token.equals then [Instr.jne exit] else []) ++
  (if op = Token.notEquals then [Instr.je exit] else [])

/-- The instructions issued after the condition when it is a comparison (the
`if (cp != nullptr)` branch), with its own copy of the runtime check;
`okBranch` is the label requested inside the check. -/
def WhileLoop.compareBranch (safeCheck : Bool) (op : Token) (why exit okBranch : Nat)
    (location : Location) : List Instr :=
  WhileLoop.intCompare op exit ++
  (if safeCheck then
    [Instr.inc why,
     Instr.cmpImm why 10000000,
     Instr.jb okBranch,
     Instr.movErrorKindWhileLoop why,
     Instr.movToErrorFlag { offset := 0, size := 4 } why,
     Instr.movImm why location.line,
     Instr.movToErrorFlag { offset := 4, size := 4 } why,
     Instr.movImm why location.col,
     Instr.movToErrorFlag { offset := 8, size := 4 } why,
     Instr.jmp exit,
     Instr.bind okBranch]
  else [])

/-- The instructions issued after the condition when it is not a comparison
(the `else` branch): the zero test of the condition register, with its own copy
of the runtime check. -/
def WhileLoop.zeroTestBranch (safeCheck : Bool) (cReg : Option Reg) (why exit okBranch : Nat)
    (location : Location) : List Instr :=
  [Instr.setInlineComment "check condition",
   Instr.cmpRegZero cReg,
   Instr.je exit] ++
  (if safeCheck then
    [Instr.inc why,
     Instr.cmpImm why 10000000,
     Instr.jb okBranch,
     Instr.movErrorKindWhileLoop why,
     Instr.movToErrorFlag { offset := 0, size := 4 } why,
     Instr.movImm why location.line,
     Instr.movToErrorFlag { offset := 4, size := 4 } why,
     Instr.movImm why location.col,
     Instr.movToErrorFlag { offset := 8, size := 4 } why,
     Instr.jmp exit,
     Instr.bind okBranch]
  else [])

/-- Issue a list of instructions to the assembler, in order. -/
def Compiler.emit (c : Compiler) (is : List Instr) : Compiler :=
  { c with trace := c.trace ++ is.map Event.asm }

/-- The start of the Code Generation block of `WhileLoop::process`, up to the
processing of the condition: the labels `cond` and `exit` and the counter
register `why` are requested, the counter is cleared when the runtime check is
enabled, the condition label is bound and the comparison is flagged. -/
def WhileLoop.codeGenerationHead (env : Env) (self : Statement) (c : Compiler) : Compiler :=
  let c1 : Compiler :=
    ({ c with nextLabel := c.nextLabel + 2, nextGpd := c.nextGpd + 1 }).emit
      ((if env.isRuntimeErrorCheckEnabled then [Instr.xor_ c.nextGpd c.nextGpd] else []) ++
        [Instr.nop, Instr.bind c.nextLabel])
  match WhileLoop.getCompareCondition self with
  | some cp => c1.setUseAsmFlag cp.id
  | none => c1

/-- The middle of the Code Generation block of `WhileLoop::process`, between
the processing of the condition and of the body; `exit` and `why` are the
label and the register requested by the head, and the label `okBranch` of the
runtime check is requested here. -/
def WhileLoop.codeGenerationTest (env : Env) (self : Statement) (exit why : Nat)
    (c : Compiler) : Compiler :=
  match WhileLoop.getCompareCondition self with
  | some cp =>
    match cp.compareOp with
    | some op =>
      ({ c with nextLabel := c.nextLabel + (if env.isRuntimeErrorCheckEnabled then 1 else 0) }).emit
        (WhileLoop.compareBranch env.isRuntimeErrorCheckEnabled op why exit c.nextLabel self.location)
    | none => c
  | none =>
    ({ c with nextLabel := c.nextLabel + (if env.isRuntimeErrorCheckEnabled then 1 else 0) }).emit
      (WhileLoop.zeroTestBranch env.isRuntimeErrorCheckEnabled (c.getSubRegister self 0) why exit
        c.nextLabel self.location)

/-! ## Break and continue -/

/-- Modelled from the spec: `ControlFlowStatement::getStatementId()`, the
keyword of the statement. -/
def ControlFlowStatement.getStatementId (isBreak : Bool) : String :=
  if isBreak then "break" else "continue"

/-- The Type Check block of `ControlFlowStatement::process`: the parent loop is
the nearest `Loop` node on the parent chain, and its absence is an error. -/
def ControlFlowStatement.typeCheck (self : Statement) (isBreak : Bool) (anc : List Statement)
    (c : Compiler) : Result :=
  match findParentStatementOfType Kind.isLoop self anc with
  | some parentLoop => Result.ok (c.setParentLoop self.id (some parentLoop.id))
  | none =>
    self.location.throwError
      ("a " ++ ControlFlowStatement.getStatementId isBreak ++ " may only be used within a loop or switch")
      (c.setParentLoop self.id none)

/-- The Code Generation block of `ControlFlowStatement::process`. -/
def ControlFlowStatement.codeGeneration (self : Statement) (isBreak : Bool) (c : Compiler) :
    Result :=
  Result.ok (c.log (Event.emitLoopControlFlow (c.parentLoop self.id) isBreak))

/-! ## If statement -/

/-- The check at the end of the Type Check block of `IfStatement::process`. -/
def IfStatement.checkCondition (self : Statement) (c : Compiler) : Result :=
  match self.getSubExpr 0 with
  | none => Result.undefined c
  | some cond =>
    if (c.typeInfo cond.id).getType ≠ TypeID.Integer then
      self.location.throwError "Condition must be boolean expression" c
    else Result.ok c

/-- The Code Generation block of `IfStatement::process`; the false branch is
present when there is a third child. -/
def IfStatement.codeGeneration (self : Statement) (c : Compiler) : Result :=
  let c1 := c.log (Event.allocateDirtyGlobalVariables ((self.getSubExpr 1).map Statement.id))
  let c2 :=
    if (self.getSubExpr 2).isSome then
      c1.log (Event.allocateDirtyGlobalVariables ((self.getSubExpr 2).map Statement.id))
    else c1
  Result.ok (c2.log (Event.emitBranch ((self.getSubExpr 0).map Statement.id)
    ((self.getSubExpr 1).map Statement.id) ((self.getSubExpr 2).map Statement.id)))

/-! ## For-each loop -/

/-- A call of `namespaceHandler.setTypeInfo(id, NamespaceHandler::Variable, type)`:
the state afterwards (the type is registered when the call succeeds) and the
failure message of the returned result. -/
def Compiler.setTypeInfo (env : Env) (c : Compiler) (id : NamespacedIdentifier)
    (type : TypeInfo) : Compiler × Option String :=
  match env.setTypeInfo id type with
  | none => ((c.log (Event.setTypeInfo id type)).registerType id type, none)
  | some message => (c.log (Event.setTypeInfo id type), some message)

/-- The first `if` of `Loop::tryToResolveType`: for an array target the element
type is registered for the iterator and becomes the iterator's type, with the
iterator's own modifiers. -/
def Loop.resolveFromArray (env : Env) (self : Statement) (tt : TypeInfo) (c : Compiler) :
    Result :=
  match tt.getTypedIfArrayTypeBase with
  | some elementType =>
    match c.setTypeInfo env (c.iterator self.id).id elementType with
    | (c1, r) =>
      match r with
      | some message =>
        self.location.throwError message
          (c1.setIterator self.id
            { id := (c.iterator self.id).id,
              typeInfo := elementType.withModifiers (c.iterator self.id).isConst
                (c.iterator self.id).isReference })
      | none =>
        Result.ok
          (c1.setIterator self.id
            { id := (c.iterator self.id).id,
              typeInfo := elementType.withModifiers (c.iterator self.id).isConst
                (c.iterator self.id).isReference })
  | none => Result.ok c

/-- The second `if` of `Loop::tryToResolveType`: for the struct type
`FrameProcessor` the iterator is a float reference. -/
def Loop.resolveFromFrameProcessor (env : Env) (self : Statement) (tt : TypeInfo)
    (c : Compiler) : Result :=
  match tt with
  | TypeInfo.StructType id _ _ _ _ _ _ =>
    if id = ["FrameProcessor"] then
      match c.setTypeInfo env (c.iterator self.id).id (TypeInfo.native TypeID.Float false true) with
      | (c1, r) =>
        match r with
        | some message =>
          self.location.throwError message
            (c1.setIterator self.id
              { id := (c.iterator self.id).id, typeInfo := TypeInfo.native TypeID.Float false true })
        | none =>
          Result.ok
            (c1.setIterator self.id
              { id := (c.iterator self.id).id, typeInfo := TypeInfo.native TypeID.Float false true })
    else Result.ok c
  | _ => Result.ok c

/-- `Loop::tryToResolveType`. -/
def Loop.tryToResolveType (env : Env) (self : Statement) (c : Compiler) : Result :=
  match self.getSubExpr 0 with
  | none => Result.undefined c
  | some target =>
    (Loop.resolveFromArray env self (env.tryToResolveType target c)
      ((c.log (Event.tryToResolveType target.id)).setTypeOf target.id
        (env.tryToResolveType target c))).bind fun c1 =>
    (Loop.resolveFromFrameProcessor env self (env.tryToResolveType target c) c1).bind fun c2 =>
    Result.ok ((c2.log (Event.tryToResolveType self.id)).setTypeOf self.id
      (env.tryToResolveType self c2))

/-- The text of the iterator mismatch error. -/
def Loop.mismatchMessage (env : Env) (iteratorType expected : TypeInfo) : String :=
  "iterator type mismatch: " ++ env.toString iteratorType ++ " expected: " ++ env.toString expected

/-- The classification of the loop target in the Data Allocation block of
`Loop::process` (the chain of `if`s on the target's type), up to and including
the registration of the iterator's type. -/
def Loop.resolveLoopTarget (env : Env) (self target : Statement) (c : Compiler) : Result :=
  (match (c.typeInfo target.id).getTypedIfSpanType with
    | some elementType =>
      if (c.iterator self.id).typeInfo.isDynamic then
        Result.ok ((c.setLoopTargetType self.id LoopTargetType.Span).setIterator self.id
          { id := (c.iterator self.id).id, typeInfo := elementType })
      else if !env.typeEq (c.iterator self.id).typeInfo elementType then
        self.location.throwError
          (Loop.mismatchMessage env (c.iterator self.id).typeInfo elementType)
          (c.setLoopTargetType self.id LoopTargetType.Span)
      else Result.ok (c.setLoopTargetType self.id LoopTargetType.Span)
    | none =>
      match (c.typeInfo target.id).getTypedIfDynType with
      | some elementType =>
        if (c.iterator self.id).typeInfo.isDynamic then
          Result.ok ((c.setLoopTargetType self.id LoopTargetType.Dyn).setIterator self.id
            { id := (c.iterator self.id).id, typeInfo := elementType })
        else if !env.typeEq (c.iterator self.id).typeInfo elementType then
          Result.undefined (c.setLoopTargetType self.id LoopTargetType.Dyn)
        else Result.ok (c.setLoopTargetType self.id LoopTargetType.Dyn)
      | none =>
        if (c.typeInfo target.id).getType = TypeID.Block then
          if (c.iterator self.id).typeInfo.isDynamic then
            Result.ok ((c.setLoopTargetType self.id LoopTargetType.Dyn).setIterator self.id
              { id := (c.iterator self.id).id,
                typeInfo := TypeInfo.native TypeID.Float (c.iterator self.id).isConst
                  (c.iterator self.id).isReference })
          else if (c.iterator self.id).typeInfo.getType ≠ TypeID.Float then
            self.location.throwError "Illegal iterator type"
              (c.setLoopTargetType self.id LoopTargetType.Dyn)
          else Result.ok (c.setLoopTargetType self.id LoopTargetType.Dyn)
        else
          match c.typeInfo target.id with
          | TypeInfo.StructType _ beginResolved beginReturnType sizeResolved _ _ _ =>
            if !beginResolved || !sizeResolved then
              self.location.throwError
                (env.toString (c.typeInfo target.id) ++ " does not have iterator methods")
                (c.setCustomFunctions self.id (beginResolved, beginReturnType) sizeResolved)
            else if (c.iterator self.id).typeInfo.isDynamic then
              Result.ok
                (((c.setCustomFunctions self.id (beginResolved, beginReturnType)
                  sizeResolved).setLoopTargetType self.id LoopTargetType.CustomObject).setIterator
                  self.id { id := (c.iterator self.id).id, typeInfo := beginReturnType })
            else if !env.typeEq (c.iterator self.id).typeInfo beginReturnType then
              self.location.throwError
                (Loop.mismatchMessage env (c.iterator self.id).typeInfo beginReturnType)
                ((c.setCustomFunctions self.id (beginResolved, beginReturnType)
                  sizeResolved).setLoopTargetType self.id LoopTargetType.CustomObject)
            else
              Result.ok
                ((c.setCustomFunctions self.id (beginResolved, beginReturnType)
                  sizeResolved).setLoopTargetType self.id LoopTargetType.CustomObject)
          | _ => self.location.throwError "Can't deduce loop target type" c).bind fun c1 =>
  Result.ok (c1.setTypeInfo env (c1.iterator self.id).id (c1.iterator self.id).typeInfo).1

/-- Whether a node is a variable reference to the given symbol. -/
def Statement.refersTo (env : Env) (s : Statement) (sym : Symbol) : Bool :=
  match s.kind with
  | Kind.VariableReference id => env.symbolEq id sym
  | _ => false

/-- Whether the i-th child of a node is the given node (pointer comparison). -/
def Statement.subExprIs (a : Statement) (i : Nat) (v : Statement) : Bool :=
  match a.getSubExpr i with
  | some e => decide (e.id = v.id)
  | none => false

/-- The assignment operator of an assignment node. -/
def Statement.assignmentType (a : Statement) : Option Token :=
  match a.kind with
  | Kind.Assignment t => some t
  | _ => none

/-- `Loop::evaluateIteratorLoad`: the value of `loadIterator` afterwards.  Only
the first reference to the iterator that the walker yields is looked at. -/
def Loop.evaluateIteratorLoad (env : Env) (self : Statement) (anc : List Statement)
    (c : Compiler) : Result :=
  if !c.loadIterator self.id then Result.ok c
  else
    match self.getSubExpr 1 with
    | none => Result.undefined c
    | some loopBlock =>
      match (loopBlock.walk (self :: anc)).find? (fun p => p.1.refersTo env (c.iterator self.id)) with
      | none => Result.ok c
      | some (v, vanc) =>
        match findParentStatementOfType Kind.isAssignment v vanc with
        | none => Result.ok c
        | some a =>
          if a.subExprIs 1 v && decide (a.assignmentType = some Token.assign_) then
            match a.getSubExpr 0 with
            | none => Result.undefined c
            | some value =>
              Result.ok (c.setLoadIterator self.id
                (value.forEachRecursive
                  (fun p (_ : Unit) => ((), p.refersTo env (c.iterator self.id))) ()).2)
          else Result.ok (c.setLoadIterator self.id true)

/-- The loop `while (auto v = w.getNextStatementOfType<VariableReference>())` of
`Loop::evaluateIteratorStore` over the statements that the walker yields, each
with its ancestors (the first of which is `v->parent`): whether the loop sets
`storeIterator` (it then ends with `break`); a reference whose parent is an
assignment with the reference as sub-expression 0 is passed over with
`continue`.  There is no result when a reference has no parent. -/
def Loop.findIteratorStore (env : Env) (iterator : Symbol) :
    List (Statement × List Statement) → Option Bool
  | [] => some false
  | (v, vanc) :: rest =>
    if v.refersTo env iterator then
      match vanc.head? with
      | none => none
      | some parent =>
        if env.hasSideEffect parent then
          if parent.kind.isAssignment && parent.subExprIs 0 v then
            Loop.findIteratorStore env iterator rest
          else some true
        else Loop.findIteratorStore env iterator rest
    else Loop.findIteratorStore env iterator rest

/-- `Loop::evaluateIteratorStore`; the value it returns is the value of
`storeIterator` afterwards. -/
def Loop.evaluateIteratorStore (env : Env) (self : Statement) (anc : List Statement)
    (c : Compiler) : Result :=
  if c.storeIterator self.id then Result.ok c
  else
    match self.getSubExpr 1 with
    | none => Result.undefined c
    | some loopBlock =>
      match Loop.findIteratorStore env (c.iterator self.id) (loopBlock.walk (self :: anc)) with
      | none => Result.undefined c
      | some true => Result.ok (c.setStoreIterator self.id true)
      | some false => Result.ok c

/-- The Code Generation block of `Loop::process` after the target was
processed: the dirty globals of the body are allocated, and the emitter that
matches the target kind is created and run. -/
def Loop.emit (self : Statement) (c : Compiler) : Result :=
  match self.getSubExpr 0 with
  | none => Result.undefined c
  | some target =>
    let c1 := c.log (Event.allocateDirtyGlobalVariables ((self.getSubExpr 1).map Statement.id))
    match c.loopTargetType self.id with
    | LoopTargetType.Undefined => Result.ok c1
    | LoopTargetType.CustomObject =>
      Result.ok (c1.log (Event.emitLoop LoopTargetType.CustomObject (c.iterator self.id)
        (c.reg target.id) ((self.getSubExpr 1).map Statement.id) (c.loadIterator self.id)
        (some ((c.customBegin self.id).2, c.customSizeFunction self.id))))
    | t =>
      Result.ok (c1.log (Event.emitLoop t (c.iterator self.id) (c.reg target.id)
        ((self.getSubExpr 1).map Statement.id) (c.loadIterator self.id) none))

/-! ## The `process` functions

`process` is the virtual `Statement::process`: it logs the call and dispatches
on the node kind to the function of that kind.  The function of a kind receives
the node (`self`), the pass, its scope argument, the chain `anc` of the node's
ancestors (innermost first, the node's `parent` links), and the processing of
its own children as `Children`. -/

/-- The processing of the children of a node, as the node's `process` can call
it: `processAllChildren(compiler, scope)`, and `getSubExpr(0)->process(compiler,
scope)` and `getSubExpr(1)->process(compiler, scope)`, which are absent when the
node has no such child. -/
structure Children where
  processAll : BaseScope → Compiler → Result
  process0 : Option (BaseScope → Compiler → Result)
  process1 : Option (BaseScope → Compiler → Result)

/-- Modelled from the spec: `Statement::processBaseWithChildren`, the automatic
traversal: the children are processed in order, with the same scope. -/
def Statement.processBaseWithChildren (self : Statement) (ch : Children) (scope : BaseScope)
    (c : Compiler) : Result :=
  ch.processAll scope (c.log (Event.processBaseWithChildren self.id))

/-- Modelled from the spec: `Statement::processBaseWithoutChildren`, which
visits no child. -/
def Statement.processBaseWithoutChildren (self : Statement) (c : Compiler) : Result :=
  Result.ok (c.log (Event.processBaseWithoutChildren self.id))

/-- `StatementBlock::process`. -/
def StatementBlock.process (env : Env) (pass : Pass) (scope : BaseScope) (self : Statement)
    (path : NamespacedIdentifier) (isInlinedFunction hasReturnType : Bool) (ch : Children)
    (c : Compiler) : Result :=
  (self.processBaseWithChildren ch (StatementBlock.createOrGetBlockScope self.id path scope c).1
    (StatementBlock.createOrGetBlockScope self.id path scope c).2).bind fun c1 =>
  (if pass = Pass.DataAllocation then StatementBlock.dataAllocation env self path scope c1
   else Result.ok c1).bind fun c2 =>
  if pass = Pass.RegisterAllocation then
    StatementBlock.registerAllocation self.id isInlinedFunction hasReturnType c2
  else Result.ok c2

/-- `ReturnStatement::process`. -/
def ReturnStatement.process (env : Env) (pass : Pass) (scope : BaseScope) (anc : List Statement)
    (self : Statement) (ch : Children) (c : Compiler) : Result :=
  (self.processBaseWithChildren ch scope c).bind fun c1 =>
  (if pass = Pass.TypeCheck then ReturnStatement.typeCheck env self scope c1
   else Result.ok c1).bind fun c2 =>
  if pass = Pass.CodeGeneration then ReturnStatement.codeGeneration env self anc c2
  else Result.ok c2

/-- `TernaryOp::process`. -/
def TernaryOp.process (env : Env) (pass : Pass) (scope : BaseScope) (self : Statement)
    (ch : Children) (c : Compiler) : Result :=
  (if pass = Pass.CodeGeneration then self.processBaseWithoutChildren c
   else self.processBaseWithChildren ch scope c).bind fun c1 =>
  (if pass = Pass.TypeCheck then TernaryOp.typeCheck env self c1
   else Result.ok c1).bind fun c2 =>
  if pass = Pass.CodeGeneration then TernaryOp.codeGeneration env self c2
  else Result.ok c2

/-- The Code Generation block of `WhileLoop::process`: the condition (child 0)
and the body (child 1) are processed by the block itself, around the test;
`c0` is the state in which the block was entered, whose counters number the
labels `cond`, `exit` and the register `why`. -/
def WhileLoop.codeGeneration (env : Env) (scope : BaseScope) (self : Statement) (ch : Children)
    (c0 : Compiler) : Result :=
  match ch.process0 with
  | none => Result.undefined (WhileLoop.codeGenerationHead env self c0)
  | some processCondition =>
    (processCondition scope (WhileLoop.codeGenerationHead env self c0)).bind fun c1 =>
    match ch.process1 with
    | none =>
      Result.undefined (WhileLoop.codeGenerationTest env self (c0.nextLabel + 1) c0.nextGpd c1)
    | some processBody =>
      (processBody scope
        (WhileLoop.codeGenerationTest env self (c0.nextLabel + 1) c0.nextGpd c1)).bind fun c2 =>
      Result.ok (c2.emit [Instr.jmp c0.nextLabel, Instr.bind (c0.nextLabel + 1)])

/-- `WhileLoop::process`. -/
def WhileLoop.process (env : Env) (pass : Pass) (scope : BaseScope) (self : Statement)
    (ch : Children) (c : Compiler) : Result :=
  (if pass = Pass.CodeGeneration then self.processBaseWithoutChildren c
   else self.processBaseWithChildren ch scope c).bind fun c1 =>
  (if pass = Pass.TypeCheck then WhileLoop.typeCheck env self c1
   else Result.ok c1).bind fun c2 =>
  if pass = Pass.CodeGeneration then WhileLoop.codeGeneration env scope self ch c2
  else Result.ok c2

/-- The Data Allocation block of `Loop::process`; the target is child 0 and the
loop block is child 1. -/
def Loop.dataAllocation (env : Env) (scope : BaseScope) (anc : List Statement) (self : Statement)
    (ch : Children) (c : Compiler) : Result :=
  (Loop.tryToResolveType env self c).bind fun c1 =>
  match ch.process0, self.getSubExpr 0 with
  | some processTarget, some target =>
    (processTarget scope c1).bind fun c2 =>
    (Loop.resolveLoopTarget env self target c2).bind fun c3 =>
    match ch.process1 with
    | none => Result.undefined c3
    | some processLoopBlock =>
      (processLoopBlock scope c3).bind fun c4 =>
      Loop.evaluateIteratorLoad env self anc c4
  | _, _ => Result.undefined c1

/-- The Code Generation block of `Loop::process`. -/
def Loop.codeGeneration (scope : BaseScope) (self : Statement) (ch : Children) (c : Compiler) :
    Result :=
  match ch.process0 with
  | none => Result.undefined c
  | some processTarget => (processTarget scope c).bind fun c1 => Loop.emit self c1

/-- The statement `getTarget()->process(...); getLoopBlock()->process(...);` of
`Loop::process`. -/
def Loop.processTargetAndLoopBlock (scope : BaseScope) (ch : Children) (c : Compiler) : Result :=
  match ch.process0 with
  | none => Result.undefined c
  | some processTarget =>
    (processTarget scope c).bind fun c1 =>
    match ch.process1 with
    | none => Result.undefined c1
    | some processLoopBlock => processLoopBlock scope c1

/-- `Loop::process`. -/
def Loop.process (env : Env) (pass : Pass) (scope : BaseScope) (anc : List Statement)
    (self : Statement) (ch : Children) (c : Compiler) : Result :=
  (self.processBaseWithoutChildren c).bind fun c1 =>
  (if pass ≠ Pass.DataAllocation ∧ pass ≠ Pass.CodeGeneration then
    Loop.processTargetAndLoopBlock scope ch c1
   else Result.ok c1).bind fun c2 =>
  (if pass = Pass.DataAllocation then Loop.dataAllocation env scope anc self ch c2
   else Result.ok c2).bind fun c3 =>
  if pass = Pass.CodeGeneration then Loop.codeGeneration scope self ch c3
  else Result.ok c3

/-- `ControlFlowStatement::process`. -/
def ControlFlowStatement.process (pass : Pass) (scope : BaseScope) (anc : List Statement)
    (self : Statement) (isBreak : Bool) (ch : Children) (c : Compiler) : Result :=
  (self.processBaseWithChildren ch scope c).bind fun c1 =>
  (if pass = Pass.TypeCheck then ControlFlowStatement.typeCheck self isBreak anc c1
   else Result.ok c1).bind fun c2 =>
  if pass = Pass.CodeGeneration then ControlFlowStatement.codeGeneration self isBreak c2
  else Result.ok c2

/-- `IfStatement::process`. -/
def IfStatement.process (pass : Pass) (scope : BaseScope) (self : Statement) (ch : Children)
    (c : Compiler) : Result :=
  (self.processBaseWithoutChildren c).bind fun c1 =>
  (if pass ≠ Pass.CodeGeneration then ch.processAll scope c1 else Result.ok c1).bind fun c2 =>
  (if pass = Pass.TypeCheck then
    (ch.processAll scope c2).bind fun c3 => IfStatement.checkCondition self c3
   else Result.ok c2).bind fun c4 =>
  if pass = Pass.CodeGeneration then IfStatement.codeGeneration self c4
  else Result.ok c4

/-- Modelled from the spec: the `process` of a node whose kind is defined in
another file: the automatic traversal of the children, then the kind's own
work for the pass (`env.ext`), which throws or sets the node's type and
register. -/
def Statement.processOther (env : Env) (pass : Pass) (scope : BaseScope) (self : Statement)
    (ch : Children) (c : Compiler) : Result :=
  (self.processBaseWithChildren ch scope c).bind fun c1 =>
  match env.ext pass self c1 with
  | Except.error e => Result.error e c1
  | Except.ok (t, r) => Result.ok ((c1.setTypeOf self.id t).setReg self.id r)

/-- The dispatch of the virtual call `process` on the dynamic type of the node. -/
def Statement.dispatch (env : Env) (pass : Pass) (scope : BaseScope) (anc : List Statement)
    (self : Statement) (ch : Children) (c : Compiler) : Result :=
  match self.kind with
  | Kind.StatementBlock path isInlinedFunction hasReturnType =>
    StatementBlock.process env pass scope self path isInlinedFunction hasReturnType ch c
  | Kind.ReturnStatement => ReturnStatement.process env pass scope anc self ch c
  | Kind.TernaryOp => TernaryOp.process env pass scope self ch c
  | Kind.WhileLoop => WhileLoop.process env pass scope self ch c
  | Kind.Loop => Loop.process env pass scope anc self ch c
  | Kind.ControlFlowStatement isBreak => ControlFlowStatement.process pass scope anc self isBreak ch c
  | Kind.IfStatement => IfStatement.process pass scope self ch c
  | _ => Statement.processOther env pass scope self ch c

mutual
/-- Modelled from the spec: `Statement::processAllChildren`, which processes
the children in order; the first error ends the traversal. -/
def processAllChildren (env : Env) (pass : Pass) (scope : BaseScope) (anc : List Statement)
    (cs : List Statement) : Compiler → Result :=
  match cs with
  | [] => fun c => Result.ok c
  | s :: rest => fun c =>
    match process env pass scope anc s c with
    | Result.ok c1 => processAllChildren env pass scope anc rest c1
    | r => r
termination_by structural cs
/-- `Statement::process` on a tree: the call is logged and dispatched, and the
children are processed by `process` again, with this node as their parent. -/
def process (env : Env) (pass : Pass) (scope : BaseScope) (anc : List Statement)
    (s : Statement) : Compiler → Result :=
  match s with
  | Statement.node i l k cs => fun c =>
    Statement.dispatch env pass scope anc (Statement.node i l k cs)
      { processAll := fun sc => processAllChildren env pass sc (Statement.node i l k cs :: anc) cs,
        process0 :=
          match cs with
          | c0 :: _ => some (fun sc => process env pass sc (Statement.node i l k cs :: anc) c0)
          | [] => none,
        process1 :=
          match cs with
          | _ :: c1 :: _ => some (fun sc => process env pass sc (Statement.node i l k cs :: anc) c1)
          | _ => none }
      (c.log (Event.process i pass))
termination_by structural s
end

/-! ## A reference instance of the collaborators

Used to evaluate the definitions on concrete trees. -/

/-- The nearest enclosing statement block that has a return type. -/
def findRootBlock (anc : List Statement) : Option Statement :=
  anc.find? fun s =>
    match s.kind with
    | Kind.StatementBlock _ _ hasReturnType => hasReturnType
    | _ => false

/-- The type of a node in the reference instance: a variable reference has the
type of its symbol, an immediate the type of its value, any other node the
type it already has. -/
def referenceType (s : Statement) (c : Compiler) : TypeInfo :=
  match s.kind with
  | Kind.VariableReference id => id.typeInfo
  | Kind.Immediate v => TypeInfo.native v.type false false
  | _ => c.typeInfo s.id

/-- A reference instance of the collaborators: a node of a foreign kind gets its
reference type and keeps the register it has, an immediate is a constant,
every definition is a stack definition, no collaborator fails, types are
compared without their modifiers, symbols by their identifier, the root is the
nearest enclosing block with a return type, and assignments have a side
effect. -/
def Env.reference : Env where
  ext := fun _ s c => Except.ok (referenceType s c, c.reg s.id)
  constExpr := fun s =>
    match s.kind with
    | Kind.Immediate v => some v
    | _ => none
  isStackDefinition := fun _ _ => true
  callDestructor := fun _ => none
  checkAndSetType := fun _ _ expected _ => Except.ok expected
  emitTernaryOp := fun _ c => some c.nextReg
  tryToResolveType := fun s c => referenceType s c
  setTypeInfo := fun _ _ => none
  typeEq := fun a b => decide (a.withModifiers false false = b.withModifiers false false)
  toString := fun t =>
    match t with
    | TypeInfo.native TypeID.Integer _ _ => "int"
    | TypeInfo.native TypeID.Float _ _ => "float"
    | TypeInfo.native TypeID.Double _ _ => "double"
    | TypeInfo.native TypeID.Void _ _ => "void"
    | TypeInfo.native TypeID.Block _ _ => "block"
    | TypeInfo.native _ _ _ => "any"
    | TypeInfo.SpanType _ _ _ _ _ => "span"
    | TypeInfo.DynType _ _ _ _ => "dyn"
    | TypeInfo.StructType id _ _ _ _ _ _ => String.intercalate "::" id
    | TypeInfo.otherComplex name _ _ _ => name
  findRoot := fun _ anc => findRootBlock anc
  isRuntimeErrorCheckEnabled := false
  hasSideEffect := fun s => s.kind.isAssignment
  symbolEq := fun a b => decide (a.id = b.id)

/-- The state before the first pass: no node has a type, a register or a
resolved field, nothing is registered and nothing is logged. -/
def Compiler.initial : Compiler where
  typeInfo := fun _ => TypeInfo.native TypeID.Dynamic false false
  reg := fun _ => none
  returnRegister := fun _ => none
  blockScope := fun _ => none
  parentLoop := fun _ => none
  iterator := fun _ => { id := [], typeInfo := TypeInfo.native TypeID.Dynamic false false }
  loopTargetType := fun _ => LoopTargetType.Undefined
  customBegin := fun _ => (false, TypeInfo.native TypeID.Dynamic false false)
  customSizeFunction := fun _ => false
  loadIterator := fun _ => true
  storeIterator := fun _ => false
  useAsmFlag := fun _ => false
  namespaceHandler := fun _ => none
  nextLabel := 0
  nextGpd := 0
  nextReg := 0
  trace := []

/-- The processing of a node's children, as `process` hands it to the function
of the node's kind. -/
def Statement.childProcessing (env : Env) (pass : Pass) (anc : List Statement) (self : Statement) :
    Children where
  processAll := fun sc => processAllChildren env pass sc (self :: anc) self.children
  process0 := (self.getSubExpr 0).map fun c0 sc => process env pass sc (self :: anc) c0
  process1 := (self.getSubExpr 1).map fun c1 sc => process env pass sc (self :: anc) c1

/-- Modelled from the spec: the pass driver, which runs the given passes in
order over the root of a tree; the first error aborts the compile, so no later
pass is run. -/
def runPasses (env : Env) (scope : BaseScope) (root : Statement) : List Pass → Compiler → Result
  | [], c => Result.ok c
  | pass :: later, c => (process env pass scope [] root c).bind (runPasses env scope root later)

/-- Modelled from the spec: one compile, the four passes in their fixed order. -/
def compile (env : Env) (scope : BaseScope) (root : Statement) (c : Compiler) : Result :=
  runPasses env scope root
    [Pass.DataAllocation, Pass.TypeCheck, Pass.RegisterAllocation, Pass.CodeGeneration] c

mutual
/-- The nodes reachable from a node: the node itself and its descendants, in
walking order. -/
def Statement.subtree : Statement → List Statement
  | Statement.node i l k cs => Statement.node i l k cs :: subtreeChildren cs
/-- The nodes reachable from a list of children. -/
def subtreeChildren : List Statement → List Statement
  | [] => []
  | c :: rest => Statement.subtree c ++ subtreeChildren rest
end

/-- The destructor ids that one visited node adds to the list of a block. -/
def StatementBlock.contribution (env : Env) (path : NamespacedIdentifier) (scope : BaseScope)
    (p : Statement) : List Symbol :=
  (StatementBlock.collectDestructorIds env path scope p []).1

/-- The node `target`, whose ancestors are `targetAnc` (innermost first), occurs
in the tree `s`, whose ancestors are `anc`: it is `s` itself or occurs in a
child of `s`. -/
inductive Occurs (target : Statement) (targetAnc : List Statement) :
    Statement → List Statement → Prop where
  | here : Occurs target targetAnc target targetAnc
  | inside (s : Statement) (anc : List Statement) (child : Statement) :
      child ∈ s.children → Occurs target targetAnc child (s :: anc) → Occurs target targetAnc s anc

/-- Follows the spec's words: the nearest lexically enclosing loop node, be it a
while-loop or a for-each loop. -/
def nearestEnclosingLoop (anc : List Statement) : Option Statement :=
  anc.find? fun s => s.kind.isLoop || s.kind.isWhileLoop

/-! ## The code of a while-loop, executed

The instructions that `WhileLoop::process` issues are run on a small model of
the processor, with the code of the condition and of the body as single
steps. -/

/-- The instructions that the start of the Code Generation block of
`WhileLoop::process` issues, before the condition is processed: the counter is
cleared when the runtime check is enabled, and the condition label is bound. -/
def WhileLoop.headInstrs (env : Env) (c : Compiler) : List Instr :=
  (if env.isRuntimeErrorCheckEnabled then [Instr.xor_ c.nextGpd c.nextGpd] else []) ++
    [Instr.nop, Instr.bind c.nextLabel]

/-- The instructions that the Code Generation block of `WhileLoop::process`
issues between the processing of the condition and of the body, in the state
`c` that the processing of the condition has left. -/
def WhileLoop.testInstrs (env : Env) (self : Statement) (exit why : Nat) (c : Compiler) :
    List Instr :=
  match WhileLoop.getCompareCondition self with
  | some cp =>
    match cp.compareOp with
    | some op =>
      WhileLoop.compareBranch env.isRuntimeErrorCheckEnabled op why exit c.nextLabel self.location
    | none => []
  | none =>
    WhileLoop.zeroTestBranch env.isRuntimeErrorCheckEnabled (c.getSubRegister self 0) why exit
      c.nextLabel self.location

/-- A piece of the code of a while-loop: an instruction that the loop issues
itself, or all the code that the processing of the condition, or of the body,
issues. -/
inductive Code where
  | instr (i : Instr)
  | condition
  | body
deriving DecidableEq, Repr

/-- The code of a while-loop in the order in which the Code Generation block of
`WhileLoop::process` issues it; `c0` is the state in which the block is entered
and `c1` the state that the processing of the condition has left. -/
def WhileLoop.generatedCode (env : Env) (self : Statement) (c0 c1 : Compiler) : List Code :=
  (WhileLoop.headInstrs env c0).map Code.instr ++ [Code.condition] ++
    (WhileLoop.testInstrs env self (c0.nextLabel + 1) c0.nextGpd c1).map Code.instr ++
    [Code.body] ++
    [Code.instr (Instr.jmp c0.nextLabel), Code.instr (Instr.bind (c0.nextLabel + 1))]

/-- Modelled from the spec: what one run of the condition's code leaves behind:
the two operands of its comparison, which a comparison that was told to use
the flags (`useAsmFlag`) leaves compared in the flags, and the integer value of
the condition, which is the content of the condition's register. -/
structure ConditionOutcome where
  lhs : Int
  rhs : Int
  value : Int
deriving DecidableEq, Repr

/-- Modelled from the spec: what the generated code runs against: the number
that stands for the error kind `RuntimeError::ErrorType::WhileLoop`, and the
outcome of the condition each time it is evaluated (numbered from 0). -/
structure Runtime where
  whileLoopErrorType : Int
  condition : Nat → ConditionOutcome

/-- Modelled from the spec: the state of the processor while it runs the code of
a while-loop: the index of the next piece of code, the 32-bit registers
requested with `newGpd`, the operands of the last compare (the flags), the
condition's integer register, the 4-byte fields of the runtime error flag by
byte offset, and how often the code of the condition and of the body ran. -/
structure Machine where
  pc : Nat
  gpd : Nat → Int
  flags : Int × Int
  conditionValue : Int
  errorFlag : Nat → Option Int
  conditionRuns : Nat
  bodyRuns : Nat

/-- A signed 32-bit value: the integer congruent modulo 2^32 in the range from
-2^31 to 2^31 - 1. -/
def Machine.wrap32 (x : Int) : Int :=
  (x + 2147483648) % 4294967296 - 2147483648

/-- The label a jump instruction jumps to. -/
def Instr.target : Instr → Option Nat
  | Instr.jle l => some l
  | Instr.jge l => some l
  | Instr.jg l => some l
  | Instr.jl l => some l
  | Instr.jne l => some l
  | Instr.je l => some l
  | Instr.jb l => some l
  | Instr.jmp l => some l
  | _ => none

/-- Modelled from the spec: whether a jump is taken when the last compare was
`cmp a, b`: `jle`, `jge`, `jg`, `jl` compare the operands as signed numbers,
`jb` as unsigned 32-bit numbers, and `jmp` is always taken. -/
def Instr.taken : Instr → Int × Int → Bool
  | Instr.jle _, (a, b) => decide (a ≤ b)
  | Instr.jge _, (a, b) => decide (b ≤ a)
  | Instr.jg _, (a, b) => decide (b < a)
  | Instr.jl _, (a, b) => decide (a < b)
  | Instr.jne _, (a, b) => decide (a ≠ b)
  | Instr.je _, (a, b) => decide (a = b)
  | Instr.jb _, (a, b) => decide (a % 4294967296 < b % 4294967296)
  | Instr.jmp _, _ => true
  | _, _ => false

/-- The index at which a label is bound in the code (the length of the code when
it is bound nowhere). -/
def Code.labelIndex (prog : List Code) (label : Nat) : Nat :=
  prog.indexOf (Code.instr (Instr.bind label))

def Machine.setGpd (m : Machine) (r : Nat) (v : Int) : Machine :=
  { m with gpd := fun j => if j = r then v else m.gpd j }

/-- Modelled from the spec: what an instruction that is not a jump does to the
registers, the flags and the runtime error flag. -/
def Machine.effect (rt : Runtime) (m : Machine) : Instr → Machine
  | Instr.xor_ a b => m.setGpd a (Int.xor (m.gpd a) (m.gpd b))
  | Instr.inc r => m.setGpd r (Machine.wrap32 (m.gpd r + 1))
  | Instr.cmpImm r imm => { m with flags := (m.gpd r, Machine.wrap32 imm) }
  | Instr.cmpRegZero _ => { m with flags := (m.conditionValue, 0) }
  | Instr.movImm r imm => m.setGpd r (Machine.wrap32 imm)
  | Instr.movErrorKindWhileLoop r => m.setGpd r rt.whileLoopErrorType
  | Instr.movToErrorFlag dst r =>
    { m with errorFlag := fun o => if o = dst.offset then some (m.gpd r) else m.errorFlag o }
  | _ => m

/-- Modelled from the spec: one piece of code is run.  The code of the condition
leaves its outcome in the flags and in the condition's register, the code of
the body counts as one run of the body, a jump that is taken continues at its
label, and any other instruction has its effect and is followed by the next
one. -/
def Machine.exec (rt : Runtime) (prog : List Code) (m : Machine) : Code → Machine
  | Code.condition =>
    { m with
      pc := m.pc + 1,
      flags := ((rt.condition m.conditionRuns).lhs, (rt.condition m.conditionRuns).rhs),
      conditionValue := (rt.condition m.conditionRuns).value,
      conditionRuns := m.conditionRuns + 1 }
  | Code.body => { m with pc := m.pc + 1, bodyRuns := m.bodyRuns + 1 }
  | Code.instr i =>
    match i.target with
    | some label =>
      if i.taken m.flags then { m with pc := Code.labelIndex prog label }
      else { m with pc := m.pc + 1 }
    | none => { Machine.effect rt m i with pc := m.pc + 1 }

/-- One step of the processor; past the end of the code nothing happens any
more. -/
def Machine.step (rt : Runtime) (prog : List Code) (m : Machine) : Machine :=
  match prog.get? m.pc with
  | none => m
  | some code => Machine.exec rt prog m code

/-- The state after the given number of steps. -/
def Machine.run (rt : Runtime) (prog : List Code) : Nat → Machine → Machine
  | 0, m => m
  | n + 1, m => Machine.run rt prog n (Machine.step rt prog m)

/-- The processor before the first instruction of the code. -/
def Machine.start : Machine where
  pc := 0
  gpd := fun _ => 0
  flags := (0, 0)
  conditionValue := 0
  errorFlag := fun _ => none
  conditionRuns := 0
  bodyRuns := 0

/-- Modelled from the spec: the meaning of the six comparison operators of the
language on integers; no other token is a comparison. -/
def Token.holds : Token → Int → Int → Bool
  | Token.greaterThan, a, b => decide (b < a)
  | Token.lessThan, a, b => decide (a < b)
  | Token.lessThanOrEqual, a, b => decide (a ≤ b)
  | Token.greaterThanOrEqual, a, b => decide (b ≤ a)
  | Token.equals, a, b => decide (a = b)
  | Token.notEquals, a, b => decide (a ≠ b)
  | _, _, _ => false

/-- Modelled from the spec: whether the condition of a while-loop is true after
an evaluation with the given outcome: the comparison that
`getCompareCondition` finds holds between its operands, and any other
condition has a value that is not zero. -/
def WhileLoop.conditionHolds (self : Statement) (o : ConditionOutcome) : Bool :=
  match WhileLoop.getCompareCondition self with
  | some cp =>
    match cp.compareOp with
    | some op => op.holds o.lhs o.rhs
    | none => false
  | none => decide (o.value ≠ 0)

/-- The instructions that only the runtime check of a while-loop uses: those on
the counter register and on the runtime error flag, and the jump on the
counter. -/
def Instr.isRuntimeCheck : Instr → Bool
  | Instr.xor_ _ _ => true
  | Instr.inc _ => true
  | Instr.cmpImm _ _ => true
  | Instr.movImm _ _ => true
  | Instr.movErrorKindWhileLoop _ => true
  | Instr.movToErrorFlag _ _ => true
  | Instr.jb _ => true
  | _ => false

/-- The field of the runtime error flag that an instruction writes. -/
def Instr.errorFlagField : Instr → Option ErrorFlagPtr
  | Instr.movToErrorFlag dst _ => some dst
  | _ => none

/-- A jump that depends on the flags. -/
def Instr.isConditionalJump : Instr → Bool
  | Instr.jle _ => true
  | Instr.jge _ => true
  | Instr.jg _ => true
  | Instr.jl _ => true
  | Instr.jne _ => true
  | Instr.je _ => true
  | Instr.jb _ => true
  | _ => false

/-- The layout of the code of a while-loop with the runtime check: the counter
`w` is cleared first, the label `cond` is bound at index 2 and followed by the
code of the condition, the check starts at index `a`, after the test of the
condition, and is followed by the body, the jump back and the label `exit`. -/
structure Code.Instrumented (prog : List Code) (a w cond exit ok : Nat) (line col : Int) :
    Prop where
  clear : prog.get? 0 = some (Code.instr (Instr.xor_ w w))
  nop : prog.get? 1 = some (Code.instr Instr.nop)
  bindCond : prog.get? 2 = some (Code.instr (Instr.bind cond))
  condition : prog.get? 3 = some Code.condition
  inc : prog.get? a = some (Code.instr (Instr.inc w))
  cmp : prog.get? (a + 1) = some (Code.instr (Instr.cmpImm w 10000000))
  jb : prog.get? (a + 2) = some (Code.instr (Instr.jb ok))
  movKind : prog.get? (a + 3) = some (Code.instr (Instr.movErrorKindWhileLoop w))
  storeKind :
    prog.get? (a + 4) = some (Code.instr (Instr.movToErrorFlag { offset := 0, size := 4 } w))
  movLine : prog.get? (a + 5) = some (Code.instr (Instr.movImm w line))
  storeLine :
    prog.get? (a + 6) = some (Code.instr (Instr.movToErrorFlag { offset := 4, size := 4 } w))
  movCol : prog.get? (a + 7) = some (Code.instr (Instr.movImm w col))
  storeCol :
    prog.get? (a + 8) = some (Code.instr (Instr.movToErrorFlag { offset := 8, size := 4 } w))
  jmpExit : prog.get? (a + 9) = some (Code.instr (Instr.jmp exit))
  bindOk : prog.get? (a + 10) = some (Code.instr (Instr.bind ok))
  body : prog.get? (a + 11) = some Code.body
  jmpCond : prog.get? (a + 12) = some (Code.instr (Instr.jmp cond))
  bindExit : prog.get? (a + 13) = some (Code.instr (Instr.bind exit))
  length : prog.length = a + 14
  labelCond : Code.labelIndex prog cond = 2
  labelOk : Code.labelIndex prog ok = a + 10
  labelExit : Code.labelIndex prog exit = a + 13
  indexJb : prog.indexOf (Code.instr (Instr.jb ok)) = a + 2

/-- The eleven instructions of the runtime check of a while-loop, as
`compareBranch` and `zeroTestBranch` issue them. -/
def Code.runtimeCheck (w exit ok : Nat) (line col : Int) : List Instr :=
  [Instr.inc w,
   Instr.cmpImm w 10000000,
   Instr.jb ok,
   Instr.movErrorKindWhileLoop w,
   Instr.movToErrorFlag { offset := 0, size := 4 } w,
   Instr.movImm w line,
   Instr.movToErrorFlag { offset := 4, size := 4 } w,
   Instr.movImm w col,
   Instr.movToErrorFlag { offset := 8, size := 4 } w,
   Instr.jmp exit,
   Instr.bind ok]

/-- The code of a while-loop with the runtime check, written out: `test` are the
instructions that test the condition. -/
def Code.instrumentedLoop (w cond exit ok : Nat) (test : List Instr) (line col : Int) :
    List Code :=
  [Code.instr (Instr.xor_ w w), Code.instr Instr.nop, Code.instr (Instr.bind cond),
    Code.condition] ++
    (test ++ Code.runtimeCheck w exit ok line col).map Code.instr ++
    [Code.body, Code.instr (Instr.jmp cond), Code.instr (Instr.bind exit)]

/-- The reference instance with the runtime error check enabled. -/
def Env.instrumented : Env :=
  { Env.reference with isRuntimeErrorCheckEnabled := true }

/-- An instance of the collaborators in which `tryToResolveType` resolves
nothing: a node keeps the type it has, so that a variable gets its type only
when it is processed. -/
def Env.lateTyping : Env :=
  { Env.reference with tryToResolveType := fun s c => c.typeInfo s.id }

/-- Follows the spec's words: the one shared helper for the runtime check of a
loop, given only the counter register, the exit label and the source location.
It requests a fresh label `ok` from the assembler and issues: increment the
counter; compare it with 10000000; jump, if below, to `ok`; write the error
kind, the line and the column to the runtime error flag; jump to the exit
label; bind `ok`. -/
def emitRuntimeCheck (why exit : Nat) (location : Location) (c : Compiler) : Compiler :=
  ({ c with nextLabel := c.nextLabel + 1 }).emit
    [Instr.inc why,
     Instr.cmpImm why 10000000,
     Instr.jb c.nextLabel,
     Instr.movErrorKindWhileLoop why,
     Instr.movToErrorFlag { offset := 0, size := 4 } why,
     Instr.movImm why location.line,
     Instr.movToErrorFlag { offset := 4, size := 4 } why,
     Instr.movImm why location.col,
     Instr.movToErrorFlag { offset := 8, size := 4 } why,
     Instr.jmp exit,
     Instr.bind c.nextLabel]

/-- The log entries that a list of code pieces stands for, when `condition` and
`body` are the entries that the processing of the condition and of the body
has added to the log: an instruction is its `asm` entry. -/
def Code.events (condition body : List Event) : List Code → List Event
  | [] => []
  | Code.instr i :: rest => Event.asm i :: Code.events condition body rest
  | Code.condition :: rest => condition ++ Code.events condition body rest
  | Code.body :: rest => body ++ Code.events condition body rest

/-- Whether a piece of code is a jump that depends on the flags and goes to the
given label. -/
def Code.isConditionalJumpTo (label : Nat) : Code → Bool
  | Code.instr i => i.isConditionalJump && decide (i.target = some label)
  | _ => false

/-- Whether a log entry is an instruction that jumps to the label or binds
it. -/
def Event.usesLabel (label : Nat) : Event → Bool
  | Event.asm i => decide (i.target = some label) || decide (i = Instr.bind label)
  | _ => false

/-- The state `c'` is reached from the state `c` by steps that take nothing
back: the log of `c'` is the log of `c` followed by further entries, whose
instructions jump to and bind only labels that were not yet given out in `c`,
and no label number that was given out in `c` is free in `c'`. -/
def Compiler.Extends (c c' : Compiler) : Prop :=
  (∃ es, c'.trace = c.trace ++ es ∧
    ∀ e ∈ es, ∀ l, Event.usesLabel l e = true → c.nextLabel ≤ l) ∧
  c.nextLabel ≤ c'.nextLabel

/-- What the processing of children has to satisfy for the function of a node
kind to take nothing back. -/
structure Children.Extends (ch : Children) : Prop where
  all : ∀ (sc : BaseScope) (c : Compiler), c.Extends (ch.processAll sc c).state
  first : ∀ f, ch.process0 = some f →
    ∀ (sc : BaseScope) (c : Compiler), c.Extends (f sc c).state
  second : ∀ f, ch.process1 = some f →
    ∀ (sc : BaseScope) (c : Compiler), c.Extends (f sc c).state

/-! ## Concrete trees

Small syntax trees on which the definitions are evaluated. -/

namespace Sample

/-- The scope of a function `f`. -/
def functionScope : BaseScope :=
  BaseScope.mk ScopeType.Function ["f"] none

/-- An integer literal. -/
def literal (i : Nat) (v : Int) : Statement :=
  Statement.node i { line := i, col := 1 } (Kind.Immediate { type := TypeID.Integer, toInt := v }) []

/-- A statement block of the function `f`. -/
def block (i : Nat) (cs : List Statement) : Statement :=
  Statement.node i { line := i, col := 1 } (Kind.StatementBlock ["f"] false false) cs

/-- The loop `while (cond) body`. -/
def whileLoop (i : Nat) (cond body : Statement) : Statement :=
  Statement.node i { line := i, col := 1 } Kind.WhileLoop [cond, body]

/-- The program `while (1) { }`, the loop on line 1. -/
def endlessLoop : Statement :=
  whileLoop 1 (literal 2 1) (block 3 [])

/-- A struct type `Obj` with a destructor. -/
def objType : TypeInfo :=
  TypeInfo.StructType ["Obj"] false (TypeInfo.native TypeID.Void false false) false true false false

/-- The definition `Obj name;` of a stack object with the given full id. -/
def objDefinition (i : Nat) (id : NamespacedIdentifier) : Statement :=
  Statement.node i { line := i, col := 1 } (Kind.ComplexTypeDefinition objType [id]) []

/-- The block `{ Obj a; { Obj c; } Obj b; }` of the function `f`: the objects
`a` and `b` belong to the block (path `f`), the object `c` to the nested block
(path `f::inner`). -/
def blockWithObjects : Statement :=
  block 1
    [objDefinition 2 ["f", "a"],
     Statement.node 3 { line := 3, col := 1 } (Kind.StatementBlock ["f", "inner"] false false)
       [objDefinition 4 ["f", "inner", "c"]],
     objDefinition 5 ["f", "b"]]

/-- A reference to the integer variable `name` of the function `f`. -/
def reference (i : Nat) (name : String) : Statement :=
  Statement.node i { line := i, col := 1 }
    (Kind.VariableReference
      { id := ["f", name], typeInfo := TypeInfo.native TypeID.Integer false false }) []

/-- The statement `break;`. -/
def breakStatement (i : Nat) : Statement :=
  Statement.node i { line := i, col := 1 } (Kind.ControlFlowStatement true) []

/-- The loop `for (auto& s : target) body`. -/
def forEachLoop (i : Nat) (target body : Statement) : Statement :=
  Statement.node i { line := i, col := 1 } Kind.Loop [target, body]

/-- The function body `{ break; }`. -/
def breakInBlock : Statement :=
  block 1 [breakStatement 2]

/-- The program `for (auto& s : data) { while (n) { break; } }`. -/
def breakInWhileInLoop : Statement :=
  forEachLoop 1 (reference 2 "data")
    (block 3 [whileLoop 4 (reference 5 "n") (block 6 [breakStatement 7])])

/-- The ancestors of the `break` of `breakInWhileInLoop`, innermost first. -/
def ancestorsOfBreak : List Statement :=
  [block 6 [breakStatement 7],
   whileLoop 4 (reference 5 "n") (block 6 [breakStatement 7]),
   block 3 [whileLoop 4 (reference 5 "n") (block 6 [breakStatement 7])],
   breakInWhileInLoop]

/-- The program `while (n) { break; }`. -/
def breakInWhile : Statement :=
  whileLoop 1 (reference 2 "n") (block 3 [breakStatement 4])

/-- The statement `return value;` (or `return;` without a child). -/
def returnStatement (i : Nat) (cs : List Statement) : Statement :=
  Statement.node i { line := i, col := 1 } Kind.ReturnStatement cs

/-- The block `{ return 1; }`, for which no return type is known. -/
def returnWithoutRoot : Statement :=
  block 1 [returnStatement 2 [literal 3 1]]

/-- The body `{ return 1; }` of a function with a return type. -/
def returnInFunction : Statement :=
  Statement.node 1 { line := 1, col := 1 } (Kind.StatementBlock ["f"] false true)
    [returnStatement 2 [literal 3 1]]

/-- The expression `n ? 1 : 2`. -/
def ternary : Statement :=
  Statement.node 1 { line := 1, col := 1 } Kind.TernaryOp [reference 2 "n", literal 3 1, literal 4 2]

/-- The type `span<float, 4>`. -/
def floatSpan : TypeInfo :=
  TypeInfo.SpanType (TypeInfo.native TypeID.Float false false) 4 false false false

/-- A reference to the variable `span<float, 4> data` of the function `f`. -/
def dataReference (i : Nat) : Statement :=
  Statement.node i { line := i, col := 1 }
    (Kind.VariableReference { id := ["f", "data"], typeInfo := floatSpan }) []

/-- The loop `for (x : data) { }` (node 1) over the variable `data` (node 2). -/
def loopOverData : Statement :=
  forEachLoop 1 (dataReference 2) (block 3 [])

/-- The state in which the iterator `x` of the loop is declared with the given
type. -/
def loopState (iteratorType : TypeInfo) : Compiler :=
  Compiler.initial.setIterator 1 { id := ["f", "x"], typeInfo := iteratorType }

/-- The statement `if (cond) trueBranch`, or `if (cond) trueBranch else
falseBranch` with a third child. -/
def ifStatement (i : Nat) (cs : List Statement) : Statement :=
  Statement.node i { line := i, col := 1 } Kind.IfStatement cs

/-- A reference to the float variable `name` of the function `f`. -/
def floatReference (i : Nat) (name : String) : Statement :=
  Statement.node i { line := i, col := 1 }
    (Kind.VariableReference
      { id := ["f", name], typeInfo := TypeInfo.native TypeID.Float false false }) []

/-- The statement `if (gain) { }` with a float variable `gain`. -/
def ifOnFloat : Statement :=
  ifStatement 1 [floatReference 2 "gain", block 3 []]

/-- The function body `if (n) { } else { break; }`. -/
def ifWithBreak : Statement :=
  ifStatement 1 [reference 2 "n", block 3 [], block 4 [breakStatement 5]]

/-- The type `dyn<float>`. -/
def floatDyn : TypeInfo :=
  TypeInfo.DynType (TypeInfo.native TypeID.Float false false) false false false

/-- A reference to the variable `dyn<float> data` of the function `f`. -/
def dynReference (i : Nat) : Statement :=
  Statement.node i { line := i, col := 1 }
    (Kind.VariableReference { id := ["f", "data"], typeInfo := floatDyn }) []

/-- The loop `for (x : data) { }` (node 1) over the `dyn<float>` variable `data`
(node 2). -/
def loopOverDyn : Statement :=
  forEachLoop 1 (dynReference 2) (block 3 [])

/-- A reference to the variable `block data` of the function `f`. -/
def blockReference (i : Nat) : Statement :=
  Statement.node i { line := i, col := 1 }
    (Kind.VariableReference
      { id := ["f", "data"], typeInfo := TypeInfo.native TypeID.Block false false }) []

/-- The loop `for (x : data) { }` (node 1) over the `block` variable `data`
(node 2). -/
def loopOverBlock : Statement :=
  forEachLoop 1 (blockReference 2) (block 3 [])

/-- A struct type `Container` whose function table has a begin function that
returns a `double` and a size function. -/
def containerType : TypeInfo :=
  TypeInfo.StructType ["Container"] true (TypeInfo.native TypeID.Double false false) true false
    false false

/-- A reference to the variable `Container data` of the function `f`. -/
def containerReference (i : Nat) : Statement :=
  Statement.node i { line := i, col := 1 }
    (Kind.VariableReference { id := ["f", "data"], typeInfo := containerType }) []

/-- The loop `for (x : data) { }` (node 1) over the `Container` variable `data`
(node 2). -/
def loopOverContainer : Statement :=
  forEachLoop 1 (containerReference 2) (block 3 [])

/-- The assignment `target = value`; its children are the value (sub-expression
0, which `evaluateIteratorStore` takes as read only) and then the target
(sub-expression 1). -/
def assignment (i : Nat) (target value : Statement) : Statement :=
  Statement.node i { line := i, col := 1 } (Kind.Assignment Token.assign_) [value, target]

/-- The loop `for (x : data) { x = 1; x = 2; }`. -/
def loopAssigningTwice : Statement :=
  forEachLoop 1 (dataReference 2)
    (block 3 [assignment 4 (reference 5 "x") (literal 6 1),
              assignment 7 (reference 8 "x") (literal 9 2)])

/-- The loop `for (x : data) { y = x; }`. -/
def loopReadingIterator : Statement :=
  forEachLoop 1 (dataReference 2)
    (block 3 [assignment 4 (reference 5 "y") (reference 6 "x")])

/-- The loop `while (n) { }` on line 1. -/
def countingLoop : Statement :=
  whileLoop 1 (reference 2 "n") (block 3 [])

/-- The comparison `a < b`. -/
def lessThan (i : Nat) (a b : Statement) : Statement :=
  Statement.node i { line := i, col := 1 } (Kind.Compare Token.lessThan) [a, b]

/-- The loop `while (a < b) { }` on line 1. -/
def compareLoop : Statement :=
  whileLoop 1 (lessThan 2 (reference 4 "a") (reference 5 "b")) (block 3 [])

/-- The comparison `a < b` that is the condition of `compareLoop`. -/
def compareCondition : Statement :=
  lessThan 2 (reference 4 "a") (reference 5 "b")

/-- The state in which the Code Generation block of the while-loop on line 1 is
entered when the loop is the whole program and its condition (node 2) has
register 0. -/
def loopEntry : Compiler :=
  ((Compiler.initial.setReg 2 (some 0)).log (Event.process 1 Pass.CodeGeneration)).log
    (Event.processBaseWithoutChildren 1)

/-- The state that the processing of the condition of a while-loop on line 1
leaves, when the Code Generation block of the loop was entered in the state
`loopEntry`. -/
def conditionProcessed (env : Env) (loop cond : Statement) : Compiler :=
  (process env Pass.CodeGeneration functionScope [loop] cond
    (WhileLoop.codeGenerationHead env loop loopEntry)).state

/-- The state that the processing of the body of a while-loop on line 1
leaves. -/
def bodyProcessed (env : Env) (loop cond body : Statement) : Compiler :=
  (process env Pass.CodeGeneration functionScope [loop] body
    (WhileLoop.codeGenerationTest env loop 1 0 (conditionProcessed env loop cond))).state

/-- A run in which the condition is true every time: its operands are 0 and 1,
its value is 1; the error kind `WhileLoop` is the number 5. -/
def runtime : Runtime where
  whileLoopErrorType := 5
  condition := fun _ => { lhs := 0, rhs := 1, value := 1 }

/-- The expression `a + b`, a node of a kind that is defined in another file. -/
def binaryOp (i : Nat) (a b : Statement) : Statement :=
  Statement.node i { line := i, col := 1 } (Kind.Other "BinaryOp") [a, b]

/-- The loop `for (x : data) { sum = sum + x; }` over `span<float, 4> data`. -/
def loopSumming : Statement :=
  forEachLoop 1 (dataReference 2)
    (block 3 [assignment 4 (floatReference 5 "sum")
      (binaryOp 6 (floatReference 7 "sum") (floatReference 8 "x"))])

/-- The loop `for (x : data) { x = 1; }`. -/
def loopWritingIterator : Statement :=
  forEachLoop 1 (dataReference 2)
    (block 3 [assignment 4 (reference 5 "x") (literal 6 1)])

/-- The loop `while (0) { }` on line 1. -/
def zeroLoop : Statement :=
  whileLoop 1 (literal 2 0) (block 3 [])

/-- The statement `if (n) { } else { }`. -/
def ifElse : Statement :=
  ifStatement 1 [reference 2 "n", block 3 [], block 4 []]

/-- The statement `if (n) { }`. -/
def ifThen : Statement :=
  ifStatement 1 [reference 2 "n", block 3 []]

/-- The scope of a class `C`. -/
def classScope : BaseScope :=
  BaseScope.mk ScopeType.Class ["C"] none

end Sample

/-! ## Theorems -/

/-- One step of `process`: the call is logged and dispatched on the node kind. -/
theorem process_eq (env : Env) (pass : Pass) (scope : BaseScope) (anc : List Statement)
    (s : Statement) (c : Compiler) :
    process env pass scope anc s c =
      Statement.dispatch env pass scope anc s (Statement.childProcessing env pass anc s)
        (c.log (Event.process s.id pass)) := by
  cases s with
  | node i l k cs =>
    cases cs with
    | nil => rfl
    | cons c0 t =>
      cases t with
      | nil => rfl
      | cons c1 t2 => rfl

theorem processAllChildren_nil (env : Env) (pass : Pass) (scope : BaseScope)
    (anc : List Statement) (c : Compiler) :
    processAllChildren env pass scope anc [] c = Result.ok c := rfl

theorem processAllChildren_cons (env : Env) (pass : Pass) (scope : BaseScope)
    (anc : List Statement) (s : Statement) (rest : List Statement) (c : Compiler) :
    processAllChildren env pass scope anc (s :: rest) c =
      (process env pass scope anc s c).bind (processAllChildren env pass scope anc rest) := by
  show (match process env pass scope anc s c with
    | Result.ok c1 => processAllChildren env pass scope anc rest c1
    | r => r) = _
  cases process env pass scope anc s c <;> rfl

theorem Result.bind_isOk_false (r : Result) (f : Compiler → Result)
    (h : ∀ c, (f c).isOk = false) : (r.bind f).isOk = false := by
  cases r with
  | ok c => exact h c
  | error e c => rfl
  | undefined c => rfl

/-- C1. For every while-loop node whose condition (sub-expression 0) is a
compile-time constant with a non-zero integer value, `WhileLoop::process` in the
Type Check pass is the traversal of the children followed by the Type Check
block; that block, in whatever state it is entered, throws the error
'Endless loop detected' at the loop's own source location; so the pass never
completes on such a loop. -/
theorem WhileLoop_process_typeCheck_endless_loop (env : Env) (scope : BaseScope)
    (anc : List Statement) (i : Nat) (l : Location) (cond : Statement) (rest : List Statement)
    (v : VariableStorage) (c : Compiler)
    (hconst : env.constExpr cond = some v) (hv : v.toInt ≠ 0) :
    (∀ c1 : Compiler,
      WhileLoop.typeCheck env (Statement.node i l Kind.WhileLoop (cond :: rest)) c1 =
        Result.error { message := "Endless loop detected", location := l } c1) ∧
    process env Pass.TypeCheck scope anc (Statement.node i l Kind.WhileLoop (cond :: rest)) c =
      ((Statement.node i l Kind.WhileLoop (cond :: rest)).processBaseWithChildren
          (Statement.childProcessing env Pass.TypeCheck anc
            (Statement.node i l Kind.WhileLoop (cond :: rest)))
          scope (c.log (Event.process i Pass.TypeCheck))).bind
        (WhileLoop.typeCheck env (Statement.node i l Kind.WhileLoop (cond :: rest))) ∧
    (process env Pass.TypeCheck scope anc
      (Statement.node i l Kind.WhileLoop (cond :: rest)) c).isOk = false := by
  have hblock : ∀ c1 : Compiler,
      WhileLoop.typeCheck env (Statement.node i l Kind.WhileLoop (cond :: rest)) c1 =
        Result.error { message := "Endless loop detected", location := l } c1 := by
    intro c1
    simp [WhileLoop.typeCheck, Statement.getSubExpr, Statement.children, hconst, hv,
      Location.throwError, Statement.location]
  have hproc : process env Pass.TypeCheck scope anc
        (Statement.node i l Kind.WhileLoop (cond :: rest)) c =
      ((Statement.node i l Kind.WhileLoop (cond :: rest)).processBaseWithChildren
          (Statement.childProcessing env Pass.TypeCheck anc
            (Statement.node i l Kind.WhileLoop (cond :: rest)))
          scope (c.log (Event.process i Pass.TypeCheck))).bind
        (WhileLoop.typeCheck env (Statement.node i l Kind.WhileLoop (cond :: rest))) := by
    rw [process_eq]
    simp only [Statement.dispatch, Statement.kind, WhileLoop.process, Statement.id]
    cases h : (Statement.node i l Kind.WhileLoop (cond :: rest)).processBaseWithChildren
        (Statement.childProcessing env Pass.TypeCheck anc
          (Statement.node i l Kind.WhileLoop (cond :: rest)))
        scope (c.log (Event.process i Pass.TypeCheck)) with
    | ok c1 =>
      simp only [Result.bind, h, reduceCtorEq, if_false, if_true]
      cases WhileLoop.typeCheck env (Statement.node i l Kind.WhileLoop (cond :: rest)) c1 <;> rfl
    | error e c1 => simp [Result.bind, h]
    | undefined c1 => simp [Result.bind, h]
  refine ⟨hblock, hproc, ?_⟩
  rw [hproc]
  exact Result.bind_isOk_false _ _ (fun c1 => by rw [hblock c1]; rfl)

/-- The program `while (1) { }` fails the Type Check pass with 'Endless loop
detected' at the loop's location. -/
theorem WhileLoop_process_typeCheck_endless_loop_witness :
    Env.reference.constExpr (Sample.literal 2 1) = some { type := TypeID.Integer, toInt := 1 } ∧
    (∀ c1 : Compiler,
      WhileLoop.typeCheck Env.reference Sample.endlessLoop c1 =
        Result.error { message := "Endless loop detected", location := { line := 1, col := 1 } } c1) ∧
    (process Env.reference Pass.TypeCheck Sample.functionScope [] Sample.endlessLoop
      Compiler.initial).thrown =
        some { message := "Endless loop detected", location := { line := 1, col := 1 } } :=
  ⟨rfl,
   (WhileLoop_process_typeCheck_endless_loop Env.reference Sample.functionScope [] 1
      { line := 1, col := 1 } (Sample.literal 2 1) [Sample.block 3 []]
      { type := TypeID.Integer, toInt := 1 } Compiler.initial rfl (by decide)).1,
   by decide⟩

theorem collectDestructorIds_eq (env : Env) (path : NamespacedIdentifier)
    (scope : BaseScope) (p : Statement) (acc : List Symbol) :
    StatementBlock.collectDestructorIds env path scope p acc =
      (acc ++ StatementBlock.contribution env path scope p, false) := by
  unfold StatementBlock.contribution StatementBlock.collectDestructorIds
  split <;> (try split) <;> (try split) <;> simp

mutual
theorem forEachRecursive_collect (env : Env) (path : NamespacedIdentifier) (scope : BaseScope) :
    ∀ (s : Statement) (acc : List Symbol),
    Statement.forEachRecursive (StatementBlock.collectDestructorIds env path scope) s acc =
      (acc ++ (Statement.subtree s).flatMap (StatementBlock.contribution env path scope), false)
  | Statement.node i l k cs, acc => by
    rw [Statement.forEachRecursive, collectDestructorIds_eq]
    simp only
    rw [forEachRecursiveChildren_collect env path scope cs]
    simp [Statement.subtree, List.flatMap_cons, List.append_assoc]
theorem forEachRecursiveChildren_collect (env : Env) (path : NamespacedIdentifier)
    (scope : BaseScope) :
    ∀ (cs : List Statement) (acc : List Symbol),
    forEachRecursiveChildren (StatementBlock.collectDestructorIds env path scope) cs acc =
      (acc ++ (subtreeChildren cs).flatMap (StatementBlock.contribution env path scope), false)
  | [], acc => by simp [forEachRecursiveChildren, subtreeChildren]
  | c :: rest, acc => by
    rw [forEachRecursiveChildren, forEachRecursive_collect env path scope c]
    simp only
    rw [forEachRecursiveChildren_collect env path scope rest]
    simp [subtreeChildren, List.flatMap_append, List.append_assoc]
end

/-- The destructor ids of a block are the contributions of the nodes reachable
from it, in walking order. -/
theorem destructorIds_eq (env : Env) (self : Statement)
    (path : NamespacedIdentifier) (scope : BaseScope) :
    StatementBlock.destructorIds env self path scope =
      (Statement.subtree self).flatMap (StatementBlock.contribution env path scope) := by
  simp [StatementBlock.destructorIds, forEachRecursive_collect]

/-- The destructor loop, when no call fails: it logs one call per index, from
index `n - 1` down to index 0. -/
theorem callDestructors_ok (env : Env) (block : Nat) (l : Location)
    (ids : List Symbol) (hok : ∀ id ∈ ids, env.callDestructor id = none) :
    ∀ (n : Nat) (c : Compiler), n ≤ ids.length →
      StatementBlock.callDestructors env block l ids n c =
        Result.ok
          { c with trace := c.trace ++ ((ids.take n).reverse.map (Event.callDestructor block)) }
  | 0, c, _ => by simp [StatementBlock.callDestructors]
  | n + 1, c, hn => by
    have hlt : n < ids.length := hn
    have hget : ids.get? n = some (ids.get ⟨n, hlt⟩) := List.get?_eq_get hlt
    have hmem : ids.get ⟨n, hlt⟩ ∈ ids := List.get_mem _ _ _
    rw [StatementBlock.callDestructors, hget]
    simp only [hok _ hmem]
    rw [callDestructors_ok env block l ids hok n _ (Nat.le_of_lt hlt)]
    have htake : ids.take (n + 1) = ids.take n ++ [ids.get ⟨n, hlt⟩] := by
      rw [List.take_succ, List.getElem?_eq_getElem hlt]; rfl
    rw [htake]
    simp only [Compiler.log, List.reverse_append, List.reverse_cons, List.reverse_nil,
      List.nil_append, List.map_append, List.map_cons, List.map_nil, List.append_assoc,
      List.singleton_append, List.cons_append]

/-- What `process` does on a statement block in the Data Allocation pass: the
block scope is created or fetched, the children are traversed with it, and the
Data Allocation block runs. -/
theorem process_StatementBlock_dataAllocation (env : Env) (scope : BaseScope)
    (anc : List Statement) (i : Nat) (l : Location) (path : NamespacedIdentifier)
    (isInlinedFunction hasReturnType : Bool) (cs : List Statement) (c : Compiler) :
    process env Pass.DataAllocation scope anc
        (Statement.node i l (Kind.StatementBlock path isInlinedFunction hasReturnType) cs) c =
      ((Statement.node i l (Kind.StatementBlock path isInlinedFunction hasReturnType)
            cs).processBaseWithChildren
          (Statement.childProcessing env Pass.DataAllocation anc
            (Statement.node i l (Kind.StatementBlock path isInlinedFunction hasReturnType) cs))
          (StatementBlock.createOrGetBlockScope i path scope
            (c.log (Event.process i Pass.DataAllocation))).1
          (StatementBlock.createOrGetBlockScope i path scope
            (c.log (Event.process i Pass.DataAllocation))).2).bind
        (StatementBlock.dataAllocation env
          (Statement.node i l (Kind.StatementBlock path isInlinedFunction hasReturnType) cs)
          path scope) := by
  rw [process_eq]
  simp only [Statement.dispatch, Statement.kind, StatementBlock.process, Statement.id]
  cases (Statement.node i l (Kind.StatementBlock path isInlinedFunction hasReturnType)
            cs).processBaseWithChildren
          (Statement.childProcessing env Pass.DataAllocation anc
            (Statement.node i l (Kind.StatementBlock path isInlinedFunction hasReturnType) cs))
          (StatementBlock.createOrGetBlockScope i path scope
            (c.log (Event.process i Pass.DataAllocation))).1
          (StatementBlock.createOrGetBlockScope i path scope
            (c.log (Event.process i Pass.DataAllocation))).2 with
  | ok c1 =>
    simp only [Result.bind, reduceCtorEq, if_false, if_true]
    cases StatementBlock.dataAllocation env
      (Statement.node i l (Kind.StatementBlock path isInlinedFunction hasReturnType) cs)
      path scope c1 <;> rfl
  | error e c1 => rfl
  | undefined c1 => rfl

/-- C2. For every statement block, the Data Allocation block of
`StatementBlock::process` issues the destructor calls in exactly the reverse of
the order in which the walk of the block collected the ids: when no call
fails, the calls logged are one `callDestructor` per collected id, last
collected first, and nothing else changes.  In the Data Allocation pass
`process` is the traversal of the children followed by that block. -/
theorem StatementBlock_dataAllocation_reverse_order (env : Env) (scope : BaseScope)
    (anc : List Statement) (i : Nat) (l : Location) (path : NamespacedIdentifier)
    (isInlinedFunction hasReturnType : Bool) (cs : List Statement) (c : Compiler)
    (hok : ∀ id ∈ StatementBlock.destructorIds env
        (Statement.node i l (Kind.StatementBlock path isInlinedFunction hasReturnType) cs)
        path scope, env.callDestructor id = none) :
    (∀ c1 : Compiler,
      StatementBlock.dataAllocation env
          (Statement.node i l (Kind.StatementBlock path isInlinedFunction hasReturnType) cs)
          path scope c1 =
        Result.ok
          { c1 with
            trace := c1.trace ++
              ((StatementBlock.destructorIds env
                (Statement.node i l (Kind.StatementBlock path isInlinedFunction hasReturnType) cs)
                path scope).reverse.map (Event.callDestructor i)) }) ∧
    process env Pass.DataAllocation scope anc
        (Statement.node i l (Kind.StatementBlock path isInlinedFunction hasReturnType) cs) c =
      ((Statement.node i l (Kind.StatementBlock path isInlinedFunction hasReturnType)
            cs).processBaseWithChildren
          (Statement.childProcessing env Pass.DataAllocation anc
            (Statement.node i l (Kind.StatementBlock path isInlinedFunction hasReturnType) cs))
          (StatementBlock.createOrGetBlockScope i path scope
            (c.log (Event.process i Pass.DataAllocation))).1
          (StatementBlock.createOrGetBlockScope i path scope
            (c.log (Event.process i Pass.DataAllocation))).2).bind
        (StatementBlock.dataAllocation env
          (Statement.node i l (Kind.StatementBlock path isInlinedFunction hasReturnType) cs)
          path scope) := by
  refine ⟨fun c1 => ?_, process_StatementBlock_dataAllocation env scope anc i l path
    isInlinedFunction hasReturnType cs c⟩
  unfold StatementBlock.dataAllocation
  rw [callDestructors_ok env _ _ _ hok _ c1 (Nat.le_refl _), List.take_length]
  rfl

/-- The block `{ Obj a; { Obj c; } Obj b; }` collects `a`, `b` and destroys `b`
before `a`. -/
theorem StatementBlock_dataAllocation_reverse_order_witness :
    (∀ id ∈ StatementBlock.destructorIds Env.reference Sample.blockWithObjects ["f"]
        Sample.functionScope, Env.reference.callDestructor id = none) ∧
    StatementBlock.destructorIds Env.reference Sample.blockWithObjects ["f"] Sample.functionScope =
      [{ id := ["f", "a"], typeInfo := Sample.objType },
       { id := ["f", "b"], typeInfo := Sample.objType }] ∧
    (StatementBlock.dataAllocation Env.reference Sample.blockWithObjects ["f"] Sample.functionScope
      Compiler.initial).state.trace =
      [Event.callDestructor 1 { id := ["f", "b"], typeInfo := Sample.objType },
       Event.callDestructor 1 { id := ["f", "a"], typeInfo := Sample.objType }] :=
  ⟨fun _ _ => rfl, by decide,
   (congrArg (fun r => r.state.trace)
      ((StatementBlock_dataAllocation_reverse_order Env.reference Sample.functionScope [] 1
        { line := 1, col := 1 } ["f"] false false
        [Sample.objDefinition 2 ["f", "a"],
         Statement.node 3 { line := 3, col := 1 } (Kind.StatementBlock ["f", "inner"] false false)
           [Sample.objDefinition 4 ["f", "inner", "c"]],
         Sample.objDefinition 5 ["f", "b"]]
        Compiler.initial (fun _ _ => rfl)).1 Compiler.initial)).trans (by decide)⟩

/-- The ids one visited node adds to a block's destructor list: the instance
ids of a stack definition of a complex type with a destructor whose parent is
the block's path. -/
theorem mem_contribution (env : Env) (path : NamespacedIdentifier) (scope : BaseScope)
    (p : Statement) (sym : Symbol) :
    sym ∈ StatementBlock.contribution env path scope p ↔
      ∃ type instanceIds, p.kind = Kind.ComplexTypeDefinition type instanceIds ∧
        env.isStackDefinition p scope = true ∧ type.hasDestructor = true ∧
        sym.id ∈ instanceIds ∧ path = sym.id.getParent ∧ sym.typeInfo = type := by
  unfold StatementBlock.contribution StatementBlock.collectDestructorIds
  cases hk : p.kind with
  | ComplexTypeDefinition type instanceIds =>
    simp only [Kind.ComplexTypeDefinition.injEq, exists_and_left]
    by_cases hs : env.isStackDefinition p scope = true
    · by_cases hd : type.hasDestructor = true
      · simp only [hs, hd, if_true, List.nil_append, List.mem_map, List.mem_filter,
          decide_eq_true_eq]
        constructor
        · rintro ⟨id, ⟨hid, hp⟩, rfl⟩
          exact ⟨type, ⟨instanceIds, ⟨rfl, rfl⟩, trivial, hd, hid, hp, rfl⟩⟩
        · rintro ⟨t, ⟨ids, ⟨rfl, rfl⟩, _, _, hid, hp, ht⟩⟩
          exact ⟨sym.id, ⟨hid, hp⟩, by cases sym; simp_all⟩
      · simp only [hs, hd, if_true]
        constructor
        · intro h; simp at h
        · rintro ⟨t, ⟨ids, ⟨rfl, rfl⟩, _, hd2, _⟩⟩
          exact absurd hd2 hd
    · simp only [hs]
      constructor
      · intro h; simp at h
      · rintro ⟨t, ⟨ids, ⟨rfl, rfl⟩, hs2, _⟩⟩
        exact absurd hs2 (by decide)
  | _ => simp

/-- C3. For every statement block B, a symbol is in the destructor list that
B's Data Allocation pass collects if and only if it is an instance id of a
complex-type definition reachable from B that is a stack definition, whose
type has a destructor, and whose parent path equals B's path; so an id whose
parent differs from B's path (one declared in a nested block) is never in the
list; and when no call fails, the destructor calls logged by the pass are for
exactly the symbols of the list. -/
theorem StatementBlock_destructorIds_membership (env : Env) (scope : BaseScope) (i : Nat)
    (l : Location) (path : NamespacedIdentifier) (isInlinedFunction hasReturnType : Bool)
    (cs : List Statement) (sym : Symbol) :
    (sym ∈ StatementBlock.destructorIds env
        (Statement.node i l (Kind.StatementBlock path isInlinedFunction hasReturnType) cs)
        path scope ↔
      ∃ p ∈ Statement.subtree
          (Statement.node i l (Kind.StatementBlock path isInlinedFunction hasReturnType) cs),
        ∃ type instanceIds, p.kind = Kind.ComplexTypeDefinition type instanceIds ∧
          env.isStackDefinition p scope = true ∧ type.hasDestructor = true ∧
          sym.id ∈ instanceIds ∧ path = sym.id.getParent ∧ sym.typeInfo = type) ∧
    (sym.id.getParent ≠ path →
      sym ∉ StatementBlock.destructorIds env
        (Statement.node i l (Kind.StatementBlock path isInlinedFunction hasReturnType) cs)
        path scope) ∧
    ((∀ id ∈ StatementBlock.destructorIds env
        (Statement.node i l (Kind.StatementBlock path isInlinedFunction hasReturnType) cs)
        path scope, env.callDestructor id = none) →
      ∀ c1 : Compiler, ∃ calls : List Event,
        StatementBlock.dataAllocation env
            (Statement.node i l (Kind.StatementBlock path isInlinedFunction hasReturnType) cs)
            path scope c1 =
          Result.ok { c1 with trace := c1.trace ++ calls } ∧
        (Event.callDestructor i sym ∈ calls ↔
          sym ∈ StatementBlock.destructorIds env
            (Statement.node i l (Kind.StatementBlock path isInlinedFunction hasReturnType) cs)
            path scope)) := by
  have hmem : sym ∈ StatementBlock.destructorIds env
        (Statement.node i l (Kind.StatementBlock path isInlinedFunction hasReturnType) cs)
        path scope ↔
      ∃ p ∈ Statement.subtree
          (Statement.node i l (Kind.StatementBlock path isInlinedFunction hasReturnType) cs),
        ∃ type instanceIds, p.kind = Kind.ComplexTypeDefinition type instanceIds ∧
          env.isStackDefinition p scope = true ∧ type.hasDestructor = true ∧
          sym.id ∈ instanceIds ∧ path = sym.id.getParent ∧ sym.typeInfo = type := by
    rw [destructorIds_eq, List.mem_flatMap]
    constructor
    · rintro ⟨p, hp, h⟩
      exact ⟨p, hp, (mem_contribution env path scope p sym).1 h⟩
    · rintro ⟨p, hp, h⟩
      exact ⟨p, hp, (mem_contribution env path scope p sym).2 h⟩
  refine ⟨hmem, ?_, ?_⟩
  · intro hne hin
    obtain ⟨p, _, t, ids, _, _, _, _, hp, _⟩ := hmem.1 hin
    exact hne hp.symm
  · intro hok c1
    refine ⟨(StatementBlock.destructorIds env
        (Statement.node i l (Kind.StatementBlock path isInlinedFunction hasReturnType) cs)
        path scope).reverse.map (Event.callDestructor i), ?_, ?_⟩
    · unfold StatementBlock.dataAllocation
      rw [callDestructors_ok env _ _ _ hok _ c1 (Nat.le_refl _), List.take_length]
      rfl
    · simp [List.mem_map]

/-- In the block `{ Obj a; { Obj c; } Obj b; }` the object `c` of the nested
block is not in the outer block's list, and it receives no destructor call
from the outer block, whose calls all succeed. -/
theorem StatementBlock_destructorIds_membership_witness :
    NamespacedIdentifier.getParent ["f", "inner", "c"] ≠ ["f"] ∧
    { id := ["f", "inner", "c"], typeInfo := Sample.objType } ∉
      StatementBlock.destructorIds Env.reference Sample.blockWithObjects ["f"]
        Sample.functionScope ∧
    (∀ id ∈ StatementBlock.destructorIds Env.reference Sample.blockWithObjects ["f"]
        Sample.functionScope, Env.reference.callDestructor id = none) ∧
    ∀ c1 : Compiler, ∃ calls : List Event,
      StatementBlock.dataAllocation Env.reference Sample.blockWithObjects ["f"]
          Sample.functionScope c1 =
        Result.ok { c1 with trace := c1.trace ++ calls } ∧
      (Event.callDestructor 1 { id := ["f", "inner", "c"], typeInfo := Sample.objType } ∈ calls ↔
        { id := ["f", "inner", "c"], typeInfo := Sample.objType } ∈
          StatementBlock.destructorIds Env.reference Sample.blockWithObjects ["f"]
            Sample.functionScope) :=
  ⟨by decide,
   (StatementBlock_destructorIds_membership Env.reference Sample.functionScope 1
      { line := 1, col := 1 } ["f"] false false
      [Sample.objDefinition 2 ["f", "a"],
       Statement.node 3 { line := 3, col := 1 } (Kind.StatementBlock ["f", "inner"] false false)
         [Sample.objDefinition 4 ["f", "inner", "c"]],
       Sample.objDefinition 5 ["f", "b"]]
      { id := ["f", "inner", "c"], typeInfo := Sample.objType }).2.1 (by decide),
   fun _ _ => rfl,
   (StatementBlock_destructorIds_membership Env.reference Sample.functionScope 1
      { line := 1, col := 1 } ["f"] false false
      [Sample.objDefinition 2 ["f", "a"],
       Statement.node 3 { line := 3, col := 1 } (Kind.StatementBlock ["f", "inner"] false false)
         [Sample.objDefinition 4 ["f", "inner", "c"]],
       Sample.objDefinition 5 ["f", "b"]]
      { id := ["f", "inner", "c"], typeInfo := Sample.objType }).2.2 (fun _ _ => rfl)⟩

theorem Result.bind_of_not_ok (r : Result) (f : Compiler → Result) (h : r.isOk = false) :
    r.bind f = r := by
  cases r with
  | ok c => simp [Result.isOk] at h
  | error e c => rfl
  | undefined c => rfl

theorem Result.bind_isOk_false_left (r : Result) (f : Compiler → Result) (h : r.isOk = false) :
    (r.bind f).isOk = false := by
  rw [Result.bind_of_not_ok r f h]; exact h

theorem processAllChildren_not_ok (env : Env) (pass : Pass) (scope : BaseScope)
    (anc : List Statement) (x : Statement)
    (hx : ∀ c, (process env pass scope anc x c).isOk = false) :
    ∀ (cs : List Statement) (c : Compiler), x ∈ cs →
      (processAllChildren env pass scope anc cs c).isOk = false
  | [], _, h => by simp at h
  | s :: rest, c, h => by
    rw [processAllChildren_cons]
    rcases List.mem_cons.1 h with rfl | hrest
    · exact Result.bind_isOk_false_left _ _ (hx c)
    · cases hs : process env pass scope anc s c with
      | ok c1 => exact processAllChildren_not_ok env pass scope anc x hx rest c1 hrest
      | error e c1 => rfl
      | undefined c1 => rfl

theorem process_typeCheck_not_ok_of_child (env : Env) (scope : BaseScope) (anc : List Statement)
    (s : Statement) (c : Compiler) (hkind : s.kind.isLoop = false)
    (hch : ∀ sc c1, (processAllChildren env Pass.TypeCheck sc (s :: anc) s.children c1).isOk = false) :
    (process env Pass.TypeCheck scope anc s c).isOk = false := by
  rw [process_eq]
  cases s with
  | node i l k cs =>
    cases k <;>
      simp only [Statement.dispatch, Statement.kind, StatementBlock.process, ReturnStatement.process,
        TernaryOp.process, WhileLoop.process, ControlFlowStatement.process, IfStatement.process,
        Statement.processOther, Statement.processBaseWithChildren,
        Statement.processBaseWithoutChildren, Statement.childProcessing, Statement.children,
        Result.bind, reduceCtorEq, if_false, if_true, ne_eq, not_false_eq_true] <;>
      first
        | exact Result.bind_isOk_false_left _ _ (hch _ _)
        | simp [Statement.kind, Kind.isLoop] at hkind

theorem Occurs.suffix {target : Statement} {targetAnc : List Statement} {s : Statement}
    {anc : List Statement} (h : Occurs target targetAnc s anc) :
    ∃ pre, targetAnc = pre ++ anc := by
  induction h with
  | here => exact ⟨[], rfl⟩
  | inside s anc child _ _ ih =>
    obtain ⟨pre, hpre⟩ := ih
    exact ⟨pre ++ [s], by simp [hpre]⟩

theorem process_typeCheck_not_ok_of_occurs (env : Env) (target : Statement)
    (targetAnc : List Statement)
    (hno : ∀ a ∈ targetAnc, a.kind.isLoop = false)
    (htarget : ∀ sc c, (process env Pass.TypeCheck sc targetAnc target c).isOk = false)
    {s : Statement} {anc : List Statement} (h : Occurs target targetAnc s anc) :
    ∀ sc c, (process env Pass.TypeCheck sc anc s c).isOk = false := by
  induction h with
  | here => exact htarget
  | inside s anc child hmem hocc ih =>
    intro sc c
    obtain ⟨pre, hpre⟩ := hocc.suffix
    have hs : s ∈ targetAnc := by rw [hpre]; simp
    exact process_typeCheck_not_ok_of_child env sc anc s c (hno s hs)
      (fun sc1 c1 => processAllChildren_not_ok env Pass.TypeCheck sc1 (s :: anc) child
        (ih sc1) s.children c1 hmem)

theorem process_ControlFlowStatement_typeCheck (env : Env) (scope : BaseScope)
    (anc : List Statement) (i : Nat) (l : Location) (isBreak : Bool) (c : Compiler) :
    process env Pass.TypeCheck scope anc
        (Statement.node i l (Kind.ControlFlowStatement isBreak) []) c =
      ControlFlowStatement.typeCheck (Statement.node i l (Kind.ControlFlowStatement isBreak) [])
        isBreak anc
        ((c.log (Event.process i Pass.TypeCheck)).log (Event.processBaseWithChildren i)) := by
  rw [process_eq]
  simp only [Statement.dispatch, Statement.kind, ControlFlowStatement.process,
    Statement.processBaseWithChildren, Statement.childProcessing, Statement.children,
    processAllChildren_nil, Result.bind, Statement.id, if_true, reduceCtorEq, if_false]
  cases ControlFlowStatement.typeCheck (Statement.node i l (Kind.ControlFlowStatement isBreak) [])
        isBreak anc
        ((c.log (Event.process i Pass.TypeCheck)).log (Event.processBaseWithChildren i)) <;> rfl

theorem find_isLoop_none (self : Statement) (anc : List Statement) (hself : self.kind.isLoop = false)
    (hno : ∀ a ∈ anc, a.kind.isLoop = false) :
    findParentStatementOfType Kind.isLoop self anc = none := by
  unfold findParentStatementOfType
  rw [List.find?_eq_none]
  intro x hx
  rcases List.mem_cons.1 hx with rfl | h
  · simp [hself]
  · simp [hno x h]

/-- C4. For every break or continue statement that has no enclosing loop among
its ancestors, `ControlFlowStatement::process` in the Type Check pass throws,
at the statement's location, the error 'a <keyword> may only be used within a
loop or switch', the keyword being `break` or `continue`; and no code is
generated for it: the compile of any tree in which the statement occurs fails
and is over after the Type Check pass, so that the Register Allocation and
Code Generation passes are never run. -/
theorem ControlFlowStatement_outside_loop (env : Env) (scope : BaseScope)
    (anc : List Statement) (i : Nat) (l : Location) (isBreak : Bool) (c : Compiler)
    (hno : ∀ a ∈ anc, a.kind.isLoop = false ∧ a.kind.isWhileLoop = false) :
    process env Pass.TypeCheck scope anc
        (Statement.node i l (Kind.ControlFlowStatement isBreak) []) c =
      Result.error
        { message := "a " ++ ControlFlowStatement.getStatementId isBreak ++
            " may only be used within a loop or switch",
          location := l }
        (((c.log (Event.process i Pass.TypeCheck)).log
          (Event.processBaseWithChildren i)).setParentLoop i none) ∧
    ∀ (root : Statement) (rootScope : BaseScope) (c0 : Compiler),
      Occurs (Statement.node i l (Kind.ControlFlowStatement isBreak) []) anc root [] →
      (compile env rootScope root c0).isOk = false ∧
      compile env rootScope root c0 =
        runPasses env rootScope root [Pass.DataAllocation, Pass.TypeCheck] c0 := by
  have hnode : ∀ sc c1, process env Pass.TypeCheck sc anc
        (Statement.node i l (Kind.ControlFlowStatement isBreak) []) c1 =
      Result.error
        { message := "a " ++ ControlFlowStatement.getStatementId isBreak ++
            " may only be used within a loop or switch",
          location := l }
        (((c1.log (Event.process i Pass.TypeCheck)).log
          (Event.processBaseWithChildren i)).setParentLoop i none) := by
    intro sc c1
    rw [process_ControlFlowStatement_typeCheck]
    unfold ControlFlowStatement.typeCheck
    rw [find_isLoop_none _ anc (by simp [Statement.kind, Kind.isLoop]) (fun a ha => (hno a ha).1)]
    rfl
  refine ⟨hnode scope c, ?_⟩
  intro root rootScope c0 hocc
  have hfail : ∀ c1, (process env Pass.TypeCheck rootScope [] root c1).isOk = false :=
    fun c1 => process_typeCheck_not_ok_of_occurs env _ anc (fun a ha => (hno a ha).1)
      (fun sc c2 => by rw [hnode sc c2]; rfl) hocc rootScope c1
  have hstep : ∀ (later : List Pass) (c1 : Compiler),
      runPasses env rootScope root (Pass.TypeCheck :: later) c1 =
        process env Pass.TypeCheck rootScope [] root c1 :=
    fun later c1 => Result.bind_of_not_ok _ _ (hfail c1)
  constructor
  · unfold compile
    rw [runPasses]
    cases h : process env Pass.DataAllocation rootScope [] root c0 with
    | ok c1 => simp only [Result.bind]; rw [hstep]; exact hfail c1
    | error e c1 => rfl
    | undefined c1 => rfl
  · unfold compile
    rw [runPasses, runPasses]
    cases h : process env Pass.DataAllocation rootScope [] root c0 with
    | ok c1 => simp only [Result.bind]; rw [hstep, hstep]
    | error e c1 => rfl
    | undefined c1 => rfl

/-- The function body `{ break; }`: the Type Check pass throws 'a break may
only be used within a loop or switch' at the statement, and the compile fails. -/
theorem ControlFlowStatement_outside_loop_witness :
    (∀ a ∈ [Sample.breakInBlock], a.kind.isLoop = false ∧ a.kind.isWhileLoop = false) ∧
    process Env.reference Pass.TypeCheck Sample.functionScope [Sample.breakInBlock]
        (Sample.breakStatement 2) Compiler.initial =
      Result.error
        { message := "a break may only be used within a loop or switch",
          location := { line := 2, col := 1 } }
        (((Compiler.initial.log (Event.process 2 Pass.TypeCheck)).log
          (Event.processBaseWithChildren 2)).setParentLoop 2 none) ∧
    (compile Env.reference Sample.functionScope Sample.breakInBlock Compiler.initial).isOk =
      false :=
  ⟨by simp [Sample.breakInBlock, Sample.block, Statement.kind, Kind.isLoop, Kind.isWhileLoop],
   (ControlFlowStatement_outside_loop Env.reference Sample.functionScope [Sample.breakInBlock] 2
      { line := 2, col := 1 } true Compiler.initial
      (by simp [Sample.breakInBlock, Sample.block, Statement.kind, Kind.isLoop,
        Kind.isWhileLoop])).1,
   ((ControlFlowStatement_outside_loop Env.reference Sample.functionScope [Sample.breakInBlock] 2
      { line := 2, col := 1 } true Compiler.initial
      (by simp [Sample.breakInBlock, Sample.block, Statement.kind, Kind.isLoop,
        Kind.isWhileLoop])).2
      Sample.breakInBlock Sample.functionScope Compiler.initial
      (Occurs.inside Sample.breakInBlock [] (Sample.breakStatement 2)
        (by simp [Sample.breakInBlock, Sample.block, Statement.children]) Occurs.here)).1⟩

/-- C5, as stated, fails.  In `for (auto& s : data) { while (n) { break; } }` the
nearest enclosing loop of the `break` is the while-loop (node 4), but the Type
Check pass binds its `parentLoop` to the for-each loop (node 1); and in
`while (n) { break; }` the Type Check pass throws although the `break` is
inside a loop. -/
theorem ControlFlowStatement_skips_while_loop :
    Occurs (Sample.breakStatement 7) Sample.ancestorsOfBreak Sample.breakInWhileInLoop [] ∧
    (nearestEnclosingLoop Sample.ancestorsOfBreak).map Statement.id = some 4 ∧
    (process Env.reference Pass.TypeCheck Sample.functionScope [] Sample.breakInWhileInLoop
      Compiler.initial).isOk = true ∧
    (process Env.reference Pass.TypeCheck Sample.functionScope [] Sample.breakInWhileInLoop
      Compiler.initial).state.parentLoop 7 = some 1 ∧
    (process Env.reference Pass.TypeCheck Sample.functionScope [] Sample.breakInWhile
      Compiler.initial).thrown =
      some { message := "a break may only be used within a loop or switch",
             location := { line := 4, col := 1 } } := by
  refine ⟨?_, by decide, by decide, by decide, by decide⟩
  refine Occurs.inside _ _ (Sample.block 3 [Sample.whileLoop 4 (Sample.reference 5 "n")
    (Sample.block 6 [Sample.breakStatement 7])]) ?_ ?_
  · simp [Sample.breakInWhileInLoop, Sample.forEachLoop, Statement.children]
  refine Occurs.inside _ _ (Sample.whileLoop 4 (Sample.reference 5 "n")
    (Sample.block 6 [Sample.breakStatement 7])) ?_ ?_
  · simp [Sample.block, Statement.children]
  refine Occurs.inside _ _ (Sample.block 6 [Sample.breakStatement 7]) ?_ ?_
  · simp [Sample.whileLoop, Statement.children]
  refine Occurs.inside _ _ (Sample.breakStatement 7) ?_ ?_
  · simp [Sample.block, Statement.children]
  exact Occurs.here

theorem find_isLoop_some (self : Statement) (pre post : List Statement) (L : Statement)
    (hself : self.kind.isLoop = false) (hpre : ∀ a ∈ pre, a.kind.isLoop = false)
    (hL : L.kind = Kind.Loop) :
    findParentStatementOfType Kind.isLoop self (pre ++ L :: post) = some L := by
  unfold findParentStatementOfType
  rw [List.find?_cons_of_neg _ (by simp [hself])]
  induction pre with
  | nil => simp [hL, Kind.isLoop]
  | cons a pre ih =>
    rw [List.cons_append, List.find?_cons_of_neg _ (by simp [hpre a (List.mem_cons_self _ _)])]
    exact ih (fun b hb => hpre b (List.mem_cons_of_mem _ hb))

/-- C5, amended.  For every break or continue statement: when it has a for-each
loop (`Loop`) among its ancestors, the Type Check pass binds its `parentLoop`
to the nearest enclosing for-each loop node, whatever other nodes (while-loops
included) lie between the statement and that loop, and the Code Generation
pass, run with that binding, issues exactly one `emitLoopControlFlow`, for
exactly that loop; when it has no for-each loop among its ancestors, be there
while-loops among them or not, the Type Check pass throws, at the statement's
location, the error 'a <keyword> may only be used within a loop or switch',
and the compile of any tree in which the statement occurs fails. -/
theorem ControlFlowStatement_binds_nearest_Loop (env : Env) (scope : BaseScope)
    (i : Nat) (l : Location) (isBreak : Bool) (c : Compiler) (anc : List Statement) :
    (∀ (pre post : List Statement) (L : Statement), anc = pre ++ L :: post →
      (∀ a ∈ pre, a.kind.isLoop = false) → L.kind = Kind.Loop →
      process env Pass.TypeCheck scope anc
          (Statement.node i l (Kind.ControlFlowStatement isBreak) []) c =
        Result.ok
          (((c.log (Event.process i Pass.TypeCheck)).log
            (Event.processBaseWithChildren i)).setParentLoop i (some L.id)) ∧
      ∀ c1 : Compiler, c1.parentLoop i = some L.id →
        process env Pass.CodeGeneration scope anc
            (Statement.node i l (Kind.ControlFlowStatement isBreak) []) c1 =
          Result.ok
            (((c1.log (Event.process i Pass.CodeGeneration)).log
              (Event.processBaseWithChildren i)).log
                (Event.emitLoopControlFlow (some L.id) isBreak))) ∧
    ((∀ a ∈ anc, a.kind.isLoop = false) →
      process env Pass.TypeCheck scope anc
          (Statement.node i l (Kind.ControlFlowStatement isBreak) []) c =
        Result.error
          { message := "a " ++ ControlFlowStatement.getStatementId isBreak ++
              " may only be used within a loop or switch",
            location := l }
          (((c.log (Event.process i Pass.TypeCheck)).log
            (Event.processBaseWithChildren i)).setParentLoop i none) ∧
      ∀ (root : Statement) (rootScope : BaseScope) (c0 : Compiler),
        Occurs (Statement.node i l (Kind.ControlFlowStatement isBreak) []) anc root [] →
        (compile env rootScope root c0).isOk = false) := by
  constructor
  · intro pre post L hanc hpre hL
    subst hanc
    constructor
    · rw [process_eq]
      simp only [Statement.dispatch, Statement.kind, ControlFlowStatement.process,
        Statement.processBaseWithChildren, Statement.childProcessing, Statement.children,
        processAllChildren_nil, Result.bind, Statement.id, if_true, reduceCtorEq, if_false,
        ControlFlowStatement.typeCheck]
      rw [find_isLoop_some _ pre post L (by simp [Statement.kind, Kind.isLoop]) hpre hL]
    · intro c1 h1
      rw [process_eq]
      simp only [Statement.dispatch, Statement.kind, ControlFlowStatement.process,
        Statement.processBaseWithChildren, Statement.childProcessing, Statement.children,
        processAllChildren_nil, Result.bind, Statement.id, if_true, reduceCtorEq, if_false,
        ControlFlowStatement.codeGeneration]
      simp [Compiler.log, h1, Statement.id]
  · intro hno
    have hnode : ∀ sc c1, process env Pass.TypeCheck sc anc
          (Statement.node i l (Kind.ControlFlowStatement isBreak) []) c1 =
        Result.error
          { message := "a " ++ ControlFlowStatement.getStatementId isBreak ++
              " may only be used within a loop or switch",
            location := l }
          (((c1.log (Event.process i Pass.TypeCheck)).log
            (Event.processBaseWithChildren i)).setParentLoop i none) := by
      intro sc c1
      rw [process_ControlFlowStatement_typeCheck]
      unfold ControlFlowStatement.typeCheck
      rw [find_isLoop_none _ anc (by simp [Statement.kind, Kind.isLoop]) hno]
      rfl
    refine ⟨hnode scope c, ?_⟩
    intro root rootScope c0 hocc
    have hfail : ∀ c1, (process env Pass.TypeCheck rootScope [] root c1).isOk = false :=
      fun c1 => process_typeCheck_not_ok_of_occurs env _ anc hno
        (fun sc c2 => by rw [hnode sc c2]; rfl) hocc rootScope c1
    unfold compile
    rw [runPasses]
    cases h : process env Pass.DataAllocation rootScope [] root c0 with
    | ok c1 =>
      simp only [Result.bind]
      rw [runPasses, Result.bind_of_not_ok _ _ (hfail c1)]
      exact hfail c1
    | error e c1 => rfl
    | undefined c1 => rfl

/-- In `for (auto& s : data) { while (n) { break; } }` the `break` is bound to
the for-each loop (node 1), and that loop is the one handed to the emitter; in
`while (n) { break; }`, where the only enclosing loop is a while-loop, the Type
Check pass throws the scope error at the `break` and the compile fails. -/
theorem ControlFlowStatement_binds_nearest_Loop_witness :
    (∀ a ∈ [Sample.block 6 [Sample.breakStatement 7],
          Sample.whileLoop 4 (Sample.reference 5 "n") (Sample.block 6 [Sample.breakStatement 7]),
          Sample.block 3 [Sample.whileLoop 4 (Sample.reference 5 "n")
            (Sample.block 6 [Sample.breakStatement 7])]],
        a.kind.isLoop = false) ∧
    Sample.breakInWhileInLoop.kind = Kind.Loop ∧
    process Env.reference Pass.TypeCheck Sample.functionScope Sample.ancestorsOfBreak
        (Sample.breakStatement 7) Compiler.initial =
      Result.ok
        (((Compiler.initial.log (Event.process 7 Pass.TypeCheck)).log
          (Event.processBaseWithChildren 7)).setParentLoop 7 (some 1)) ∧
    Sample.breakInWhile.kind.isWhileLoop = true ∧
    (∀ a ∈ [Sample.block 3 [Sample.breakStatement 4], Sample.breakInWhile],
      a.kind.isLoop = false) ∧
    process Env.reference Pass.TypeCheck Sample.functionScope
        [Sample.block 3 [Sample.breakStatement 4], Sample.breakInWhile]
        (Sample.breakStatement 4) Compiler.initial =
      Result.error
        { message := "a break may only be used within a loop or switch",
          location := { line := 4, col := 1 } }
        (((Compiler.initial.log (Event.process 4 Pass.TypeCheck)).log
          (Event.processBaseWithChildren 4)).setParentLoop 4 none) ∧
    (compile Env.reference Sample.functionScope Sample.breakInWhile Compiler.initial).isOk =
      false :=
  ⟨by decide, rfl,
   ((ControlFlowStatement_binds_nearest_Loop Env.reference Sample.functionScope 7
      { line := 7, col := 1 } true Compiler.initial Sample.ancestorsOfBreak).1
      [Sample.block 6 [Sample.breakStatement 7],
       Sample.whileLoop 4 (Sample.reference 5 "n") (Sample.block 6 [Sample.breakStatement 7]),
       Sample.block 3 [Sample.whileLoop 4 (Sample.reference 5 "n")
         (Sample.block 6 [Sample.breakStatement 7])]]
      [] Sample.breakInWhileInLoop rfl (by decide) rfl).1,
   rfl, by decide,
   ((ControlFlowStatement_binds_nearest_Loop Env.reference Sample.functionScope 4
      { line := 4, col := 1 } true Compiler.initial
      [Sample.block 3 [Sample.breakStatement 4], Sample.breakInWhile]).2 (by decide)).1,
   ((ControlFlowStatement_binds_nearest_Loop Env.reference Sample.functionScope 4
      { line := 4, col := 1 } true Compiler.initial
      [Sample.block 3 [Sample.breakStatement 4], Sample.breakInWhile]).2 (by decide)).2
      Sample.breakInWhile Sample.functionScope Compiler.initial
      (Occurs.inside Sample.breakInWhile [] (Sample.block 3 [Sample.breakStatement 4])
        (by simp [Sample.breakInWhile, Sample.whileLoop, Statement.children])
        (Occurs.inside (Sample.block 3 [Sample.breakStatement 4]) [Sample.breakInWhile]
          (Sample.breakStatement 4) (by simp [Sample.block, Statement.children])
          Occurs.here))⟩

theorem Statement.id_node (i : Nat) (l : Location) (k : Kind) (cs : List Statement) :
    (Statement.node i l k cs).id = i := rfl

theorem Statement.location_node (i : Nat) (l : Location) (k : Kind) (cs : List Statement) :
    (Statement.node i l k cs).location = l := rfl

theorem Statement.kind_node (i : Nat) (l : Location) (k : Kind) (cs : List Statement) :
    (Statement.node i l k cs).kind = k := rfl

theorem Statement.children_node (i : Nat) (l : Location) (k : Kind) (cs : List Statement) :
    (Statement.node i l k cs).children = cs := rfl

theorem Compiler.setReg_reg_self (c : Compiler) (i : Nat) (r : Option Reg) :
    (c.setReg i r).reg i = r := by
  simp [Compiler.setReg]

theorem Result.bind_ok_right (r : Result) : (r.bind fun c => Result.ok c) = r := by
  cases r <;> rfl

theorem Result.bind_assoc (r : Result) (f g : Compiler → Result) :
    (r.bind f).bind g = r.bind fun c => (f c).bind g := by
  cases r <;> rfl

/-- C8. For every ternary node, `TernaryOp::process` in the Code Generation pass
does not traverse its children: it logs `processBaseWithoutChildren` and one
`emitTernaryOp` call and nothing else, and takes the register that call
returns; in every other pass it traverses all of its children
(`processBaseWithChildren`) before the pass's own block. -/
theorem TernaryOp_codeGeneration_no_traversal (env : Env) (scope : BaseScope)
    (anc : List Statement) (i : Nat) (l : Location) (cs : List Statement) (c : Compiler) :
    process env Pass.CodeGeneration scope anc (Statement.node i l Kind.TernaryOp cs) c =
      Result.ok
        ((((c.log (Event.process i Pass.CodeGeneration)).log
          (Event.processBaseWithoutChildren i)).log (Event.emitTernaryOp i)).setReg i
            (env.emitTernaryOp (Statement.node i l Kind.TernaryOp cs)
              ((c.log (Event.process i Pass.CodeGeneration)).log
                (Event.processBaseWithoutChildren i)))) ∧
    (process env Pass.CodeGeneration scope anc (Statement.node i l Kind.TernaryOp cs) c).state.trace =
      c.trace ++ [Event.process i Pass.CodeGeneration, Event.processBaseWithoutChildren i,
        Event.emitTernaryOp i] ∧
    ∀ pass : Pass, pass ≠ Pass.CodeGeneration →
      process env pass scope anc (Statement.node i l Kind.TernaryOp cs) c =
        (processAllChildren env pass scope (Statement.node i l Kind.TernaryOp cs :: anc) cs
          ((c.log (Event.process i pass)).log (Event.processBaseWithChildren i))).bind
          fun c1 =>
            if pass = Pass.TypeCheck then
              TernaryOp.typeCheck env (Statement.node i l Kind.TernaryOp cs) c1
            else Result.ok c1 := by
  have h1 : process env Pass.CodeGeneration scope anc (Statement.node i l Kind.TernaryOp cs) c =
      Result.ok
        ((((c.log (Event.process i Pass.CodeGeneration)).log
          (Event.processBaseWithoutChildren i)).log (Event.emitTernaryOp i)).setReg i
            (env.emitTernaryOp (Statement.node i l Kind.TernaryOp cs)
              ((c.log (Event.process i Pass.CodeGeneration)).log
                (Event.processBaseWithoutChildren i)))) := by
    rw [process_eq]
    simp [Statement.dispatch, Statement.kind, TernaryOp.process,
      Statement.processBaseWithoutChildren, Result.bind, TernaryOp.codeGeneration, Statement.id]
  refine ⟨h1, ?_, ?_⟩
  · rw [h1]
    simp [Result.state, Compiler.setReg, Compiler.log]
  · intro pass hpass
    rw [process_eq]
    simp only [Statement.dispatch, Statement.kind, TernaryOp.process, hpass, if_false,
      Statement.processBaseWithChildren, Statement.childProcessing, Statement.children,
      Statement.id]
    congr 1
    funext c1
    exact Result.bind_ok_right _

/-- The expression `n ? 1 : 2`: Code Generation logs no processing of a child
and one `emitTernaryOp`, Type Check processes the three children. -/
theorem TernaryOp_codeGeneration_no_traversal_witness :
    Pass.TypeCheck ≠ Pass.CodeGeneration ∧
    (process Env.reference Pass.CodeGeneration Sample.functionScope [] Sample.ternary
      Compiler.initial).state.trace =
      [Event.process 1 Pass.CodeGeneration, Event.processBaseWithoutChildren 1,
       Event.emitTernaryOp 1] ∧
    (process Env.reference Pass.TypeCheck Sample.functionScope [] Sample.ternary
      Compiler.initial).state.trace =
      [Event.process 1 Pass.TypeCheck, Event.processBaseWithChildren 1,
       Event.process 2 Pass.TypeCheck, Event.processBaseWithChildren 2,
       Event.process 3 Pass.TypeCheck, Event.processBaseWithChildren 3,
       Event.process 4 Pass.TypeCheck, Event.processBaseWithChildren 4,
       Event.checkAndSetType 1 1 (TypeInfo.native TypeID.Dynamic false false)] :=
  ⟨by decide,
   (TernaryOp_codeGeneration_no_traversal Env.reference Sample.functionScope [] 1
      { line := 1, col := 1 } [Sample.reference 2 "n", Sample.literal 3 1, Sample.literal 4 2]
      Compiler.initial).2.1,
   (congrArg (fun r => r.state.trace)
      ((TernaryOp_codeGeneration_no_traversal Env.reference Sample.functionScope [] 1
        { line := 1, col := 1 } [Sample.reference 2 "n", Sample.literal 3 1, Sample.literal 4 2]
        Compiler.initial).2.2 Pass.TypeCheck (by decide))).trans (by decide)⟩

theorem process_ReturnStatement (env : Env) (pass : Pass) (scope : BaseScope)
    (anc : List Statement) (i : Nat) (l : Location) (cs : List Statement) (c : Compiler) :
    process env pass scope anc (Statement.node i l Kind.ReturnStatement cs) c =
      (processAllChildren env pass scope (Statement.node i l Kind.ReturnStatement cs :: anc) cs
        ((c.log (Event.process i pass)).log (Event.processBaseWithChildren i))).bind fun c1 =>
      (if pass = Pass.TypeCheck then
        ReturnStatement.typeCheck env (Statement.node i l Kind.ReturnStatement cs) scope c1
       else Result.ok c1).bind fun c2 =>
      if pass = Pass.CodeGeneration then
        ReturnStatement.codeGeneration env (Statement.node i l Kind.ReturnStatement cs) anc c2
      else Result.ok c2 := by
  rw [process_eq]
  rfl

/-- C9. For every return statement inside a function scope, the Type Check block
of `ReturnStatement::process` throws 'Can't return a value from a void
function.' when the statement is void and the returned expression's type is
not, throws 'function must return a value' when the statement is not void and
the expression is absent or void, and in the remaining case, where both agree,
throws neither and goes on to `checkAndSetType`; an absent expression counts
as void.  In the Type Check pass `process` is the traversal of the children
followed by this block. -/
theorem ReturnStatement_typeCheck_void_mismatch (env : Env) (scope fScope : BaseScope)
    (anc : List Statement) (i : Nat) (l : Location) (cs : List Statement) (c : Compiler)
    (hscope : findFunctionScope scope = some fScope) :
    (∀ c1 : Compiler,
      (ReturnStatement.isVoid (Statement.node i l Kind.ReturnStatement cs) c1 = true ∧
          (ReturnStatement.actualType (Statement.node i l Kind.ReturnStatement cs) c1).getType ≠
            TypeID.Void →
        ReturnStatement.typeCheck env (Statement.node i l Kind.ReturnStatement cs) scope c1 =
          Result.error
            { message := "Can't return a value from a void function.", location := l } c1) ∧
      (ReturnStatement.isVoid (Statement.node i l Kind.ReturnStatement cs) c1 = false ∧
          (ReturnStatement.actualType (Statement.node i l Kind.ReturnStatement cs) c1).getType =
            TypeID.Void →
        ReturnStatement.typeCheck env (Statement.node i l Kind.ReturnStatement cs) scope c1 =
          Result.error { message := "function must return a value", location := l } c1) ∧
      ((ReturnStatement.isVoid (Statement.node i l Kind.ReturnStatement cs) c1 = true ↔
          (ReturnStatement.actualType (Statement.node i l Kind.ReturnStatement cs) c1).getType =
            TypeID.Void) →
        ReturnStatement.typeCheck env (Statement.node i l Kind.ReturnStatement cs) scope c1 =
          ReturnStatement.checkType env (Statement.node i l Kind.ReturnStatement cs) c1) ∧
      (cs = [] →
        (ReturnStatement.actualType (Statement.node i l Kind.ReturnStatement cs) c1).getType =
          TypeID.Void)) ∧
    process env Pass.TypeCheck scope anc (Statement.node i l Kind.ReturnStatement cs) c =
      (processAllChildren env Pass.TypeCheck scope
        (Statement.node i l Kind.ReturnStatement cs :: anc) cs
        ((c.log (Event.process i Pass.TypeCheck)).log (Event.processBaseWithChildren i))).bind
        (ReturnStatement.typeCheck env (Statement.node i l Kind.ReturnStatement cs) scope) := by
  constructor
  · intro c1
    refine ⟨?_, ?_, ?_, ?_⟩
    · rintro ⟨hv, ha⟩
      simp [ReturnStatement.typeCheck, hscope, hv, ha, Location.throwError, Statement.location]
    · rintro ⟨hv, ha⟩
      simp [ReturnStatement.typeCheck, hscope, hv, ha, Location.throwError, Statement.location]
    · intro hiff
      cases hv : ReturnStatement.isVoid (Statement.node i l Kind.ReturnStatement cs) c1 with
      | true =>
        have ha := hiff.1 hv
        simp [ReturnStatement.typeCheck, hscope, hv, ha]
      | false =>
        have ha : (ReturnStatement.actualType (Statement.node i l Kind.ReturnStatement cs)
            c1).getType ≠ TypeID.Void := fun h => by
          have := hiff.2 h; rw [hv] at this; exact Bool.noConfusion this
        simp [ReturnStatement.typeCheck, hscope, hv, ha]
    · intro hcs
      subst hcs
      rfl
  · rw [process_ReturnStatement]
    congr 1
    funext c1
    simp only [if_true, reduceCtorEq, if_false]
    exact Result.bind_ok_right _

/-- The statement `return 1;` of a void function: the Type Check block throws
'Can't return a value from a void function.'. -/
theorem ReturnStatement_typeCheck_void_mismatch_witness :
    findFunctionScope Sample.functionScope = some Sample.functionScope ∧
    ReturnStatement.typeCheck Env.reference (Sample.returnStatement 2 [Sample.literal 3 1])
        Sample.functionScope
        ((Compiler.initial.setTypeOf 2 (TypeInfo.native TypeID.Void false false)).setTypeOf 3
          (TypeInfo.native TypeID.Integer false false)) =
      Result.error
        { message := "Can't return a value from a void function.",
          location := { line := 2, col := 1 } }
        ((Compiler.initial.setTypeOf 2 (TypeInfo.native TypeID.Void false false)).setTypeOf 3
          (TypeInfo.native TypeID.Integer false false)) :=
  ⟨rfl,
   ((ReturnStatement_typeCheck_void_mismatch Env.reference Sample.functionScope
      Sample.functionScope [] 2 { line := 2, col := 1 } [Sample.literal 3 1] Compiler.initial
      rfl).1
      ((Compiler.initial.setTypeOf 2 (TypeInfo.native TypeID.Void false false)).setTypeOf 3
        (TypeInfo.native TypeID.Integer false false))).1 ⟨by decide, by decide⟩⟩

/-- C10, as stated, fails.  In `{ return 1; }`, where `findRoot()` finds no
statement list with a return type, the root is not an inlined block, yet the
Code Generation pass calls `emitReturn` not once but never: the compile throws
'Can't find return register' at the return statement. -/
theorem ReturnStatement_codeGeneration_guard :
    ReturnStatement.findInlinedRoot Env.reference (Sample.returnStatement 2 [Sample.literal 3 1])
      [Sample.returnWithoutRoot] = none ∧
    (compile Env.reference Sample.functionScope Sample.returnWithoutRoot Compiler.initial).thrown =
      some { message := "Can't find return register", location := { line := 2, col := 1 } } ∧
    (∀ target source, Event.emitReturn target source ∉
      (compile Env.reference Sample.functionScope Sample.returnWithoutRoot
        Compiler.initial).state.trace) := by
  refine ⟨rfl, by decide, ?_⟩
  intro target source h
  revert h
  have htrace : (compile Env.reference Sample.functionScope Sample.returnWithoutRoot
        Compiler.initial).state.trace =
      [Event.process 1 Pass.DataAllocation, Event.processBaseWithChildren 1,
       Event.process 2 Pass.DataAllocation, Event.processBaseWithChildren 2,
       Event.process 3 Pass.DataAllocation, Event.processBaseWithChildren 3,
       Event.process 1 Pass.TypeCheck, Event.processBaseWithChildren 1,
       Event.process 2 Pass.TypeCheck, Event.processBaseWithChildren 2,
       Event.process 3 Pass.TypeCheck, Event.processBaseWithChildren 3,
       Event.checkAndSetType 2 0 (TypeInfo.native TypeID.Dynamic false false),
       Event.process 1 Pass.RegisterAllocation, Event.processBaseWithChildren 1,
       Event.process 2 Pass.RegisterAllocation, Event.processBaseWithChildren 2,
       Event.process 3 Pass.RegisterAllocation, Event.processBaseWithChildren 3,
       Event.process 1 Pass.CodeGeneration, Event.processBaseWithChildren 1,
       Event.process 2 Pass.CodeGeneration, Event.processBaseWithChildren 2,
       Event.process 3 Pass.CodeGeneration, Event.processBaseWithChildren 3] := by decide
  rw [htrace]
  simp

/-- C10, amended.  For every return statement, the Code Generation block of
`ReturnStatement::process` does the following.  If the root is an inlined
statement block, `emitReturn` is never called: a void return only flushes the
dirty globals; a non-void return makes the register of sub-expression 0 both
the statement's register and the inlined block's register and then flushes
the dirty globals, unless that register is missing, in which case it throws
'Can't find return register'.  Otherwise a void return calls `emitReturn` once
with the statement's own register as target and no source; a non-void return
binds the statement's register to the return register of the root and calls
`emitReturn` once with it as target and the register of sub-expression 0 as
source, unless no return register is found (the root has none, or there is no
root and the statement has no register), in which case it throws 'Can't find
return register'.  In the Code Generation pass `process` is the traversal of
the children followed by this block. -/
theorem ReturnStatement_codeGeneration_cases (env : Env) (anc : List Statement) (i : Nat)
    (l : Location) (cs : List Statement) (c : Compiler) :
    (∀ sb : Statement,
      ReturnStatement.findInlinedRoot env (Statement.node i l Kind.ReturnStatement cs) anc = some sb →
      (ReturnStatement.isVoid (Statement.node i l Kind.ReturnStatement cs) c = true →
        ReturnStatement.codeGeneration env (Statement.node i l Kind.ReturnStatement cs) anc c =
          Result.ok (c.log Event.writeDirtyGlobals)) ∧
      (ReturnStatement.isVoid (Statement.node i l Kind.ReturnStatement cs) c = false →
        (∀ r : Reg, c.getSubRegister (Statement.node i l Kind.ReturnStatement cs) 0 = some r →
          ReturnStatement.codeGeneration env (Statement.node i l Kind.ReturnStatement cs) anc c =
            Result.ok
              (((c.setReg i (some r)).setReg sb.id (some r)).log Event.writeDirtyGlobals)) ∧
        (c.getSubRegister (Statement.node i l Kind.ReturnStatement cs) 0 = none →
          ReturnStatement.codeGeneration env (Statement.node i l Kind.ReturnStatement cs) anc c =
            Result.error { message := "Can't find return register", location := l }
              ((c.setReg i none).setReg sb.id none)))) ∧
    (ReturnStatement.findInlinedRoot env (Statement.node i l Kind.ReturnStatement cs) anc = none →
      (ReturnStatement.isVoid (Statement.node i l Kind.ReturnStatement cs) c = true →
        ReturnStatement.codeGeneration env (Statement.node i l Kind.ReturnStatement cs) anc c =
          Result.ok (c.log (Event.emitReturn (c.reg i) none))) ∧
      (ReturnStatement.isVoid (Statement.node i l Kind.ReturnStatement cs) c = false →
        ∀ sl : Statement,
          env.findRoot (Statement.node i l Kind.ReturnStatement cs) anc = some sl →
          (∀ r : Reg, c.returnRegister sl.id = some r →
            ReturnStatement.codeGeneration env (Statement.node i l Kind.ReturnStatement cs) anc c =
              Result.ok
                ((c.setReg i (some r)).log
                  (Event.emitReturn (some r)
                    ((c.setReg i (some r)).getSubRegister
                      (Statement.node i l Kind.ReturnStatement cs) 0)))) ∧
          (c.returnRegister sl.id = none →
            ReturnStatement.codeGeneration env (Statement.node i l Kind.ReturnStatement cs) anc c =
              Result.error { message := "Can't find return register", location := l }
                (c.setReg i none))) ∧
      (ReturnStatement.isVoid (Statement.node i l Kind.ReturnStatement cs) c = false →
        env.findRoot (Statement.node i l Kind.ReturnStatement cs) anc = none →
        c.reg i = none →
        ReturnStatement.codeGeneration env (Statement.node i l Kind.ReturnStatement cs) anc c =
          Result.error { message := "Can't find return register", location := l } c)) ∧
    ∀ scope : BaseScope,
      process env Pass.CodeGeneration scope anc (Statement.node i l Kind.ReturnStatement cs) c =
        (processAllChildren env Pass.CodeGeneration scope
          (Statement.node i l Kind.ReturnStatement cs :: anc) cs
          ((c.log (Event.process i Pass.CodeGeneration)).log
            (Event.processBaseWithChildren i))).bind
          (ReturnStatement.codeGeneration env (Statement.node i l Kind.ReturnStatement cs) anc) := by
  refine ⟨?_, ?_, ?_⟩
  · intro sb hsb
    refine ⟨?_, ?_⟩
    · intro hv
      simp [ReturnStatement.codeGeneration, ReturnStatement.bindRegister, hv, hsb, Result.bind]
    · intro hv
      refine ⟨?_, ?_⟩
      · intro r hr
        simp [ReturnStatement.codeGeneration, ReturnStatement.bindRegister, hv, hsb, Result.bind,
          hr, Compiler.setReg, Statement.id_node]
      · intro hr
        simp [ReturnStatement.codeGeneration, ReturnStatement.bindRegister, hv, hsb, Result.bind,
          hr, Compiler.setReg, Statement.id_node, Location.throwError, Statement.location_node]
  · intro hnone
    refine ⟨?_, ?_, ?_⟩
    rotate_left 2
    · intro hv hroot hreg
      simp [ReturnStatement.codeGeneration, ReturnStatement.bindRegister, hv, hnone, hroot,
        Result.bind, hreg, Statement.id_node, Location.throwError, Statement.location_node]
    · intro hv
      simp [ReturnStatement.codeGeneration, ReturnStatement.bindRegister, hv, hnone, Result.bind,
        Statement.id_node]
    · intro hv sl hsl
      have hv2 : ∀ r, ReturnStatement.isVoid (Statement.node i l Kind.ReturnStatement cs)
          (c.setReg i r) = false := fun r => hv
      refine ⟨?_, ?_⟩
      · intro r hr
        simp [ReturnStatement.codeGeneration, ReturnStatement.bindRegister, hv, hnone, hsl,
          Result.bind, hr, Statement.id_node, hv2, Compiler.setReg_reg_self]
      · intro hr
        simp [ReturnStatement.codeGeneration, ReturnStatement.bindRegister, hv, hnone, hsl,
          Result.bind, hr, Compiler.setReg, Statement.id_node, Location.throwError,
          Statement.location_node]
  · intro scope
    rw [process_eq]
    simp only [Statement.dispatch, Statement.kind, ReturnStatement.process,
      Statement.processBaseWithChildren, Statement.childProcessing, Statement.children,
      Statement.id, reduceCtorEq, if_false, if_true]
    congr 1

/-- The body `{ return 1; }` of a function whose return register is register 0:
`emitReturn` is called once, with register 0 as target. -/
theorem ReturnStatement_codeGeneration_cases_witness :
    ReturnStatement.findInlinedRoot Env.reference (Sample.returnStatement 2 [Sample.literal 3 1])
      [Sample.returnInFunction] = none ∧
    ReturnStatement.isVoid (Sample.returnStatement 2 [Sample.literal 3 1])
      (Compiler.initial.setReturnRegister 1 (some 0)) = false ∧
    Env.reference.findRoot (Sample.returnStatement 2 [Sample.literal 3 1])
      [Sample.returnInFunction] = some Sample.returnInFunction ∧
    (Compiler.initial.setReturnRegister 1 (some 0)).returnRegister Sample.returnInFunction.id =
      some 0 ∧
    ReturnStatement.codeGeneration Env.reference (Sample.returnStatement 2 [Sample.literal 3 1])
        [Sample.returnInFunction] (Compiler.initial.setReturnRegister 1 (some 0)) =
      Result.ok
        (((Compiler.initial.setReturnRegister 1 (some 0)).setReg 2 (some 0)).log
          (Event.emitReturn (some 0)
            (((Compiler.initial.setReturnRegister 1 (some 0)).setReg 2 (some 0)).getSubRegister
              (Sample.returnStatement 2 [Sample.literal 3 1]) 0))) :=
  ⟨rfl, rfl, rfl, rfl,
   (((ReturnStatement_codeGeneration_cases Env.reference [Sample.returnInFunction] 2
      { line := 2, col := 1 } [Sample.literal 3 1]
      (Compiler.initial.setReturnRegister 1 (some 0))).2.1 rfl).2.1 rfl
      Sample.returnInFunction rfl).1 0 rfl⟩

/-- C6, the code at the failing input.  The loop `for (int x : data)` over
`span<float, 4> data`: the declared iterator type `int` is not equal to the
element type `float`, yet the Data Allocation pass completes without an
'iterator type mismatch' error, and the iterator has become a `float`:
`Loop::tryToResolveType` has replaced the declared type by the element type
before the span check of `Loop::process` compares the two. -/
theorem Loop_declared_iterator_type_overwritten :
    Env.reference.typeEq (TypeInfo.native TypeID.Integer false false)
      (TypeInfo.native TypeID.Float false false) = false ∧
    Env.reference.tryToResolveType (Sample.dataReference 2)
      (Sample.loopState (TypeInfo.native TypeID.Integer false false)) = Sample.floatSpan ∧
    (process Env.reference Pass.DataAllocation Sample.functionScope [] Sample.loopOverData
      (Sample.loopState (TypeInfo.native TypeID.Integer false false))).isOk = true ∧
    (process Env.reference Pass.DataAllocation Sample.functionScope [] Sample.loopOverData
      (Sample.loopState (TypeInfo.native TypeID.Integer false false))).state.iterator 1 =
      { id := ["f", "x"], typeInfo := TypeInfo.native TypeID.Float false false } ∧
    (process Env.reference Pass.DataAllocation Sample.functionScope [] Sample.loopOverData
      (Sample.loopState (TypeInfo.native TypeID.Integer false false))).state.loopTargetType 1 =
      LoopTargetType.Span := by
  refine ⟨by decide, by decide, by decide, by decide, by decide⟩

/-- The first step of the Data Allocation pass of a for-each loop whose target
resolves to a span: whatever the iterator was declared as, its type becomes the
element type with the iterator's own modifiers, and the element type is
registered for it. -/
theorem Loop_tryToResolveType_span (env : Env) (i : Nat) (l : Location) (target : Statement)
    (rest : List Statement) (E : TypeInfo) (c : Compiler)
    (hT : (env.tryToResolveType target c).getTypedIfSpanType = some E)
    (hreg : env.setTypeInfo (c.iterator i).id E = none) :
    ∃ c1 : Compiler,
      Loop.tryToResolveType env (Statement.node i l Kind.Loop (target :: rest)) c = Result.ok c1 ∧
      c1.iterator i =
        { id := (c.iterator i).id,
          typeInfo := E.withModifiers (c.iterator i).isConst (c.iterator i).isReference } := by
  have h0 : (Statement.node i l Kind.Loop (target :: rest)).getSubExpr 0 = some target := rfl
  cases hTT : env.tryToResolveType target c with
  | SpanType e n d cc r =>
    rw [hTT] at hT
    simp only [TypeInfo.getTypedIfSpanType, Option.some.injEq] at hT
    subst hT
    have hit : ((c.log (Event.tryToResolveType target.id)).setTypeOf target.id
          (TypeInfo.SpanType e n d cc r)).iterator i = c.iterator i := rfl
    simp only [Loop.tryToResolveType, h0, hTT, Loop.resolveFromArray,
      TypeInfo.getTypedIfArrayTypeBase, Compiler.setTypeInfo, Statement.id_node, hit, hreg,
      Result.bind, Loop.resolveFromFrameProcessor]
    refine ⟨_, rfl, ?_⟩
    simp [Compiler.setTypeOf, Compiler.log, Compiler.setIterator, Compiler.registerType]
  | native t cc r => rw [hTT] at hT; simp [TypeInfo.getTypedIfSpanType] at hT
  | DynType e d cc r => rw [hTT] at hT; simp [TypeInfo.getTypedIfSpanType] at hT
  | StructType a b1 b2 b3 d cc r => rw [hTT] at hT; simp [TypeInfo.getTypedIfSpanType] at hT
  | otherComplex nm d cc r => rw [hTT] at hT; simp [TypeInfo.getTypedIfSpanType] at hT

theorem TypeInfo.getType_withModifiers (t : TypeInfo) (c r : Bool) :
    (t.withModifiers c r).getType = t.getType := by
  cases t <;> rfl

/-- The span check of the Data Allocation block of `Loop::process`, for an
iterator whose type is set and equal to the element type. -/
theorem Loop_resolveLoopTarget_span (env : Env) (i : Nat) (l : Location) (cs : List Statement)
    (target : Statement) (E : TypeInfo) (c : Compiler)
    (hspan : (c.typeInfo target.id).getTypedIfSpanType = some E)
    (hnd : (c.iterator i).typeInfo.isDynamic = false)
    (heq : env.typeEq (c.iterator i).typeInfo E = true)
    (hreg : env.setTypeInfo (c.iterator i).id (c.iterator i).typeInfo = none) :
    ∃ c1 : Compiler,
      Loop.resolveLoopTarget env (Statement.node i l Kind.Loop cs) target c = Result.ok c1 ∧
      c1.iterator i = c.iterator i ∧ c1.loopTargetType i = LoopTargetType.Span ∧
      c1.namespaceHandler (c.iterator i).id = some (c.iterator i).typeInfo := by
  have hit : (c.setLoopTargetType i LoopTargetType.Span).iterator i = c.iterator i := rfl
  simp only [Loop.resolveLoopTarget, hspan, Statement.id_node, hnd, heq, Bool.not_true,
    Bool.false_eq_true, if_false, Result.bind, Compiler.setTypeInfo, hit, hreg]
  refine ⟨_, rfl, ?_, ?_, ?_⟩
  · rfl
  · simp [Compiler.registerType, Compiler.log, Compiler.setLoopTargetType]
  · simp [Compiler.registerType, Compiler.log, Compiler.setLoopTargetType]

/-- `Loop::evaluateIteratorLoad` changes nothing but the flag `loadIterator`. -/
theorem Loop_evaluateIteratorLoad_frame (env : Env) (self : Statement) (anc : List Statement)
    (c : Compiler) :
    (Loop.evaluateIteratorLoad env self anc c).state.iterator = c.iterator ∧
    (Loop.evaluateIteratorLoad env self anc c).state.loopTargetType = c.loopTargetType ∧
    (Loop.evaluateIteratorLoad env self anc c).state.namespaceHandler = c.namespaceHandler := by
  unfold Loop.evaluateIteratorLoad
  split
  · exact ⟨rfl, rfl, rfl⟩
  · split
    · exact ⟨rfl, rfl, rfl⟩
    · split
      · exact ⟨rfl, rfl, rfl⟩
      · split
        · exact ⟨rfl, rfl, rfl⟩
        · split
          · split <;> exact ⟨rfl, rfl, rfl⟩
          · exact ⟨rfl, rfl, rfl⟩

/-- C11. For every statement s, `StatementBlock::isRealStatement` returns false
exactly when s is an inlined-argument placeholder, a no-op, a return statement
whose type is void, or a variable reference, and it returns true exactly for
every other statement, a return statement of non-void type included. -/
theorem StatementBlock_isRealStatement_classification (s : Statement) (c : Compiler) :
    (StatementBlock.isRealStatement s c = false ↔
      ((∃ a, s.kind = Kind.InlinedArgument a) ∨ s.kind = Kind.Noop ∨
        (s.kind = Kind.ReturnStatement ∧ (c.typeInfo s.id).getType = TypeID.Void) ∨
        (∃ id, s.kind = Kind.VariableReference id))) ∧
    (StatementBlock.isRealStatement s c = true ↔
      ((∀ a, s.kind ≠ Kind.InlinedArgument a) ∧ s.kind ≠ Kind.Noop ∧
        (s.kind = Kind.ReturnStatement → (c.typeInfo s.id).getType ≠ TypeID.Void) ∧
        (∀ id, s.kind ≠ Kind.VariableReference id))) := by
  unfold StatementBlock.isRealStatement
  cases hk : s.kind <;> simp

/-- What `process` does on an if-statement in the Type Check pass: no automatic
traversal, then all children are processed, then, in the Type Check block, all
children are processed once more and the condition's type is checked. -/
theorem process_IfStatement_typeCheck (env : Env) (scope : BaseScope) (anc : List Statement)
    (i : Nat) (l : Location) (cs : List Statement) (c : Compiler) :
    process env Pass.TypeCheck scope anc (Statement.node i l Kind.IfStatement cs) c =
      (processAllChildren env Pass.TypeCheck scope (Statement.node i l Kind.IfStatement cs :: anc) cs
        ((c.log (Event.process i Pass.TypeCheck)).log (Event.processBaseWithoutChildren i))).bind
        fun c2 =>
          (processAllChildren env Pass.TypeCheck scope
            (Statement.node i l Kind.IfStatement cs :: anc) cs c2).bind
            (IfStatement.checkCondition (Statement.node i l Kind.IfStatement cs)) := by
  rw [process_eq]
  simp only [Statement.dispatch, Statement.kind_node, IfStatement.process,
    Statement.processBaseWithoutChildren, Result.bind, Statement.id_node, ne_eq,
    reduceCtorEq, not_false_eq_true, if_true, if_false, Statement.childProcessing,
    Statement.children_node]
  cases processAllChildren env Pass.TypeCheck scope (Statement.node i l Kind.IfStatement cs :: anc)
      cs ((c.log (Event.process i Pass.TypeCheck)).log (Event.processBaseWithoutChildren i)) with
  | ok c2 =>
    simp only
    cases processAllChildren env Pass.TypeCheck scope
        (Statement.node i l Kind.IfStatement cs :: anc) cs c2 with
    | ok c3 =>
      simp only
      cases IfStatement.checkCondition (Statement.node i l Kind.IfStatement cs) c3 <;> rfl
    | error e c3 => rfl
    | undefined c3 => rfl
  | error e c2 => rfl
  | undefined c2 => rfl

/-- The check of the condition's type, for an if-statement with a condition. -/
theorem IfStatement_checkCondition_eq (i : Nat) (l : Location) (cond : Statement)
    (rest : List Statement) (c : Compiler) :
    IfStatement.checkCondition (Statement.node i l Kind.IfStatement (cond :: rest)) c =
      if (c.typeInfo cond.id).getType ≠ TypeID.Integer then
        Result.error { message := "Condition must be boolean expression", location := l } c
      else Result.ok c := rfl

/-- C12. For every if-statement with a condition (child 0), the check at the end
of the Type Check block of `IfStatement::process` throws 'Condition must be
boolean expression', at the statement's location, if and only if the type the
condition has then is not Integer, and it returns normally if and only if that
type is Integer.  In the Type Check pass `process` is the processing of the
children (twice) followed by this check: when the children are processed
without an error and leave the state `c3`, the pass on the if-statement fails
with that error if and only if the condition's type in `c3` is not Integer. -/
theorem IfStatement_typeCheck_condition_type (env : Env) (scope : BaseScope)
    (anc : List Statement) (i : Nat) (l : Location) (cond : Statement) (rest : List Statement)
    (c c3 : Compiler)
    (hchildren :
      (processAllChildren env Pass.TypeCheck scope
        (Statement.node i l Kind.IfStatement (cond :: rest) :: anc) (cond :: rest)
        ((c.log (Event.process i Pass.TypeCheck)).log (Event.processBaseWithoutChildren i))).bind
        (processAllChildren env Pass.TypeCheck scope
          (Statement.node i l Kind.IfStatement (cond :: rest) :: anc) (cond :: rest)) =
        Result.ok c3) :
    (∀ c1 : Compiler,
      ((IfStatement.checkCondition (Statement.node i l Kind.IfStatement (cond :: rest)) c1).thrown =
          some { message := "Condition must be boolean expression", location := l } ↔
        (c1.typeInfo cond.id).getType ≠ TypeID.Integer) ∧
      ((IfStatement.checkCondition (Statement.node i l Kind.IfStatement (cond :: rest)) c1).isOk =
          true ↔
        (c1.typeInfo cond.id).getType = TypeID.Integer)) ∧
    process env Pass.TypeCheck scope anc (Statement.node i l Kind.IfStatement (cond :: rest)) c =
      IfStatement.checkCondition (Statement.node i l Kind.IfStatement (cond :: rest)) c3 ∧
    ((process env Pass.TypeCheck scope anc
        (Statement.node i l Kind.IfStatement (cond :: rest)) c).thrown =
        some { message := "Condition must be boolean expression", location := l } ↔
      (c3.typeInfo cond.id).getType ≠ TypeID.Integer) := by
  have hblock : ∀ c1 : Compiler,
      ((IfStatement.checkCondition (Statement.node i l Kind.IfStatement (cond :: rest)) c1).thrown =
          some { message := "Condition must be boolean expression", location := l } ↔
        (c1.typeInfo cond.id).getType ≠ TypeID.Integer) ∧
      ((IfStatement.checkCondition (Statement.node i l Kind.IfStatement (cond :: rest)) c1).isOk =
          true ↔
        (c1.typeInfo cond.id).getType = TypeID.Integer) := by
    intro c1
    rw [IfStatement_checkCondition_eq]
    by_cases h : (c1.typeInfo cond.id).getType = TypeID.Integer
    · simp [h, Result.thrown, Result.isOk]
    · simp [h, Result.thrown, Result.isOk]
  have hproc : process env Pass.TypeCheck scope anc
        (Statement.node i l Kind.IfStatement (cond :: rest)) c =
      IfStatement.checkCondition (Statement.node i l Kind.IfStatement (cond :: rest)) c3 := by
    rw [process_IfStatement_typeCheck, ← Result.bind_assoc, hchildren]
    rfl
  exact ⟨hblock, hproc, by rw [hproc]; exact (hblock c3).1⟩

/-- The statement `if (gain) { }` with a float `gain`: the children are
processed without an error, and the Type Check pass throws 'Condition must be
boolean expression' at the if-statement. -/
theorem IfStatement_typeCheck_condition_type_witness :
    (processAllChildren Env.reference Pass.TypeCheck Sample.functionScope [Sample.ifOnFloat]
        [Sample.floatReference 2 "gain", Sample.block 3 []]
        ((Compiler.initial.log (Event.process 1 Pass.TypeCheck)).log
          (Event.processBaseWithoutChildren 1))).bind
        (processAllChildren Env.reference Pass.TypeCheck Sample.functionScope [Sample.ifOnFloat]
          [Sample.floatReference 2 "gain", Sample.block 3 []]) =
      Result.ok (process Env.reference Pass.TypeCheck Sample.functionScope [] Sample.ifOnFloat
        Compiler.initial).state ∧
    (process Env.reference Pass.TypeCheck Sample.functionScope [] Sample.ifOnFloat
      Compiler.initial).thrown =
      some { message := "Condition must be boolean expression",
             location := { line := 1, col := 1 } } :=
  ⟨rfl,
   (IfStatement_typeCheck_condition_type Env.reference Sample.functionScope [] 1
      { line := 1, col := 1 } (Sample.floatReference 2 "gain") [Sample.block 3 []]
      Compiler.initial
      (process Env.reference Pass.TypeCheck Sample.functionScope [] Sample.ifOnFloat
        Compiler.initial).state rfl).2.2.2 (by decide)⟩

/-- In the Type Check pass a for-each loop with at most two children processes
each of them, so it fails when one of them always fails. -/
theorem process_Loop_typeCheck_not_ok_of_child (env : Env) (scope : BaseScope)
    (anc : List Statement) (i : Nat) (l : Location) (cs : List Statement) (x : Statement)
    (c : Compiler) (hx : x ∈ cs) (hwf : cs.length ≤ 2)
    (hfail : ∀ sc c1,
      (process env Pass.TypeCheck sc (Statement.node i l Kind.Loop cs :: anc) x c1).isOk = false) :
    (process env Pass.TypeCheck scope anc (Statement.node i l Kind.Loop cs) c).isOk = false := by
  rw [process_eq]
  simp only [Statement.dispatch, Statement.kind_node, Loop.process,
    Statement.processBaseWithoutChildren, Result.bind, ne_eq, reduceCtorEq, not_false_eq_true,
    and_self, if_true, if_false, Loop.processTargetAndLoopBlock, Statement.childProcessing,
    Statement.getSubExpr, Statement.children_node]
  match cs, hx, hwf with
  | [a], hx, _ =>
    have hxa : x = a := by simpa using hx
    subst hxa
    simp only [List.get?, Option.map]
    cases h : process env Pass.TypeCheck scope (Statement.node i l Kind.Loop [x] :: anc) x
        ((c.log (Event.process (Statement.node i l Kind.Loop [x]).id Pass.TypeCheck)).log
          (Event.processBaseWithoutChildren (Statement.node i l Kind.Loop [x]).id)) with
    | ok c1 => rfl
    | error e c1 => rfl
    | undefined c1 => rfl
  | [a, b], hx, _ =>
    simp only [List.get?, Option.map]
    cases h : process env Pass.TypeCheck scope (Statement.node i l Kind.Loop [a, b] :: anc) a
        ((c.log (Event.process (Statement.node i l Kind.Loop [a, b]).id Pass.TypeCheck)).log
          (Event.processBaseWithoutChildren (Statement.node i l Kind.Loop [a, b]).id)) with
    | ok c1 =>
      simp only
      rcases List.mem_cons.1 hx with rfl | hb
      · have := hfail scope ((c.log (Event.process (Statement.node i l Kind.Loop [x, b]).id
            Pass.TypeCheck)).log
          (Event.processBaseWithoutChildren (Statement.node i l Kind.Loop [x, b]).id))
        rw [h] at this
        exact absurd this (by simp [Result.isOk])
      · have hxb : x = b := by simpa using hb
        subst hxb
        have := hfail scope c1
        cases h2 : process env Pass.TypeCheck scope (Statement.node i l Kind.Loop [a, x] :: anc)
            x c1 with
        | ok c2 => rw [h2] at this; exact absurd this (by simp [Result.isOk])
        | error e c2 => rfl
        | undefined c2 => rfl
    | error e c1 => rfl
    | undefined c1 => rfl

theorem process_typeCheck_not_ok_of_mem (env : Env) (scope : BaseScope) (anc : List Statement)
    (s x : Statement) (c : Compiler) (hx : x ∈ s.children)
    (hwf : s.kind = Kind.Loop → s.children.length ≤ 2)
    (hfail : ∀ sc c1, (process env Pass.TypeCheck sc (s :: anc) x c1).isOk = false) :
    (process env Pass.TypeCheck scope anc s c).isOk = false := by
  by_cases hk : s.kind = Kind.Loop
  · cases s with
    | node i l k cs =>
      simp only [Statement.kind_node] at hk
      subst hk
      exact process_Loop_typeCheck_not_ok_of_child env scope anc i l cs x c hx (hwf rfl) hfail
  · refine process_typeCheck_not_ok_of_child env scope anc s c ?_
      (fun sc c1 => processAllChildren_not_ok env Pass.TypeCheck sc (s :: anc) x (hfail sc)
        s.children c1 hx)
    cases hs : s.kind <;> simp_all [Kind.isLoop]

theorem process_typeCheck_not_ok_of_occurs_wellFormed (env : Env) (target : Statement)
    (targetAnc : List Statement)
    (hwf : ∀ a ∈ targetAnc, a.kind = Kind.Loop → a.children.length ≤ 2)
    (htarget : ∀ sc c, (process env Pass.TypeCheck sc targetAnc target c).isOk = false)
    {s : Statement} {anc : List Statement} (h : Occurs target targetAnc s anc) :
    ∀ sc c, (process env Pass.TypeCheck sc anc s c).isOk = false := by
  induction h with
  | here => exact htarget
  | inside s anc child hmem hocc ih =>
    intro sc c
    obtain ⟨pre, hpre⟩ := hocc.suffix
    have hs : s ∈ targetAnc := by rw [hpre]; simp
    exact process_typeCheck_not_ok_of_mem env sc anc s child c hmem (hwf s hs) ih

theorem runPasses_stops_at_typeCheck (env : Env) (scope : BaseScope) (root : Statement)
    (hfail : ∀ c, (process env Pass.TypeCheck scope [] root c).isOk = false) (c0 : Compiler) :
    (compile env scope root c0).isOk = false ∧
    compile env scope root c0 =
      runPasses env scope root [Pass.DataAllocation, Pass.TypeCheck] c0 := by
  have hstep : ∀ (later : List Pass) (c1 : Compiler),
      runPasses env scope root (Pass.TypeCheck :: later) c1 =
        process env Pass.TypeCheck scope [] root c1 :=
    fun later c1 => Result.bind_of_not_ok _ _ (hfail c1)
  constructor
  · unfold compile
    rw [runPasses]
    cases h : process env Pass.DataAllocation scope [] root c0 with
    | ok c1 => simp only [Result.bind]; rw [hstep]; exact hfail c1
    | error e c1 => rfl
    | undefined c1 => rfl
  · unfold compile
    rw [runPasses, runPasses]
    cases h : process env Pass.DataAllocation scope [] root c0 with
    | ok c1 => simp only [Result.bind]; rw [hstep, hstep]
    | error e c1 => rfl
    | undefined c1 => rfl

/-- C13. For every if-statement, `IfStatement::process` in the Type Check pass
processes all of its children in order (the condition, the true branch and,
when present, the false branch) before it looks at the condition, and nothing
in it depends on a value of the condition.  So when any child x of the
if-statement has a type error (its processing in the Type Check pass does not
return normally), the Type Check pass fails on the if-statement; and the
compile of any tree in which the if-statement occurs (each for-each loop above
it having its two children) fails and is over after the Type Check pass, so
that the Code Generation pass is never run. -/
theorem IfStatement_typeCheck_visits_both_branches (env : Env) (scope : BaseScope)
    (anc : List Statement) (i : Nat) (l : Location) (cs : List Statement) (x : Statement)
    (c : Compiler) (hx : x ∈ cs)
    (herr : ∀ (sc : BaseScope) (c1 : Compiler),
      (process env Pass.TypeCheck sc (Statement.node i l Kind.IfStatement cs :: anc) x c1).isOk =
        false)
    (hwf : ∀ a ∈ anc, a.kind = Kind.Loop → a.children.length ≤ 2) :
    process env Pass.TypeCheck scope anc (Statement.node i l Kind.IfStatement cs) c =
      (processAllChildren env Pass.TypeCheck scope (Statement.node i l Kind.IfStatement cs :: anc) cs
        ((c.log (Event.process i Pass.TypeCheck)).log (Event.processBaseWithoutChildren i))).bind
        (fun c2 =>
          (processAllChildren env Pass.TypeCheck scope
            (Statement.node i l Kind.IfStatement cs :: anc) cs c2).bind
            (IfStatement.checkCondition (Statement.node i l Kind.IfStatement cs))) ∧
    (process env Pass.TypeCheck scope anc (Statement.node i l Kind.IfStatement cs) c).isOk = false ∧
    ∀ (root : Statement) (rootScope : BaseScope) (c0 : Compiler),
      Occurs (Statement.node i l Kind.IfStatement cs) anc root [] →
      (compile env rootScope root c0).isOk = false ∧
      compile env rootScope root c0 =
        runPasses env rootScope root [Pass.DataAllocation, Pass.TypeCheck] c0 := by
  have hfail : ∀ (sc : BaseScope) (c1 : Compiler),
      (process env Pass.TypeCheck sc anc (Statement.node i l Kind.IfStatement cs) c1).isOk =
        false := by
    intro sc c1
    rw [process_IfStatement_typeCheck]
    exact Result.bind_isOk_false_left _ _
      (processAllChildren_not_ok env Pass.TypeCheck sc _ x (herr sc) cs _ hx)
  refine ⟨process_IfStatement_typeCheck env scope anc i l cs c, hfail scope c, ?_⟩
  intro root rootScope c0 hocc
  exact runPasses_stops_at_typeCheck env rootScope root
    (fun c1 => process_typeCheck_not_ok_of_occurs_wellFormed env _ anc hwf hfail hocc rootScope c1)
    c0

theorem process_break_outside_loop_not_ok (env : Env) (sc : BaseScope) (anc : List Statement)
    (i : Nat) (l : Location) (isBreak : Bool) (c : Compiler)
    (hno : ∀ a ∈ anc, a.kind.isLoop = false) :
    (process env Pass.TypeCheck sc anc
      (Statement.node i l (Kind.ControlFlowStatement isBreak) []) c).isOk = false := by
  rw [process_ControlFlowStatement_typeCheck]
  unfold ControlFlowStatement.typeCheck
  rw [find_isLoop_none _ anc (by simp [Statement.kind, Kind.isLoop]) hno]
  rfl

theorem process_breakInElse_not_ok (sc : BaseScope) (c1 : Compiler) :
    (process Env.reference Pass.TypeCheck sc [Sample.ifWithBreak]
      (Sample.block 4 [Sample.breakStatement 5]) c1).isOk = false :=
  process_typeCheck_not_ok_of_mem Env.reference sc [Sample.ifWithBreak]
    (Sample.block 4 [Sample.breakStatement 5]) (Sample.breakStatement 5) c1
    (by simp [Sample.block, Statement.children])
    (by simp [Sample.block, Statement.kind])
    (fun sc2 c2 => process_break_outside_loop_not_ok Env.reference sc2 _ 5 { line := 5, col := 1 }
      true c2 (by simp [Sample.block, Sample.ifWithBreak, Sample.ifStatement, Statement.kind,
        Kind.isLoop]))

/-- The function body `if (n) { } else { break; }`: the misplaced `break` of the
false branch is reported by the Type Check pass, and the compile fails. -/
theorem IfStatement_typeCheck_visits_both_branches_witness :
    Sample.block 4 [Sample.breakStatement 5] ∈
      [Sample.reference 2 "n", Sample.block 3 [], Sample.block 4 [Sample.breakStatement 5]] ∧
    (process Env.reference Pass.TypeCheck Sample.functionScope [] Sample.ifWithBreak
      Compiler.initial).isOk = false ∧
    (process Env.reference Pass.TypeCheck Sample.functionScope [] Sample.ifWithBreak
      Compiler.initial).thrown =
      some { message := "a break may only be used within a loop or switch",
             location := { line := 5, col := 1 } } ∧
    (compile Env.reference Sample.functionScope Sample.ifWithBreak Compiler.initial).isOk = false :=
  ⟨by simp,
   (IfStatement_typeCheck_visits_both_branches Env.reference Sample.functionScope [] 1
      { line := 1, col := 1 }
      [Sample.reference 2 "n", Sample.block 3 [], Sample.block 4 [Sample.breakStatement 5]]
      (Sample.block 4 [Sample.breakStatement 5]) Compiler.initial (by simp)
      process_breakInElse_not_ok (by simp)).2.1,
   by decide,
   ((IfStatement_typeCheck_visits_both_branches Env.reference Sample.functionScope [] 1
      { line := 1, col := 1 }
      [Sample.reference 2 "n", Sample.block 3 [], Sample.block 4 [Sample.breakStatement 5]]
      (Sample.block 4 [Sample.breakStatement 5]) Compiler.initial (by simp)
      process_breakInElse_not_ok (by simp)).2.2
      Sample.ifWithBreak Sample.functionScope Compiler.initial Occurs.here).1⟩

/-- What `process` does on a for-each loop in the Data Allocation pass:
`processBaseWithoutChildren`, then the Data Allocation block. -/
theorem process_Loop_dataAllocation (env : Env) (scope : BaseScope) (anc : List Statement)
    (i : Nat) (l : Location) (cs : List Statement) (c : Compiler) :
    process env Pass.DataAllocation scope anc (Statement.node i l Kind.Loop cs) c =
      Loop.dataAllocation env scope anc (Statement.node i l Kind.Loop cs)
        (Statement.childProcessing env Pass.DataAllocation anc (Statement.node i l Kind.Loop cs))
        ((c.log (Event.process i Pass.DataAllocation)).log
          (Event.processBaseWithoutChildren i)) := by
  rw [process_eq]
  simp only [Statement.dispatch, Statement.kind_node, Loop.process,
    Statement.processBaseWithoutChildren, Result.bind, Statement.id_node, ne_eq,
    not_true_eq_false, false_and, if_false, if_true, reduceCtorEq]
  cases Loop.dataAllocation env scope anc (Statement.node i l Kind.Loop cs)
        (Statement.childProcessing env Pass.DataAllocation anc (Statement.node i l Kind.Loop cs))
        ((c.log (Event.process i Pass.DataAllocation)).log
          (Event.processBaseWithoutChildren i)) <;> rfl

/-- Registering a variable's type leaves the fields of the loops alone. -/
theorem Compiler.setTypeInfo_frame (env : Env) (c : Compiler) (id : NamespacedIdentifier)
    (t : TypeInfo) :
    (c.setTypeInfo env id t).1.iterator = c.iterator ∧
    (c.setTypeInfo env id t).1.loopTargetType = c.loopTargetType ∧
    (c.setTypeInfo env id t).1.customBegin = c.customBegin ∧
    (c.setTypeInfo env id t).1.customSizeFunction = c.customSizeFunction := by
  unfold Compiler.setTypeInfo
  cases env.setTypeInfo id t <;> exact ⟨rfl, rfl, rfl, rfl⟩

/-- C17, the code at the failing input.  The loop `for (int x : data)` over
`dyn<float> data`: the declared iterator type `int` differs from the element
type `float`, yet the Data Allocation pass completes without any error and the
iterator has become a `float`, because `Loop::tryToResolveType` has replaced the
declared type by the element type before the dyn check of `Loop::process`
compares the two.  And the dyn check itself, entered with the iterator still
declared `int`, does not throw the mismatch error either: it builds the message
from `sp`, the span pointer that is null in the dyn branch, so the result is
neither a normal return nor a thrown error. -/
theorem Loop_dyn_iterator_mismatch_not_reported :
    Env.reference.typeEq (TypeInfo.native TypeID.Integer false false)
      (TypeInfo.native TypeID.Float false false) = false ∧
    Env.reference.tryToResolveType (Sample.dynReference 2)
      (Sample.loopState (TypeInfo.native TypeID.Integer false false)) = Sample.floatDyn ∧
    (process Env.reference Pass.DataAllocation Sample.functionScope [] Sample.loopOverDyn
      (Sample.loopState (TypeInfo.native TypeID.Integer false false))).isOk = true ∧
    (process Env.reference Pass.DataAllocation Sample.functionScope [] Sample.loopOverDyn
      (Sample.loopState (TypeInfo.native TypeID.Integer false false))).state.iterator 1 =
      { id := ["f", "x"], typeInfo := TypeInfo.native TypeID.Float false false } ∧
    (process Env.reference Pass.DataAllocation Sample.functionScope [] Sample.loopOverDyn
      (Sample.loopState (TypeInfo.native TypeID.Integer false false))).state.loopTargetType 1 =
      LoopTargetType.Dyn ∧
    (Loop.resolveLoopTarget Env.reference Sample.loopOverDyn (Sample.dynReference 2)
      ((Sample.loopState (TypeInfo.native TypeID.Integer false false)).setTypeOf 2
        Sample.floatDyn)).isOk = false ∧
    (Loop.resolveLoopTarget Env.reference Sample.loopOverDyn (Sample.dynReference 2)
      ((Sample.loopState (TypeInfo.native TypeID.Integer false false)).setTypeOf 2
        Sample.floatDyn)).thrown = none := by
  refine ⟨by decide, by decide, by decide, by decide, by decide, by decide, by decide⟩

/-- C18. For every for-each loop whose target type is neither a span, nor a dyn,
nor the block type, the classification of the Data Allocation block of
`Loop::process` does the following.  If the target is a struct type whose
function table resolves both the begin function and the size function, the
loop target kind becomes CustomObject and the two functions are stored, and an
unset iterator type becomes the begin function's return type.  If the target
is a struct type that lacks either function, it throws '<type> does not have
iterator methods'.  If the target is not a struct type, it throws 'Can't
deduce loop target type'.  So the loop (not a CustomObject before) is
classified as CustomObject exactly when the target is a struct type with both
functions resolved.  In the Data Allocation pass `process` is
`processBaseWithoutChildren` followed by the Data Allocation block. -/
theorem Loop_dataAllocation_custom_target (env : Env) (scope : BaseScope) (anc : List Statement)
    (i : Nat) (l : Location) (cs : List Statement) (target : Statement) (c : Compiler)
    (hspan : (c.typeInfo target.id).getTypedIfSpanType = none)
    (hdyn : (c.typeInfo target.id).getTypedIfDynType = none)
    (hblock : (c.typeInfo target.id).getType ≠ TypeID.Block) :
    (∀ (id : NamespacedIdentifier) (beginReturnType : TypeInfo) (d cc rr : Bool),
      c.typeInfo target.id = TypeInfo.StructType id true beginReturnType true d cc rr →
      (Loop.resolveLoopTarget env (Statement.node i l Kind.Loop cs) target c).state.loopTargetType
          i = LoopTargetType.CustomObject ∧
      (Loop.resolveLoopTarget env (Statement.node i l Kind.Loop cs) target c).state.customBegin i =
        (true, beginReturnType) ∧
      (Loop.resolveLoopTarget env (Statement.node i l Kind.Loop cs) target c).state.customSizeFunction
          i = true ∧
      ((c.iterator i).typeInfo.isDynamic = true →
        (Loop.resolveLoopTarget env (Statement.node i l Kind.Loop cs) target c).isOk = true ∧
        (Loop.resolveLoopTarget env (Statement.node i l Kind.Loop cs) target c).state.iterator i =
          { id := (c.iterator i).id, typeInfo := beginReturnType })) ∧
    (∀ (id : NamespacedIdentifier) (beginResolved : Bool) (beginReturnType : TypeInfo)
        (sizeResolved d cc rr : Bool),
      c.typeInfo target.id =
        TypeInfo.StructType id beginResolved beginReturnType sizeResolved d cc rr →
      (beginResolved = false ∨ sizeResolved = false) →
      Loop.resolveLoopTarget env (Statement.node i l Kind.Loop cs) target c =
        Result.error
          { message := env.toString (c.typeInfo target.id) ++ " does not have iterator methods",
            location := l }
          (c.setCustomFunctions i (beginResolved, beginReturnType) sizeResolved)) ∧
    ((∀ (id : NamespacedIdentifier) (beginResolved : Bool) (beginReturnType : TypeInfo)
        (sizeResolved d cc rr : Bool),
      c.typeInfo target.id ≠
        TypeInfo.StructType id beginResolved beginReturnType sizeResolved d cc rr) →
      Loop.resolveLoopTarget env (Statement.node i l Kind.Loop cs) target c =
        Result.error { message := "Can't deduce loop target type", location := l } c) ∧
    (c.loopTargetType i ≠ LoopTargetType.CustomObject →
      ((Loop.resolveLoopTarget env (Statement.node i l Kind.Loop cs) target c).state.loopTargetType
          i = LoopTargetType.CustomObject ↔
        ∃ (id : NamespacedIdentifier) (beginReturnType : TypeInfo) (d cc rr : Bool),
          c.typeInfo target.id = TypeInfo.StructType id true beginReturnType true d cc rr)) ∧
    process env Pass.DataAllocation scope anc (Statement.node i l Kind.Loop cs) c =
      Loop.dataAllocation env scope anc (Statement.node i l Kind.Loop cs)
        (Statement.childProcessing env Pass.DataAllocation anc (Statement.node i l Kind.Loop cs))
        ((c.log (Event.process i Pass.DataAllocation)).log
          (Event.processBaseWithoutChildren i)) := by
  have hresolved : ∀ (id : NamespacedIdentifier) (beginReturnType : TypeInfo) (d cc rr : Bool),
      c.typeInfo target.id = TypeInfo.StructType id true beginReturnType true d cc rr →
      (Loop.resolveLoopTarget env (Statement.node i l Kind.Loop cs) target c).state.loopTargetType
          i = LoopTargetType.CustomObject ∧
      (Loop.resolveLoopTarget env (Statement.node i l Kind.Loop cs) target c).state.customBegin i =
        (true, beginReturnType) ∧
      (Loop.resolveLoopTarget env (Statement.node i l Kind.Loop cs) target c).state.customSizeFunction
          i = true ∧
      ((c.iterator i).typeInfo.isDynamic = true →
        (Loop.resolveLoopTarget env (Statement.node i l Kind.Loop cs) target c).isOk = true ∧
        (Loop.resolveLoopTarget env (Statement.node i l Kind.Loop cs) target c).state.iterator i =
          { id := (c.iterator i).id, typeInfo := beginReturnType }) := by
    intro id bt d cc rr hT
    by_cases h1 : (c.iterator i).typeInfo.isDynamic = true
    · simp [Loop.resolveLoopTarget, hT, TypeInfo.getTypedIfSpanType, TypeInfo.getTypedIfDynType,
        TypeInfo.getType, Statement.id_node, h1, Result.bind, Result.state, Result.isOk,
        (Compiler.setTypeInfo_frame env _ _ _).1, (Compiler.setTypeInfo_frame env _ _ _).2.1,
        (Compiler.setTypeInfo_frame env _ _ _).2.2.1, (Compiler.setTypeInfo_frame env _ _ _).2.2.2,
        Compiler.setIterator, Compiler.setLoopTargetType, Compiler.setCustomFunctions]
    · by_cases h2 : env.typeEq (c.iterator i).typeInfo bt = true
      · simp [Loop.resolveLoopTarget, hT, TypeInfo.getTypedIfSpanType, TypeInfo.getTypedIfDynType,
          TypeInfo.getType, Statement.id_node, h1, h2, Result.bind, Result.state,
          (Compiler.setTypeInfo_frame env _ _ _).2.1,
          (Compiler.setTypeInfo_frame env _ _ _).2.2.1,
          (Compiler.setTypeInfo_frame env _ _ _).2.2.2,
          Compiler.setLoopTargetType, Compiler.setCustomFunctions]
      · simp [Loop.resolveLoopTarget, hT, TypeInfo.getTypedIfSpanType, TypeInfo.getTypedIfDynType,
          TypeInfo.getType, Statement.id_node, h1, h2, Result.bind, Result.state,
          Location.throwError, Compiler.setLoopTargetType, Compiler.setCustomFunctions]
  have hmissing : ∀ (id : NamespacedIdentifier) (beginResolved : Bool)
      (beginReturnType : TypeInfo) (sizeResolved d cc rr : Bool),
      c.typeInfo target.id =
        TypeInfo.StructType id beginResolved beginReturnType sizeResolved d cc rr →
      (beginResolved = false ∨ sizeResolved = false) →
      Loop.resolveLoopTarget env (Statement.node i l Kind.Loop cs) target c =
        Result.error
          { message := env.toString (c.typeInfo target.id) ++ " does not have iterator methods",
            location := l }
          (c.setCustomFunctions i (beginResolved, beginReturnType) sizeResolved) := by
    intro id b bt sz d cc rr hT hor
    have hcond : (!b || !sz) = true := by
      rcases hor with h | h <;> simp [h]
    simp [Loop.resolveLoopTarget, hT, TypeInfo.getTypedIfSpanType, TypeInfo.getTypedIfDynType,
      TypeInfo.getType, Statement.id_node, hcond, Result.bind, Location.throwError,
      Statement.location_node]
  have hother : (∀ (id : NamespacedIdentifier) (beginResolved : Bool)
        (beginReturnType : TypeInfo) (sizeResolved d cc rr : Bool),
      c.typeInfo target.id ≠
        TypeInfo.StructType id beginResolved beginReturnType sizeResolved d cc rr) →
      Loop.resolveLoopTarget env (Statement.node i l Kind.Loop cs) target c =
        Result.error { message := "Can't deduce loop target type", location := l } c := by
    intro hns
    cases hT : c.typeInfo target.id with
    | StructType id b bt sz d cc rr => exact absurd hT (hns id b bt sz d cc rr)
    | native t cc rr =>
      have hb : t ≠ TypeID.Block := by simpa [hT, TypeInfo.getType] using hblock
      simp [Loop.resolveLoopTarget, hT, TypeInfo.getTypedIfSpanType, TypeInfo.getTypedIfDynType,
        TypeInfo.getType, hb, Statement.id_node, Result.bind, Location.throwError,
        Statement.location_node]
    | SpanType e n d cc rr => simp [hT, TypeInfo.getTypedIfSpanType] at hspan
    | DynType e d cc rr => simp [hT, TypeInfo.getTypedIfDynType] at hdyn
    | otherComplex nm d cc rr =>
      simp [Loop.resolveLoopTarget, hT, TypeInfo.getTypedIfSpanType, TypeInfo.getTypedIfDynType,
        TypeInfo.getType, Statement.id_node, Result.bind, Location.throwError,
        Statement.location_node]
  refine ⟨hresolved, hmissing, hother, ?_, process_Loop_dataAllocation env scope anc i l cs c⟩
  intro hinit
  constructor
  · intro hres
    cases hT : c.typeInfo target.id with
    | StructType id b bt sz d cc rr =>
      cases b with
      | true =>
        cases sz with
        | true => exact ⟨id, bt, d, cc, rr, rfl⟩
        | false =>
          rw [hmissing id true bt false d cc rr hT (Or.inr rfl)] at hres
          exact absurd hres hinit
      | false =>
        rw [hmissing id false bt sz d cc rr hT (Or.inl rfl)] at hres
        exact absurd hres hinit
    | native t cc rr =>
      rw [hother (by intro a b c2 d e f g; rw [hT]; exact fun h => TypeInfo.noConfusion h)] at hres
      exact absurd hres hinit
    | SpanType e n d cc rr => simp [hT, TypeInfo.getTypedIfSpanType] at hspan
    | DynType e d cc rr => simp [hT, TypeInfo.getTypedIfDynType] at hdyn
    | otherComplex nm d cc rr =>
      rw [hother (by intro a b c2 d e f g; rw [hT]; exact fun h => TypeInfo.noConfusion h)] at hres
      exact absurd hres hinit
  · rintro ⟨id, bt, d, cc, rr, hT⟩
    exact (hresolved id bt d cc rr hT).1

/-- Loops over a `Container` with begin and size functions, over an `Obj`
without them, and over an `int`: CustomObject with the iterator typed by the
begin function, '... does not have iterator methods', and 'Can't deduce loop
target type'. -/
theorem Loop_dataAllocation_custom_target_witness :
    (((Sample.loopState (TypeInfo.native TypeID.Dynamic false false)).setTypeOf 2
      Sample.containerType).typeInfo (Sample.containerReference 2).id).getTypedIfSpanType = none ∧
    (Loop.resolveLoopTarget Env.reference Sample.loopOverContainer (Sample.containerReference 2)
      ((Sample.loopState (TypeInfo.native TypeID.Dynamic false false)).setTypeOf 2
        Sample.containerType)).state.loopTargetType 1 = LoopTargetType.CustomObject ∧
    (process Env.reference Pass.DataAllocation Sample.functionScope [] Sample.loopOverContainer
      (Sample.loopState (TypeInfo.native TypeID.Dynamic false false))).state.iterator 1 =
      { id := ["f", "x"], typeInfo := TypeInfo.native TypeID.Double false false } ∧
    Loop.resolveLoopTarget Env.reference Sample.loopOverContainer (Sample.containerReference 2)
      ((Sample.loopState (TypeInfo.native TypeID.Dynamic false false)).setTypeOf 2
        Sample.objType) =
      Result.error { message := "Obj does not have iterator methods",
                     location := { line := 1, col := 1 } }
        (((Sample.loopState (TypeInfo.native TypeID.Dynamic false false)).setTypeOf 2
          Sample.objType).setCustomFunctions 1
            (false, TypeInfo.native TypeID.Void false false) false) ∧
    Loop.resolveLoopTarget Env.reference Sample.loopOverContainer (Sample.containerReference 2)
      ((Sample.loopState (TypeInfo.native TypeID.Dynamic false false)).setTypeOf 2
        (TypeInfo.native TypeID.Integer false false)) =
      Result.error { message := "Can't deduce loop target type",
                     location := { line := 1, col := 1 } }
        ((Sample.loopState (TypeInfo.native TypeID.Dynamic false false)).setTypeOf 2
          (TypeInfo.native TypeID.Integer false false)) :=
  ⟨rfl,
   ((Loop_dataAllocation_custom_target Env.reference Sample.functionScope [] 1
      { line := 1, col := 1 } [Sample.containerReference 2, Sample.block 3 []]
      (Sample.containerReference 2)
      ((Sample.loopState (TypeInfo.native TypeID.Dynamic false false)).setTypeOf 2
        Sample.containerType) rfl rfl (by decide)).1
      ["Container"] (TypeInfo.native TypeID.Double false false) false false false rfl).1,
   by decide,
   (Loop_dataAllocation_custom_target Env.reference Sample.functionScope [] 1
      { line := 1, col := 1 } [Sample.containerReference 2, Sample.block 3 []]
      (Sample.containerReference 2)
      ((Sample.loopState (TypeInfo.native TypeID.Dynamic false false)).setTypeOf 2
        Sample.objType) rfl rfl (by decide)).2.1
      ["Obj"] false (TypeInfo.native TypeID.Void false false) false true false false rfl
      (Or.inl rfl),
   (Loop_dataAllocation_custom_target Env.reference Sample.functionScope [] 1
      { line := 1, col := 1 } [Sample.containerReference 2, Sample.block 3 []]
      (Sample.containerReference 2)
      ((Sample.loopState (TypeInfo.native TypeID.Dynamic false false)).setTypeOf 2
        (TypeInfo.native TypeID.Integer false false)) rfl rfl (by decide)).2.2.1
      (fun _ _ _ _ _ _ _ h => TypeInfo.noConfusion h)⟩

/-- C19. For every for-each loop whose target has the block primitive type, the
classification of the Data Allocation block of `Loop::process` sets the loop
target kind to Dyn in every case; an unset iterator type becomes Float with the
iterator's own const and reference modifiers; a declared iterator type whose
primitive type is not Float makes it throw 'Illegal iterator type' at the
loop's location; a declared Float iterator is kept.  In the Data Allocation
pass `process` is `processBaseWithoutChildren` followed by the Data Allocation
block. -/
theorem Loop_dataAllocation_block_target (env : Env) (scope : BaseScope) (anc : List Statement)
    (i : Nat) (l : Location) (cs : List Statement) (target : Statement) (c : Compiler)
    (hblock : (c.typeInfo target.id).getType = TypeID.Block) :
    (Loop.resolveLoopTarget env (Statement.node i l Kind.Loop cs) target c).state.loopTargetType i =
      LoopTargetType.Dyn ∧
    ((c.iterator i).typeInfo.isDynamic = true →
      (Loop.resolveLoopTarget env (Statement.node i l Kind.Loop cs) target c).isOk = true ∧
      (Loop.resolveLoopTarget env (Statement.node i l Kind.Loop cs) target c).state.iterator i =
        { id := (c.iterator i).id,
          typeInfo := TypeInfo.native TypeID.Float (c.iterator i).isConst
            (c.iterator i).isReference }) ∧
    ((c.iterator i).typeInfo.isDynamic = false → (c.iterator i).typeInfo.getType ≠ TypeID.Float →
      Loop.resolveLoopTarget env (Statement.node i l Kind.Loop cs) target c =
        Result.error { message := "Illegal iterator type", location := l }
          (c.setLoopTargetType i LoopTargetType.Dyn)) ∧
    ((c.iterator i).typeInfo.getType = TypeID.Float →
      (Loop.resolveLoopTarget env (Statement.node i l Kind.Loop cs) target c).isOk = true ∧
      (Loop.resolveLoopTarget env (Statement.node i l Kind.Loop cs) target c).state.iterator i =
        c.iterator i) ∧
    process env Pass.DataAllocation scope anc (Statement.node i l Kind.Loop cs) c =
      Loop.dataAllocation env scope anc (Statement.node i l Kind.Loop cs)
        (Statement.childProcessing env Pass.DataAllocation anc (Statement.node i l Kind.Loop cs))
        ((c.log (Event.process i Pass.DataAllocation)).log
          (Event.processBaseWithoutChildren i)) := by
  have hspan : (c.typeInfo target.id).getTypedIfSpanType = none := by
    cases h : c.typeInfo target.id <;> simp_all [TypeInfo.getType, TypeInfo.getTypedIfSpanType]
  have hdyn : (c.typeInfo target.id).getTypedIfDynType = none := by
    cases h : c.typeInfo target.id <;> simp_all [TypeInfo.getType, TypeInfo.getTypedIfDynType]
  refine ⟨?_, ?_, ?_, ?_, process_Loop_dataAllocation env scope anc i l cs c⟩
  · simp only [Loop.resolveLoopTarget, hspan, hdyn, hblock, Statement.id_node, if_true]
    by_cases h1 : (c.iterator i).typeInfo.isDynamic = true
    · simp [h1, Result.bind, Result.state, (Compiler.setTypeInfo_frame env _ _ _).2.1,
        Compiler.setIterator, Compiler.setLoopTargetType]
    · by_cases h2 : (c.iterator i).typeInfo.getType = TypeID.Float
      · simp [h1, h2, Result.bind, Result.state, (Compiler.setTypeInfo_frame env _ _ _).2.1,
          Compiler.setLoopTargetType]
      · simp [h1, h2, Result.bind, Result.state, Location.throwError,
          Compiler.setLoopTargetType]
  · intro h1
    simp [Loop.resolveLoopTarget, hspan, hdyn, hblock, Statement.id_node, h1, Result.bind,
      Result.state, Result.isOk, (Compiler.setTypeInfo_frame env _ _ _).1,
      Compiler.setIterator, Compiler.setLoopTargetType]
  · intro h1 h2
    simp [Loop.resolveLoopTarget, hspan, hdyn, hblock, Statement.id_node, h1, h2, Result.bind,
      Location.throwError, Statement.location_node]
  · intro h2
    have h1 : (c.iterator i).typeInfo.isDynamic = false := by
      simp [TypeInfo.isDynamic, h2]
    simp [Loop.resolveLoopTarget, hspan, hdyn, hblock, Statement.id_node, h1, h2, Result.bind,
      Result.state, Result.isOk, (Compiler.setTypeInfo_frame env _ _ _).1,
      Compiler.setLoopTargetType]

/-- The loop `for (x : data)` over a `block`: an unset `const&` iterator becomes
`const float&` and the target kind is Dyn; an `int` iterator is rejected with
'Illegal iterator type'. -/
theorem Loop_dataAllocation_block_target_witness :
    (((Sample.loopState (TypeInfo.native TypeID.Dynamic true true)).setTypeOf 2
      (TypeInfo.native TypeID.Block false false)).typeInfo (Sample.blockReference 2).id).getType =
      TypeID.Block ∧
    (Loop.resolveLoopTarget Env.reference Sample.loopOverBlock (Sample.blockReference 2)
      ((Sample.loopState (TypeInfo.native TypeID.Dynamic true true)).setTypeOf 2
        (TypeInfo.native TypeID.Block false false))).state.loopTargetType 1 = LoopTargetType.Dyn ∧
    (process Env.reference Pass.DataAllocation Sample.functionScope [] Sample.loopOverBlock
      (Sample.loopState (TypeInfo.native TypeID.Dynamic true true))).state.iterator 1 =
      { id := ["f", "x"], typeInfo := TypeInfo.native TypeID.Float true true } ∧
    (process Env.reference Pass.DataAllocation Sample.functionScope [] Sample.loopOverBlock
      (Sample.loopState (TypeInfo.native TypeID.Integer false false))).thrown =
      some { message := "Illegal iterator type", location := { line := 1, col := 1 } } :=
  ⟨rfl,
   (Loop_dataAllocation_block_target Env.reference Sample.functionScope [] 1
      { line := 1, col := 1 } [Sample.blockReference 2, Sample.block 3 []]
      (Sample.blockReference 2)
      ((Sample.loopState (TypeInfo.native TypeID.Dynamic true true)).setTypeOf 2
        (TypeInfo.native TypeID.Block false false)) rfl).1,
   by decide, by decide⟩

mutual
/-- A walk of `forEachRecursive` with a test as callback returns whether some
node reachable from the start passes the test. -/
theorem forEachRecursive_any (P : Statement → Bool) :
    ∀ (s : Statement),
    Statement.forEachRecursive (fun p (_ : Unit) => ((), P p)) s () =
      ((), (Statement.subtree s).any P)
  | Statement.node i l k cs => by
    rw [Statement.forEachRecursive]
    cases h : P (Statement.node i l k cs) with
    | true => simp [Statement.subtree, h]
    | false =>
      simp only
      rw [forEachRecursiveChildren_any P cs]
      simp [Statement.subtree, h]
theorem forEachRecursiveChildren_any (P : Statement → Bool) :
    ∀ (cs : List Statement),
    forEachRecursiveChildren (fun p (_ : Unit) => ((), P p)) cs () =
      ((), (subtreeChildren cs).any P)
  | [] => by simp [forEachRecursiveChildren, subtreeChildren]
  | c :: rest => by
    rw [forEachRecursiveChildren, forEachRecursive_any P c]
    cases h : (Statement.subtree c).any P with
    | true => simp [subtreeChildren, h]
    | false =>
      simp only
      rw [forEachRecursiveChildren_any P rest]
      simp [subtreeChildren, h]
end

theorem Statement.getSubExpr_zero_of_one (a e : Statement) (h : a.getSubExpr 1 = some e) :
    ∃ value, a.getSubExpr 0 = some value := by
  cases a with
  | node i l k cs =>
    cases cs with
    | nil => simp [Statement.getSubExpr, Statement.children] at h
    | cons c0 t => exact ⟨c0, rfl⟩

theorem Statement.subExprIs_one (a v : Statement) (h : a.subExprIs 1 v = true) :
    ∃ value, a.getSubExpr 0 = some value := by
  unfold Statement.subExprIs at h
  cases h1 : a.getSubExpr 1 with
  | none => simp [h1] at h
  | some e => exact Statement.getSubExpr_zero_of_one a e h1

/-- C20, as stated, fails.  In `for (x : data) { x = 1; x = 2; }` the body uses
the iterator `x` more than once (nodes 5 and 8), yet `evaluateIteratorLoad`
leaves `loadIterator` false: only the first reference is looked at.  And in
`for (x : data) { y = x; }` the only use of `x` is as the value that a plain
assignment to another variable reads (sub-expression 0), yet `loadIterator`
stays true: the elision is for the iterator as the assigned target
(sub-expression 1). -/
theorem Loop_evaluateIteratorLoad_looks_at_first_use_only :
    (Sample.loopState (TypeInfo.native TypeID.Float false false)).loadIterator 1 = true ∧
    (((Statement.subtree
        (Sample.block 3 [Sample.assignment 4 (Sample.reference 5 "x") (Sample.literal 6 1),
          Sample.assignment 7 (Sample.reference 8 "x") (Sample.literal 9 2)])).filter
        (fun p => p.refersTo Env.reference
          ((Sample.loopState (TypeInfo.native TypeID.Float false false)).iterator 1))).map
        Statement.id) = [5, 8] ∧
    (Loop.evaluateIteratorLoad Env.reference Sample.loopAssigningTwice []
      (Sample.loopState (TypeInfo.native TypeID.Float false false))).state.loadIterator 1 = false ∧
    (((Statement.subtree
        (Sample.block 3 [Sample.assignment 4 (Sample.reference 5 "y") (Sample.reference 6 "x")])).filter
        (fun p => p.refersTo Env.reference
          ((Sample.loopState (TypeInfo.native TypeID.Float false false)).iterator 1))).map
        Statement.id) = [6] ∧
    (Loop.evaluateIteratorLoad Env.reference Sample.loopReadingIterator []
      (Sample.loopState (TypeInfo.native TypeID.Float false false))).state.loadIterator 1 = true := by
  refine ⟨rfl, by decide, by decide, by decide, by decide⟩

/-- C20, amended.  For every for-each loop with a body (child 1) whose flag
`loadIterator` is true, `evaluateIteratorLoad` returns normally, and afterwards
the flag is false if and only if the first reference to the iterator that the
walk of the body yields has a nearest enclosing assignment of which it is
sub-expression 1 (the target), that assignment is plain ('='), and no node of
the assignment's sub-expression 0 (the value) refers to the iterator; in every
other case the flag is true, and a body without any reference to the iterator
leaves the state as it is. -/
theorem Loop_evaluateIteratorLoad_first_use (env : Env) (anc : List Statement) (i : Nat)
    (l : Location) (cs : List Statement) (loopBlock : Statement) (c : Compiler)
    (hflag : c.loadIterator i = true)
    (hbody : (Statement.node i l Kind.Loop cs).getSubExpr 1 = some loopBlock) :
    (Loop.evaluateIteratorLoad env (Statement.node i l Kind.Loop cs) anc c).isOk = true ∧
    ((Loop.evaluateIteratorLoad env (Statement.node i l Kind.Loop cs) anc c).state.loadIterator i =
        false ↔
      ∃ (v : Statement) (vanc : List Statement) (a : Statement),
        (loopBlock.walk (Statement.node i l Kind.Loop cs :: anc)).find?
          (fun p => p.1.refersTo env (c.iterator i)) = some (v, vanc) ∧
        findParentStatementOfType Kind.isAssignment v vanc = some a ∧
        a.subExprIs 1 v = true ∧ a.assignmentType = some Token.assign_ ∧
        ∀ value, a.getSubExpr 0 = some value →
          ∀ p ∈ Statement.subtree value, p.refersTo env (c.iterator i) = false) ∧
    ((loopBlock.walk (Statement.node i l Kind.Loop cs :: anc)).find?
        (fun p => p.1.refersTo env (c.iterator i)) = none →
      Loop.evaluateIteratorLoad env (Statement.node i l Kind.Loop cs) anc c = Result.ok c) := by
  unfold Loop.evaluateIteratorLoad
  simp only [Statement.id_node, hflag, Bool.not_true, Bool.false_eq_true, if_false, hbody]
  cases hfind : (loopBlock.walk (Statement.node i l Kind.Loop cs :: anc)).find?
      (fun p => p.1.refersTo env (c.iterator i)) with
  | none => simp [Result.isOk, Result.state, hflag]
  | some pr =>
    obtain ⟨v, vanc⟩ := pr
    simp only
    cases hpar : findParentStatementOfType Kind.isAssignment v vanc with
    | none =>
      refine ⟨rfl, ?_, by simp⟩
      simp only [Result.state, hflag]
      constructor
      · intro h; exact absurd h (by simp)
      · rintro ⟨v2, vanc2, a2, hv, ha, _⟩
        simp only [Option.some.injEq, Prod.mk.injEq] at hv
        obtain ⟨rfl, rfl⟩ := hv
        rw [hpar] at ha
        exact absurd ha (by simp)
    | some a =>
      simp only
      by_cases h1 : a.subExprIs 1 v = true
      · by_cases h2 : a.assignmentType = some Token.assign_
        · obtain ⟨value, hvalue⟩ := Statement.subExprIs_one a v h1
          simp only [h1, h2, decide_True, Bool.and_self, if_true, hvalue, forEachRecursive_any]
          refine ⟨rfl, ?_, by simp⟩
          simp only [Result.state, Compiler.setLoadIterator, if_true]
          constructor
          · intro hany
            refine ⟨v, vanc, a, rfl, hpar, h1, h2, ?_⟩
            intro value2 hv2 p hp
            have : value2 = value := by rw [hvalue] at hv2; exact (Option.some.inj hv2).symm
            subst this
            cases hp2 : p.refersTo env (c.iterator i) with
            | false => rfl
            | true =>
              have : (Statement.subtree value2).any
                  (fun p => p.refersTo env (c.iterator i)) = true :=
                List.any_eq_true.2 ⟨p, hp, hp2⟩
              rw [this] at hany
              exact absurd hany (by simp)
          · rintro ⟨v2, vanc2, a2, hv, ha, _, _, hall⟩
            simp only [Option.some.injEq, Prod.mk.injEq] at hv
            obtain ⟨rfl, rfl⟩ := hv
            have ha2 : a2 = a := by rw [hpar] at ha; exact (Option.some.inj ha).symm
            subst ha2
            cases hany : (Statement.subtree value).any
                (fun p => p.refersTo env (c.iterator i)) with
            | false => rfl
            | true =>
              obtain ⟨p, hp, hp2⟩ := List.any_eq_true.1 hany
              rw [hall value hvalue p hp] at hp2
              exact absurd hp2 (by simp)
        · simp only [h1, h2, decide_False, Bool.and_false, Bool.false_eq_true, if_false]
          refine ⟨rfl, ?_, by simp⟩
          simp only [Result.state, Compiler.setLoadIterator, if_true]
          constructor
          · intro h; exact absurd h (by simp)
          · rintro ⟨v2, vanc2, a2, hv, ha, _, hty, _⟩
            simp only [Option.some.injEq, Prod.mk.injEq] at hv
            obtain ⟨rfl, rfl⟩ := hv
            have ha2 : a2 = a := by rw [hpar] at ha; exact (Option.some.inj ha).symm
            subst ha2
            exact absurd hty h2
      · simp only [h1, Bool.false_and, Bool.false_eq_true, if_false]
        refine ⟨rfl, ?_, by simp⟩
        simp only [Result.state, Compiler.setLoadIterator, if_true]
        constructor
        · intro h; exact absurd h (by simp)
        · rintro ⟨v2, vanc2, a2, hv, ha, hs, _, _⟩
          simp only [Option.some.injEq, Prod.mk.injEq] at hv
          obtain ⟨rfl, rfl⟩ := hv
          have ha2 : a2 = a := by rw [hpar] at ha; exact (Option.some.inj ha).symm
          subst ha2
          exact absurd hs h1

/-- The loop `for (x : data) { x = 1; x = 2; }`: the first reference to `x` is
the target of the plain assignment `x = 1`, so the flag becomes false. -/
theorem Loop_evaluateIteratorLoad_first_use_witness :
    (Sample.loopState (TypeInfo.native TypeID.Float false false)).loadIterator 1 = true ∧
    Sample.loopAssigningTwice.getSubExpr 1 =
      some (Sample.block 3 [Sample.assignment 4 (Sample.reference 5 "x") (Sample.literal 6 1),
        Sample.assignment 7 (Sample.reference 8 "x") (Sample.literal 9 2)]) ∧
    (Loop.evaluateIteratorLoad Env.reference Sample.loopAssigningTwice []
      (Sample.loopState (TypeInfo.native TypeID.Float false false))).isOk = true ∧
    (Loop.evaluateIteratorLoad Env.reference Sample.loopAssigningTwice []
      (Sample.loopState (TypeInfo.native TypeID.Float false false))).state.loadIterator 1 = false :=
  ⟨rfl, rfl,
   (Loop_evaluateIteratorLoad_first_use Env.reference [] 1 { line := 1, col := 1 }
      [Sample.dataReference 2,
       Sample.block 3 [Sample.assignment 4 (Sample.reference 5 "x") (Sample.literal 6 1),
         Sample.assignment 7 (Sample.reference 8 "x") (Sample.literal 9 2)]]
      (Sample.block 3 [Sample.assignment 4 (Sample.reference 5 "x") (Sample.literal 6 1),
         Sample.assignment 7 (Sample.reference 8 "x") (Sample.literal 9 2)])
      (Sample.loopState (TypeInfo.native TypeID.Float false false)) rfl rfl).1,
   (Loop_evaluateIteratorLoad_first_use Env.reference [] 1 { line := 1, col := 1 }
      [Sample.dataReference 2,
       Sample.block 3 [Sample.assignment 4 (Sample.reference 5 "x") (Sample.literal 6 1),
         Sample.assignment 7 (Sample.reference 8 "x") (Sample.literal 9 2)]]
      (Sample.block 3 [Sample.assignment 4 (Sample.reference 5 "x") (Sample.literal 6 1),
         Sample.assignment 7 (Sample.reference 8 "x") (Sample.literal 9 2)])
      (Sample.loopState (TypeInfo.native TypeID.Float false false)) rfl rfl).2.1.2
      ⟨Sample.reference 5 "x",
       [Sample.assignment 4 (Sample.reference 5 "x") (Sample.literal 6 1),
        Sample.block 3 [Sample.assignment 4 (Sample.reference 5 "x") (Sample.literal 6 1),
          Sample.assignment 7 (Sample.reference 8 "x") (Sample.literal 9 2)],
        Sample.loopAssigningTwice],
       Sample.assignment 4 (Sample.reference 5 "x") (Sample.literal 6 1),
       rfl, rfl, rfl, rfl,
       fun value hvalue p hp => by
         have hv : value = Sample.literal 6 1 := (Option.some.inj hvalue).symm
         subst hv
         have hp2 : p = Sample.literal 6 1 := by
           simpa [Sample.literal, Statement.subtree, subtreeChildren] using hp
         subst hp2
         rfl⟩⟩

/-- Running for `a + b` steps is running for `a` steps and then for `b`. -/
theorem Machine.run_add (rt : Runtime) (prog : List Code) (a b : Nat) (m : Machine) :
    Machine.run rt prog (a + b) m = Machine.run rt prog b (Machine.run rt prog a m) := by
  induction a generalizing m with
  | zero => simp [Machine.run]
  | succ a ih => rw [Nat.succ_add]; simp only [Machine.run]; exact ih _

/-- Past the end of the code the processor stays as it is. -/
theorem Machine.run_halted (rt : Runtime) (prog : List Code) (m : Machine)
    (h : prog.length ≤ m.pc) : ∀ n, Machine.run rt prog n m = m
  | 0 => rfl
  | n + 1 => by
    have hs : Machine.step rt prog m = m := by
      simp only [Machine.step, List.get?_eq_none.2 h]
    simp only [Machine.run, hs]
    exact Machine.run_halted rt prog m h n

/-- One step at a known index of the code. -/
theorem Machine.run_at {rt : Runtime} {prog : List Code} {pc : Nat} {code : Code}
    (h : prog.get? pc = some code) (k : Nat) (g : Nat → Int) (f : Int × Int) (v : Int)
    (e : Nat → Option Int) (n b : Nat) :
    Machine.run rt prog (k + 1)
        { pc := pc, gpd := g, flags := f, conditionValue := v, errorFlag := e,
          conditionRuns := n, bodyRuns := b } =
      Machine.run rt prog k
        (Machine.exec rt prog
          { pc := pc, gpd := g, flags := f, conditionValue := v, errorFlag := e,
            conditionRuns := n, bodyRuns := b } code) := by
  simp only [Machine.run, Machine.step, h]

theorem Machine.run_zero (rt : Runtime) (prog : List Code) (m : Machine) :
    Machine.run rt prog 0 m = m := rfl

theorem Int.xor_self_eq_zero (x : Int) : Int.xor x x = 0 := by
  cases x <;> simp [Int.xor]

theorem Instr.taken_jmp (l : Nat) (fl : Int × Int) : Instr.taken (Instr.jmp l) fl = true := rfl

/-- The start of an instrumented loop: the counter is cleared and the
condition label is reached. -/
theorem Machine.run_clear (rt : Runtime) (prog : List Code) (a w cond exit ok : Nat)
    (line col : Int) (hI : Code.Instrumented prog a w cond exit ok line col) (m : Machine)
    (hpc : m.pc = 0) :
    (Machine.run rt prog 2 m).pc = 2 ∧ (Machine.run rt prog 2 m).gpd w = 0 ∧
    (Machine.run rt prog 2 m).errorFlag = m.errorFlag ∧
    (Machine.run rt prog 2 m).conditionRuns = m.conditionRuns ∧
    (Machine.run rt prog 2 m).bodyRuns = m.bodyRuns := by
  obtain ⟨pc, g, f, v, e, n, b⟩ := m
  simp only at hpc
  subst hpc
  rw [Machine.run_at hI.clear]
  simp only [Machine.exec, Instr.target, Machine.effect, Machine.setGpd, Int.xor_self_eq_zero,
    Nat.zero_add]
  rw [Machine.run_at hI.nop]
  simp only [Machine.exec, Instr.target, Machine.effect, Machine.run_zero, if_true, and_self]

/-- One pass of an instrumented loop that stays below the ceiling: from the
condition label back to the condition label, with the counter incremented and
the body run once.  `t` is the number of steps of the test, which lets the
loop continue. -/
theorem Machine.run_pass (rt : Runtime) (prog : List Code) (a w cond exit ok : Nat)
    (line col : Int) (hI : Code.Instrumented prog a w cond exit ok line col) (t : Nat)
    (m : Machine) (k : Nat) (hpc : m.pc = 2) (hg : m.gpd w = k) (hk : k + 1 < 10000000)
    (htest : ∀ (g : Nat → Int) (e : Nat → Option Int) (b : Nat), ∃ fl,
      Machine.run rt prog t
        { pc := 4, gpd := g,
          flags := ((rt.condition m.conditionRuns).lhs, (rt.condition m.conditionRuns).rhs),
          conditionValue := (rt.condition m.conditionRuns).value, errorFlag := e,
          conditionRuns := m.conditionRuns + 1, bodyRuns := b } =
        { pc := a, gpd := g, flags := fl,
          conditionValue := (rt.condition m.conditionRuns).value, errorFlag := e,
          conditionRuns := m.conditionRuns + 1, bodyRuns := b }) :
    (Machine.run rt prog (2 + (t + 6)) m).pc = 2 ∧
    (Machine.run rt prog (2 + (t + 6)) m).gpd w = (k + 1 : Nat) ∧
    (Machine.run rt prog (2 + (t + 6)) m).errorFlag = m.errorFlag ∧
    (Machine.run rt prog (2 + (t + 6)) m).conditionRuns = m.conditionRuns + 1 ∧
    (Machine.run rt prog (2 + (t + 6)) m).bodyRuns = m.bodyRuns + 1 := by
  have hw : Machine.wrap32 ((k : Int) + 1) = ((k + 1 : Nat) : Int) := by
    unfold Machine.wrap32; omega
  have hjb : Instr.taken (Instr.jb ok)
      (Machine.wrap32 ((k : Int) + 1), Machine.wrap32 10000000) = true := by
    simp only [Instr.taken, Machine.wrap32, decide_eq_true_eq]; omega
  clear hk
  obtain ⟨pc, g, f, v, e, n, b⟩ := m
  simp only at hpc hg htest
  subst hpc
  rw [Machine.run_add, Machine.run_at hI.bindCond]
  simp only [Machine.exec, Instr.target, Machine.effect]
  rw [Machine.run_at hI.condition]
  simp only [Machine.exec, Machine.run_zero, Nat.reduceAdd]
  rw [Machine.run_add]
  obtain ⟨fl, hfl⟩ := htest g e b
  rw [hfl, Machine.run_at hI.inc]
  simp only [Machine.exec, Instr.target, Machine.effect, Machine.setGpd, hg]
  rw [Machine.run_at hI.cmp]
  simp only [Machine.exec, Instr.target, Machine.effect, if_true, Nat.add_assoc, Nat.reduceAdd]
  rw [Machine.run_at hI.jb]
  simp only [Machine.exec, Instr.target, hjb, if_true, hI.labelOk]
  rw [Machine.run_at hI.bindOk]
  simp only [Machine.exec, Instr.target, Machine.effect, Nat.add_assoc, Nat.reduceAdd]
  rw [Machine.run_at hI.body]
  simp only [Machine.exec, Nat.add_assoc, Nat.reduceAdd]
  rw [Machine.run_at hI.jmpCond]
  simp only [Machine.exec, Instr.target, Instr.taken_jmp, if_true, hI.labelCond,
    Machine.run_zero, hw, and_self]

/-- The ceiling trips: from the jump of the check, when it is not taken, the
error kind, the line and the column are written to the three fields of the
runtime error flag and the exit label is reached, without a run of the body or
of the condition. -/
theorem Machine.run_trip (rt : Runtime) (prog : List Code) (a w cond exit ok : Nat)
    (line col : Int) (hI : Code.Instrumented prog a w cond exit ok line col) (m : Machine)
    (hpc : m.pc = a + 2) (hjb : Instr.taken (Instr.jb ok) m.flags = false) :
    (Machine.run rt prog 8 m).pc = Code.labelIndex prog exit ∧
    (Machine.run rt prog 8 m).errorFlag 0 = some rt.whileLoopErrorType ∧
    (Machine.run rt prog 8 m).errorFlag 4 = some (Machine.wrap32 line) ∧
    (Machine.run rt prog 8 m).errorFlag 8 = some (Machine.wrap32 col) ∧
    (∀ o, o ≠ 0 → o ≠ 4 → o ≠ 8 → (Machine.run rt prog 8 m).errorFlag o = m.errorFlag o) ∧
    (Machine.run rt prog 8 m).conditionRuns = m.conditionRuns ∧
    (Machine.run rt prog 8 m).bodyRuns = m.bodyRuns ∧
    (Machine.run rt prog 9 m).pc = prog.length ∧
    (Machine.run rt prog 9 m).errorFlag = (Machine.run rt prog 8 m).errorFlag ∧
    (Machine.run rt prog 9 m).bodyRuns = m.bodyRuns ∧
    (Machine.run rt prog 9 m).conditionRuns = m.conditionRuns := by
  obtain ⟨pc, g, f, v, e, n, b⟩ := m
  simp only at hpc hjb
  subst hpc
  have h9 : Machine.run rt prog 9
      { pc := a + 2, gpd := g, flags := f, conditionValue := v, errorFlag := e,
        conditionRuns := n, bodyRuns := b } =
      Machine.run rt prog 1 (Machine.run rt prog 8
        { pc := a + 2, gpd := g, flags := f, conditionValue := v, errorFlag := e,
          conditionRuns := n, bodyRuns := b }) := Machine.run_add rt prog 8 1 _
  rw [h9, Machine.run_at hI.jb]
  simp only [Machine.exec, Instr.target, hjb, Bool.false_eq_true, if_false, Nat.add_assoc,
    Nat.reduceAdd]
  rw [Machine.run_at hI.movKind]
  simp only [Machine.exec, Instr.target, Machine.effect, Machine.setGpd, Nat.add_assoc,
    Nat.reduceAdd]
  rw [Machine.run_at hI.storeKind]
  simp only [Machine.exec, Instr.target, Machine.effect, Machine.setGpd, Nat.add_assoc,
    Nat.reduceAdd, if_true]
  rw [Machine.run_at hI.movLine]
  simp only [Machine.exec, Instr.target, Machine.effect, Machine.setGpd, Nat.add_assoc,
    Nat.reduceAdd]
  rw [Machine.run_at hI.storeLine]
  simp only [Machine.exec, Instr.target, Machine.effect, Machine.setGpd, Nat.add_assoc,
    Nat.reduceAdd, if_true]
  rw [Machine.run_at hI.movCol]
  simp only [Machine.exec, Instr.target, Machine.effect, Machine.setGpd, Nat.add_assoc,
    Nat.reduceAdd]
  rw [Machine.run_at hI.storeCol]
  simp only [Machine.exec, Instr.target, Machine.effect, Machine.setGpd, Nat.add_assoc,
    Nat.reduceAdd, if_true]
  rw [Machine.run_at hI.jmpExit]
  simp only [Machine.exec, Instr.target, Instr.taken_jmp, if_true, Machine.run_zero, hI.labelExit]
  rw [Machine.run_at hI.bindExit]
  simp only [Machine.exec, Instr.target, Machine.effect, Machine.run_zero, hI.length,
    Nat.add_assoc, Nat.reduceAdd]
  refine ⟨trivial, by simp, by simp, by simp, ?_, trivial, trivial, trivial, trivial, trivial,
    trivial⟩
  intro o h0 h4 h8
  simp [h0, h4, h8]

/-- The passes of an instrumented loop below the ceiling, one after the other. -/
theorem Machine.run_passes (rt : Runtime) (prog : List Code) (a w cond exit ok : Nat)
    (line col : Int) (hI : Code.Instrumented prog a w cond exit ok line col) (t : Nat)
    (htest : ∀ (n : Nat) (g : Nat → Int) (e : Nat → Option Int) (b : Nat), ∃ fl,
      Machine.run rt prog t
        { pc := 4, gpd := g, flags := ((rt.condition n).lhs, (rt.condition n).rhs),
          conditionValue := (rt.condition n).value, errorFlag := e,
          conditionRuns := n + 1, bodyRuns := b } =
        { pc := a, gpd := g, flags := fl, conditionValue := (rt.condition n).value,
          errorFlag := e, conditionRuns := n + 1, bodyRuns := b })
    (k : Nat) :
    ∀ (j : Nat) (m : Machine), m.pc = 2 → m.gpd w = k → k + j < 10000000 →
      (Machine.run rt prog ((2 + (t + 6)) * j) m).pc = 2 ∧
      (Machine.run rt prog ((2 + (t + 6)) * j) m).gpd w = (k + j : Nat) ∧
      (Machine.run rt prog ((2 + (t + 6)) * j) m).errorFlag = m.errorFlag ∧
      (Machine.run rt prog ((2 + (t + 6)) * j) m).conditionRuns = m.conditionRuns + j ∧
      (Machine.run rt prog ((2 + (t + 6)) * j) m).bodyRuns = m.bodyRuns + j
  | 0, m, hpc, hg, _ => by
    rw [Nat.mul_zero, Machine.run_zero]
    exact ⟨hpc, hg, rfl, rfl, rfl⟩
  | j + 1, m, hpc, hg, hk => by
    obtain ⟨h1, h2, h3, h4, h5⟩ :=
      Machine.run_passes rt prog a w cond exit ok line col hI t htest k j m hpc hg
        (Nat.lt_of_succ_lt hk)
    obtain ⟨p1, p2, p3, p4, p5⟩ :=
      Machine.run_pass rt prog a w cond exit ok line col hI t
        (Machine.run rt prog ((2 + (t + 6)) * j) m) (k + j) h1 h2 hk (htest _)
    rw [Nat.mul_succ, Machine.run_add]
    refine ⟨p1, p2, ?_, ?_, ?_⟩
    · rw [p3, h3]
    · rw [p4, h4]; rfl
    · rw [p5, h5]; rfl

/-- The pass in which the counter reaches the ceiling: the check trips, the
runtime error flag is written, and the code is left without a run of the
body. -/
theorem Machine.run_last (rt : Runtime) (prog : List Code) (a w cond exit ok : Nat)
    (line col : Int) (hI : Code.Instrumented prog a w cond exit ok line col) (t : Nat)
    (m : Machine) (hpc : m.pc = 2) (hg : m.gpd w = 9999999)
    (htest : ∀ (g : Nat → Int) (e : Nat → Option Int) (b : Nat), ∃ fl,
      Machine.run rt prog t
        { pc := 4, gpd := g,
          flags := ((rt.condition m.conditionRuns).lhs, (rt.condition m.conditionRuns).rhs),
          conditionValue := (rt.condition m.conditionRuns).value, errorFlag := e,
          conditionRuns := m.conditionRuns + 1, bodyRuns := b } =
        { pc := a, gpd := g, flags := fl,
          conditionValue := (rt.condition m.conditionRuns).value, errorFlag := e,
          conditionRuns := m.conditionRuns + 1, bodyRuns := b }) :
    (Machine.run rt prog (2 + (t + 2) + 9) m).pc = prog.length ∧
    (Machine.run rt prog (2 + (t + 2) + 9) m).errorFlag 0 = some rt.whileLoopErrorType ∧
    (Machine.run rt prog (2 + (t + 2) + 9) m).errorFlag 4 = some (Machine.wrap32 line) ∧
    (Machine.run rt prog (2 + (t + 2) + 9) m).errorFlag 8 = some (Machine.wrap32 col) ∧
    (Machine.run rt prog (2 + (t + 2) + 9) m).bodyRuns = m.bodyRuns ∧
    (Machine.run rt prog (2 + (t + 2) + 9) m).conditionRuns = m.conditionRuns + 1 := by
  have hjb : Instr.taken (Instr.jb ok)
      (Machine.wrap32 (9999999 + 1), Machine.wrap32 10000000) = false := by
    simp only [Instr.taken, Machine.wrap32, decide_eq_false_iff_not]; omega
  have hstart : ∃ m2 : Machine, Machine.run rt prog (2 + (t + 2)) m = m2 ∧ m2.pc = a + 2 ∧
      m2.flags = (Machine.wrap32 (9999999 + 1), Machine.wrap32 10000000) ∧
      m2.bodyRuns = m.bodyRuns ∧ m2.conditionRuns = m.conditionRuns + 1 := by
    obtain ⟨pc, g, f, v, e, n, b⟩ := m
    simp only at hpc hg htest
    subst hpc
    rw [Machine.run_add, Machine.run_at hI.bindCond]
    simp only [Machine.exec, Instr.target, Machine.effect]
    rw [Machine.run_at hI.condition]
    simp only [Machine.exec, Machine.run_zero, Nat.reduceAdd]
    rw [Machine.run_add]
    obtain ⟨fl, hfl⟩ := htest g e b
    rw [hfl, Machine.run_at hI.inc]
    simp only [Machine.exec, Instr.target, Machine.effect, Machine.setGpd, hg]
    rw [Machine.run_at hI.cmp]
    simp only [Machine.exec, Instr.target, Machine.effect, if_true, Nat.add_assoc, Nat.reduceAdd,
      Machine.run_zero]
    exact ⟨_, rfl, rfl, rfl, rfl, rfl⟩
  obtain ⟨m2, hm2, hpc2, hfl2, hb2, hcr2⟩ := hstart
  obtain ⟨_, _, _, _, _, _, _, q1, q2, q3, q4⟩ :=
    Machine.run_trip rt prog a w cond exit ok line col hI m2 hpc2 (by rw [hfl2]; exact hjb)
  obtain ⟨_, r2, r3, r4, _, _, _, _, _, _, _⟩ :=
    Machine.run_trip rt prog a w cond exit ok line col hI m2 hpc2 (by rw [hfl2]; exact hjb)
  rw [Machine.run_add, hm2]
  refine ⟨q1, ?_, ?_, ?_, ?_, ?_⟩
  · rw [q2]; exact r2
  · rw [q2]; exact r3
  · rw [q2]; exact r4
  · rw [q3, hb2]
  · rw [q4, hcr2]

/-- An instrumented loop whose condition never fails: the counter is cleared,
9,999,999 passes run the body, and the pass in which the counter reaches
10,000,000 writes the runtime error flag and leaves the loop. -/
theorem Machine.run_instrumented (rt : Runtime) (prog : List Code) (a w cond exit ok : Nat)
    (line col : Int) (hI : Code.Instrumented prog a w cond exit ok line col) (t : Nat)
    (htest : ∀ (n : Nat) (g : Nat → Int) (e : Nat → Option Int) (b : Nat), ∃ fl,
      Machine.run rt prog t
        { pc := 4, gpd := g, flags := ((rt.condition n).lhs, (rt.condition n).rhs),
          conditionValue := (rt.condition n).value, errorFlag := e,
          conditionRuns := n + 1, bodyRuns := b } =
        { pc := a, gpd := g, flags := fl, conditionValue := (rt.condition n).value,
          errorFlag := e, conditionRuns := n + 1, bodyRuns := b })
    (m : Machine) (hpc : m.pc = 0) (n : Nat)
    (hn : 2 + (2 + (t + 6)) * 9999999 + (2 + (t + 2) + 9) ≤ n) :
    (Machine.run rt prog n m).pc = prog.length ∧
    (Machine.run rt prog n m).bodyRuns = m.bodyRuns + 9999999 ∧
    (Machine.run rt prog n m).conditionRuns = m.conditionRuns + 10000000 ∧
    (Machine.run rt prog n m).errorFlag 0 = some rt.whileLoopErrorType ∧
    (Machine.run rt prog n m).errorFlag 4 = some (Machine.wrap32 line) ∧
    (Machine.run rt prog n m).errorFlag 8 = some (Machine.wrap32 col) := by
  obtain ⟨d, rfl⟩ := Nat.exists_eq_add_of_le hn
  obtain ⟨c1, c2, _, c4, c5⟩ := Machine.run_clear rt prog a w cond exit ok line col hI m hpc
  obtain ⟨p1, p2, _, p4, p5⟩ :=
    Machine.run_passes rt prog a w cond exit ok line col hI t htest 0 9999999
      (Machine.run rt prog 2 m) c1 (by rw [c2]; rfl) (by omega)
  obtain ⟨l1, l2, l3, l4, l5, l6⟩ :=
    Machine.run_last rt prog a w cond exit ok line col hI t
      (Machine.run rt prog ((2 + (t + 6)) * 9999999) (Machine.run rt prog 2 m)) p1
      (by rw [p2]; rfl) (htest _)
  rw [Machine.run_add rt prog (2 + (2 + (t + 6)) * 9999999 + (2 + (t + 2) + 9)) d,
    Machine.run_add rt prog (2 + (2 + (t + 6)) * 9999999) (2 + (t + 2) + 9),
    Machine.run_add rt prog 2 ((2 + (t + 6)) * 9999999),
    Machine.run_halted rt prog _ (Nat.le_of_eq l1.symm) d]
  refine ⟨l1, ?_, ?_, l2, l3, l4⟩
  · rw [l5, p5, c5]
  · rw [l6, p4, c4]

/-- The `INT_COMPARE` lines issue one jump to the exit label, taken exactly when
the comparison does not hold, for each of the six comparison operators, and
nothing for any other token. -/
theorem WhileLoop.intCompare_cases (op : Token) (exit : Nat) :
    (∃ j, WhileLoop.intCompare op exit = [j] ∧ j.target = some exit ∧
        j.isConditionalJump = true ∧ j.isRuntimeCheck = false ∧
        ∀ a b, j.taken (a, b) = !(op.holds a b)) ∨
      (WhileLoop.intCompare op exit = [] ∧ ∀ a b, op.holds a b = false) := by
  cases op with
  | greaterThan =>
    exact Or.inl ⟨Instr.jle exit, rfl, rfl, rfl, rfl, fun a b => by
      simp only [Instr.taken, Token.holds, ← decide_not, not_lt]⟩
  | lessThan =>
    exact Or.inl ⟨Instr.jge exit, rfl, rfl, rfl, rfl, fun a b => by
      simp only [Instr.taken, Token.holds, ← decide_not, not_lt]⟩
  | lessThanOrEqual =>
    exact Or.inl ⟨Instr.jg exit, rfl, rfl, rfl, rfl, fun a b => by
      simp only [Instr.taken, Token.holds, ← decide_not, not_le]⟩
  | greaterThanOrEqual =>
    exact Or.inl ⟨Instr.jl exit, rfl, rfl, rfl, rfl, fun a b => by
      simp only [Instr.taken, Token.holds, ← decide_not, not_le]⟩
  | equals =>
    exact Or.inl ⟨Instr.jne exit, rfl, rfl, rfl, rfl, fun a b => by
      simp [Instr.taken, Token.holds]⟩
  | notEquals =>
    exact Or.inl ⟨Instr.je exit, rfl, rfl, rfl, rfl, fun a b => by
      simp [Instr.taken, Token.holds]⟩
  | assign_ => exact Or.inr ⟨rfl, fun _ _ => rfl⟩
  | other name => exact Or.inr ⟨rfl, fun _ _ => rfl⟩

/-- The layout of an instrumented loop whose test is the compare with zero. -/
theorem Code.instrumented_zeroTest (w cond exit ok : Nat) (cReg : Option Reg) (line col : Int)
    (h1 : cond ≠ ok) (h2 : cond ≠ exit) (h3 : ok ≠ exit) :
    Code.Instrumented
      (Code.instrumentedLoop w cond exit ok
        [Instr.setInlineComment "check condition", Instr.cmpRegZero cReg, Instr.je exit] line col)
      7 w cond exit ok line col where
  clear := rfl
  nop := rfl
  bindCond := rfl
  condition := rfl
  inc := rfl
  cmp := rfl
  jb := rfl
  movKind := rfl
  storeKind := rfl
  movLine := rfl
  storeLine := rfl
  movCol := rfl
  storeCol := rfl
  jmpExit := rfl
  bindOk := rfl
  body := rfl
  jmpCond := rfl
  bindExit := rfl
  length := rfl
  labelCond := by
    simp [Code.labelIndex, Code.instrumentedLoop, Code.runtimeCheck, List.indexOf_cons]
  labelOk := by
    simp [Code.labelIndex, Code.instrumentedLoop, Code.runtimeCheck, List.indexOf_cons, h1]
  labelExit := by
    simp [Code.labelIndex, Code.instrumentedLoop, Code.runtimeCheck, List.indexOf_cons, h2, h3]
  indexJb := by
    simp [Code.instrumentedLoop, Code.runtimeCheck, List.indexOf_cons]

/-- The layout of an instrumented loop whose test is one jump to the exit
label. -/
theorem Code.instrumented_compare (w cond exit ok : Nat) (j : Instr) (line col : Int)
    (h1 : cond ≠ ok) (h2 : cond ≠ exit) (h3 : ok ≠ exit) (hj : j.target = some exit)
    (hjb : j ≠ Instr.jb ok) :
    Code.Instrumented (Code.instrumentedLoop w cond exit ok [j] line col)
      5 w cond exit ok line col := by
  have hjne : ∀ l, j ≠ Instr.bind l := by
    intro l h
    rw [h] at hj
    simp [Instr.target] at hj
  exact
    { clear := rfl
      nop := rfl
      bindCond := rfl
      condition := rfl
      inc := rfl
      cmp := rfl
      jb := rfl
      movKind := rfl
      storeKind := rfl
      movLine := rfl
      storeLine := rfl
      movCol := rfl
      storeCol := rfl
      jmpExit := rfl
      bindOk := rfl
      body := rfl
      jmpCond := rfl
      bindExit := rfl
      length := rfl
      labelCond := by
        simp [Code.labelIndex, Code.instrumentedLoop, Code.runtimeCheck, List.indexOf_cons]
      labelOk := by
        simp [Code.labelIndex, Code.instrumentedLoop, Code.runtimeCheck, List.indexOf_cons, h1,
          hjne]
      labelExit := by
        simp [Code.labelIndex, Code.instrumentedLoop, Code.runtimeCheck, List.indexOf_cons, h2,
          h3, hjne]
      indexJb := by
        simp [Code.instrumentedLoop, Code.runtimeCheck, List.indexOf_cons, hjb] }

/-- The layout of an instrumented loop without a test instruction. -/
theorem Code.instrumented_noTest (w cond exit ok : Nat) (line col : Int)
    (h1 : cond ≠ ok) (h2 : cond ≠ exit) (h3 : ok ≠ exit) :
    Code.Instrumented (Code.instrumentedLoop w cond exit ok [] line col)
      4 w cond exit ok line col where
  clear := rfl
  nop := rfl
  bindCond := rfl
  condition := rfl
  inc := rfl
  cmp := rfl
  jb := rfl
  movKind := rfl
  storeKind := rfl
  movLine := rfl
  storeLine := rfl
  movCol := rfl
  storeCol := rfl
  jmpExit := rfl
  bindOk := rfl
  body := rfl
  jmpCond := rfl
  bindExit := rfl
  length := rfl
  labelCond := by
    simp [Code.labelIndex, Code.instrumentedLoop, Code.runtimeCheck, List.indexOf_cons]
  labelOk := by
    simp [Code.labelIndex, Code.instrumentedLoop, Code.runtimeCheck, List.indexOf_cons, h1]
  labelExit := by
    simp [Code.labelIndex, Code.instrumentedLoop, Code.runtimeCheck, List.indexOf_cons, h2, h3]
  indexJb := by
    simp [Code.instrumentedLoop, Code.runtimeCheck, List.indexOf_cons]

theorem WhileLoop.findCompareInBlock_isCompare :
    ∀ (cs : List Statement) (cp : Statement),
      WhileLoop.findCompareInBlock cs = some cp → cp.kind.isCompare = true
  | [], cp, h => by simp [WhileLoop.findCompareInBlock] at h
  | s :: rest, cp, h => by
    unfold WhileLoop.findCompareInBlock at h
    split at h
    · exact absurd h (by simp)
    · split at h
      · split at h
        · split at h
          · have := Option.some.inj h
            subst this
            assumption
          · exact absurd h (by simp)
        · exact absurd h (by simp)
      · exact WhileLoop.findCompareInBlock_isCompare rest cp h

/-- What `getCompareCondition` returns is a comparison node. -/
theorem WhileLoop.getCompareCondition_isCompare (self cp : Statement)
    (h : WhileLoop.getCompareCondition self = some cp) : ∃ op, cp.compareOp = some op := by
  have hk : cp.kind.isCompare = true := by
    unfold WhileLoop.getCompareCondition at h
    split at h
    · exact absurd h (by simp)
    · split at h
      · have := Option.some.inj h
        subst this
        assumption
      · split at h
        · exact WhileLoop.findCompareInBlock_isCompare _ cp h
        · exact absurd h (by simp)
  unfold Statement.compareOp
  cases hkind : cp.kind <;> simp_all [Kind.isCompare]

theorem WhileLoop.generatedCode_zeroTest (env : Env) (self : Statement) (c0 c1 : Compiler)
    (hsafe : env.isRuntimeErrorCheckEnabled = true)
    (hcp : WhileLoop.getCompareCondition self = none) :
    WhileLoop.generatedCode env self c0 c1 =
      Code.instrumentedLoop c0.nextGpd c0.nextLabel (c0.nextLabel + 1) c1.nextLabel
        [Instr.setInlineComment "check condition", Instr.cmpRegZero (c1.getSubRegister self 0),
          Instr.je (c0.nextLabel + 1)]
        self.location.line self.location.col := by
  simp [WhileLoop.generatedCode, WhileLoop.headInstrs, WhileLoop.testInstrs, hsafe, hcp,
    WhileLoop.zeroTestBranch, Code.instrumentedLoop, Code.runtimeCheck]

theorem WhileLoop.generatedCode_compare (env : Env) (self : Statement) (c0 c1 : Compiler)
    (cp : Statement) (op : Token) (hsafe : env.isRuntimeErrorCheckEnabled = true)
    (hcp : WhileLoop.getCompareCondition self = some cp) (hop : cp.compareOp = some op) :
    WhileLoop.generatedCode env self c0 c1 =
      Code.instrumentedLoop c0.nextGpd c0.nextLabel (c0.nextLabel + 1) c1.nextLabel
        (WhileLoop.intCompare op (c0.nextLabel + 1)) self.location.line self.location.col := by
  simp [WhileLoop.generatedCode, WhileLoop.headInstrs, WhileLoop.testInstrs, hsafe, hcp, hop,
    WhileLoop.compareBranch, Code.instrumentedLoop, Code.runtimeCheck]

theorem Machine.run_zeroTest (rt : Runtime) (w cond exit ok : Nat) (cReg : Option Reg)
    (line col : Int) (n : Nat) (hc : (rt.condition n).value ≠ 0) (g : Nat → Int)
    (e : Nat → Option Int) (b : Nat) :
    ∃ fl,
      Machine.run rt
        (Code.instrumentedLoop w cond exit ok
          [Instr.setInlineComment "check condition", Instr.cmpRegZero cReg, Instr.je exit]
          line col) 3
        { pc := 4, gpd := g, flags := ((rt.condition n).lhs, (rt.condition n).rhs),
          conditionValue := (rt.condition n).value, errorFlag := e,
          conditionRuns := n + 1, bodyRuns := b } =
        { pc := 7, gpd := g, flags := fl, conditionValue := (rt.condition n).value,
          errorFlag := e, conditionRuns := n + 1, bodyRuns := b } := by
  have g4 : (Code.instrumentedLoop w cond exit ok
      [Instr.setInlineComment "check condition", Instr.cmpRegZero cReg, Instr.je exit]
      line col).get? 4 = some (Code.instr (Instr.setInlineComment "check condition")) := rfl
  have g5 : (Code.instrumentedLoop w cond exit ok
      [Instr.setInlineComment "check condition", Instr.cmpRegZero cReg, Instr.je exit]
      line col).get? 5 = some (Code.instr (Instr.cmpRegZero cReg)) := rfl
  have g6 : (Code.instrumentedLoop w cond exit ok
      [Instr.setInlineComment "check condition", Instr.cmpRegZero cReg, Instr.je exit]
      line col).get? 6 = some (Code.instr (Instr.je exit)) := rfl
  have hje : Instr.taken (Instr.je exit) ((rt.condition n).value, 0) = false := by
    simp only [Instr.taken, hc, decide_False]
  refine ⟨((rt.condition n).value, 0), ?_⟩
  rw [Machine.run_at g4]
  simp only [Machine.exec, Instr.target, Machine.effect, Nat.reduceAdd]
  rw [Machine.run_at g5]
  simp only [Machine.exec, Instr.target, Machine.effect, Nat.reduceAdd]
  rw [Machine.run_at g6]
  simp only [Machine.exec, Instr.target, hje, Bool.false_eq_true, if_false, Nat.reduceAdd,
    Machine.run_zero]

theorem Machine.run_compare (rt : Runtime) (w cond exit ok : Nat) (j : Instr)
    (line col : Int) (n : Nat) (hj : j.target = some exit)
    (hc : j.taken ((rt.condition n).lhs, (rt.condition n).rhs) = false) (g : Nat → Int)
    (e : Nat → Option Int) (b : Nat) :
    ∃ fl,
      Machine.run rt (Code.instrumentedLoop w cond exit ok [j] line col) 1
        { pc := 4, gpd := g, flags := ((rt.condition n).lhs, (rt.condition n).rhs),
          conditionValue := (rt.condition n).value, errorFlag := e,
          conditionRuns := n + 1, bodyRuns := b } =
        { pc := 5, gpd := g, flags := fl, conditionValue := (rt.condition n).value,
          errorFlag := e, conditionRuns := n + 1, bodyRuns := b } := by
  have g4 : (Code.instrumentedLoop w cond exit ok [j] line col).get? 4 = some (Code.instr j) :=
    rfl
  refine ⟨((rt.condition n).lhs, (rt.condition n).rhs), ?_⟩
  rw [Machine.run_at g4]
  simp only [Machine.exec, hj, hc, Bool.false_eq_true, if_false, Nat.reduceAdd, Machine.run_zero]

/-- The code of a while-loop with the runtime check has the instrumented
layout, and while the condition is true its test needs a fixed number of steps
and lets the loop go on with the check. -/
theorem WhileLoop.generatedCode_instrumented (env : Env) (self : Statement) (c0 c1 : Compiler)
    (rt : Runtime)
    (hsafe : env.isRuntimeErrorCheckEnabled = true)
    (hlabel : c0.nextLabel + 2 ≤ c1.nextLabel)
    (hcond : ∀ n, WhileLoop.conditionHolds self (rt.condition n) = true) :
    ∃ a t,
      Code.Instrumented (WhileLoop.generatedCode env self c0 c1) a c0.nextGpd c0.nextLabel
        (c0.nextLabel + 1) c1.nextLabel self.location.line self.location.col ∧
      ∀ (n : Nat) (g : Nat → Int) (e : Nat → Option Int) (b : Nat), ∃ fl,
        Machine.run rt (WhileLoop.generatedCode env self c0 c1) t
          { pc := 4, gpd := g, flags := ((rt.condition n).lhs, (rt.condition n).rhs),
            conditionValue := (rt.condition n).value, errorFlag := e,
            conditionRuns := n + 1, bodyRuns := b } =
          { pc := a, gpd := g, flags := fl, conditionValue := (rt.condition n).value,
            errorFlag := e, conditionRuns := n + 1, bodyRuns := b } := by
  have h1 : c0.nextLabel ≠ c1.nextLabel := by omega
  have h2 : c0.nextLabel ≠ c0.nextLabel + 1 := by omega
  have h3 : c1.nextLabel ≠ c0.nextLabel + 1 := by omega
  cases hcp : WhileLoop.getCompareCondition self with
  | none =>
    have hv : ∀ n, (rt.condition n).value ≠ 0 := by
      intro n
      have := hcond n
      simpa [WhileLoop.conditionHolds, hcp] using this
    rw [WhileLoop.generatedCode_zeroTest env self c0 c1 hsafe hcp]
    exact ⟨7, 3, Code.instrumented_zeroTest _ _ _ _ _ _ _ h1 h2 h3,
      fun k g e b => Machine.run_zeroTest rt _ _ _ _ _ _ _ k (hv k) g e b⟩
  | some cp =>
    cases hop : cp.compareOp with
    | none =>
      have := hcond 0
      simp [WhileLoop.conditionHolds, hcp, hop] at this
    | some op =>
      have hh : ∀ n, op.holds (rt.condition n).lhs (rt.condition n).rhs = true := by
        intro n
        have := hcond n
        simpa [WhileLoop.conditionHolds, hcp, hop] using this
      rw [WhileLoop.generatedCode_compare env self c0 c1 cp op hsafe hcp hop]
      rcases WhileLoop.intCompare_cases op (c0.nextLabel + 1) with
        ⟨j, hj, hjt, _, hjr, hjs⟩ | ⟨_, hno⟩
      · rw [hj]
        exact ⟨5, 1,
          Code.instrumented_compare _ _ _ _ j _ _ h1 h2 h3 hjt
            (fun h => by rw [h] at hjr; simp [Instr.isRuntimeCheck] at hjr),
          fun k g e b => Machine.run_compare rt _ _ _ _ j _ _ k hjt
            (by rw [hjs, hh k]; rfl) g e b⟩
      · have := hh 0
        rw [hno] at this
        exact absurd this (by simp)

/-- The code of every while-loop with the runtime check has the instrumented
layout. -/
theorem WhileLoop.generatedCode_layout (env : Env) (self : Statement) (c0 c1 : Compiler)
    (hsafe : env.isRuntimeErrorCheckEnabled = true)
    (hlabel : c0.nextLabel + 2 ≤ c1.nextLabel) :
    ∃ a,
      Code.Instrumented (WhileLoop.generatedCode env self c0 c1) a c0.nextGpd c0.nextLabel
        (c0.nextLabel + 1) c1.nextLabel self.location.line self.location.col := by
  have h1 : c0.nextLabel ≠ c1.nextLabel := by omega
  have h2 : c0.nextLabel ≠ c0.nextLabel + 1 := by omega
  have h3 : c1.nextLabel ≠ c0.nextLabel + 1 := by omega
  cases hcp : WhileLoop.getCompareCondition self with
  | none =>
    rw [WhileLoop.generatedCode_zeroTest env self c0 c1 hsafe hcp]
    exact ⟨7, Code.instrumented_zeroTest _ _ _ _ _ _ _ h1 h2 h3⟩
  | some cp =>
    obtain ⟨op, hop⟩ := WhileLoop.getCompareCondition_isCompare self cp hcp
    rw [WhileLoop.generatedCode_compare env self c0 c1 cp op hsafe hcp hop]
    rcases WhileLoop.intCompare_cases op (c0.nextLabel + 1) with
      ⟨j, hj, hjt, _, hjr, _⟩ | ⟨hno, _⟩
    · rw [hj]
      exact ⟨5, Code.instrumented_compare _ _ _ _ j _ _ h1 h2 h3 hjt
        (fun h => by rw [h] at hjr; simp [Instr.isRuntimeCheck] at hjr)⟩
    · rw [hno]
      exact ⟨4, Code.instrumented_noTest _ _ _ _ _ _ h1 h2 h3⟩

/-- The head of the Code Generation block of a while-loop issues `headInstrs`
and requests the labels `cond` and `exit` and the counter register. -/
theorem WhileLoop.codeGenerationHead_trace (env : Env) (self : Statement) (c : Compiler) :
    (WhileLoop.codeGenerationHead env self c).trace =
      c.trace ++ (WhileLoop.headInstrs env c).map Event.asm ∧
    (WhileLoop.codeGenerationHead env self c).nextLabel = c.nextLabel + 2 ∧
    (WhileLoop.codeGenerationHead env self c).nextGpd = c.nextGpd + 1 := by
  unfold WhileLoop.codeGenerationHead WhileLoop.headInstrs
  cases WhileLoop.getCompareCondition self <;> exact ⟨rfl, rfl, rfl⟩

/-- Between the condition and the body the Code Generation block of a
while-loop issues `testInstrs`. -/
theorem WhileLoop.codeGenerationTest_trace (env : Env) (self : Statement) (exit why : Nat)
    (c : Compiler) :
    (WhileLoop.codeGenerationTest env self exit why c).trace =
      c.trace ++ (WhileLoop.testInstrs env self exit why c).map Event.asm := by
  unfold WhileLoop.codeGenerationTest WhileLoop.testInstrs
  cases WhileLoop.getCompareCondition self with
  | none => rfl
  | some cp =>
    dsimp only
    cases cp.compareOp with
    | none => simp
    | some op => rfl

/-- The order in which the Code Generation block of a while-loop issues its
code: `headInstrs`, the condition, `testInstrs`, the body, the jump back and
the exit label. -/
theorem WhileLoop.codeGeneration_layout (env : Env) (scope : BaseScope) (self : Statement)
    (ch : Children) (processCondition processBody : BaseScope → Compiler → Result)
    (c0 c1 c2 : Compiler)
    (h0 : ch.process0 = some processCondition) (h1 : ch.process1 = some processBody)
    (hc1 : processCondition scope (WhileLoop.codeGenerationHead env self c0) = Result.ok c1)
    (hc2 : processBody scope
      (WhileLoop.codeGenerationTest env self (c0.nextLabel + 1) c0.nextGpd c1) = Result.ok c2) :
    (WhileLoop.codeGenerationHead env self c0).trace =
      c0.trace ++ (WhileLoop.headInstrs env c0).map Event.asm ∧
    (WhileLoop.codeGenerationTest env self (c0.nextLabel + 1) c0.nextGpd c1).trace =
      c1.trace ++
        (WhileLoop.testInstrs env self (c0.nextLabel + 1) c0.nextGpd c1).map Event.asm ∧
    WhileLoop.codeGeneration env scope self ch c0 =
      Result.ok (c2.emit [Instr.jmp c0.nextLabel, Instr.bind (c0.nextLabel + 1)]) := by
  refine ⟨(WhileLoop.codeGenerationHead_trace env self c0).1,
    WhileLoop.codeGenerationTest_trace env self _ _ c1, ?_⟩
  simp only [WhileLoop.codeGeneration, h0, h1, hc1, hc2, Result.bind]

/-- C14, as stated, fails.  The loop `while (n) { }` compiled with the runtime
check, whose condition is true every time: the Code Generation pass issues the
code listed, and on the processor that code runs the body exactly 9,999,999
times, not 10,000,000 times, before it leaves the loop with the runtime error
flag written: the counter is incremented before it is compared, and the jump
to the body (`jb`) is taken only while the counter is below 10,000,000. -/
theorem WhileLoop_runtime_check_trips_at_ceiling :
    Env.instrumented.isRuntimeErrorCheckEnabled = true ∧
    (∀ n, WhileLoop.conditionHolds Sample.countingLoop (Sample.runtime.condition n) = true) ∧
    ((process Env.instrumented Pass.CodeGeneration Sample.functionScope [] Sample.countingLoop
        (Compiler.initial.setReg 2 (some 0))).state.trace.filterMap
          (fun e => match e with
            | Event.asm i => some (Code.instr i)
            | Event.process 2 _ => some Code.condition
            | Event.process 3 _ => some Code.body
            | _ => none)) =
      WhileLoop.generatedCode Env.instrumented Sample.countingLoop Sample.loopEntry
        (WhileLoop.codeGenerationHead Env.instrumented Sample.countingLoop Sample.loopEntry) ∧
    WhileLoop.generatedCode Env.instrumented Sample.countingLoop Sample.loopEntry
        (WhileLoop.codeGenerationHead Env.instrumented Sample.countingLoop Sample.loopEntry) =
      [Code.instr (Instr.xor_ 0 0), Code.instr Instr.nop, Code.instr (Instr.bind 0),
       Code.condition,
       Code.instr (Instr.setInlineComment "check condition"),
       Code.instr (Instr.cmpRegZero (some 0)), Code.instr (Instr.je 1),
       Code.instr (Instr.inc 0), Code.instr (Instr.cmpImm 0 10000000), Code.instr (Instr.jb 2),
       Code.instr (Instr.movErrorKindWhileLoop 0),
       Code.instr (Instr.movToErrorFlag { offset := 0, size := 4 } 0),
       Code.instr (Instr.movImm 0 1),
       Code.instr (Instr.movToErrorFlag { offset := 4, size := 4 } 0),
       Code.instr (Instr.movImm 0 1),
       Code.instr (Instr.movToErrorFlag { offset := 8, size := 4 } 0),
       Code.instr (Instr.jmp 1), Code.instr (Instr.bind 2),
       Code.body, Code.instr (Instr.jmp 0), Code.instr (Instr.bind 1)] ∧
    ∃ fuel, ∀ n, fuel ≤ n →
      (Machine.run Sample.runtime
        (WhileLoop.generatedCode Env.instrumented Sample.countingLoop Sample.loopEntry
          (WhileLoop.codeGenerationHead Env.instrumented Sample.countingLoop Sample.loopEntry))
        n Machine.start).pc = 21 ∧
      (Machine.run Sample.runtime
        (WhileLoop.generatedCode Env.instrumented Sample.countingLoop Sample.loopEntry
          (WhileLoop.codeGenerationHead Env.instrumented Sample.countingLoop Sample.loopEntry))
        n Machine.start).bodyRuns = 9999999 ∧
      (Machine.run Sample.runtime
        (WhileLoop.generatedCode Env.instrumented Sample.countingLoop Sample.loopEntry
          (WhileLoop.codeGenerationHead Env.instrumented Sample.countingLoop Sample.loopEntry))
        n Machine.start).bodyRuns ≠ 10000000 := by
  refine ⟨rfl, fun _ => rfl, by decide, by decide, ?_⟩
  obtain ⟨a, t, hI, htest⟩ :=
    WhileLoop.generatedCode_instrumented Env.instrumented Sample.countingLoop Sample.loopEntry
      (WhileLoop.codeGenerationHead Env.instrumented Sample.countingLoop Sample.loopEntry)
      Sample.runtime rfl (by decide) (fun _ => rfl)
  refine ⟨2 + (2 + (t + 6)) * 9999999 + (2 + (t + 2) + 9), fun n hn => ?_⟩
  obtain ⟨h1, h2, _⟩ :=
    Machine.run_instrumented Sample.runtime _ a _ _ _ _ _ _ hI t htest Machine.start rfl n hn
  refine ⟨?_, ?_, ?_⟩
  · rw [h1]
    decide
  · rw [h2]; rfl
  · rw [h2]; decide

/-- Without the runtime check no instruction of the check is among the
instructions of the test. -/
theorem WhileLoop.testInstrs_unchecked (env : Env) (self : Statement) (exit why : Nat)
    (c : Compiler) (hsafe : env.isRuntimeErrorCheckEnabled = false) :
    ∀ i ∈ WhileLoop.testInstrs env self exit why c, i.isRuntimeCheck = false := by
  intro i hi
  unfold WhileLoop.testInstrs at hi
  cases hcp : WhileLoop.getCompareCondition self with
  | none =>
    simp only [hcp, hsafe, WhileLoop.zeroTestBranch, Bool.false_eq_true, if_false,
      List.append_nil, List.mem_cons, List.mem_singleton, List.not_mem_nil, or_false] at hi
    rcases hi with rfl | rfl | rfl <;> rfl
  | some cp =>
    simp only [hcp] at hi
    cases hop : cp.compareOp with
    | none => simp [hop] at hi
    | some op =>
      simp only [hop, hsafe, WhileLoop.compareBranch, Bool.false_eq_true, if_false,
        List.append_nil] at hi
      rcases WhileLoop.intCompare_cases op exit with ⟨j, hj, _, _, hjr, _⟩ | ⟨hno, _⟩
      · rw [hj] at hi
        have : i = j := by simpa using hi
        rw [this]
        exact hjr
      · rw [hno] at hi
        simp at hi

/-- With the runtime check the instructions of the test write the three fields
of the runtime error flag, in this order. -/
theorem WhileLoop.testInstrs_errorFlagFields (env : Env) (self : Statement) (exit why : Nat)
    (c : Compiler) (hsafe : env.isRuntimeErrorCheckEnabled = true) :
    (WhileLoop.testInstrs env self exit why c).filterMap Instr.errorFlagField =
      [{ offset := 0, size := 4 }, { offset := 4, size := 4 }, { offset := 8, size := 4 }] := by
  unfold WhileLoop.testInstrs
  cases hcp : WhileLoop.getCompareCondition self with
  | none =>
    simp [hsafe, WhileLoop.zeroTestBranch, Instr.errorFlagField]
  | some cp =>
    obtain ⟨op, hop⟩ := WhileLoop.getCompareCondition_isCompare self cp hcp
    simp only [hop, hsafe, WhileLoop.compareBranch, if_true]
    rcases WhileLoop.intCompare_cases op exit with ⟨j, hj, hjt, _, _, _⟩ | ⟨hno, _⟩
    · rw [hj]
      have hjf : j.errorFlagField = none := by
        cases j <;> simp [Instr.target] at hjt <;> rfl
      rw [List.singleton_append, List.filterMap_cons, hjf]
      rfl
    · rw [hno]
      simp [Instr.errorFlagField]

/-- The conditional jumps to the exit label among the instructions of the
runtime check: there is none, the check jumps on the counter to its own
label. -/
theorem Code.runtimeCheck_exit_jumps (w exit ok : Nat) (line col : Int) (h : exit ≠ ok) :
    (Code.runtimeCheck w exit ok line col).filter
      (fun i => i.isConditionalJump && decide (i.target = some exit)) = [] := by
  have h2 : ¬ ok = exit := fun e => h e.symm
  simp [Code.runtimeCheck, List.filter_cons, Instr.isConditionalJump, Instr.target, h2]

theorem WhileLoop.compareBranch_eq (safeCheck : Bool) (op : Token) (why exit ok : Nat)
    (l : Location) :
    WhileLoop.compareBranch safeCheck op why exit ok l =
      WhileLoop.intCompare op exit ++
        (if safeCheck then Code.runtimeCheck why exit ok l.line l.col else []) := rfl

theorem WhileLoop.zeroTestBranch_eq (safeCheck : Bool) (cReg : Option Reg) (why exit ok : Nat)
    (l : Location) :
    WhileLoop.zeroTestBranch safeCheck cReg why exit ok l =
      [Instr.setInlineComment "check condition", Instr.cmpRegZero cReg, Instr.je exit] ++
        (if safeCheck then Code.runtimeCheck why exit ok l.line l.col else []) := rfl

theorem Compiler.Extends.refl (c : Compiler) : c.Extends c :=
  ⟨⟨[], by simp, by simp⟩, le_refl _⟩

/-- One more step from the end of a chain of steps that take nothing back. -/
theorem Compiler.Extends.step {a b b1 : Compiler} (h : a.Extends b) (es : List Event)
    (ht : b1.trace = b.trace ++ es)
    (hl : ∀ e ∈ es, ∀ l, Event.usesLabel l e = true → a.nextLabel ≤ l)
    (hn : b.nextLabel ≤ b1.nextLabel) : a.Extends b1 := by
  obtain ⟨⟨e1, h1t, h1l⟩, h1n⟩ := h
  refine ⟨⟨e1 ++ es, by rw [ht, h1t, List.append_assoc], ?_⟩, le_trans h1n hn⟩
  intro e he l hu
  rcases List.mem_append.1 he with he | he
  · exact h1l e he l hu
  · exact hl e he l hu

theorem Compiler.Extends.trans {a b c : Compiler} (h1 : a.Extends b) (h2 : b.Extends c) :
    a.Extends c := by
  obtain ⟨⟨e2, h2t, h2l⟩, h2n⟩ := h2
  exact h1.step e2 h2t (fun e he l hu => le_trans h1.2 (h2l e he l hu)) h2n

/-- A step after a normal return extends the state when both steps do. -/
theorem Result.bind_extends (c : Compiler) (r : Result) (f : Compiler → Result)
    (hr : c.Extends r.state)
    (hf : ∀ c1, r = Result.ok c1 → c.Extends c1 → c.Extends (f c1).state) :
    c.Extends (r.bind f).state := by
  cases r with
  | ok c1 => exact hf c1 rfl hr
  | error e c1 => exact hr
  | undefined c1 => exact hr

theorem Compiler.Extends.log {a b : Compiler} (h : a.Extends b) (e : Event)
    (he : ∀ l, Event.usesLabel l e = false) : a.Extends (b.log e) :=
  h.step [e] rfl (fun e1 h1 l hu => by
    rw [List.mem_singleton.1 h1, he l] at hu
    exact absurd hu (by simp)) (le_refl _)

theorem Compiler.Extends.emit {a b : Compiler} (h : a.Extends b) (is : List Instr)
    (his : ∀ i ∈ is, ∀ l, Event.usesLabel l (Event.asm i) = true → a.nextLabel ≤ l) :
    a.Extends (b.emit is) :=
  h.step (is.map Event.asm) rfl (fun e he l hu => by
    obtain ⟨i, hi, rfl⟩ := List.mem_map.1 he
    exact his i hi l hu) (le_refl _)

theorem Compiler.Extends.setReg {a b : Compiler} (h : a.Extends b) (i : Nat) (r : Option Reg) :
    a.Extends (b.setReg i r) :=
  h.step [] (by simp [Compiler.setReg]) (by simp) (le_refl _)

theorem Compiler.Extends.setTypeOf {a b : Compiler} (h : a.Extends b) (i : Nat) (t : TypeInfo) :
    a.Extends (b.setTypeOf i t) :=
  h.step [] (by simp [Compiler.setTypeOf]) (by simp) (le_refl _)

/-- The labels of the instructions at the head of the code of a while-loop: the
condition label. -/
theorem WhileLoop.headInstrs_labels (env : Env) (c : Compiler) :
    ∀ i ∈ WhileLoop.headInstrs env c, ∀ l,
      Event.usesLabel l (Event.asm i) = true → l = c.nextLabel := by
  intro i hi l hu
  unfold WhileLoop.headInstrs at hi
  cases hs : env.isRuntimeErrorCheckEnabled with
  | false =>
    simp only [hs, Bool.false_eq_true, if_false, List.nil_append, List.mem_cons,
      List.mem_singleton, List.not_mem_nil, or_false] at hi
    rcases hi with rfl | rfl
    · simp [Event.usesLabel, Instr.target] at hu
    · simp [Event.usesLabel, Instr.target] at hu
      exact hu.symm
  | true =>
    simp only [hs, if_true, List.cons_append, List.nil_append, List.mem_cons,
      List.mem_singleton, List.not_mem_nil, or_false] at hi
    rcases hi with rfl | rfl | rfl
    · simp [Event.usesLabel, Instr.target] at hu
    · simp [Event.usesLabel, Instr.target] at hu
    · simp [Event.usesLabel, Instr.target] at hu
      exact hu.symm

/-- The labels of the instructions of the test of a while-loop: the exit label
and the label of the runtime check. -/
theorem WhileLoop.testInstrs_labels (env : Env) (self : Statement) (exit why : Nat)
    (c : Compiler) :
    ∀ i ∈ WhileLoop.testInstrs env self exit why c, ∀ l,
      Event.usesLabel l (Event.asm i) = true → l = exit ∨ l = c.nextLabel := by
  have hcheck : ∀ i ∈ Code.runtimeCheck why exit c.nextLabel self.location.line
      self.location.col, ∀ l,
      Event.usesLabel l (Event.asm i) = true → l = exit ∨ l = c.nextLabel := by
    intro i hi l hu
    simp only [Code.runtimeCheck, List.mem_cons, List.mem_singleton, List.not_mem_nil,
      or_false] at hi
    rcases hi with rfl | rfl | rfl | rfl | rfl | rfl | rfl | rfl | rfl | rfl | rfl <;>
      simp [Event.usesLabel, Instr.target] at hu
    all_goals omega
  intro i hi l hu
  unfold WhileLoop.testInstrs at hi
  cases hcp : WhileLoop.getCompareCondition self with
  | none =>
    simp only [hcp, WhileLoop.zeroTestBranch_eq, List.mem_append, List.mem_cons,
      List.mem_singleton, List.not_mem_nil, or_false] at hi
    rcases hi with (rfl | rfl | rfl) | hi
    · simp [Event.usesLabel, Instr.target] at hu
    · simp [Event.usesLabel, Instr.target] at hu
    · simp [Event.usesLabel, Instr.target] at hu
      exact Or.inl hu.symm
    · cases hs : env.isRuntimeErrorCheckEnabled with
      | false => simp [hs] at hi
      | true =>
        simp only [hs, if_true] at hi
        exact hcheck i hi l hu
  | some cp =>
    simp only [hcp] at hi
    cases hop : cp.compareOp with
    | none => simp [hop] at hi
    | some op =>
      simp only [hop, WhileLoop.compareBranch_eq, List.mem_append] at hi
      rcases hi with hi | hi
      · rcases WhileLoop.intCompare_cases op exit with ⟨j, hj, hjt, _, _, _⟩ | ⟨hnil, _⟩
        · rw [hj, List.mem_singleton] at hi
          subst hi
          simp only [Event.usesLabel, hjt, Option.some.injEq, Bool.or_eq_true,
            decide_eq_true_eq] at hu
          rcases hu with hu | hu
          · exact Or.inl hu.symm
          · rw [hu] at hjt
            simp [Instr.target] at hjt
        · rw [hnil] at hi
          simp at hi
      · cases hs : env.isRuntimeErrorCheckEnabled with
        | false => simp [hs] at hi
        | true =>
          simp only [hs, if_true] at hi
          exact hcheck i hi l hu

/-- The head of the Code Generation block of a while-loop takes nothing back. -/
theorem WhileLoop.codeGenerationHead_extends (env : Env) (self : Statement) (c : Compiler) :
    c.Extends (WhileLoop.codeGenerationHead env self c) := by
  obtain ⟨h1, h2, _⟩ := WhileLoop.codeGenerationHead_trace env self c
  refine (Compiler.Extends.refl c).step _ h1 ?_ (by rw [h2]; omega)
  intro e he l hu
  obtain ⟨i, hi, rfl⟩ := List.mem_map.1 he
  exact le_of_eq (WhileLoop.headInstrs_labels env c i hi l hu).symm

/-- The test of the Code Generation block of a while-loop gives no label
back. -/
theorem WhileLoop.codeGenerationTest_nextLabel (env : Env) (self : Statement) (exit why : Nat)
    (c : Compiler) :
    c.nextLabel ≤ (WhileLoop.codeGenerationTest env self exit why c).nextLabel := by
  unfold WhileLoop.codeGenerationTest
  cases WhileLoop.getCompareCondition self with
  | none => simp [Compiler.emit]
  | some cp =>
    dsimp only
    cases cp.compareOp with
    | none => exact le_refl _
    | some op => simp [Compiler.emit]

/-- The test of the Code Generation block of a while-loop takes nothing back
from the state in which the loop was entered. -/
theorem WhileLoop.codeGenerationTest_extends (env : Env) (self : Statement) (exit why : Nat)
    (a c : Compiler) (h : a.Extends c) (hexit : a.nextLabel ≤ exit) :
    a.Extends (WhileLoop.codeGenerationTest env self exit why c) := by
  refine h.step _ (WhileLoop.codeGenerationTest_trace env self exit why c) ?_ ?_
  · intro e he l hu
    obtain ⟨i, hi, rfl⟩ := List.mem_map.1 he
    rcases WhileLoop.testInstrs_labels env self exit why c i hi l hu with rfl | rfl
    · exact hexit
    · exact h.2
  · exact WhileLoop.codeGenerationTest_nextLabel env self exit why c

theorem Statement.processBaseWithChildren_extends (self : Statement) (ch : Children)
    (hch : ch.Extends) (scope : BaseScope) (a c : Compiler) (h : a.Extends c) :
    a.Extends (self.processBaseWithChildren ch scope c).state :=
  (h.log _ (by intro l; rfl)).trans (hch.all scope _)

theorem StatementBlock_process_extends (env : Env) (scope : BaseScope)
    (self : Statement) (path : NamespacedIdentifier) (a b : Bool) (ch : Children)
    (hch : ch.Extends) (c : Compiler) :
    c.Extends
      (StatementBlock.process env Pass.CodeGeneration scope self path a b ch c).state := by
  unfold StatementBlock.process
  simp only [reduceCtorEq, if_false]
  have h0 : c.Extends (StatementBlock.createOrGetBlockScope self.id path scope c).2 := by
    unfold StatementBlock.createOrGetBlockScope
    split
    · exact Compiler.Extends.refl c
    · split
      · exact Compiler.Extends.refl c
      · exact (Compiler.Extends.refl c).step [] (by simp [Compiler.setBlockScope]) (by simp)
          (le_refl _)
  refine Result.bind_extends c _ _
    (Statement.processBaseWithChildren_extends self ch hch _ c _ h0) ?_
  intro c1 _ h1
  exact Result.bind_extends c _ _ h1 (fun c2 _ h2 => h2)

theorem ReturnStatement_process_extends (env : Env) (scope : BaseScope)
    (anc : List Statement) (self : Statement) (ch : Children) (hch : ch.Extends) (c : Compiler) :
    c.Extends (ReturnStatement.process env Pass.CodeGeneration scope anc self ch c).state := by
  unfold ReturnStatement.process
  simp only [reduceCtorEq, if_false, if_true]
  refine Result.bind_extends c _ _
    (Statement.processBaseWithChildren_extends self ch hch _ c _ (Compiler.Extends.refl c)) ?_
  intro c1 _ h1
  refine Result.bind_extends c _ _ h1 ?_
  intro c2 _ h2
  unfold ReturnStatement.codeGeneration
  refine Result.bind_extends c _ _ ?_ ?_
  · unfold ReturnStatement.bindRegister
    split
    · dsimp only
      have h3 : c.Extends
          (match ReturnStatement.findInlinedRoot env self anc with
            | some sb =>
              (c2.setReg self.id (c2.getSubRegister self 0)).setReg sb.id
                (c2.getSubRegister self 0)
            | none =>
              match env.findRoot self anc with
              | some sl => c2.setReg self.id (c2.returnRegister sl.id)
              | none => c2) := by
        split
        · exact (h2.setReg _ _).setReg _ _
        · split
          · exact h2.setReg _ _
          · exact h2
      split
      · exact h3
      · exact h3
    · exact h2
  · intro c3 _ h3
    split
    · exact h3.log _ (by intro l; rfl)
    · exact h3.log _ (by intro l; rfl)

theorem TernaryOp_process_extends (env : Env) (scope : BaseScope)
    (self : Statement) (ch : Children) (c : Compiler) :
    c.Extends (TernaryOp.process env Pass.CodeGeneration scope self ch c).state := by
  unfold TernaryOp.process
  simp only [reduceCtorEq, if_false, if_true, Statement.processBaseWithoutChildren, Result.bind,
    TernaryOp.codeGeneration, Result.state]
  exact (((Compiler.Extends.refl c).log _ (by intro l; rfl)).log _ (by intro l; rfl)).setReg _ _

theorem WhileLoop_process_extends (env : Env) (scope : BaseScope)
    (self : Statement) (ch : Children) (hch : ch.Extends) (c : Compiler) :
    c.Extends (WhileLoop.process env Pass.CodeGeneration scope self ch c).state := by
  unfold WhileLoop.process
  simp only [reduceCtorEq, if_false, if_true, Statement.processBaseWithoutChildren, Result.bind]
  have key : ∀ c0 : Compiler,
      c0.Extends (WhileLoop.codeGeneration env scope self ch c0).state := by
    intro c0
    unfold WhileLoop.codeGeneration
    cases h0 : ch.process0 with
    | none => exact WhileLoop.codeGenerationHead_extends env self c0
    | some processCondition =>
      dsimp only
      refine Result.bind_extends c0 _ _
        ((WhileLoop.codeGenerationHead_extends env self c0).trans (hch.first _ h0 _ _)) ?_
      intro c1 _ hc1
      cases h1 : ch.process1 with
      | none =>
        exact WhileLoop.codeGenerationTest_extends env self _ _ c0 c1 hc1 (by omega)
      | some processBody =>
        dsimp only
        refine Result.bind_extends c0 _ _
          ((WhileLoop.codeGenerationTest_extends env self _ _ c0 c1 hc1 (by omega)).trans
            (hch.second _ h1 _ _)) ?_
        intro c2 _ hc2
        refine hc2.emit _ ?_
        intro i hi l hu
        simp only [List.mem_cons, List.mem_singleton, List.not_mem_nil, or_false] at hi
        rcases hi with rfl | rfl <;> simp [Event.usesLabel, Instr.target] at hu <;> omega
  exact ((Compiler.Extends.refl c).log (Event.processBaseWithoutChildren self.id)
    (by intro l; rfl)).trans (key _)

theorem Loop_process_extends (env : Env) (scope : BaseScope)
    (anc : List Statement) (self : Statement) (ch : Children) (hch : ch.Extends) (c : Compiler) :
    c.Extends (Loop.process env Pass.CodeGeneration scope anc self ch c).state := by
  unfold Loop.process
  simp only [reduceCtorEq, if_false, if_true, Statement.processBaseWithoutChildren, Result.bind,
    ne_eq, not_true_eq_false, and_false, not_false_eq_true]
  have h0 := (Compiler.Extends.refl c).log (Event.processBaseWithoutChildren self.id)
    (by intro l; rfl)
  revert h0
  generalize c.log (Event.processBaseWithoutChildren self.id) = c0
  intro h0
  unfold Loop.codeGeneration
  cases hp : ch.process0 with
  | none => exact h0
  | some processTarget =>
    dsimp only
    refine Result.bind_extends c _ _ (h0.trans (hch.first _ hp _ _)) ?_
    intro c1 _ h1
    unfold Loop.emit
    cases self.getSubExpr 0 with
    | none => exact h1
    | some target =>
      dsimp only
      cases c1.loopTargetType self.id
      all_goals first
        | exact h1.log _ (by intro l; rfl)
        | exact (h1.log _ (by intro l; rfl)).log _ (by intro l; rfl)

theorem ControlFlowStatement_process_extends (scope : BaseScope)
    (anc : List Statement) (self : Statement) (isBreak : Bool) (ch : Children) (hch : ch.Extends)
    (c : Compiler) :
    c.Extends
      (ControlFlowStatement.process Pass.CodeGeneration scope anc self isBreak ch c).state := by
  unfold ControlFlowStatement.process
  simp only [reduceCtorEq, if_false, if_true]
  refine Result.bind_extends c _ _
    (Statement.processBaseWithChildren_extends self ch hch _ c _ (Compiler.Extends.refl c)) ?_
  intro c1 _ h1
  refine Result.bind_extends c _ _ h1 ?_
  intro c2 _ h2
  exact h2.log _ (by intro l; rfl)

theorem IfStatement_process_extends (scope : BaseScope)
    (self : Statement) (ch : Children) (c : Compiler) :
    c.Extends (IfStatement.process Pass.CodeGeneration scope self ch c).state := by
  unfold IfStatement.process
  simp only [reduceCtorEq, if_false, if_true, Statement.processBaseWithoutChildren, Result.bind,
    ne_eq, not_true_eq_false, IfStatement.codeGeneration, Result.state]
  refine Compiler.Extends.log ?_ _ (by intro l; rfl)
  split
  · exact (((Compiler.Extends.refl c).log _ (by intro l; rfl)).log _ (by intro l; rfl)).log _
      (by intro l; rfl)
  · exact ((Compiler.Extends.refl c).log _ (by intro l; rfl)).log _ (by intro l; rfl)

theorem Statement.processOther_extends (env : Env) (pass : Pass) (scope : BaseScope)
    (self : Statement) (ch : Children) (hch : ch.Extends) (c : Compiler) :
    c.Extends (Statement.processOther env pass scope self ch c).state := by
  unfold Statement.processOther
  refine Result.bind_extends c _ _
    (Statement.processBaseWithChildren_extends self ch hch _ c _ (Compiler.Extends.refl c)) ?_
  intro c1 _ h1
  cases env.ext pass self c1 with
  | error e => exact h1
  | ok tr => exact (h1.setTypeOf _ _).setReg _ _

/-- In the Code Generation pass the function of every node kind takes nothing
back when the processing of the children takes nothing back. -/
theorem Statement.dispatch_codeGeneration_extends (env : Env) (scope : BaseScope)
    (anc : List Statement) (self : Statement) (ch : Children) (hch : ch.Extends) (c : Compiler) :
    c.Extends (Statement.dispatch env Pass.CodeGeneration scope anc self ch c).state := by
  unfold Statement.dispatch
  split
  · exact StatementBlock_process_extends env scope self _ _ _ ch hch c
  · exact ReturnStatement_process_extends env scope anc self ch hch c
  · exact TernaryOp_process_extends env scope self ch c
  · exact WhileLoop_process_extends env scope self ch hch c
  · exact Loop_process_extends env scope anc self ch hch c
  · exact ControlFlowStatement_process_extends scope anc self _ ch hch c
  · exact IfStatement_process_extends scope self ch c
  · exact Statement.processOther_extends env _ scope self ch hch c

/-- The traversal of a list of children takes nothing back when the processing
of each of them takes nothing back. -/
theorem processAllChildren_codeGeneration_extends (env : Env) (cs : List Statement)
    (h : ∀ s ∈ cs, ∀ (sc : BaseScope) (anc : List Statement) (c : Compiler),
      c.Extends (process env Pass.CodeGeneration sc anc s c).state) :
    ∀ (sc : BaseScope) (anc : List Statement) (c : Compiler),
      c.Extends (processAllChildren env Pass.CodeGeneration sc anc cs c).state := by
  induction cs with
  | nil =>
    intro sc anc c
    rw [processAllChildren_nil]
    exact Compiler.Extends.refl c
  | cons s rest ih =>
    intro sc anc c
    rw [processAllChildren_cons]
    exact Result.bind_extends c _ _ (h s (List.mem_cons_self _ _) sc anc c)
      (fun c1 _ h1 => h1.trans (ih (fun s1 hs1 => h s1 (List.mem_cons_of_mem _ hs1)) sc anc c1))

/-- The processing of a node in the Code Generation pass takes nothing back
when the processing of each of its children takes nothing back. -/
theorem process_codeGeneration_extends_of_children (env : Env) (s : Statement)
    (h : ∀ s1 ∈ s.children, ∀ (sc : BaseScope) (anc : List Statement) (c : Compiler),
      c.Extends (process env Pass.CodeGeneration sc anc s1 c).state)
    (sc : BaseScope) (anc : List Statement) (c : Compiler) :
    c.Extends (process env Pass.CodeGeneration sc anc s c).state := by
  rw [process_eq]
  refine ((Compiler.Extends.refl c).log _ (by intro l; rfl)).trans
    (Statement.dispatch_codeGeneration_extends env sc anc s _ ⟨?_, ?_, ?_⟩ _)
  · intro sc1 c1
    exact processAllChildren_codeGeneration_extends env s.children h sc1 (s :: anc) c1
  · intro f hf sc1 c1
    simp only [Statement.childProcessing, Option.map_eq_some'] at hf
    obtain ⟨c0, hc0, rfl⟩ := hf
    cases s with
    | node i l k cs =>
      have hmem : c0 ∈ cs := by
        have := List.get?_mem hc0
        simpa [Statement.children_node] using this
      exact h _ hmem sc1 _ c1
  · intro f hf sc1 c1
    simp only [Statement.childProcessing, Option.map_eq_some'] at hf
    obtain ⟨c0, hc0, rfl⟩ := hf
    cases s with
    | node i l k cs =>
      have hmem : c0 ∈ cs := by
        have := List.get?_mem hc0
        simpa [Statement.children_node] using this
      exact h _ hmem sc1 _ c1

/-- In the Code Generation pass `process` takes nothing back: the log it leaves
is the log it found followed by further entries, the instructions among them
jump to and bind only labels that were not given out before, and the label
counter has not gone down, whatever the node and whether it returns normally or
not. -/
theorem process_codeGeneration_extends (env : Env) (s : Statement) (sc : BaseScope)
    (anc : List Statement) (c : Compiler) :
    c.Extends (process env Pass.CodeGeneration sc anc s c).state := by
  have key : ∀ n : Nat, ∀ s : Statement, sizeOf s ≤ n →
      ∀ (sc : BaseScope) (anc : List Statement) (c : Compiler),
        c.Extends (process env Pass.CodeGeneration sc anc s c).state := by
    intro n
    induction n with
    | zero =>
      intro s hs
      cases s with
      | node i l k cs => simp at hs
    | succ n ih =>
      intro s hs
      refine process_codeGeneration_extends_of_children env s ?_
      intro s1 hs1
      refine ih s1 ?_
      cases s with
      | node i l k cs =>
        have h1 : sizeOf s1 < sizeOf cs := List.sizeOf_lt_of_mem hs1
        simp only [Statement.node.sizeOf_spec] at hs
        omega
  exact key (sizeOf s) s (le_refl _) sc anc c

theorem Code.events_append (ce be : List Event) (a b : List Code) :
    Code.events ce be (a ++ b) = Code.events ce be a ++ Code.events ce be b := by
  induction a with
  | nil => rfl
  | cons x t ih =>
    cases x with
    | instr i => simp [Code.events, ih]
    | condition => simp [Code.events, ih]
    | body => simp [Code.events, ih]

theorem Code.events_instrs (ce be : List Event) (is : List Instr) :
    Code.events ce be (is.map Code.instr) = is.map Event.asm := by
  induction is with
  | nil => rfl
  | cons x t ih => simp [Code.events, ih]

/-- The log entries of the code of a while-loop. -/
theorem WhileLoop.generatedCode_events (env : Env) (self : Statement) (c0 c1 : Compiler)
    (ce be : List Event) :
    Code.events ce be (WhileLoop.generatedCode env self c0 c1) =
      (WhileLoop.headInstrs env c0).map Event.asm ++ ce ++
        (WhileLoop.testInstrs env self (c0.nextLabel + 1) c0.nextGpd c1).map Event.asm ++ be ++
        [Event.asm (Instr.jmp c0.nextLabel), Event.asm (Instr.bind (c0.nextLabel + 1))] := by
  simp [WhileLoop.generatedCode, Code.events_append, Code.events_instrs, Code.events]

/-- What the processing of the condition and of the body of a while-loop in the
Code Generation pass leave, when they return normally: the condition takes no
label back, each of them only adds to the log, the instructions they add use
only labels given out after the condition label and the exit label of the
loop, and the log after the last two instructions of the loop is the log
before the loop followed by the entries of the code
`WhileLoop.generatedCode`. -/
theorem process_whileLoop_children_code (env : Env) (scope : BaseScope) (anc : List Statement)
    (self cond body : Statement) (c0 c1 c2 : Compiler)
    (hc1 : process env Pass.CodeGeneration scope (self :: anc) cond
      (WhileLoop.codeGenerationHead env self c0) = Result.ok c1)
    (hc2 : process env Pass.CodeGeneration scope (self :: anc) body
      (WhileLoop.codeGenerationTest env self (c0.nextLabel + 1) c0.nextGpd c1) = Result.ok c2) :
    c0.nextLabel + 2 ≤ c1.nextLabel ∧
    ∃ ce be : List Event,
      c1.trace = (WhileLoop.codeGenerationHead env self c0).trace ++ ce ∧
      c2.trace =
        (WhileLoop.codeGenerationTest env self (c0.nextLabel + 1) c0.nextGpd c1).trace ++ be ∧
      (∀ e ∈ ce ++ be, ∀ l, Event.usesLabel l e = true → c0.nextLabel + 2 ≤ l) ∧
      (c2.emit [Instr.jmp c0.nextLabel, Instr.bind (c0.nextLabel + 1)]).trace =
        c0.trace ++ Code.events ce be (WhileLoop.generatedCode env self c0 c1) := by
  have h1 := process_codeGeneration_extends env cond scope (self :: anc)
    (WhileLoop.codeGenerationHead env self c0)
  rw [hc1] at h1
  have h2 := process_codeGeneration_extends env body scope (self :: anc)
    (WhileLoop.codeGenerationTest env self (c0.nextLabel + 1) c0.nextGpd c1)
  rw [hc2] at h2
  obtain ⟨⟨ce, hce, hcl⟩, hl1⟩ := h1
  obtain ⟨⟨be, hbe, hbl⟩, _⟩ := h2
  have hhead := (WhileLoop.codeGenerationHead_trace env self c0).2.1
  simp only [Result.state] at hl1 hce hbe
  have hl2 : c0.nextLabel + 2 ≤ c1.nextLabel := by omega
  have hl3 : c1.nextLabel ≤
      (WhileLoop.codeGenerationTest env self (c0.nextLabel + 1) c0.nextGpd c1).nextLabel :=
    WhileLoop.codeGenerationTest_nextLabel env self _ _ c1
  refine ⟨hl2, ce, be, hce, hbe, ?_, ?_⟩
  · intro e he l hu
    rcases List.mem_append.1 he with he | he
    · have := hcl e he l hu
      omega
    · have := hbl e he l hu
      omega
  · rw [WhileLoop.generatedCode_events]
    simp only [Compiler.emit, hbe, WhileLoop.codeGenerationTest_trace, hce,
      (WhileLoop.codeGenerationHead_trace env self c0).1, List.map_cons, List.map_nil,
      List.append_assoc, List.cons_append, List.nil_append]

theorem Code.filter_isConditionalJumpTo_instrs (label : Nat) (is : List Instr) :
    (is.map Code.instr).filter (Code.isConditionalJumpTo label) =
      (is.filter (fun i => i.isConditionalJump && decide (i.target = some label))).map
        Code.instr := by
  induction is with
  | nil => rfl
  | cons x t ih =>
    simp only [List.map_cons, List.filter_cons, Code.isConditionalJumpTo, ih]
    split <;> rfl

/-- The conditional jumps to a label in the code of a while-loop are those among
the instructions of the test. -/
theorem WhileLoop.generatedCode_conditionalJumps (env : Env) (self : Statement)
    (c0 c1 : Compiler) (label : Nat) :
    (WhileLoop.generatedCode env self c0 c1).filter (Code.isConditionalJumpTo label) =
      ((WhileLoop.testInstrs env self (c0.nextLabel + 1) c0.nextGpd c1).filter
        (fun i => i.isConditionalJump && decide (i.target = some label))).map Code.instr := by
  have hhead : ((WhileLoop.headInstrs env c0).map Code.instr).filter
      (Code.isConditionalJumpTo label) = [] := by
    rw [Code.filter_isConditionalJumpTo_instrs]
    unfold WhileLoop.headInstrs
    cases env.isRuntimeErrorCheckEnabled <;> rfl
  simp only [WhileLoop.generatedCode, List.filter_append, hhead,
    Code.filter_isConditionalJumpTo_instrs, List.nil_append]
  simp [List.filter_cons, Code.isConditionalJumpTo, Instr.isConditionalJump]

/-- The instructions of the test of a while-loop whose condition is a
comparison with one of the six operators: one conditional jump to the exit
label, the one of the operator, and no compare with zero. -/
theorem WhileLoop.testInstrs_compare (env : Env) (self : Statement) (exit why : Nat)
    (c : Compiler) (hlabel : exit ≠ c.nextLabel) (cp : Statement) (op : Token)
    (hcp : WhileLoop.getCompareCondition self = some cp) (hop : cp.compareOp = some op)
    (hsix : op = Token.greaterThan ∨ op = Token.lessThan ∨ op = Token.lessThanOrEqual ∨
      op = Token.greaterThanOrEqual ∨ op = Token.equals ∨ op = Token.notEquals) :
    ∃ j, WhileLoop.intCompare op exit = [j] ∧
      (WhileLoop.testInstrs env self exit why c).filter
        (fun i => i.isConditionalJump && decide (i.target = some exit)) = [j] ∧
      (∀ i ∈ WhileLoop.testInstrs env self exit why c, ∀ r, i ≠ Instr.cmpRegZero r) ∧
      j.target = some exit ∧
      ∀ a b : Int, j.taken (a, b) = true ↔ op.holds a b = false := by
  rcases WhileLoop.intCompare_cases op exit with ⟨j, hj, hjt, hjc, hjr, hjs⟩ | ⟨hnil, _⟩
  · refine ⟨j, hj, ?_, ?_, hjt, ?_⟩
    · simp only [WhileLoop.testInstrs, hcp, hop, WhileLoop.compareBranch_eq, hj,
        List.filter_append]
      have hjf : [j].filter (fun i => i.isConditionalJump && decide (i.target = some exit)) =
          [j] := by
        simp [List.filter_cons, hjc, hjt]
      rw [hjf]
      cases env.isRuntimeErrorCheckEnabled with
      | false => rfl
      | true =>
        simp only [if_true]
        rw [Code.runtimeCheck_exit_jumps _ _ _ _ _ hlabel]
        rfl
    · intro i hi r hir
      subst hir
      simp only [WhileLoop.testInstrs, hcp, hop, WhileLoop.compareBranch_eq, hj,
        List.mem_append, List.mem_singleton] at hi
      rcases hi with hi | hi
      · rw [← hi] at hjt
        simp [Instr.target] at hjt
      · cases hs : env.isRuntimeErrorCheckEnabled with
        | false => simp [hs] at hi
        | true => simp [hs, Code.runtimeCheck] at hi
    · intro a b
      rw [hjs]
      cases op.holds a b <;> simp
  · rcases hsix with rfl | rfl | rfl | rfl | rfl | rfl <;>
      simp [WhileLoop.intCompare] at hnil

/-- The instructions of the test of a while-loop whose condition is not a
comparison: the compare of the condition's register with zero and `je` to the
exit label, its only conditional jump to the exit label. -/
theorem WhileLoop.testInstrs_zeroTest (env : Env) (self : Statement) (exit why : Nat)
    (c : Compiler) (hlabel : exit ≠ c.nextLabel)
    (hcp : WhileLoop.getCompareCondition self = none) :
    (WhileLoop.testInstrs env self exit why c).take 3 =
      [Instr.setInlineComment "check condition", Instr.cmpRegZero (c.getSubRegister self 0),
        Instr.je exit] ∧
    (WhileLoop.testInstrs env self exit why c).filter
      (fun i => i.isConditionalJump && decide (i.target = some exit)) = [Instr.je exit] := by
  refine ⟨?_, ?_⟩
  · simp [WhileLoop.testInstrs, hcp, WhileLoop.zeroTestBranch_eq]
  · simp only [WhileLoop.testInstrs, hcp, WhileLoop.zeroTestBranch_eq, List.filter_append]
    have hjf : [Instr.setInlineComment "check condition",
        Instr.cmpRegZero (c.getSubRegister self 0), Instr.je exit].filter
          (fun i => i.isConditionalJump && decide (i.target = some exit)) = [Instr.je exit] := by
      simp [List.filter_cons, Instr.isConditionalJump, Instr.target]
    rw [hjf]
    cases env.isRuntimeErrorCheckEnabled with
    | false => rfl
    | true =>
      simp only [if_true]
      rw [Code.runtimeCheck_exit_jumps _ _ _ _ _ hlabel]
      rfl

/-- The exit label is not bound among the instructions of the test. -/
theorem WhileLoop.testInstrs_bind_exit (env : Env) (self : Statement) (exit why : Nat)
    (c : Compiler) (hlabel : exit ≠ c.nextLabel) :
    Instr.bind exit ∉ WhileLoop.testInstrs env self exit why c := by
  intro hi
  have hrc : Instr.bind exit ∉
      (if env.isRuntimeErrorCheckEnabled then
        Code.runtimeCheck why exit c.nextLabel self.location.line self.location.col else []) := by
    cases env.isRuntimeErrorCheckEnabled with
    | false => simp
    | true => simp [Code.runtimeCheck, hlabel]
  unfold WhileLoop.testInstrs at hi
  cases hcp : WhileLoop.getCompareCondition self with
  | none =>
    simp only [hcp, WhileLoop.zeroTestBranch_eq, List.mem_append] at hi
    rcases hi with hi | hi
    · simp at hi
    · exact hrc hi
  | some cp =>
    simp only [hcp] at hi
    cases hop : cp.compareOp with
    | none => simp [hop] at hi
    | some op =>
      simp only [hop, WhileLoop.compareBranch_eq, List.mem_append] at hi
      rcases hi with hi | hi
      · rcases WhileLoop.intCompare_cases op exit with ⟨j, hj, hjt, _, _, _⟩ | ⟨hno, _⟩
        · rw [hj, List.mem_singleton] at hi
          rw [← hi] at hjt
          simp [Instr.target] at hjt
        · rw [hno] at hi
          simp at hi
      · exact hrc hi

/-- The code of a while-loop ends with the body, the jump back to the condition
label and the exit label, which is bound nowhere else. -/
theorem WhileLoop.generatedCode_exit_last (env : Env) (self : Statement) (c0 c1 : Compiler)
    (hlabel : c0.nextLabel + 2 ≤ c1.nextLabel) :
    WhileLoop.generatedCode env self c0 c1 =
      ((WhileLoop.headInstrs env c0).map Code.instr ++ [Code.condition] ++
        (WhileLoop.testInstrs env self (c0.nextLabel + 1) c0.nextGpd c1).map Code.instr) ++
        [Code.body, Code.instr (Instr.jmp c0.nextLabel),
          Code.instr (Instr.bind (c0.nextLabel + 1))] ∧
    Code.labelIndex (WhileLoop.generatedCode env self c0 c1) (c0.nextLabel + 1) =
      (WhileLoop.generatedCode env self c0 c1).length - 1 := by
  have hshape : WhileLoop.generatedCode env self c0 c1 =
      ((WhileLoop.headInstrs env c0).map Code.instr ++ [Code.condition] ++
        (WhileLoop.testInstrs env self (c0.nextLabel + 1) c0.nextGpd c1).map Code.instr ++
        [Code.body, Code.instr (Instr.jmp c0.nextLabel)]) ++
        [Code.instr (Instr.bind (c0.nextLabel + 1))] := by
    simp [WhileLoop.generatedCode]
  refine ⟨by simp [WhileLoop.generatedCode], ?_⟩
  have hne : c0.nextLabel + 1 ≠ c1.nextLabel := by omega
  have hnot : Code.instr (Instr.bind (c0.nextLabel + 1)) ∉
      (WhileLoop.headInstrs env c0).map Code.instr ++ [Code.condition] ++
        (WhileLoop.testInstrs env self (c0.nextLabel + 1) c0.nextGpd c1).map Code.instr ++
        [Code.body, Code.instr (Instr.jmp c0.nextLabel)] := by
    have ht := WhileLoop.testInstrs_bind_exit env self (c0.nextLabel + 1) c0.nextGpd c1 hne
    have hh : Instr.bind (c0.nextLabel + 1) ∉ WhileLoop.headInstrs env c0 := by
      unfold WhileLoop.headInstrs
      cases env.isRuntimeErrorCheckEnabled <;> simp
    intro hmem
    rcases List.mem_append.1 hmem with hmem | hmem
    · rcases List.mem_append.1 hmem with hmem | hmem
      · rcases List.mem_append.1 hmem with hmem | hmem
        · obtain ⟨x, hx, hxe⟩ := List.mem_map.1 hmem
          cases hxe
          exact hh hx
        · simp at hmem
      · obtain ⟨x, hx, hxe⟩ := List.mem_map.1 hmem
        cases hxe
        exact ht hx
    · simp at hmem
  rw [Code.labelIndex, hshape, List.indexOf_append_of_not_mem hnot]
  simp

/-- One step at a jump: the processor continues at the jump's label when the
jump is taken, and at the next piece of code when it is not. -/
theorem Machine.step_jump (rt : Runtime) (prog : List Code) (m : Machine) (j : Instr)
    (label : Nat) (hget : prog.get? m.pc = some (Code.instr j)) (ht : j.target = some label) :
    (Machine.step rt prog m).pc =
      if j.taken m.flags then Code.labelIndex prog label else m.pc + 1 := by
  simp only [Machine.step, hget, Machine.exec, ht]
  split <;> rfl

/-- C14, amended.  For every while-loop with a condition and a body that is
compiled with the runtime check, when the processing of the condition and of
the body return normally: `WhileLoop::process` in the Code Generation pass
returns normally, and what it adds to the log is its own call,
`processBaseWithoutChildren` and the entries of the code
`WhileLoop.generatedCode`, in which what the condition and the body have added
to the log stands where the condition and the body are; the instructions that
they have added neither jump to nor bind the condition label and the exit
label of the loop.  When the condition is true at every evaluation, that code,
started at its first instruction, clears the counter and then makes passes of
a fixed number of steps: after j passes (j up to 9,999,999) the processor is
back at the condition label, the counter is j, the body has run j times and
the runtime error flag is untouched.  In the next pass the counter
becomes 10,000,000, the jump of the check, taken only while the counter is
below 10,000,000, is not taken, and the code is left: from then on the body
has run exactly 9,999,999 times, the condition was evaluated 10,000,000 times,
and the runtime error flag holds the error kind, the line and the column of
the loop. -/
theorem WhileLoop_runtime_check_body_runs (env : Env) (scope : BaseScope)
    (anc : List Statement) (i : Nat) (l : Location) (cond body : Statement)
    (rest : List Statement) (self : Statement) (c c0 c1 c2 : Compiler)
    (rt : Runtime) (m : Machine)
    (hself : self = Statement.node i l Kind.WhileLoop (cond :: body :: rest))
    (hc0 : c0 = (c.log (Event.process i Pass.CodeGeneration)).log
      (Event.processBaseWithoutChildren i))
    (hsafe : env.isRuntimeErrorCheckEnabled = true)
    (hc1 : process env Pass.CodeGeneration scope (self :: anc) cond
      (WhileLoop.codeGenerationHead env self c0) = Result.ok c1)
    (hc2 : process env Pass.CodeGeneration scope (self :: anc) body
      (WhileLoop.codeGenerationTest env self (c0.nextLabel + 1) c0.nextGpd c1) = Result.ok c2)
    (hcond : ∀ n, WhileLoop.conditionHolds self (rt.condition n) = true)
    (hpc : m.pc = 0) :
    process env Pass.CodeGeneration scope anc self c =
      Result.ok (c2.emit [Instr.jmp c0.nextLabel, Instr.bind (c0.nextLabel + 1)]) ∧
    (∃ ce be : List Event,
      c1.trace = (WhileLoop.codeGenerationHead env self c0).trace ++ ce ∧
      c2.trace =
        (WhileLoop.codeGenerationTest env self (c0.nextLabel + 1) c0.nextGpd c1).trace ++ be ∧
      (∀ e ∈ ce ++ be, ∀ l, Event.usesLabel l e = true → c0.nextLabel + 2 ≤ l) ∧
      (process env Pass.CodeGeneration scope anc self c).state.trace =
        c.trace ++ [Event.process i Pass.CodeGeneration, Event.processBaseWithoutChildren i] ++
          Code.events ce be (WhileLoop.generatedCode env self c0 c1)) ∧
    ∃ pass last : Nat,
      (∀ j, j ≤ 9999999 →
        (Machine.run rt (WhileLoop.generatedCode env self c0 c1) (2 + pass * j) m).pc =
          Code.labelIndex (WhileLoop.generatedCode env self c0 c1) c0.nextLabel ∧
        (Machine.run rt (WhileLoop.generatedCode env self c0 c1) (2 + pass * j) m).gpd c0.nextGpd =
          j ∧
        (Machine.run rt (WhileLoop.generatedCode env self c0 c1) (2 + pass * j) m).bodyRuns =
          m.bodyRuns + j ∧
        (Machine.run rt (WhileLoop.generatedCode env self c0 c1) (2 + pass * j) m).errorFlag =
          m.errorFlag) ∧
      ∀ n, 2 + pass * 9999999 + last ≤ n →
        (Machine.run rt (WhileLoop.generatedCode env self c0 c1) n m).pc =
          (WhileLoop.generatedCode env self c0 c1).length ∧
        (Machine.run rt (WhileLoop.generatedCode env self c0 c1) n m).bodyRuns =
          m.bodyRuns + 9999999 ∧
        (Machine.run rt (WhileLoop.generatedCode env self c0 c1) n m).conditionRuns =
          m.conditionRuns + 10000000 ∧
        (Machine.run rt (WhileLoop.generatedCode env self c0 c1) n m).errorFlag 0 =
          some rt.whileLoopErrorType ∧
        (Machine.run rt (WhileLoop.generatedCode env self c0 c1) n m).errorFlag 4 =
          some (Machine.wrap32 self.location.line) ∧
        (Machine.run rt (WhileLoop.generatedCode env self c0 c1) n m).errorFlag 8 =
          some (Machine.wrap32 self.location.col) := by
  subst hself
  have hp1 : process env Pass.CodeGeneration scope anc
        (Statement.node i l Kind.WhileLoop (cond :: body :: rest)) c =
      Result.ok (c2.emit [Instr.jmp c0.nextLabel, Instr.bind (c0.nextLabel + 1)]) := by
    rw [process_eq]
    simp only [Statement.dispatch, Statement.kind_node, Statement.id_node, WhileLoop.process,
      if_true, reduceCtorEq, if_false, Statement.processBaseWithoutChildren, Result.bind]
    rw [← hc0]
    have h0 : (Statement.childProcessing env Pass.CodeGeneration anc
        (Statement.node i l Kind.WhileLoop (cond :: body :: rest))).process0 =
        some (fun sc => process env Pass.CodeGeneration sc
          (Statement.node i l Kind.WhileLoop (cond :: body :: rest) :: anc) cond) := rfl
    have h1 : (Statement.childProcessing env Pass.CodeGeneration anc
        (Statement.node i l Kind.WhileLoop (cond :: body :: rest))).process1 =
        some (fun sc => process env Pass.CodeGeneration sc
          (Statement.node i l Kind.WhileLoop (cond :: body :: rest) :: anc) body) := rfl
    simp only [WhileLoop.codeGeneration, h0, h1, hc1, hc2, Result.bind]
  obtain ⟨hlabel, ce, be, hce, hbe, hfresh, htr⟩ :=
    process_whileLoop_children_code env scope anc _ cond body c0 c1 c2 hc1 hc2
  have hp2 : (process env Pass.CodeGeneration scope anc
        (Statement.node i l Kind.WhileLoop (cond :: body :: rest)) c).state.trace =
      c.trace ++ [Event.process i Pass.CodeGeneration, Event.processBaseWithoutChildren i] ++
        Code.events ce be
          (WhileLoop.generatedCode env (Statement.node i l Kind.WhileLoop (cond :: body :: rest))
            c0 c1) := by
    have ht0 : c0.trace =
        c.trace ++ [Event.process i Pass.CodeGeneration, Event.processBaseWithoutChildren i] := by
      rw [hc0]
      simp [Compiler.log]
    rw [hp1]
    simp only [Result.state]
    rw [htr, ht0]
  have hp2 := (⟨ce, be, hce, hbe, hfresh, hp2⟩ : ∃ ce be : List Event,
      c1.trace = (WhileLoop.codeGenerationHead env
        (Statement.node i l Kind.WhileLoop (cond :: body :: rest)) c0).trace ++ ce ∧
      c2.trace =
        (WhileLoop.codeGenerationTest env
          (Statement.node i l Kind.WhileLoop (cond :: body :: rest)) (c0.nextLabel + 1)
          c0.nextGpd c1).trace ++ be ∧
      (∀ e ∈ ce ++ be, ∀ l, Event.usesLabel l e = true → c0.nextLabel + 2 ≤ l) ∧
      (process env Pass.CodeGeneration scope anc
          (Statement.node i l Kind.WhileLoop (cond :: body :: rest)) c).state.trace =
        c.trace ++ [Event.process i Pass.CodeGeneration, Event.processBaseWithoutChildren i] ++
          Code.events ce be
            (WhileLoop.generatedCode env
              (Statement.node i l Kind.WhileLoop (cond :: body :: rest)) c0 c1))
  refine ⟨hp1, hp2, ?_⟩
  obtain ⟨a, t, hI, htest⟩ :=
    WhileLoop.generatedCode_instrumented env _ c0 c1 rt hsafe hlabel hcond
  refine ⟨2 + (t + 6), 2 + (t + 2) + 9, ?_, ?_⟩
  · intro j hj
    obtain ⟨c1', c2', c3', _, c5'⟩ := Machine.run_clear rt _ a _ _ _ _ _ _ hI m hpc
    obtain ⟨p1, p2, p3, _, p5⟩ :=
      Machine.run_passes rt _ a _ _ _ _ _ _ hI t htest 0 j
        (Machine.run rt (WhileLoop.generatedCode env _ c0 c1) 2 m) c1'
        (by rw [c2']; rfl) (by omega)
    rw [Machine.run_add, hI.labelCond]
    refine ⟨p1, ?_, ?_, ?_⟩
    · rw [p2, Nat.zero_add]
    · rw [p5, c5']
    · rw [p3, c3']
  · intro n hn
    exact Machine.run_instrumented rt _ a _ _ _ _ _ _ hI t htest m hpc n hn

/-- The loop `while (a < b) { }` with the runtime check and a condition that is
true every time, as the whole program: the Code Generation pass logs the
instructions listed, which are the code of the loop, and in that code the body
runs 9,999,999 times. -/
theorem WhileLoop_runtime_check_body_runs_witness :
    Env.instrumented.isRuntimeErrorCheckEnabled = true ∧
    (∀ n, WhileLoop.conditionHolds Sample.compareLoop (Sample.runtime.condition n) = true) ∧
    Machine.start.pc = 0 ∧
    (process Env.instrumented Pass.CodeGeneration Sample.functionScope [] Sample.compareLoop
        (Compiler.initial.setReg 2 (some 0))).state.trace =
      [Event.process 1 Pass.CodeGeneration, Event.processBaseWithoutChildren 1,
       Event.asm (Instr.xor_ 0 0), Event.asm Instr.nop, Event.asm (Instr.bind 0),
       Event.process 2 Pass.CodeGeneration, Event.processBaseWithChildren 2,
       Event.process 4 Pass.CodeGeneration, Event.processBaseWithChildren 4,
       Event.process 5 Pass.CodeGeneration, Event.processBaseWithChildren 5,
       Event.asm (Instr.jge 1),
       Event.asm (Instr.inc 0), Event.asm (Instr.cmpImm 0 10000000), Event.asm (Instr.jb 2),
       Event.asm (Instr.movErrorKindWhileLoop 0),
       Event.asm (Instr.movToErrorFlag { offset := 0, size := 4 } 0),
       Event.asm (Instr.movImm 0 1),
       Event.asm (Instr.movToErrorFlag { offset := 4, size := 4 } 0),
       Event.asm (Instr.movImm 0 1),
       Event.asm (Instr.movToErrorFlag { offset := 8, size := 4 } 0),
       Event.asm (Instr.jmp 1), Event.asm (Instr.bind 2),
       Event.process 3 Pass.CodeGeneration, Event.processBaseWithChildren 3,
       Event.asm (Instr.jmp 0), Event.asm (Instr.bind 1)] ∧
    (∃ ce be : List Event,
      (Sample.conditionProcessed Env.instrumented Sample.compareLoop
        Sample.compareCondition).trace =
        (WhileLoop.codeGenerationHead Env.instrumented Sample.compareLoop
          Sample.loopEntry).trace ++ ce ∧
      (Sample.bodyProcessed Env.instrumented Sample.compareLoop
        Sample.compareCondition (Sample.block 3 [])).trace =
        (WhileLoop.codeGenerationTest Env.instrumented Sample.compareLoop
          (Sample.loopEntry.nextLabel + 1) Sample.loopEntry.nextGpd
          (Sample.conditionProcessed Env.instrumented Sample.compareLoop
            Sample.compareCondition)).trace ++ be ∧
      (∀ e ∈ ce ++ be, ∀ l,
        Event.usesLabel l e = true → Sample.loopEntry.nextLabel + 2 ≤ l) ∧
      (process Env.instrumented Pass.CodeGeneration Sample.functionScope [] Sample.compareLoop
          (Compiler.initial.setReg 2 (some 0))).state.trace =
        (Compiler.initial.setReg 2 (some 0)).trace ++
          [Event.process 1 Pass.CodeGeneration, Event.processBaseWithoutChildren 1] ++
          Code.events ce be
            (WhileLoop.generatedCode Env.instrumented Sample.compareLoop Sample.loopEntry
              (Sample.conditionProcessed Env.instrumented Sample.compareLoop
                Sample.compareCondition))) ∧
    ∃ pass last : Nat,
      ∀ n, 2 + pass * 9999999 + last ≤ n →
        (Machine.run Sample.runtime
          (WhileLoop.generatedCode Env.instrumented Sample.compareLoop Sample.loopEntry
            (Sample.conditionProcessed Env.instrumented Sample.compareLoop
              Sample.compareCondition))
          n Machine.start).bodyRuns = Machine.start.bodyRuns + 9999999 :=
  ⟨rfl, fun _ => rfl, rfl, by decide,
   (WhileLoop_runtime_check_body_runs Env.instrumented Sample.functionScope [] 1
      { line := 1, col := 1 } Sample.compareCondition (Sample.block 3 []) []
      Sample.compareLoop (Compiler.initial.setReg 2 (some 0)) Sample.loopEntry
      (Sample.conditionProcessed Env.instrumented Sample.compareLoop
        Sample.compareCondition)
      (Sample.bodyProcessed Env.instrumented Sample.compareLoop
        Sample.compareCondition (Sample.block 3 []))
      Sample.runtime Machine.start rfl rfl rfl rfl rfl (fun _ => rfl) rfl).2.1,
   (WhileLoop_runtime_check_body_runs Env.instrumented Sample.functionScope [] 1
      { line := 1, col := 1 } Sample.compareCondition (Sample.block 3 []) []
      Sample.compareLoop (Compiler.initial.setReg 2 (some 0)) Sample.loopEntry
      (Sample.conditionProcessed Env.instrumented Sample.compareLoop
        Sample.compareCondition)
      (Sample.bodyProcessed Env.instrumented Sample.compareLoop
        Sample.compareCondition (Sample.block 3 []))
      Sample.runtime Machine.start rfl rfl rfl rfl rfl (fun _ => rfl) rfl).2.2.imp
      fun _ h => h.imp fun _ h2 n hn => (h2.2 n hn).2.1⟩

/-- C15. For every while-loop with a condition and a body, when the processing
of the condition and of the body return normally: `WhileLoop::process` in the
Code Generation pass returns normally, and what it adds to the log is its own
call, `processBaseWithoutChildren` and the entries of the code
`WhileLoop.generatedCode`, in which what the condition and the body have added
to the log stands where the condition and the body are; the instructions that
they have added neither jump to nor bind the condition label and the exit
label of the loop.  With the runtime check, when the machine that runs this
code is at the jump of the check and that jump is not taken (the counter is
not below the ceiling), the next eight steps write the error kind `WhileLoop`,
the loop's line and the loop's column to the fields of the runtime error flag
at offsets 0, 4 and 8, leave every other field as it is and reach the exit
label, and the body never runs again; the fields written by the instructions
of the test are exactly the three 4-byte fields at offsets 0, 4 and 8.
Without the runtime check, the loop issues no instruction on the
counter or on the runtime error flag and no jump on the counter: none of
`xor`, `inc`, the compare of the counter, `jb` and the `mov`s is in the
code. -/
theorem WhileLoop_runtime_check_error_flag (env : Env) (scope : BaseScope)
    (anc : List Statement) (i : Nat) (l : Location) (cond body : Statement)
    (rest : List Statement) (self : Statement) (c c0 c1 c2 : Compiler)
    (rt : Runtime)
    (hself : self = Statement.node i l Kind.WhileLoop (cond :: body :: rest))
    (hc0 : c0 = (c.log (Event.process i Pass.CodeGeneration)).log
      (Event.processBaseWithoutChildren i))
    (hc1 : process env Pass.CodeGeneration scope (self :: anc) cond
      (WhileLoop.codeGenerationHead env self c0) = Result.ok c1)
    (hc2 : process env Pass.CodeGeneration scope (self :: anc) body
      (WhileLoop.codeGenerationTest env self (c0.nextLabel + 1) c0.nextGpd c1) = Result.ok c2) :
    process env Pass.CodeGeneration scope anc self c =
      Result.ok (c2.emit [Instr.jmp c0.nextLabel, Instr.bind (c0.nextLabel + 1)]) ∧
    (∃ ce be : List Event,
      c1.trace = (WhileLoop.codeGenerationHead env self c0).trace ++ ce ∧
      c2.trace =
        (WhileLoop.codeGenerationTest env self (c0.nextLabel + 1) c0.nextGpd c1).trace ++ be ∧
      (∀ e ∈ ce ++ be, ∀ l, Event.usesLabel l e = true → c0.nextLabel + 2 ≤ l) ∧
      (process env Pass.CodeGeneration scope anc self c).state.trace =
        c.trace ++ [Event.process i Pass.CodeGeneration, Event.processBaseWithoutChildren i] ++
          Code.events ce be (WhileLoop.generatedCode env self c0 c1)) ∧
    (env.isRuntimeErrorCheckEnabled = true →
      (∀ m : Machine,
        m.pc = (WhileLoop.generatedCode env self c0 c1).indexOf
          (Code.instr (Instr.jb c1.nextLabel)) →
        Instr.taken (Instr.jb c1.nextLabel) m.flags = false →
        (Machine.run rt (WhileLoop.generatedCode env self c0 c1) 8 m).pc =
          Code.labelIndex (WhileLoop.generatedCode env self c0 c1) (c0.nextLabel + 1) ∧
        (Machine.run rt (WhileLoop.generatedCode env self c0 c1) 8 m).errorFlag 0 =
          some rt.whileLoopErrorType ∧
        (Machine.run rt (WhileLoop.generatedCode env self c0 c1) 8 m).errorFlag 4 =
          some (Machine.wrap32 self.location.line) ∧
        (Machine.run rt (WhileLoop.generatedCode env self c0 c1) 8 m).errorFlag 8 =
          some (Machine.wrap32 self.location.col) ∧
        (∀ o, o ≠ 0 → o ≠ 4 → o ≠ 8 →
          (Machine.run rt (WhileLoop.generatedCode env self c0 c1) 8 m).errorFlag o =
            m.errorFlag o) ∧
        ∀ n, 8 ≤ n →
          (Machine.run rt (WhileLoop.generatedCode env self c0 c1) n m).bodyRuns = m.bodyRuns) ∧
      (WhileLoop.testInstrs env self (c0.nextLabel + 1) c0.nextGpd c1).filterMap
          Instr.errorFlagField =
        [{ offset := 0, size := 4 }, { offset := 4, size := 4 }, { offset := 8, size := 4 }]) ∧
    (env.isRuntimeErrorCheckEnabled = false →
      ∀ ins, Code.instr ins ∈ WhileLoop.generatedCode env self c0 c1 →
        ins.isRuntimeCheck = false) := by
  subst hself
  have hp1 : process env Pass.CodeGeneration scope anc
        (Statement.node i l Kind.WhileLoop (cond :: body :: rest)) c =
      Result.ok (c2.emit [Instr.jmp c0.nextLabel, Instr.bind (c0.nextLabel + 1)]) := by
    rw [process_eq]
    simp only [Statement.dispatch, Statement.kind_node, Statement.id_node, WhileLoop.process,
      if_true, reduceCtorEq, if_false, Statement.processBaseWithoutChildren, Result.bind]
    rw [← hc0]
    have h0 : (Statement.childProcessing env Pass.CodeGeneration anc
        (Statement.node i l Kind.WhileLoop (cond :: body :: rest))).process0 =
        some (fun sc => process env Pass.CodeGeneration sc
          (Statement.node i l Kind.WhileLoop (cond :: body :: rest) :: anc) cond) := rfl
    have h1 : (Statement.childProcessing env Pass.CodeGeneration anc
        (Statement.node i l Kind.WhileLoop (cond :: body :: rest))).process1 =
        some (fun sc => process env Pass.CodeGeneration sc
          (Statement.node i l Kind.WhileLoop (cond :: body :: rest) :: anc) body) := rfl
    simp only [WhileLoop.codeGeneration, h0, h1, hc1, hc2, Result.bind]
  obtain ⟨hlabel, ce, be, hce, hbe, hfresh, htr⟩ :=
    process_whileLoop_children_code env scope anc _ cond body c0 c1 c2 hc1 hc2
  have hp2 : (process env Pass.CodeGeneration scope anc
        (Statement.node i l Kind.WhileLoop (cond :: body :: rest)) c).state.trace =
      c.trace ++ [Event.process i Pass.CodeGeneration, Event.processBaseWithoutChildren i] ++
        Code.events ce be
          (WhileLoop.generatedCode env (Statement.node i l Kind.WhileLoop (cond :: body :: rest))
            c0 c1) := by
    have ht0 : c0.trace =
        c.trace ++ [Event.process i Pass.CodeGeneration, Event.processBaseWithoutChildren i] := by
      rw [hc0]
      simp [Compiler.log]
    rw [hp1]
    simp only [Result.state]
    rw [htr, ht0]
  have hp2 := (⟨ce, be, hce, hbe, hfresh, hp2⟩ : ∃ ce be : List Event,
      c1.trace = (WhileLoop.codeGenerationHead env
        (Statement.node i l Kind.WhileLoop (cond :: body :: rest)) c0).trace ++ ce ∧
      c2.trace =
        (WhileLoop.codeGenerationTest env
          (Statement.node i l Kind.WhileLoop (cond :: body :: rest)) (c0.nextLabel + 1)
          c0.nextGpd c1).trace ++ be ∧
      (∀ e ∈ ce ++ be, ∀ l, Event.usesLabel l e = true → c0.nextLabel + 2 ≤ l) ∧
      (process env Pass.CodeGeneration scope anc
          (Statement.node i l Kind.WhileLoop (cond :: body :: rest)) c).state.trace =
        c.trace ++ [Event.process i Pass.CodeGeneration, Event.processBaseWithoutChildren i] ++
          Code.events ce be
            (WhileLoop.generatedCode env
              (Statement.node i l Kind.WhileLoop (cond :: body :: rest)) c0 c1))
  refine ⟨hp1, hp2, ?_, ?_⟩
  · intro hsafe
    refine ⟨?_, WhileLoop.testInstrs_errorFlagFields env _ _ _ c1 hsafe⟩
    intro m hpc hjb
    obtain ⟨a, hI⟩ := WhileLoop.generatedCode_layout env _ c0 c1 hsafe hlabel
    rw [hI.indexJb] at hpc
    obtain ⟨t1, t2, t3, t4, t5, _, t7, t8, _, t10, _⟩ :=
      Machine.run_trip rt _ a _ _ _ _ _ _ hI m hpc hjb
    refine ⟨t1, t2, t3, t4, t5, ?_⟩
    intro n hn
    obtain ⟨d, rfl⟩ := Nat.exists_eq_add_of_le hn
    cases d with
    | zero => exact t7
    | succ d =>
      have h9 : 8 + (d + 1) = 9 + d := by omega
      rw [h9, Machine.run_add, Machine.run_halted rt _ _ (Nat.le_of_eq t8.symm) d]
      exact t10
  · intro hsafe ins hi
    simp only [WhileLoop.generatedCode, WhileLoop.headInstrs, hsafe, Bool.false_eq_true, if_false,
      List.nil_append, List.mem_append, List.mem_map, List.mem_cons, List.mem_singleton,
      List.not_mem_nil, or_false, Code.instr.injEq, exists_eq_right, reduceCtorEq] at hi
    rcases hi with ((rfl | rfl) | hi) | (rfl | rfl)
    · rfl
    · rfl
    · exact WhileLoop.testInstrs_unchecked env _ _ _ c1 hsafe ins hi
    · rfl
    · rfl

/-- The loop `while (n) { }` as the whole program: the Code Generation pass
logs the instructions listed, which are the code of the loop; with the runtime
check, the trip at the jump of the check (index 9) writes the error kind and
reaches the exit label (index 20); without it, no instruction of the check is
issued. -/
theorem WhileLoop_runtime_check_error_flag_witness :
    Env.instrumented.isRuntimeErrorCheckEnabled = true ∧
    (process Env.instrumented Pass.CodeGeneration Sample.functionScope [] Sample.countingLoop
        (Compiler.initial.setReg 2 (some 0))).state.trace =
      [Event.process 1 Pass.CodeGeneration, Event.processBaseWithoutChildren 1,
       Event.asm (Instr.xor_ 0 0), Event.asm Instr.nop, Event.asm (Instr.bind 0),
       Event.process 2 Pass.CodeGeneration, Event.processBaseWithChildren 2,
       Event.asm (Instr.setInlineComment "check condition"),
       Event.asm (Instr.cmpRegZero (some 0)), Event.asm (Instr.je 1),
       Event.asm (Instr.inc 0), Event.asm (Instr.cmpImm 0 10000000), Event.asm (Instr.jb 2),
       Event.asm (Instr.movErrorKindWhileLoop 0),
       Event.asm (Instr.movToErrorFlag { offset := 0, size := 4 } 0),
       Event.asm (Instr.movImm 0 1),
       Event.asm (Instr.movToErrorFlag { offset := 4, size := 4 } 0),
       Event.asm (Instr.movImm 0 1),
       Event.asm (Instr.movToErrorFlag { offset := 8, size := 4 } 0),
       Event.asm (Instr.jmp 1), Event.asm (Instr.bind 2),
       Event.process 3 Pass.CodeGeneration, Event.processBaseWithChildren 3,
       Event.asm (Instr.jmp 0), Event.asm (Instr.bind 1)] ∧
    (∃ ce be : List Event,
      (Sample.conditionProcessed Env.instrumented Sample.countingLoop
        (Sample.reference 2 "n")).trace =
        (WhileLoop.codeGenerationHead Env.instrumented Sample.countingLoop
          Sample.loopEntry).trace ++ ce ∧
      (Sample.bodyProcessed Env.instrumented Sample.countingLoop
        (Sample.reference 2 "n") (Sample.block 3 [])).trace =
        (WhileLoop.codeGenerationTest Env.instrumented Sample.countingLoop
          (Sample.loopEntry.nextLabel + 1) Sample.loopEntry.nextGpd
          (Sample.conditionProcessed Env.instrumented Sample.countingLoop
            (Sample.reference 2 "n"))).trace ++ be ∧
      (∀ e ∈ ce ++ be, ∀ l,
        Event.usesLabel l e = true → Sample.loopEntry.nextLabel + 2 ≤ l) ∧
      (process Env.instrumented Pass.CodeGeneration Sample.functionScope [] Sample.countingLoop
          (Compiler.initial.setReg 2 (some 0))).state.trace =
        (Compiler.initial.setReg 2 (some 0)).trace ++
          [Event.process 1 Pass.CodeGeneration, Event.processBaseWithoutChildren 1] ++
          Code.events ce be
            (WhileLoop.generatedCode Env.instrumented Sample.countingLoop Sample.loopEntry
              (Sample.conditionProcessed Env.instrumented Sample.countingLoop
                (Sample.reference 2 "n")))) ∧
    (Machine.run Sample.runtime
      (WhileLoop.generatedCode Env.instrumented Sample.countingLoop Sample.loopEntry
        (Sample.conditionProcessed Env.instrumented Sample.countingLoop
          (Sample.reference 2 "n")))
      8 { Machine.start with pc := 9, flags := (10000000, 10000000) }).errorFlag 0 = some 5 ∧
    (Machine.run Sample.runtime
      (WhileLoop.generatedCode Env.instrumented Sample.countingLoop Sample.loopEntry
        (Sample.conditionProcessed Env.instrumented Sample.countingLoop
          (Sample.reference 2 "n")))
      8 { Machine.start with pc := 9, flags := (10000000, 10000000) }).pc = 20 ∧
    Env.reference.isRuntimeErrorCheckEnabled = false ∧
    (process Env.reference Pass.CodeGeneration Sample.functionScope [] Sample.countingLoop
        (Compiler.initial.setReg 2 (some 0))).state.trace =
      [Event.process 1 Pass.CodeGeneration, Event.processBaseWithoutChildren 1,
       Event.asm Instr.nop, Event.asm (Instr.bind 0),
       Event.process 2 Pass.CodeGeneration, Event.processBaseWithChildren 2,
       Event.asm (Instr.setInlineComment "check condition"),
       Event.asm (Instr.cmpRegZero (some 0)), Event.asm (Instr.je 1),
       Event.process 3 Pass.CodeGeneration, Event.processBaseWithChildren 3,
       Event.asm (Instr.jmp 0), Event.asm (Instr.bind 1)] ∧
    (∀ i, Code.instr i ∈
        (WhileLoop.generatedCode Env.reference Sample.countingLoop Sample.loopEntry
          (Sample.conditionProcessed Env.reference Sample.countingLoop
            (Sample.reference 2 "n"))) →
      i.isRuntimeCheck = false) :=
  ⟨rfl, by decide,
   (WhileLoop_runtime_check_error_flag Env.instrumented Sample.functionScope [] 1
      { line := 1, col := 1 } (Sample.reference 2 "n") (Sample.block 3 []) []
      Sample.countingLoop (Compiler.initial.setReg 2 (some 0)) Sample.loopEntry
      (Sample.conditionProcessed Env.instrumented Sample.countingLoop
        (Sample.reference 2 "n"))
      (Sample.bodyProcessed Env.instrumented Sample.countingLoop
        (Sample.reference 2 "n") (Sample.block 3 []))
      Sample.runtime rfl rfl rfl rfl).2.1,
   ((((WhileLoop_runtime_check_error_flag Env.instrumented Sample.functionScope [] 1
      { line := 1, col := 1 } (Sample.reference 2 "n") (Sample.block 3 []) []
      Sample.countingLoop (Compiler.initial.setReg 2 (some 0)) Sample.loopEntry
      (Sample.conditionProcessed Env.instrumented Sample.countingLoop
        (Sample.reference 2 "n"))
      (Sample.bodyProcessed Env.instrumented Sample.countingLoop
        (Sample.reference 2 "n") (Sample.block 3 []))
      Sample.runtime rfl rfl rfl rfl).2.2.1 rfl).1
      { Machine.start with pc := 9, flags := (10000000, 10000000) } (by decide)
      (by decide)).2.1).trans rfl,
   ((((WhileLoop_runtime_check_error_flag Env.instrumented Sample.functionScope [] 1
      { line := 1, col := 1 } (Sample.reference 2 "n") (Sample.block 3 []) []
      Sample.countingLoop (Compiler.initial.setReg 2 (some 0)) Sample.loopEntry
      (Sample.conditionProcessed Env.instrumented Sample.countingLoop
        (Sample.reference 2 "n"))
      (Sample.bodyProcessed Env.instrumented Sample.countingLoop
        (Sample.reference 2 "n") (Sample.block 3 []))
      Sample.runtime rfl rfl rfl rfl).2.2.1 rfl).1
      { Machine.start with pc := 9, flags := (10000000, 10000000) } (by decide)
      (by decide)).1).trans (by decide),
   rfl, by decide,
   (WhileLoop_runtime_check_error_flag Env.reference Sample.functionScope [] 1
      { line := 1, col := 1 } (Sample.reference 2 "n") (Sample.block 3 []) []
      Sample.countingLoop (Compiler.initial.setReg 2 (some 0)) Sample.loopEntry
      (Sample.conditionProcessed Env.reference Sample.countingLoop
        (Sample.reference 2 "n"))
      (Sample.bodyProcessed Env.reference Sample.countingLoop
        (Sample.reference 2 "n") (Sample.block 3 []))
      Sample.runtime rfl rfl rfl rfl).2.2.2 rfl⟩

/-- C16. For every while-loop with a condition and a body, when the processing
of the condition and of the body return normally: `WhileLoop::process` in the
Code Generation pass returns normally, and what it adds to the log is its own
call, `processBaseWithoutChildren` and the entries of the code
`WhileLoop.generatedCode` (what the condition and the body have added to the
log stands where the condition and the body are, and the instructions among
it neither jump to nor bind the condition label and the exit label of the
loop), which ends with the body, the jump back to the condition label and the
exit label, bound there and nowhere else.  The six
`INT_COMPARE` lines issue `jle`, `jge`, `jg`, `jl`, `jne`, `je` to the exit
label for `>`, `<`, `<=`, `>=`, `==`, `!=`.  When the condition is a comparison
with one of these operators (`getCompareCondition` finds it: the condition
node itself, or what the condition block returns), the whole code contains
exactly one conditional jump to the exit label, the one for the operator, and
no compare with zero; for all integers a and b that jump is taken after
`cmp a, b` if and only if `a op b` does not hold, and a machine that is at
that jump with the flags of `cmp a, b` continues at the exit label when
`a op b` does not hold and at the next instruction when it holds.  When the
condition is not a comparison, the test starts with the compare of the
condition's integer register with 0 followed by `je` to the exit label, the
only conditional jump to the exit label in the whole code, and a machine that
is at this `je` after that compare continues at the exit label if and only if
the register is zero.  A condition node that is a comparison is found by
`getCompareCondition`, and a condition that is neither a comparison nor a
statement block is not a comparison. -/
theorem WhileLoop_exit_jump_negates_condition (env : Env) (scope : BaseScope)
    (anc : List Statement) (i : Nat) (l : Location) (cond body : Statement)
    (rest : List Statement) (self : Statement) (c c0 c1 c2 : Compiler)
    (hself : self = Statement.node i l Kind.WhileLoop (cond :: body :: rest))
    (hc0 : c0 = (c.log (Event.process i Pass.CodeGeneration)).log
      (Event.processBaseWithoutChildren i))
    (hc1 : process env Pass.CodeGeneration scope (self :: anc) cond
      (WhileLoop.codeGenerationHead env self c0) = Result.ok c1)
    (hc2 : process env Pass.CodeGeneration scope (self :: anc) body
      (WhileLoop.codeGenerationTest env self (c0.nextLabel + 1) c0.nextGpd c1) = Result.ok c2) :
    process env Pass.CodeGeneration scope anc self c =
      Result.ok (c2.emit [Instr.jmp c0.nextLabel, Instr.bind (c0.nextLabel + 1)]) ∧
    (∃ ce be : List Event,
      c1.trace = (WhileLoop.codeGenerationHead env self c0).trace ++ ce ∧
      c2.trace =
        (WhileLoop.codeGenerationTest env self (c0.nextLabel + 1) c0.nextGpd c1).trace ++ be ∧
      (∀ e ∈ ce ++ be, ∀ l, Event.usesLabel l e = true → c0.nextLabel + 2 ≤ l) ∧
      (process env Pass.CodeGeneration scope anc self c).state.trace =
        c.trace ++ [Event.process i Pass.CodeGeneration, Event.processBaseWithoutChildren i] ++
          Code.events ce be (WhileLoop.generatedCode env self c0 c1)) ∧
    (WhileLoop.generatedCode env self c0 c1 =
        ((WhileLoop.headInstrs env c0).map Code.instr ++ [Code.condition] ++
          (WhileLoop.testInstrs env self (c0.nextLabel + 1) c0.nextGpd c1).map Code.instr) ++
          [Code.body, Code.instr (Instr.jmp c0.nextLabel),
            Code.instr (Instr.bind (c0.nextLabel + 1))] ∧
      Code.labelIndex (WhileLoop.generatedCode env self c0 c1) (c0.nextLabel + 1) =
        (WhileLoop.generatedCode env self c0 c1).length - 1) ∧
    (WhileLoop.intCompare Token.greaterThan (c0.nextLabel + 1) = [Instr.jle (c0.nextLabel + 1)] ∧
      WhileLoop.intCompare Token.lessThan (c0.nextLabel + 1) = [Instr.jge (c0.nextLabel + 1)] ∧
      WhileLoop.intCompare Token.lessThanOrEqual (c0.nextLabel + 1) =
        [Instr.jg (c0.nextLabel + 1)] ∧
      WhileLoop.intCompare Token.greaterThanOrEqual (c0.nextLabel + 1) =
        [Instr.jl (c0.nextLabel + 1)] ∧
      WhileLoop.intCompare Token.equals (c0.nextLabel + 1) = [Instr.jne (c0.nextLabel + 1)] ∧
      WhileLoop.intCompare Token.notEquals (c0.nextLabel + 1) = [Instr.je (c0.nextLabel + 1)]) ∧
    (∀ cp op, WhileLoop.getCompareCondition self = some cp → cp.compareOp = some op →
      (op = Token.greaterThan ∨ op = Token.lessThan ∨ op = Token.lessThanOrEqual ∨
        op = Token.greaterThanOrEqual ∨ op = Token.equals ∨ op = Token.notEquals) →
      ∃ j, WhileLoop.intCompare op (c0.nextLabel + 1) = [j] ∧
        (WhileLoop.generatedCode env self c0 c1).filter
          (Code.isConditionalJumpTo (c0.nextLabel + 1)) = [Code.instr j] ∧
        (∀ r, Code.instr (Instr.cmpRegZero r) ∉ WhileLoop.generatedCode env self c0 c1) ∧
        (∀ a b : Int, j.taken (a, b) = true ↔ op.holds a b = false) ∧
        ∀ (rt : Runtime) (m : Machine) (a b : Int),
          (WhileLoop.generatedCode env self c0 c1).get? m.pc = some (Code.instr j) →
          m.flags = (a, b) →
          (Machine.step rt (WhileLoop.generatedCode env self c0 c1) m).pc =
            if op.holds a b then m.pc + 1
            else Code.labelIndex (WhileLoop.generatedCode env self c0 c1) (c0.nextLabel + 1)) ∧
    (WhileLoop.getCompareCondition self = none →
      (WhileLoop.testInstrs env self (c0.nextLabel + 1) c0.nextGpd c1).take 3 =
        [Instr.setInlineComment "check condition", Instr.cmpRegZero (c1.getSubRegister self 0),
          Instr.je (c0.nextLabel + 1)] ∧
      (WhileLoop.generatedCode env self c0 c1).filter
          (Code.isConditionalJumpTo (c0.nextLabel + 1)) =
        [Code.instr (Instr.je (c0.nextLabel + 1))] ∧
      ∀ (rt : Runtime) (m : Machine),
        (Machine.effect rt m (Instr.cmpRegZero (c1.getSubRegister self 0))).flags =
          (m.conditionValue, 0) ∧
        ((Instr.je (c0.nextLabel + 1)).taken
            (Machine.effect rt m (Instr.cmpRegZero (c1.getSubRegister self 0))).flags = true ↔
          m.conditionValue = 0) ∧
        ((WhileLoop.generatedCode env self c0 c1).get? m.pc =
            some (Code.instr (Instr.je (c0.nextLabel + 1))) →
          m.flags = (m.conditionValue, 0) →
          (Machine.step rt (WhileLoop.generatedCode env self c0 c1) m).pc =
            if m.conditionValue = 0 then
              Code.labelIndex (WhileLoop.generatedCode env self c0 c1) (c0.nextLabel + 1)
            else m.pc + 1)) ∧
    ((∀ op, cond.kind = Kind.Compare op →
        WhileLoop.getCompareCondition self = some cond ∧ cond.compareOp = some op) ∧
      (cond.kind.isCompare = false → cond.kind.isStatementBlock = false →
        WhileLoop.getCompareCondition self = none)) := by
  subst hself
  have hp1 : process env Pass.CodeGeneration scope anc
        (Statement.node i l Kind.WhileLoop (cond :: body :: rest)) c =
      Result.ok (c2.emit [Instr.jmp c0.nextLabel, Instr.bind (c0.nextLabel + 1)]) := by
    rw [process_eq]
    simp only [Statement.dispatch, Statement.kind_node, Statement.id_node, WhileLoop.process,
      if_true, reduceCtorEq, if_false, Statement.processBaseWithoutChildren, Result.bind]
    rw [← hc0]
    have h0 : (Statement.childProcessing env Pass.CodeGeneration anc
        (Statement.node i l Kind.WhileLoop (cond :: body :: rest))).process0 =
        some (fun sc => process env Pass.CodeGeneration sc
          (Statement.node i l Kind.WhileLoop (cond :: body :: rest) :: anc) cond) := rfl
    have h1 : (Statement.childProcessing env Pass.CodeGeneration anc
        (Statement.node i l Kind.WhileLoop (cond :: body :: rest))).process1 =
        some (fun sc => process env Pass.CodeGeneration sc
          (Statement.node i l Kind.WhileLoop (cond :: body :: rest) :: anc) body) := rfl
    simp only [WhileLoop.codeGeneration, h0, h1, hc1, hc2, Result.bind]
  obtain ⟨hlabel, ce, be, hce, hbe, hfresh, htr⟩ :=
    process_whileLoop_children_code env scope anc _ cond body c0 c1 c2 hc1 hc2
  have hp2 : (process env Pass.CodeGeneration scope anc
        (Statement.node i l Kind.WhileLoop (cond :: body :: rest)) c).state.trace =
      c.trace ++ [Event.process i Pass.CodeGeneration, Event.processBaseWithoutChildren i] ++
        Code.events ce be
          (WhileLoop.generatedCode env (Statement.node i l Kind.WhileLoop (cond :: body :: rest))
            c0 c1) := by
    have ht0 : c0.trace =
        c.trace ++ [Event.process i Pass.CodeGeneration, Event.processBaseWithoutChildren i] := by
      rw [hc0]
      simp [Compiler.log]
    rw [hp1]
    simp only [Result.state]
    rw [htr, ht0]
  have hp2 := (⟨ce, be, hce, hbe, hfresh, hp2⟩ : ∃ ce be : List Event,
      c1.trace = (WhileLoop.codeGenerationHead env
        (Statement.node i l Kind.WhileLoop (cond :: body :: rest)) c0).trace ++ ce ∧
      c2.trace =
        (WhileLoop.codeGenerationTest env
          (Statement.node i l Kind.WhileLoop (cond :: body :: rest)) (c0.nextLabel + 1)
          c0.nextGpd c1).trace ++ be ∧
      (∀ e ∈ ce ++ be, ∀ l, Event.usesLabel l e = true → c0.nextLabel + 2 ≤ l) ∧
      (process env Pass.CodeGeneration scope anc
          (Statement.node i l Kind.WhileLoop (cond :: body :: rest)) c).state.trace =
        c.trace ++ [Event.process i Pass.CodeGeneration, Event.processBaseWithoutChildren i] ++
          Code.events ce be
            (WhileLoop.generatedCode env
              (Statement.node i l Kind.WhileLoop (cond :: body :: rest)) c0 c1))
  have hne : c0.nextLabel + 1 ≠ c1.nextLabel := by omega
  refine ⟨hp1, hp2, WhileLoop.generatedCode_exit_last env _ c0 c1 hlabel,
    ⟨rfl, rfl, rfl, rfl, rfl, rfl⟩, ?_, ?_, ?_⟩
  · intro cp op hcp hop hsix
    obtain ⟨j, hj, hfilter, hnocmp, hjt, hiff⟩ :=
      WhileLoop.testInstrs_compare env _ (c0.nextLabel + 1) c0.nextGpd c1 hne cp op hcp hop hsix
    refine ⟨j, hj, ?_, ?_, hiff, ?_⟩
    · rw [WhileLoop.generatedCode_conditionalJumps, hfilter]
      rfl
    · intro r hmem
      have hsplit : Instr.cmpRegZero r ∈ WhileLoop.headInstrs env c0 ∨
          Instr.cmpRegZero r ∈
            WhileLoop.testInstrs env (Statement.node i l Kind.WhileLoop (cond :: body :: rest))
              (c0.nextLabel + 1) c0.nextGpd c1 := by
        simpa [WhileLoop.generatedCode] using hmem
      rcases hsplit with hhead | htest
      · cases hs : env.isRuntimeErrorCheckEnabled <;>
          simp [WhileLoop.headInstrs, hs] at hhead
      · exact hnocmp _ htest r rfl
    · intro rt m a b hget hflags
      rw [Machine.step_jump rt _ m j (c0.nextLabel + 1) hget hjt, hflags]
      cases hh : op.holds a b with
      | true =>
        have : j.taken (a, b) = false := by
          cases ht : j.taken (a, b) with
          | false => rfl
          | true => rw [(hiff a b).1 ht] at hh; exact absurd hh (by simp)
        simp [this]
      | false =>
        have : j.taken (a, b) = true := (hiff a b).2 hh
        simp [this]
  · intro hcp
    obtain ⟨htake, hfilter⟩ :=
      WhileLoop.testInstrs_zeroTest env _ (c0.nextLabel + 1) c0.nextGpd c1 hne hcp
    refine ⟨htake, ?_, ?_⟩
    · rw [WhileLoop.generatedCode_conditionalJumps, hfilter]
      rfl
    · intro rt m
      refine ⟨rfl, ?_, ?_⟩
      · simp [Machine.effect, Instr.taken]
      · intro hget hflags
        rw [Machine.step_jump rt _ m _ (c0.nextLabel + 1) hget rfl, hflags]
        simp [Instr.taken]
  · refine ⟨?_, ?_⟩
    · intro op hk
      simp [WhileLoop.getCompareCondition, Statement.getSubExpr, Statement.children_node, hk,
        Kind.isCompare, Statement.compareOp]
    · intro h1 h2
      simp only [WhileLoop.getCompareCondition, Statement.getSubExpr, Statement.children_node,
        List.get?_cons_zero, h1, Bool.false_eq_true, if_false]
      cases hk : cond.kind <;> simp_all [Kind.isStatementBlock]

/-- The loop `while (a < b) { }` as the whole program: the Code Generation
pass logs the instructions listed, which are the code of the loop; that code
has one conditional jump to the exit label 1, which is `jge`, taken exactly
when `a < b` does not hold, and the exit label is bound at the last index.
The code of the loop `while (n) { }` tests the register of `n` against zero,
and `je` is its only conditional jump to the exit label. -/
theorem WhileLoop_exit_jump_negates_condition_witness :
    WhileLoop.getCompareCondition Sample.compareLoop = some Sample.compareCondition ∧
    (process Env.instrumented Pass.CodeGeneration Sample.functionScope [] Sample.compareLoop
        (Compiler.initial.setReg 2 (some 0))).state.trace =
      [Event.process 1 Pass.CodeGeneration, Event.processBaseWithoutChildren 1,
       Event.asm (Instr.xor_ 0 0), Event.asm Instr.nop, Event.asm (Instr.bind 0),
       Event.process 2 Pass.CodeGeneration, Event.processBaseWithChildren 2,
       Event.process 4 Pass.CodeGeneration, Event.processBaseWithChildren 4,
       Event.process 5 Pass.CodeGeneration, Event.processBaseWithChildren 5,
       Event.asm (Instr.jge 1),
       Event.asm (Instr.inc 0), Event.asm (Instr.cmpImm 0 10000000), Event.asm (Instr.jb 2),
       Event.asm (Instr.movErrorKindWhileLoop 0),
       Event.asm (Instr.movToErrorFlag { offset := 0, size := 4 } 0),
       Event.asm (Instr.movImm 0 1),
       Event.asm (Instr.movToErrorFlag { offset := 4, size := 4 } 0),
       Event.asm (Instr.movImm 0 1),
       Event.asm (Instr.movToErrorFlag { offset := 8, size := 4 } 0),
       Event.asm (Instr.jmp 1), Event.asm (Instr.bind 2),
       Event.process 3 Pass.CodeGeneration, Event.processBaseWithChildren 3,
       Event.asm (Instr.jmp 0), Event.asm (Instr.bind 1)] ∧
    (∃ ce be : List Event,
      (Sample.conditionProcessed Env.instrumented Sample.compareLoop
        Sample.compareCondition).trace =
        (WhileLoop.codeGenerationHead Env.instrumented Sample.compareLoop
          Sample.loopEntry).trace ++ ce ∧
      (Sample.bodyProcessed Env.instrumented Sample.compareLoop
        Sample.compareCondition (Sample.block 3 [])).trace =
        (WhileLoop.codeGenerationTest Env.instrumented Sample.compareLoop
          (Sample.loopEntry.nextLabel + 1) Sample.loopEntry.nextGpd
          (Sample.conditionProcessed Env.instrumented Sample.compareLoop
            Sample.compareCondition)).trace ++ be ∧
      (∀ e ∈ ce ++ be, ∀ l,
        Event.usesLabel l e = true → Sample.loopEntry.nextLabel + 2 ≤ l) ∧
      (process Env.instrumented Pass.CodeGeneration Sample.functionScope [] Sample.compareLoop
          (Compiler.initial.setReg 2 (some 0))).state.trace =
        (Compiler.initial.setReg 2 (some 0)).trace ++
          [Event.process 1 Pass.CodeGeneration, Event.processBaseWithoutChildren 1] ++
          Code.events ce be
            (WhileLoop.generatedCode Env.instrumented Sample.compareLoop Sample.loopEntry
              (Sample.conditionProcessed Env.instrumented Sample.compareLoop
                Sample.compareCondition))) ∧
    Code.labelIndex
        (WhileLoop.generatedCode Env.instrumented Sample.compareLoop Sample.loopEntry
          (Sample.conditionProcessed Env.instrumented Sample.compareLoop
            Sample.compareCondition)) 1 =
      (WhileLoop.generatedCode Env.instrumented Sample.compareLoop Sample.loopEntry
        (Sample.conditionProcessed Env.instrumented Sample.compareLoop
          Sample.compareCondition)).length - 1 ∧
    (∃ j, WhileLoop.intCompare Token.lessThan 1 = [j] ∧
      (WhileLoop.generatedCode Env.instrumented Sample.compareLoop Sample.loopEntry
        (Sample.conditionProcessed Env.instrumented Sample.compareLoop
          Sample.compareCondition)).filter
          (Code.isConditionalJumpTo 1) = [Code.instr j] ∧
      ∀ a b : Int, j.taken (a, b) = true ↔ Token.lessThan.holds a b = false) ∧
    WhileLoop.getCompareCondition Sample.countingLoop = none ∧
    (process Env.instrumented Pass.CodeGeneration Sample.functionScope [] Sample.countingLoop
        (Compiler.initial.setReg 2 (some 0))).state.trace =
      [Event.process 1 Pass.CodeGeneration, Event.processBaseWithoutChildren 1,
       Event.asm (Instr.xor_ 0 0), Event.asm Instr.nop, Event.asm (Instr.bind 0),
       Event.process 2 Pass.CodeGeneration, Event.processBaseWithChildren 2,
       Event.asm (Instr.setInlineComment "check condition"),
       Event.asm (Instr.cmpRegZero (some 0)), Event.asm (Instr.je 1),
       Event.asm (Instr.inc 0), Event.asm (Instr.cmpImm 0 10000000), Event.asm (Instr.jb 2),
       Event.asm (Instr.movErrorKindWhileLoop 0),
       Event.asm (Instr.movToErrorFlag { offset := 0, size := 4 } 0),
       Event.asm (Instr.movImm 0 1),
       Event.asm (Instr.movToErrorFlag { offset := 4, size := 4 } 0),
       Event.asm (Instr.movImm 0 1),
       Event.asm (Instr.movToErrorFlag { offset := 8, size := 4 } 0),
       Event.asm (Instr.jmp 1), Event.asm (Instr.bind 2),
       Event.process 3 Pass.CodeGeneration, Event.processBaseWithChildren 3,
       Event.asm (Instr.jmp 0), Event.asm (Instr.bind 1)] ∧
    (WhileLoop.testInstrs Env.instrumented Sample.countingLoop 1 0
      (Sample.conditionProcessed Env.instrumented Sample.countingLoop
        (Sample.reference 2 "n"))).take 3 =
      [Instr.setInlineComment "check condition", Instr.cmpRegZero (some 0), Instr.je 1] ∧
    (WhileLoop.generatedCode Env.instrumented Sample.countingLoop Sample.loopEntry
      (Sample.conditionProcessed Env.instrumented Sample.countingLoop
        (Sample.reference 2 "n"))).filter
        (Code.isConditionalJumpTo 1) = [Code.instr (Instr.je 1)] :=
  ⟨rfl, by decide,
   (WhileLoop_exit_jump_negates_condition Env.instrumented Sample.functionScope [] 1
      { line := 1, col := 1 } Sample.compareCondition (Sample.block 3 []) []
      Sample.compareLoop (Compiler.initial.setReg 2 (some 0)) Sample.loopEntry
      (Sample.conditionProcessed Env.instrumented Sample.compareLoop
        Sample.compareCondition)
      (Sample.bodyProcessed Env.instrumented Sample.compareLoop
        Sample.compareCondition (Sample.block 3 []))
      rfl rfl rfl rfl).2.1,
   (WhileLoop_exit_jump_negates_condition Env.instrumented Sample.functionScope [] 1
      { line := 1, col := 1 } Sample.compareCondition (Sample.block 3 []) []
      Sample.compareLoop (Compiler.initial.setReg 2 (some 0)) Sample.loopEntry
      (Sample.conditionProcessed Env.instrumented Sample.compareLoop
        Sample.compareCondition)
      (Sample.bodyProcessed Env.instrumented Sample.compareLoop
        Sample.compareCondition (Sample.block 3 []))
      rfl rfl rfl rfl).2.2.1.2,
   ((WhileLoop_exit_jump_negates_condition Env.instrumented Sample.functionScope [] 1
      { line := 1, col := 1 } Sample.compareCondition (Sample.block 3 []) []
      Sample.compareLoop (Compiler.initial.setReg 2 (some 0)) Sample.loopEntry
      (Sample.conditionProcessed Env.instrumented Sample.compareLoop
        Sample.compareCondition)
      (Sample.bodyProcessed Env.instrumented Sample.compareLoop
        Sample.compareCondition (Sample.block 3 []))
      rfl rfl rfl rfl).2.2.2.2.1
      Sample.compareCondition Token.lessThan rfl rfl
      (Or.inr (Or.inl rfl))).imp fun _ h => ⟨h.1, h.2.1, h.2.2.2.1⟩,
   rfl, by decide,
   ((WhileLoop_exit_jump_negates_condition Env.instrumented Sample.functionScope [] 1
      { line := 1, col := 1 } (Sample.reference 2 "n") (Sample.block 3 []) []
      Sample.countingLoop (Compiler.initial.setReg 2 (some 0)) Sample.loopEntry
      (Sample.conditionProcessed Env.instrumented Sample.countingLoop
        (Sample.reference 2 "n"))
      (Sample.bodyProcessed Env.instrumented Sample.countingLoop
        (Sample.reference 2 "n") (Sample.block 3 []))
      rfl rfl rfl rfl).2.2.2.2.2.1 rfl).1,
   ((WhileLoop_exit_jump_negates_condition Env.instrumented Sample.functionScope [] 1
      { line := 1, col := 1 } (Sample.reference 2 "n") (Sample.block 3 []) []
      Sample.countingLoop (Compiler.initial.setReg 2 (some 0)) Sample.loopEntry
      (Sample.conditionProcessed Env.instrumented Sample.countingLoop
        (Sample.reference 2 "n"))
      (Sample.bodyProcessed Env.instrumented Sample.countingLoop
        (Sample.reference 2 "n") (Sample.block 3 []))
      rfl rfl rfl rfl).2.2.2.2.2.1 rfl).2.1⟩

/-- `Loop::tryToResolveType` leaves the flag `loadIterator` alone. -/
theorem Loop_tryToResolveType_loadIterator (env : Env) (self : Statement) (c : Compiler) :
    (Loop.tryToResolveType env self c).state.loadIterator = c.loadIterator := by
  unfold Loop.tryToResolveType
  cases self.getSubExpr 0 with
  | none => rfl
  | some target =>
    simp only
    have h1 : ∀ c0 : Compiler,
        (Loop.resolveFromArray env self (env.tryToResolveType target c) c0).state.loadIterator =
          c0.loadIterator := by
      intro c0
      unfold Loop.resolveFromArray
      cases (env.tryToResolveType target c).getTypedIfArrayTypeBase with
      | none => rfl
      | some e =>
        simp only [Compiler.setTypeInfo]
        cases env.setTypeInfo (c0.iterator self.id).id e <;> rfl
    have h2 : ∀ c0 : Compiler,
        (Loop.resolveFromFrameProcessor env self (env.tryToResolveType target c)
          c0).state.loadIterator = c0.loadIterator := by
      intro c0
      unfold Loop.resolveFromFrameProcessor
      cases env.tryToResolveType target c with
      | StructType id b bt s d cc r =>
        simp only
        by_cases hid : id = ["FrameProcessor"]
        · simp only [hid, if_true, Compiler.setTypeInfo]
          cases env.setTypeInfo (c0.iterator self.id).id (TypeInfo.native TypeID.Float false true) <;>
            rfl
        · simp only [hid, if_false]
          rfl
      | native t cc r => rfl
      | SpanType e n d cc r => rfl
      | DynType e d cc r => rfl
      | otherComplex n d cc r => rfl
    have h1' := h1 ((c.log (Event.tryToResolveType target.id)).setTypeOf target.id
      (env.tryToResolveType target c))
    cases hr1 : Loop.resolveFromArray env self (env.tryToResolveType target c)
        ((c.log (Event.tryToResolveType target.id)).setTypeOf target.id
          (env.tryToResolveType target c)) with
    | ok c1 =>
      rw [hr1] at h1'
      have h2' := h2 c1
      simp only [Result.bind]
      cases hr2 : Loop.resolveFromFrameProcessor env self (env.tryToResolveType target c) c1 with
      | ok c2 =>
        rw [hr2] at h2'
        simp only [Result.state] at h1' h2' ⊢
        show c2.loadIterator = c.loadIterator
        rw [h2', h1']
        rfl
      | error e c2 =>
        rw [hr2] at h2'
        simp only [Result.state] at h1' h2' ⊢
        rw [h2', h1']
        rfl
      | undefined c2 =>
        rw [hr2] at h2'
        simp only [Result.state] at h1' h2' ⊢
        rw [h2', h1']
        rfl
    | error e c1 =>
      rw [hr1] at h1'
      simp only [Result.bind, Result.state] at h1' ⊢
      rw [h1']
      rfl
    | undefined c1 =>
      rw [hr1] at h1'
      simp only [Result.bind, Result.state] at h1' ⊢
      rw [h1']
      rfl

/-- The span check of the Data Allocation block of `Loop::process` with the
registration of the iterator's type leaves the flag `loadIterator` alone. -/
theorem Loop_resolveLoopTarget_span_loadIterator (env : Env) (i : Nat) (l : Location)
    (cs : List Statement) (target : Statement) (E : TypeInfo) (c c1 : Compiler)
    (hspan : (c.typeInfo target.id).getTypedIfSpanType = some E)
    (hok : Loop.resolveLoopTarget env (Statement.node i l Kind.Loop cs) target c = Result.ok c1) :
    c1.loadIterator = c.loadIterator := by
  simp only [Loop.resolveLoopTarget, hspan, Statement.id_node] at hok
  by_cases hd : (c.iterator i).typeInfo.isDynamic = true
  · simp only [hd, if_true, Result.bind, Compiler.setTypeInfo] at hok
    split at hok <;> simp only [Result.ok.injEq] at hok <;> rw [← hok] <;> rfl
  · simp only [hd, Bool.false_eq_true, if_false] at hok
    by_cases he : env.typeEq (c.iterator i).typeInfo E = true
    · simp only [he, Bool.not_true, Bool.false_eq_true, if_false, Result.bind,
        Compiler.setTypeInfo] at hok
      split at hok <;> simp only [Result.ok.injEq] at hok <;> rw [← hok] <;> rfl
    · simp [he, Result.bind, Location.throwError] at hok

/-- `Loop::evaluateIteratorLoad` on a body in which the first reference to the
iterator is not the target (sub-expression 1) of its nearest enclosing
assignment: the flag stays true. -/
theorem Loop_evaluateIteratorLoad_read (env : Env) (anc : List Statement) (i : Nat)
    (l : Location) (cs : List Statement) (loopBlock : Statement) (c : Compiler)
    (hflag : c.loadIterator i = true)
    (hbody : (Statement.node i l Kind.Loop cs).getSubExpr 1 = some loopBlock)
    (hread : ∀ v vanc a,
      (loopBlock.walk (Statement.node i l Kind.Loop cs :: anc)).find?
        (fun p => p.1.refersTo env (c.iterator i)) = some (v, vanc) →
      findParentStatementOfType Kind.isAssignment v vanc = some a →
      a.subExprIs 1 v = false) :
    (Loop.evaluateIteratorLoad env (Statement.node i l Kind.Loop cs) anc c).isOk = true ∧
    (Loop.evaluateIteratorLoad env (Statement.node i l Kind.Loop cs) anc c).state.loadIterator i =
      true ∧
    (Loop.evaluateIteratorLoad env (Statement.node i l Kind.Loop cs) anc c).state.iterator =
      c.iterator := by
  unfold Loop.evaluateIteratorLoad
  simp only [Statement.id_node, hflag, Bool.not_true, Bool.false_eq_true, if_false, hbody]
  cases hfind : (loopBlock.walk (Statement.node i l Kind.Loop cs :: anc)).find?
      (fun p => p.1.refersTo env (c.iterator i)) with
  | none => exact ⟨rfl, hflag, rfl⟩
  | some pr =>
    obtain ⟨v, vanc⟩ := pr
    simp only
    cases hpar : findParentStatementOfType Kind.isAssignment v vanc with
    | none => exact ⟨rfl, hflag, rfl⟩
    | some a =>
      simp only [hread v vanc a hfind hpar, Bool.false_and, Bool.false_eq_true, if_false]
      refine ⟨rfl, ?_, rfl⟩
      simp [Result.state, Compiler.setLoadIterator]

theorem TypeInfo.withModifiers_withModifiers (t : TypeInfo) (c r a b : Bool) :
    (t.withModifiers c r).withModifiers a b = t.withModifiers a b := by
  cases t <;> rfl

/-- `Loop::tryToResolveType` for a target that it finds neither an array nor the
struct `FrameProcessor`: the iterator and the other fields of the loops are
left as they are. -/
theorem Loop_tryToResolveType_unresolved (env : Env) (i : Nat) (l : Location)
    (target : Statement) (rest : List Statement) (c : Compiler)
    (harr : (env.tryToResolveType target c).getTypedIfArrayTypeBase = none)
    (hfp : ∀ b bt s d cc r,
      env.tryToResolveType target c ≠ TypeInfo.StructType ["FrameProcessor"] b bt s d cc r) :
    ∃ c1 : Compiler,
      Loop.tryToResolveType env (Statement.node i l Kind.Loop (target :: rest)) c = Result.ok c1 ∧
      c1.iterator = c.iterator := by
  have h0 : (Statement.node i l Kind.Loop (target :: rest)).getSubExpr 0 = some target := rfl
  have h2 : ∀ c0 : Compiler,
      Loop.resolveFromFrameProcessor env (Statement.node i l Kind.Loop (target :: rest))
        (env.tryToResolveType target c) c0 = Result.ok c0 := by
    intro c0
    unfold Loop.resolveFromFrameProcessor
    cases htt : env.tryToResolveType target c with
    | StructType id b bt s d cc r =>
      simp only
      by_cases hid : id = ["FrameProcessor"]
      · rw [hid] at htt
        exact absurd htt (hfp b bt s d cc r)
      · simp only [hid, if_false]
    | native t cc r => rfl
    | SpanType e n d cc r => rfl
    | DynType e d cc r => rfl
    | otherComplex n d cc r => rfl
  simp only [Loop.tryToResolveType, h0, Loop.resolveFromArray, harr, Result.bind, h2]
  exact ⟨_, rfl, rfl⟩

/-- The span check of the Data Allocation block of `Loop::process`, for an
iterator whose type is unset: the iterator gets the element type, which is
then registered. -/
theorem Loop_resolveLoopTarget_span_unset (env : Env) (i : Nat) (l : Location)
    (cs : List Statement) (target : Statement) (E : TypeInfo) (c : Compiler)
    (hspan : (c.typeInfo target.id).getTypedIfSpanType = some E)
    (hd : (c.iterator i).typeInfo.isDynamic = true)
    (hreg : env.setTypeInfo (c.iterator i).id E = none) :
    ∃ c1 : Compiler,
      Loop.resolveLoopTarget env (Statement.node i l Kind.Loop cs) target c = Result.ok c1 ∧
      c1.iterator i = { id := (c.iterator i).id, typeInfo := E } ∧
      c1.loopTargetType i = LoopTargetType.Span ∧
      c1.namespaceHandler (c.iterator i).id = some E := by
  have hit : ((c.setLoopTargetType i LoopTargetType.Span).setIterator i
      { id := (c.iterator i).id, typeInfo := E }).iterator i =
      { id := (c.iterator i).id, typeInfo := E } := by
    simp [Compiler.setIterator]
  simp only [Loop.resolveLoopTarget, hspan, Statement.id_node, hd, if_true, Result.bind,
    Compiler.setTypeInfo, hit, hreg]
  refine ⟨_, rfl, ?_, ?_, ?_⟩
  · simp [Compiler.registerType, Compiler.log, Compiler.setIterator]
  · simp [Compiler.registerType, Compiler.log, Compiler.setLoopTargetType, Compiler.setIterator]
  · simp [Compiler.registerType, Compiler.log, Compiler.setLoopTargetType]

/-- The Data Allocation block of `Loop::process` for a loop with an unset
iterator type over a target that is a span of element type E, be the target's
type known when `tryToResolveType` runs or only after the target was
processed: up to the processing of the loop block.  The iterator's type is
then E, with the iterator's own modifiers on the first path when E is not
itself unset. -/
theorem Loop_dataAllocation_span_target (env : Env) (scope : BaseScope)
    (i : Nat) (l : Location) (target : Statement) (rest : List Statement)
    (E : TypeInfo) (processTarget : BaseScope → Compiler → Result) (c : Compiler)
    (hdyn : (c.iterator i).typeInfo.isDynamic = true)
    (hT : (env.tryToResolveType target c).getTypedIfSpanType = some E ∨
      ((env.tryToResolveType target c).getTypedIfArrayTypeBase = none ∧
        ∀ b bt s d cc r,
          env.tryToResolveType target c ≠ TypeInfo.StructType ["FrameProcessor"] b bt s d cc r))
    (hEq : (env.tryToResolveType target c).getTypedIfSpanType = some E → E.isDynamic = false →
      env.typeEq (E.withModifiers (c.iterator i).isConst (c.iterator i).isReference) E = true)
    (hreg : ∀ t, env.setTypeInfo (c.iterator i).id t = none)
    (htarget : ∀ c1, ∃ c2, processTarget scope c1 = Result.ok c2 ∧
      c2.iterator i = c1.iterator i ∧ (c2.typeInfo target.id).getTypedIfSpanType = some E) :
    ∃ (c1 c2 c3 : Compiler) (T : TypeInfo),
      processTarget scope c1 = Result.ok c2 ∧
      c1.loadIterator = c.loadIterator ∧ c3.loadIterator = c2.loadIterator ∧
      c3.iterator i = { id := (c.iterator i).id, typeInfo := T } ∧
      c3.loopTargetType i = LoopTargetType.Span ∧
      c3.namespaceHandler (c.iterator i).id = some T ∧
      (T = E.withModifiers (c.iterator i).isConst (c.iterator i).isReference ∨ T = E) ∧
      ((env.tryToResolveType target c).getTypedIfArrayTypeBase = none → T = E) ∧
      ((env.tryToResolveType target c).getTypedIfSpanType = some E → E.isDynamic = false →
        T = E.withModifiers (c.iterator i).isConst (c.iterator i).isReference) ∧
      Loop.tryToResolveType env (Statement.node i l Kind.Loop (target :: rest)) c =
        Result.ok c1 ∧
      Loop.resolveLoopTarget env (Statement.node i l Kind.Loop (target :: rest)) target c2 =
        Result.ok c3 := by
  have h0 : (Statement.node i l Kind.Loop (target :: rest)).getSubExpr 0 = some target := rfl
  have hl : ∀ c1, Loop.tryToResolveType env (Statement.node i l Kind.Loop (target :: rest)) c =
      Result.ok c1 → c1.loadIterator = c.loadIterator := by
    intro c1 hc1
    have h := Loop_tryToResolveType_loadIterator env
      (Statement.node i l Kind.Loop (target :: rest)) c
    rw [hc1] at h
    exact h
  rcases hT with hT | ⟨harr, hfp⟩
  · obtain ⟨c1, hc1, hit1⟩ := Loop_tryToResolveType_span env i l target rest E c hT (hreg E)
    obtain ⟨c2, hc2, hit2, hspan2⟩ := htarget c1
    have hit2' : c2.iterator i =
        { id := (c.iterator i).id,
          typeInfo := E.withModifiers (c.iterator i).isConst (c.iterator i).isReference } := by
      rw [hit2, hit1]
    have harr2 : (env.tryToResolveType target c).getTypedIfArrayTypeBase ≠ none := by
      cases htt : env.tryToResolveType target c <;> rw [htt] at hT <;>
        simp [TypeInfo.getTypedIfSpanType, TypeInfo.getTypedIfArrayTypeBase] at hT ⊢
    by_cases hE : E.isDynamic = true
    · have hd2 : (c2.iterator i).typeInfo.isDynamic = true := by
        rw [hit2']
        simpa [TypeInfo.isDynamic, TypeInfo.getType_withModifiers] using hE
      obtain ⟨c3, hc3, hit3, hlt3, hns3⟩ :=
        Loop_resolveLoopTarget_span_unset env i l (target :: rest) target E c2 hspan2 hd2
          (by rw [hit2']; exact hreg _)
      rw [hit2'] at hit3 hns3
      refine ⟨c1, c2, c3, E, hc2, hl c1 hc1,
        Loop_resolveLoopTarget_span_loadIterator env i l (target :: rest) target E c2 c3 hspan2 hc3,
        hit3, hlt3, hns3, Or.inr rfl, fun _ => rfl, ?_, ?_⟩
      · intro _ hnd
        rw [hnd] at hE
        exact absurd hE (by simp)
      · exact ⟨hc1, hc3⟩
    · have hE' : E.isDynamic = false := by simpa using hE
      have hnd : (c2.iterator i).typeInfo.isDynamic = false := by
        rw [hit2']
        simpa [TypeInfo.isDynamic, TypeInfo.getType_withModifiers] using hE'
      obtain ⟨c3, hc3, hit3, hlt3, hns3⟩ :=
        Loop_resolveLoopTarget_span env i l (target :: rest) target E c2 hspan2 hnd
          (by rw [hit2']; exact hEq hT hE') (by rw [hit2']; exact hreg _)
      rw [hit2'] at hit3 hns3
      refine ⟨c1, c2, c3, _, hc2, hl c1 hc1,
        Loop_resolveLoopTarget_span_loadIterator env i l (target :: rest) target E c2 c3 hspan2 hc3,
        hit3, hlt3, hns3, Or.inl rfl, fun h => absurd h harr2, fun _ _ => rfl, ?_⟩
      exact ⟨hc1, hc3⟩
  · obtain ⟨c1, hc1, hit1⟩ := Loop_tryToResolveType_unresolved env i l target rest c harr hfp
    obtain ⟨c2, hc2, hit2, hspan2⟩ := htarget c1
    have hit2' : c2.iterator i = c.iterator i := by rw [hit2, hit1]
    have hd2 : (c2.iterator i).typeInfo.isDynamic = true := by rw [hit2']; exact hdyn
    obtain ⟨c3, hc3, hit3, hlt3, hns3⟩ :=
      Loop_resolveLoopTarget_span_unset env i l (target :: rest) target E c2 hspan2 hd2
        (by rw [hit2']; exact hreg _)
    rw [hit2'] at hit3 hns3
    have hnotspan : (env.tryToResolveType target c).getTypedIfSpanType ≠ some E := by
      cases htt : env.tryToResolveType target c <;> rw [htt] at harr <;>
        simp [TypeInfo.getTypedIfSpanType, TypeInfo.getTypedIfArrayTypeBase] at harr ⊢
    refine ⟨c1, c2, c3, E, hc2, hl c1 hc1,
      Loop_resolveLoopTarget_span_loadIterator env i l (target :: rest) target E c2 c3 hspan2 hc3,
      hit3, hlt3, hns3, Or.inr rfl, fun _ => rfl, fun h => absurd h hnotspan, ?_⟩
    exact ⟨hc1, hc3⟩

/-- The processing of an empty block in the Data Allocation pass, whatever the
collaborators: it completes and leaves the fields of an enclosing loop and the
namespace handler alone. -/
theorem process_emptyBlock_dataAllocation (env : Env) (anc : List Statement) (c3 : Compiler) :
    ∃ c4, process env Pass.DataAllocation Sample.functionScope anc (Sample.block 3 []) c3 =
        Result.ok c4 ∧
      c4.iterator 1 = c3.iterator 1 ∧ c4.loopTargetType 1 = c3.loopTargetType 1 ∧
      c4.namespaceHandler ["f", "x"] = c3.namespaceHandler ["f", "x"] := by
  rw [process_eq]
  simp only [Statement.dispatch, Sample.block, Statement.kind_node, StatementBlock.process,
    StatementBlock.createOrGetBlockScope, Sample.functionScope, BaseScope.getScopeType,
    Statement.id_node, Compiler.log]
  cases hb : c3.blockScope 3 with
  | none => exact ⟨_, rfl, rfl, rfl, rfl⟩
  | some bs => exact ⟨_, rfl, rfl, rfl, rfl⟩

/-- C7. For every for-each loop whose iterator's declared type is unset and
whose target is a fixed-size span of element type E, be the target's type
known when `tryToResolveType` runs or only after the target was processed
(`tryToResolveType` then finds neither an array nor the struct
`FrameProcessor`), the Data Allocation block of `Loop::process` runs to its
last statement, `evaluateIteratorLoad`, provided the registration of the
iterator's type succeeds and the processing of the target and of the loop
block succeed and leave the loop's own fields alone.  Afterwards the loop
target kind is Span, the iterator keeps its identifier, its type is E up to
the const and reference modifiers, and that type is the one registered for the
iterator's identifier in the namespace handler.  The type is E itself when the
target's type is known only after the target was processed, and it is E with
the iterator's own modifiers (which the span check has found equal to E) when
`tryToResolveType` already finds the span.  In the Data Allocation pass
`process` is `processBaseWithoutChildren` followed by this block. -/
theorem Loop_dataAllocation_infers_iterator_type (env : Env) (scope : BaseScope)
    (anc : List Statement) (i : Nat) (l : Location) (target : Statement) (rest : List Statement)
    (E : TypeInfo) (processAll processTarget processLoopBlock : BaseScope → Compiler → Result)
    (c : Compiler)
    (hdyn : (c.iterator i).typeInfo.isDynamic = true)
    (hT : (env.tryToResolveType target c).getTypedIfSpanType = some E ∨
      ((env.tryToResolveType target c).getTypedIfArrayTypeBase = none ∧
        ∀ b bt s d cc r,
          env.tryToResolveType target c ≠ TypeInfo.StructType ["FrameProcessor"] b bt s d cc r))
    (hEq : (env.tryToResolveType target c).getTypedIfSpanType = some E → E.isDynamic = false →
      env.typeEq (E.withModifiers (c.iterator i).isConst (c.iterator i).isReference) E = true)
    (hreg : ∀ t, env.setTypeInfo (c.iterator i).id t = none)
    (htarget : ∀ c1, ∃ c2, processTarget scope c1 = Result.ok c2 ∧
      c2.iterator i = c1.iterator i ∧ (c2.typeInfo target.id).getTypedIfSpanType = some E)
    (hblock : ∀ c3, ∃ c4, processLoopBlock scope c3 = Result.ok c4 ∧
      c4.iterator i = c3.iterator i ∧ c4.loopTargetType i = c3.loopTargetType i ∧
      c4.namespaceHandler (c.iterator i).id = c3.namespaceHandler (c.iterator i).id) :
    (∃ c4 : Compiler,
      Loop.dataAllocation env scope anc (Statement.node i l Kind.Loop (target :: rest))
          { processAll := processAll, process0 := some processTarget,
            process1 := some processLoopBlock } c =
        Loop.evaluateIteratorLoad env (Statement.node i l Kind.Loop (target :: rest)) anc c4) ∧
    ((Loop.dataAllocation env scope anc (Statement.node i l Kind.Loop (target :: rest))
        { processAll := processAll, process0 := some processTarget,
          process1 := some processLoopBlock } c).state.loopTargetType i = LoopTargetType.Span ∧
     ((Loop.dataAllocation env scope anc (Statement.node i l Kind.Loop (target :: rest))
        { processAll := processAll, process0 := some processTarget,
          process1 := some processLoopBlock } c).state.iterator i).id = (c.iterator i).id ∧
     ((Loop.dataAllocation env scope anc (Statement.node i l Kind.Loop (target :: rest))
        { processAll := processAll, process0 := some processTarget,
          process1 := some processLoopBlock } c).state.iterator i).typeInfo.withModifiers
          false false = E.withModifiers false false ∧
     (Loop.dataAllocation env scope anc (Statement.node i l Kind.Loop (target :: rest))
        { processAll := processAll, process0 := some processTarget,
          process1 := some processLoopBlock } c).state.namespaceHandler (c.iterator i).id =
        some ((Loop.dataAllocation env scope anc (Statement.node i l Kind.Loop (target :: rest))
          { processAll := processAll, process0 := some processTarget,
            process1 := some processLoopBlock } c).state.iterator i).typeInfo) ∧
    ((env.tryToResolveType target c).getTypedIfArrayTypeBase = none →
      (Loop.dataAllocation env scope anc (Statement.node i l Kind.Loop (target :: rest))
        { processAll := processAll, process0 := some processTarget,
          process1 := some processLoopBlock } c).state.iterator i =
        { id := (c.iterator i).id, typeInfo := E }) ∧
    ((env.tryToResolveType target c).getTypedIfSpanType = some E → E.isDynamic = false →
      (Loop.dataAllocation env scope anc (Statement.node i l Kind.Loop (target :: rest))
        { processAll := processAll, process0 := some processTarget,
          process1 := some processLoopBlock } c).state.iterator i =
        { id := (c.iterator i).id,
          typeInfo := E.withModifiers (c.iterator i).isConst (c.iterator i).isReference }) ∧
    ∀ c0 : Compiler,
      process env Pass.DataAllocation scope anc (Statement.node i l Kind.Loop (target :: rest)) c0 =
        Loop.dataAllocation env scope anc (Statement.node i l Kind.Loop (target :: rest))
          (Statement.childProcessing env Pass.DataAllocation anc
            (Statement.node i l Kind.Loop (target :: rest)))
          ((c0.log (Event.process i Pass.DataAllocation)).log
            (Event.processBaseWithoutChildren i)) := by
  obtain ⟨c1, c2, c3, T, hc2, _, _, hit3, hlt3, hns3, hT1, hT2, hT3, hc1, hc3⟩ :=
    Loop_dataAllocation_span_target env scope i l target rest E processTarget c hdyn hT hEq hreg
      htarget
  obtain ⟨c4, hc4, hit4, hlt4, hns4⟩ := hblock c3
  obtain ⟨hfi, hfl, hfn⟩ :=
    Loop_evaluateIteratorLoad_frame env (Statement.node i l Kind.Loop (target :: rest)) anc c4
  have hres : Loop.dataAllocation env scope anc (Statement.node i l Kind.Loop (target :: rest))
        { processAll := processAll, process0 := some processTarget,
          process1 := some processLoopBlock } c =
      Loop.evaluateIteratorLoad env (Statement.node i l Kind.Loop (target :: rest)) anc c4 := by
    have h0 : (Statement.node i l Kind.Loop (target :: rest)).getSubExpr 0 = some target := rfl
    simp only [Loop.dataAllocation, hc1, Result.bind, h0, hc2, hc3, hc4]
  have hit : (Loop.evaluateIteratorLoad env (Statement.node i l Kind.Loop (target :: rest)) anc
      c4).state.iterator i = { id := (c.iterator i).id, typeInfo := T } := by
    rw [hfi, hit4, hit3]
  refine ⟨⟨c4, hres⟩, ⟨?_, ?_, ?_, ?_⟩, ?_, ?_, ?_⟩
  · rw [hres, hfl, hlt4, hlt3]
  · rw [hres, hit]
  · rw [hres, hit]
    rcases hT1 with rfl | rfl
    · exact TypeInfo.withModifiers_withModifiers _ _ _ _ _
    · rfl
  · rw [hres, hit, hfn, hns4, hns3]
  · intro h
    rw [hres, hit, hT2 h]
  · intro h hE
    rw [hres, hit, hT3 h hE]
  · intro c0
    exact process_Loop_dataAllocation env scope anc i l (target :: rest) c0

/-- The loop `for (auto& x : data)` over `span<float, 4> data`.  When
`tryToResolveType` resolves the variable, the Data Allocation pass completes,
the target kind is Span and the iterator is a `float&`, which is the type
registered for `x`; when the variable gets its type only by being processed,
the iterator is a `float`, the element type itself. -/
theorem Loop_dataAllocation_infers_iterator_type_witness :
    ((Sample.loopState (TypeInfo.native TypeID.Dynamic false true)).iterator 1).typeInfo.isDynamic
      = true ∧
    Env.reference.tryToResolveType (Sample.dataReference 2)
      (Sample.loopState (TypeInfo.native TypeID.Dynamic false true)) = Sample.floatSpan ∧
    (process Env.reference Pass.DataAllocation Sample.functionScope [] Sample.loopOverData
      (Sample.loopState (TypeInfo.native TypeID.Dynamic false true))).isOk = true ∧
    (process Env.reference Pass.DataAllocation Sample.functionScope [] Sample.loopOverData
      (Sample.loopState (TypeInfo.native TypeID.Dynamic false true))).state.loopTargetType 1 =
        LoopTargetType.Span ∧
    (process Env.reference Pass.DataAllocation Sample.functionScope [] Sample.loopOverData
      (Sample.loopState (TypeInfo.native TypeID.Dynamic false true))).state.iterator 1 =
        { id := ["f", "x"], typeInfo := TypeInfo.native TypeID.Float false true } ∧
    (process Env.reference Pass.DataAllocation Sample.functionScope [] Sample.loopOverData
      (Sample.loopState (TypeInfo.native TypeID.Dynamic false true))).state.namespaceHandler
        ["f", "x"] = some (TypeInfo.native TypeID.Float false true) ∧
    (Loop.dataAllocation Env.reference Sample.functionScope [] Sample.loopOverData
      (Statement.childProcessing Env.reference Pass.DataAllocation [] Sample.loopOverData)
      (Sample.loopState (TypeInfo.native TypeID.Dynamic false true))).state.loopTargetType 1 =
        LoopTargetType.Span ∧
    (Loop.dataAllocation Env.reference Sample.functionScope [] Sample.loopOverData
      (Statement.childProcessing Env.reference Pass.DataAllocation [] Sample.loopOverData)
      (Sample.loopState (TypeInfo.native TypeID.Dynamic false true))).state.iterator 1 =
        { id := ["f", "x"], typeInfo := TypeInfo.native TypeID.Float false true } ∧
    (Loop.dataAllocation Env.reference Sample.functionScope [] Sample.loopOverData
      (Statement.childProcessing Env.reference Pass.DataAllocation [] Sample.loopOverData)
      (Sample.loopState (TypeInfo.native TypeID.Dynamic false true))).state.namespaceHandler
        ["f", "x"] = some (TypeInfo.native TypeID.Float false true) ∧
    Env.lateTyping.tryToResolveType (Sample.dataReference 2)
      (Sample.loopState (TypeInfo.native TypeID.Dynamic false true)) =
        TypeInfo.native TypeID.Dynamic false false ∧
    (process Env.lateTyping Pass.DataAllocation Sample.functionScope [] Sample.loopOverData
      (Sample.loopState (TypeInfo.native TypeID.Dynamic false true))).isOk = true ∧
    (process Env.lateTyping Pass.DataAllocation Sample.functionScope [] Sample.loopOverData
      (Sample.loopState (TypeInfo.native TypeID.Dynamic false true))).state.loopTargetType 1 =
        LoopTargetType.Span ∧
    (process Env.lateTyping Pass.DataAllocation Sample.functionScope [] Sample.loopOverData
      (Sample.loopState (TypeInfo.native TypeID.Dynamic false true))).state.iterator 1 =
        { id := ["f", "x"], typeInfo := TypeInfo.native TypeID.Float false false } ∧
    (process Env.lateTyping Pass.DataAllocation Sample.functionScope [] Sample.loopOverData
      (Sample.loopState (TypeInfo.native TypeID.Dynamic false true))).state.namespaceHandler
        ["f", "x"] = some (TypeInfo.native TypeID.Float false false) ∧
    (Loop.dataAllocation Env.lateTyping Sample.functionScope [] Sample.loopOverData
      (Statement.childProcessing Env.lateTyping Pass.DataAllocation [] Sample.loopOverData)
      (Sample.loopState (TypeInfo.native TypeID.Dynamic false true))).state.loopTargetType 1 =
        LoopTargetType.Span ∧
    (Loop.dataAllocation Env.lateTyping Sample.functionScope [] Sample.loopOverData
      (Statement.childProcessing Env.lateTyping Pass.DataAllocation [] Sample.loopOverData)
      (Sample.loopState (TypeInfo.native TypeID.Dynamic false true))).state.iterator 1 =
        { id := ["f", "x"], typeInfo := TypeInfo.native TypeID.Float false false } :=
  ⟨rfl, rfl, by decide, by decide, by decide, by decide,
   (Loop_dataAllocation_infers_iterator_type Env.reference Sample.functionScope [] 1
      { line := 1, col := 1 } (Sample.dataReference 2) [Sample.block 3 []]
      (TypeInfo.native TypeID.Float false false)
      (fun sc => processAllChildren Env.reference Pass.DataAllocation sc [Sample.loopOverData]
        [Sample.dataReference 2, Sample.block 3 []])
      (fun sc => process Env.reference Pass.DataAllocation sc [Sample.loopOverData]
        (Sample.dataReference 2))
      (fun sc => process Env.reference Pass.DataAllocation sc [Sample.loopOverData]
        (Sample.block 3 []))
      (Sample.loopState (TypeInfo.native TypeID.Dynamic false true))
      rfl (Or.inl rfl) (fun _ _ => rfl) (fun _ => rfl) (fun _ => ⟨_, rfl, rfl, rfl⟩)
      (process_emptyBlock_dataAllocation Env.reference [Sample.loopOverData])).2.1.1,
   (Loop_dataAllocation_infers_iterator_type Env.reference Sample.functionScope [] 1
      { line := 1, col := 1 } (Sample.dataReference 2) [Sample.block 3 []]
      (TypeInfo.native TypeID.Float false false)
      (fun sc => processAllChildren Env.reference Pass.DataAllocation sc [Sample.loopOverData]
        [Sample.dataReference 2, Sample.block 3 []])
      (fun sc => process Env.reference Pass.DataAllocation sc [Sample.loopOverData]
        (Sample.dataReference 2))
      (fun sc => process Env.reference Pass.DataAllocation sc [Sample.loopOverData]
        (Sample.block 3 []))
      (Sample.loopState (TypeInfo.native TypeID.Dynamic false true))
      rfl (Or.inl rfl) (fun _ _ => rfl) (fun _ => rfl) (fun _ => ⟨_, rfl, rfl, rfl⟩)
      (process_emptyBlock_dataAllocation Env.reference [Sample.loopOverData])).2.2.2.1 rfl rfl,
   by decide, rfl, by decide, by decide, by decide, by decide,
   (Loop_dataAllocation_infers_iterator_type Env.lateTyping Sample.functionScope [] 1
      { line := 1, col := 1 } (Sample.dataReference 2) [Sample.block 3 []]
      (TypeInfo.native TypeID.Float false false)
      (fun sc => processAllChildren Env.lateTyping Pass.DataAllocation sc [Sample.loopOverData]
        [Sample.dataReference 2, Sample.block 3 []])
      (fun sc => process Env.lateTyping Pass.DataAllocation sc [Sample.loopOverData]
        (Sample.dataReference 2))
      (fun sc => process Env.lateTyping Pass.DataAllocation sc [Sample.loopOverData]
        (Sample.block 3 []))
      (Sample.loopState (TypeInfo.native TypeID.Dynamic false true))
      rfl (Or.inr ⟨rfl, fun _ _ _ _ _ _ h => by cases h⟩) (fun _ _ => rfl) (fun _ => rfl)
      (fun _ => ⟨_, rfl, rfl, rfl⟩)
      (process_emptyBlock_dataAllocation Env.lateTyping [Sample.loopOverData])).2.1.1,
   (Loop_dataAllocation_infers_iterator_type Env.lateTyping Sample.functionScope [] 1
      { line := 1, col := 1 } (Sample.dataReference 2) [Sample.block 3 []]
      (TypeInfo.native TypeID.Float false false)
      (fun sc => processAllChildren Env.lateTyping Pass.DataAllocation sc [Sample.loopOverData]
        [Sample.dataReference 2, Sample.block 3 []])
      (fun sc => process Env.lateTyping Pass.DataAllocation sc [Sample.loopOverData]
        (Sample.dataReference 2))
      (fun sc => process Env.lateTyping Pass.DataAllocation sc [Sample.loopOverData]
        (Sample.block 3 []))
      (Sample.loopState (TypeInfo.native TypeID.Dynamic false true))
      rfl (Or.inr ⟨rfl, fun _ _ _ _ _ _ h => by cases h⟩) (fun _ _ => rfl) (fun _ => rfl)
      (fun _ => ⟨_, rfl, rfl, rfl⟩)
      (process_emptyBlock_dataAllocation Env.lateTyping [Sample.loopOverData])).2.2.1 rfl⟩

/-- The processing of the body `{ sum = sum + x; }` in the Data Allocation pass,
for collaborators under which a node of a foreign kind gets its reference
type: it completes and leaves the fields of the enclosing loop alone. -/
theorem process_summingBody_dataAllocation (env : Env) (hext : env.ext = Env.reference.ext)
    (c3 : Compiler) :
    ∃ c4, process env Pass.DataAllocation Sample.functionScope [Sample.loopSumming]
        (Sample.block 3 [Sample.assignment 4 (Sample.floatReference 5 "sum")
          (Sample.binaryOp 6 (Sample.floatReference 7 "sum") (Sample.floatReference 8 "x"))]) c3 =
          Result.ok c4 ∧
      c4.iterator 1 = c3.iterator 1 ∧ c4.loadIterator 1 = c3.loadIterator 1 := by
  simp only [process_eq, Statement.dispatch, Sample.block, Sample.assignment, Sample.binaryOp,
    Sample.floatReference, Statement.kind_node, StatementBlock.process,
    StatementBlock.createOrGetBlockScope, Sample.functionScope, BaseScope.getScopeType,
    Statement.id_node, Statement.processBaseWithChildren, Statement.childProcessing,
    Statement.children_node, processAllChildren_cons, processAllChildren_nil, Result.bind,
    Statement.processOther, hext, Env.reference, reduceCtorEq, if_false, if_true,
    StatementBlock.dataAllocation, StatementBlock.destructorIds, Statement.forEachRecursive,
    forEachRecursiveChildren, StatementBlock.collectDestructorIds, StatementBlock.callDestructors,
    List.length_nil]
  cases hb : (c3.log (Event.process 3 Pass.DataAllocation)).blockScope 3 <;>
    exact ⟨_, rfl, rfl, rfl⟩

/-- C21. For every for-each loop with a target and a body whose iterator's
declared type is unset, whose flag `loadIterator` is true and whose target is
a fixed-size span of element type E, a floating-point type, be the target's
type known when `tryToResolveType` runs or only after the target was processed
(the registration of the iterator's type succeeds, and the processing of the
target and of the body succeed and leave the loop's iterator and flag alone):
if the first reference to the iterator that the walk of the body yields is not
the target (sub-expression 1) of its nearest enclosing assignment, as is the
case when the body only reads the iterator in the value of an assignment to
another variable, then the Data Allocation block of `Loop::process` returns
normally, the iterator keeps its identifier and its type is E up to the const
and reference modifiers, a floating-point type, and `loadIterator` is still
true.  In the Data Allocation pass `process` is `processBaseWithoutChildren`
followed by this block. -/
theorem Loop_dataAllocation_read_only_iterator (env : Env) (scope : BaseScope)
    (anc : List Statement) (i : Nat) (l : Location) (target loopBlock : Statement)
    (rest : List Statement) (E : TypeInfo)
    (processAll processTarget processLoopBlock : BaseScope → Compiler → Result) (c : Compiler)
    (hdyn : (c.iterator i).typeInfo.isDynamic = true)
    (hflag : c.loadIterator i = true)
    (hT : (env.tryToResolveType target c).getTypedIfSpanType = some E ∨
      ((env.tryToResolveType target c).getTypedIfArrayTypeBase = none ∧
        ∀ b bt s d cc r,
          env.tryToResolveType target c ≠ TypeInfo.StructType ["FrameProcessor"] b bt s d cc r))
    (hfloat : E.getType = TypeID.Float)
    (hEq : (env.tryToResolveType target c).getTypedIfSpanType = some E → E.isDynamic = false →
      env.typeEq (E.withModifiers (c.iterator i).isConst (c.iterator i).isReference) E = true)
    (hreg : ∀ t, env.setTypeInfo (c.iterator i).id t = none)
    (htarget : ∀ c1, ∃ c2, processTarget scope c1 = Result.ok c2 ∧
      c2.iterator i = c1.iterator i ∧ c2.loadIterator i = c1.loadIterator i ∧
      (c2.typeInfo target.id).getTypedIfSpanType = some E)
    (hblock : ∀ c3, ∃ c4, processLoopBlock scope c3 = Result.ok c4 ∧
      c4.iterator i = c3.iterator i ∧ c4.loadIterator i = c3.loadIterator i)
    (hread : ∀ T,
      (T = E.withModifiers (c.iterator i).isConst (c.iterator i).isReference ∨ T = E) →
      ∀ v vanc a,
        (loopBlock.walk (Statement.node i l Kind.Loop (target :: loopBlock :: rest) :: anc)).find?
          (fun p => p.1.refersTo env { id := (c.iterator i).id, typeInfo := T }) =
            some (v, vanc) →
        findParentStatementOfType Kind.isAssignment v vanc = some a →
        a.subExprIs 1 v = false) :
    (Loop.dataAllocation env scope anc (Statement.node i l Kind.Loop (target :: loopBlock :: rest))
        { processAll := processAll, process0 := some processTarget,
          process1 := some processLoopBlock } c).isOk = true ∧
    ((Loop.dataAllocation env scope anc (Statement.node i l Kind.Loop (target :: loopBlock :: rest))
        { processAll := processAll, process0 := some processTarget,
          process1 := some processLoopBlock } c).state.iterator i).id = (c.iterator i).id ∧
    ((Loop.dataAllocation env scope anc (Statement.node i l Kind.Loop (target :: loopBlock :: rest))
        { processAll := processAll, process0 := some processTarget,
          process1 := some processLoopBlock } c).state.iterator i).typeInfo.withModifiers
        false false = E.withModifiers false false ∧
    ((Loop.dataAllocation env scope anc (Statement.node i l Kind.Loop (target :: loopBlock :: rest))
        { processAll := processAll, process0 := some processTarget,
          process1 := some processLoopBlock } c).state.iterator i).typeInfo.getType =
      TypeID.Float ∧
    (Loop.dataAllocation env scope anc (Statement.node i l Kind.Loop (target :: loopBlock :: rest))
        { processAll := processAll, process0 := some processTarget,
          process1 := some processLoopBlock } c).state.loadIterator i = true ∧
    ∀ c0 : Compiler,
      process env Pass.DataAllocation scope anc
          (Statement.node i l Kind.Loop (target :: loopBlock :: rest)) c0 =
        Loop.dataAllocation env scope anc
          (Statement.node i l Kind.Loop (target :: loopBlock :: rest))
          (Statement.childProcessing env Pass.DataAllocation anc
            (Statement.node i l Kind.Loop (target :: loopBlock :: rest)))
          ((c0.log (Event.process i Pass.DataAllocation)).log
            (Event.processBaseWithoutChildren i)) := by
  obtain ⟨c1, c2, c3, T, hc2, hl1, hl3, hit3, _, _, hT1, _, _, hc1, hc3⟩ :=
    Loop_dataAllocation_span_target env scope i l target (loopBlock :: rest) E processTarget c
      hdyn hT hEq hreg
      (fun c1 => by
        obtain ⟨c2, h1, h2, _, h4⟩ := htarget c1
        exact ⟨c2, h1, h2, h4⟩)
  have hl2 : c2.loadIterator i = c1.loadIterator i := by
    obtain ⟨c2', h1, _, h3, _⟩ := htarget c1
    rw [hc2] at h1
    cases h1
    exact h3
  obtain ⟨c4, hc4, hit4, hl4⟩ := hblock c3
  have hit4' : c4.iterator i = { id := (c.iterator i).id, typeInfo := T } := by
    rw [hit4, hit3]
  have hflag4 : c4.loadIterator i = true := by
    rw [hl4, hl3, hl2, hl1]
    exact hflag
  obtain ⟨e1, e2, e3⟩ :=
    Loop_evaluateIteratorLoad_read env anc i l (target :: loopBlock :: rest) loopBlock c4 hflag4 rfl
      (by rw [hit4']; exact hread T hT1)
  have hres : Loop.dataAllocation env scope anc
        (Statement.node i l Kind.Loop (target :: loopBlock :: rest))
        { processAll := processAll, process0 := some processTarget,
          process1 := some processLoopBlock } c =
      Loop.evaluateIteratorLoad env (Statement.node i l Kind.Loop (target :: loopBlock :: rest))
        anc c4 := by
    have h0 : (Statement.node i l Kind.Loop (target :: loopBlock :: rest)).getSubExpr 0 =
        some target := rfl
    simp only [Loop.dataAllocation, hc1, Result.bind, h0, hc2, hc3, hc4]
  have hTm : T.withModifiers false false = E.withModifiers false false := by
    rcases hT1 with rfl | rfl
    · exact TypeInfo.withModifiers_withModifiers _ _ _ _ _
    · rfl
  have hTf : T.getType = TypeID.Float := by
    rcases hT1 with rfl | rfl
    · rw [TypeInfo.getType_withModifiers]; exact hfloat
    · exact hfloat
  refine ⟨?_, ?_, ?_, ?_, ?_, ?_⟩
  · rw [hres]; exact e1
  · rw [hres, e3, hit4']
  · rw [hres, e3, hit4']; exact hTm
  · rw [hres, e3, hit4']; exact hTf
  · rw [hres]; exact e2
  · intro c0
    exact process_Loop_dataAllocation env scope anc i l (target :: loopBlock :: rest) c0

/-- The loop `for (auto& x : data) { sum = sum + x; }` over `span<float, 4> data`:
the only reference to `x` (node 8) is read in the value of the assignment to
`sum`; the Data Allocation pass completes, the iterator is a `float&` and
`loadIterator` is true; when `data` gets its type only by being processed, the
iterator is a `float` and `loadIterator` is true as well. -/
theorem Loop_dataAllocation_read_only_iterator_witness :
    ((Sample.loopState (TypeInfo.native TypeID.Dynamic false true)).iterator 1).typeInfo.isDynamic
      = true ∧
    (Sample.loopState (TypeInfo.native TypeID.Dynamic false true)).loadIterator 1 = true ∧
    (process Env.reference Pass.DataAllocation Sample.functionScope [] Sample.loopSumming
      (Sample.loopState (TypeInfo.native TypeID.Dynamic false true))).isOk = true ∧
    (process Env.reference Pass.DataAllocation Sample.functionScope [] Sample.loopSumming
      (Sample.loopState (TypeInfo.native TypeID.Dynamic false true))).state.iterator 1 =
      { id := ["f", "x"], typeInfo := TypeInfo.native TypeID.Float false true } ∧
    (process Env.reference Pass.DataAllocation Sample.functionScope [] Sample.loopSumming
      (Sample.loopState (TypeInfo.native TypeID.Dynamic false true))).state.loadIterator 1 =
        true ∧
    (Loop.dataAllocation Env.reference Sample.functionScope [] Sample.loopSumming
      (Statement.childProcessing Env.reference Pass.DataAllocation [] Sample.loopSumming)
      (Sample.loopState (TypeInfo.native TypeID.Dynamic false true))).state.loadIterator 1 =
        true ∧
    Env.lateTyping.tryToResolveType (Sample.dataReference 2)
      (Sample.loopState (TypeInfo.native TypeID.Dynamic false true)) =
        TypeInfo.native TypeID.Dynamic false false ∧
    (process Env.lateTyping Pass.DataAllocation Sample.functionScope [] Sample.loopSumming
      (Sample.loopState (TypeInfo.native TypeID.Dynamic false true))).state.iterator 1 =
      { id := ["f", "x"], typeInfo := TypeInfo.native TypeID.Float false false } ∧
    (Loop.dataAllocation Env.lateTyping Sample.functionScope [] Sample.loopSumming
      (Statement.childProcessing Env.lateTyping Pass.DataAllocation [] Sample.loopSumming)
      (Sample.loopState (TypeInfo.native TypeID.Dynamic false true))).state.loadIterator 1 =
        true :=
  ⟨rfl, rfl, by decide, by decide, by decide,
   (Loop_dataAllocation_read_only_iterator Env.reference Sample.functionScope [] 1
      { line := 1, col := 1 } (Sample.dataReference 2)
      (Sample.block 3 [Sample.assignment 4 (Sample.floatReference 5 "sum")
        (Sample.binaryOp 6 (Sample.floatReference 7 "sum") (Sample.floatReference 8 "x"))]) []
      (TypeInfo.native TypeID.Float false false)
      (fun sc => processAllChildren Env.reference Pass.DataAllocation sc [Sample.loopSumming]
        Sample.loopSumming.children)
      (fun sc => process Env.reference Pass.DataAllocation sc [Sample.loopSumming]
        (Sample.dataReference 2))
      (fun sc => process Env.reference Pass.DataAllocation sc [Sample.loopSumming]
        (Sample.block 3 [Sample.assignment 4 (Sample.floatReference 5 "sum")
          (Sample.binaryOp 6 (Sample.floatReference 7 "sum") (Sample.floatReference 8 "x"))]))
      (Sample.loopState (TypeInfo.native TypeID.Dynamic false true))
      rfl rfl (Or.inl rfl) rfl (fun _ _ => rfl) (fun _ => rfl)
      (fun _ => ⟨_, rfl, rfl, rfl, rfl⟩)
      (process_summingBody_dataAllocation Env.reference rfl)
      (fun T _ v vanc a hfind hpar => by
        have hv : (v, vanc) =
            (Sample.floatReference 8 "x",
              [Sample.binaryOp 6 (Sample.floatReference 7 "sum") (Sample.floatReference 8 "x"),
               Sample.assignment 4 (Sample.floatReference 5 "sum")
                 (Sample.binaryOp 6 (Sample.floatReference 7 "sum")
                   (Sample.floatReference 8 "x")),
               Sample.block 3 [Sample.assignment 4 (Sample.floatReference 5 "sum")
                 (Sample.binaryOp 6 (Sample.floatReference 7 "sum")
                   (Sample.floatReference 8 "x"))],
               Sample.loopSumming]) := (Option.some.inj hfind).symm
        simp only [Prod.mk.injEq] at hv
        obtain ⟨rfl, rfl⟩ := hv
        have ha : a = Sample.assignment 4 (Sample.floatReference 5 "sum")
            (Sample.binaryOp 6 (Sample.floatReference 7 "sum") (Sample.floatReference 8 "x")) :=
          (Option.some.inj hpar).symm
        subst ha
        rfl)).2.2.2.2.1,
   rfl, by decide,
   (Loop_dataAllocation_read_only_iterator Env.lateTyping Sample.functionScope [] 1
      { line := 1, col := 1 } (Sample.dataReference 2)
      (Sample.block 3 [Sample.assignment 4 (Sample.floatReference 5 "sum")
        (Sample.binaryOp 6 (Sample.floatReference 7 "sum") (Sample.floatReference 8 "x"))]) []
      (TypeInfo.native TypeID.Float false false)
      (fun sc => processAllChildren Env.lateTyping Pass.DataAllocation sc [Sample.loopSumming]
        Sample.loopSumming.children)
      (fun sc => process Env.lateTyping Pass.DataAllocation sc [Sample.loopSumming]
        (Sample.dataReference 2))
      (fun sc => process Env.lateTyping Pass.DataAllocation sc [Sample.loopSumming]
        (Sample.block 3 [Sample.assignment 4 (Sample.floatReference 5 "sum")
          (Sample.binaryOp 6 (Sample.floatReference 7 "sum") (Sample.floatReference 8 "x"))]))
      (Sample.loopState (TypeInfo.native TypeID.Dynamic false true))
      rfl rfl (Or.inr ⟨rfl, fun _ _ _ _ _ _ h => by cases h⟩) rfl (fun _ _ => rfl)
      (fun _ => rfl)
      (fun _ => ⟨_, rfl, rfl, rfl, rfl⟩)
      (process_summingBody_dataAllocation Env.lateTyping rfl)
      (fun T _ v vanc a hfind hpar => by
        have hv : (v, vanc) =
            (Sample.floatReference 8 "x",
              [Sample.binaryOp 6 (Sample.floatReference 7 "sum") (Sample.floatReference 8 "x"),
               Sample.assignment 4 (Sample.floatReference 5 "sum")
                 (Sample.binaryOp 6 (Sample.floatReference 7 "sum")
                   (Sample.floatReference 8 "x")),
               Sample.block 3 [Sample.assignment 4 (Sample.floatReference 5 "sum")
                 (Sample.binaryOp 6 (Sample.floatReference 7 "sum")
                   (Sample.floatReference 8 "x"))],
               Sample.loopSumming]) := (Option.some.inj hfind).symm
        simp only [Prod.mk.injEq] at hv
        obtain ⟨rfl, rfl⟩ := hv
        have ha : a = Sample.assignment 4 (Sample.floatReference 5 "sum")
            (Sample.binaryOp 6 (Sample.floatReference 7 "sum") (Sample.floatReference 8 "x")) :=
          (Option.some.inj hpar).symm
        subst ha
        rfl)).2.2.2.2.1⟩

mutual
/-- Every statement that a walk started below some node yields has an
ancestor. -/
theorem Statement.walk_ancestors_ne_nil :
    ∀ (s : Statement) (anc : List Statement), anc ≠ [] → ∀ p ∈ s.walk anc, p.2 ≠ []
  | Statement.node i l k cs, anc, hanc, p, hp => by
    rw [Statement.walk] at hp
    rcases List.mem_cons.1 hp with rfl | hp
    · exact hanc
    · exact walkChildren_ancestors_ne_nil cs _ (List.cons_ne_nil _ _) p hp
theorem walkChildren_ancestors_ne_nil :
    ∀ (cs : List Statement) (anc : List Statement), anc ≠ [] →
      ∀ p ∈ walkChildren anc cs, p.2 ≠ []
  | [], _, _, p, hp => by simp [walkChildren] at hp
  | c :: rest, anc, hanc, p, hp => by
    rw [walkChildren] at hp
    rcases List.mem_append.1 hp with hp | hp
    · exact Statement.walk_ancestors_ne_nil c anc hanc p hp
    · exact walkChildren_ancestors_ne_nil rest anc hanc p hp
end

/-- The loop of `evaluateIteratorStore` over statements that all have a parent
ends, and it sets the flag exactly when one of them is a reference to the
iterator whose parent has a side effect and is not an assignment with the
reference as sub-expression 0. -/
theorem Loop.findIteratorStore_spec (env : Env) (iterator : Symbol) :
    ∀ (w : List (Statement × List Statement)), (∀ p ∈ w, p.2 ≠ []) →
      ∃ b, Loop.findIteratorStore env iterator w = some b ∧
        (b = true ↔
          ∃ p ∈ w, p.1.refersTo env iterator = true ∧
            ∃ parent, p.2.head? = some parent ∧ env.hasSideEffect parent = true ∧
              ¬ (parent.kind.isAssignment = true ∧ parent.subExprIs 0 p.1 = true))
  | [], _ => ⟨false, rfl, by simp⟩
  | (v, vanc) :: rest, hne => by
    obtain ⟨b, hb, hiff⟩ :=
      Loop.findIteratorStore_spec env iterator rest
        (fun p hp => hne p (List.mem_cons_of_mem _ hp))
    have hv : vanc ≠ [] := hne (v, vanc) (List.mem_cons_self _ _)
    obtain ⟨parent, tl, rfl⟩ : ∃ parent tl, vanc = parent :: tl := by
      cases vanc with
      | nil => exact absurd rfl hv
      | cons a t => exact ⟨a, t, rfl⟩
    rw [Loop.findIteratorStore]
    by_cases hr : v.refersTo env iterator = true
    · by_cases hs : env.hasSideEffect parent = true
      · by_cases ha : (parent.kind.isAssignment && parent.subExprIs 0 v) = true
        · simp only [hr, hs, ha, if_true, List.head?_cons]
          refine ⟨b, hb, ?_⟩
          rw [hiff]
          constructor
          · rintro ⟨p, hp, h⟩
            exact ⟨p, List.mem_cons_of_mem _ hp, h⟩
          · rintro ⟨p, hp, h1, q, h2, h3, h4⟩
            rcases List.mem_cons.1 hp with rfl | hp
            · simp only [List.head?_cons, Option.some.injEq] at h2
              subst h2
              exact absurd (by simpa using ha) h4
            · exact ⟨p, hp, h1, q, h2, h3, h4⟩
        · simp only [hr, hs, ha, if_true, List.head?_cons, Bool.false_eq_true, if_false]
          refine ⟨true, rfl, ?_⟩
          simp only [true_iff]
          refine ⟨(v, parent :: tl), List.mem_cons_self _ _, hr, parent, rfl, hs, ?_⟩
          intro h
          exact ha (by simpa using h)
      · simp only [hr, hs, if_true, List.head?_cons, Bool.false_eq_true, if_false]
        refine ⟨b, hb, ?_⟩
        rw [hiff]
        constructor
        · rintro ⟨p, hp, h⟩
          exact ⟨p, List.mem_cons_of_mem _ hp, h⟩
        · rintro ⟨p, hp, h1, q, h2, h3, h4⟩
          rcases List.mem_cons.1 hp with rfl | hp
          · simp only [List.head?_cons, Option.some.injEq] at h2
            subst h2
            exact absurd h3 hs
          · exact ⟨p, hp, h1, q, h2, h3, h4⟩
    · simp only [hr, Bool.false_eq_true, if_false]
      refine ⟨b, hb, ?_⟩
      rw [hiff]
      constructor
      · rintro ⟨p, hp, h⟩
        exact ⟨p, List.mem_cons_of_mem _ hp, h⟩
      · rintro ⟨p, hp, h1, h⟩
        rcases List.mem_cons.1 hp with rfl | hp
        · exact absurd h1 hr
        · exact ⟨p, hp, h1, h⟩

/-- C22. For every for-each loop with a body (child 1), `evaluateIteratorStore`
returns normally, and the flag `storeIterator` is true afterwards (which is the
value returned) if and only if the flag was already true or the walk of the
loop body yields a reference to the iterator whose direct parent has a side
effect, unless that parent is an assignment whose sub-expression 0 is the
reference itself.  The call changes nothing but the flag, and in every other
case it changes nothing at all, so the flag stays false. -/
theorem Loop_evaluateIteratorStore_iff (env : Env) (anc : List Statement) (i : Nat)
    (l : Location) (cs : List Statement) (loopBlock : Statement) (c : Compiler)
    (hbody : (Statement.node i l Kind.Loop cs).getSubExpr 1 = some loopBlock) :
    (Loop.evaluateIteratorStore env (Statement.node i l Kind.Loop cs) anc c).isOk = true ∧
    ((Loop.evaluateIteratorStore env (Statement.node i l Kind.Loop cs) anc c).state.storeIterator
        i = true ↔
      (c.storeIterator i = true ∨
        ∃ p ∈ loopBlock.walk (Statement.node i l Kind.Loop cs :: anc),
          p.1.refersTo env (c.iterator i) = true ∧
            ∃ parent, p.2.head? = some parent ∧ env.hasSideEffect parent = true ∧
              ¬ (parent.kind.isAssignment = true ∧ parent.subExprIs 0 p.1 = true))) ∧
    ((Loop.evaluateIteratorStore env (Statement.node i l Kind.Loop cs) anc c).state = c ∨
      (Loop.evaluateIteratorStore env (Statement.node i l Kind.Loop cs) anc c).state =
        c.setStoreIterator i true) ∧
    ((Loop.evaluateIteratorStore env (Statement.node i l Kind.Loop cs) anc c).state.storeIterator
        i = false →
      Loop.evaluateIteratorStore env (Statement.node i l Kind.Loop cs) anc c = Result.ok c) := by
  obtain ⟨b, hb, hiff⟩ :=
    Loop.findIteratorStore_spec env (c.iterator i)
      (loopBlock.walk (Statement.node i l Kind.Loop cs :: anc))
      (Statement.walk_ancestors_ne_nil loopBlock _ (List.cons_ne_nil _ _))
  unfold Loop.evaluateIteratorStore
  simp only [Statement.id_node, hbody, hb]
  by_cases hflag : c.storeIterator i = true
  · simp [hflag, Result.isOk, Result.state]
  · simp only [hflag, Bool.false_eq_true, if_false, false_or]
    rw [← hiff]
    cases b with
    | true => simp [Result.isOk, Result.state, Compiler.setStoreIterator]
    | false => simp [Result.isOk, Result.state, hflag]

/-- The loop `for (x : data) { x = 1; }` writes the iterator: the flag becomes
true.  The loops `for (x : data) { y = x; }` and
`for (x : data) { sum = sum + x; }` only read it: the flag stays false. -/
theorem Loop_evaluateIteratorStore_iff_witness :
    Sample.loopWritingIterator.getSubExpr 1 =
      some (Sample.block 3 [Sample.assignment 4 (Sample.reference 5 "x") (Sample.literal 6 1)]) ∧
    (Sample.loopState (TypeInfo.native TypeID.Float false false)).storeIterator 1 = false ∧
    (Loop.evaluateIteratorStore Env.reference Sample.loopWritingIterator []
      (Sample.loopState (TypeInfo.native TypeID.Float false false))).isOk = true ∧
    (Loop.evaluateIteratorStore Env.reference Sample.loopWritingIterator []
      (Sample.loopState (TypeInfo.native TypeID.Float false false))).state.storeIterator 1 = true ∧
    (Loop.evaluateIteratorStore Env.reference Sample.loopReadingIterator []
      (Sample.loopState (TypeInfo.native TypeID.Float false false))).state.storeIterator 1 = false ∧
    (Loop.evaluateIteratorStore Env.reference Sample.loopSumming []
      (Sample.loopState (TypeInfo.native TypeID.Float false false))).state.storeIterator 1 = false :=
  ⟨rfl, rfl,
   (Loop_evaluateIteratorStore_iff Env.reference [] 1 { line := 1, col := 1 }
      [Sample.dataReference 2,
       Sample.block 3 [Sample.assignment 4 (Sample.reference 5 "x") (Sample.literal 6 1)]]
      (Sample.block 3 [Sample.assignment 4 (Sample.reference 5 "x") (Sample.literal 6 1)])
      (Sample.loopState (TypeInfo.native TypeID.Float false false)) rfl).1,
   (Loop_evaluateIteratorStore_iff Env.reference [] 1 { line := 1, col := 1 }
      [Sample.dataReference 2,
       Sample.block 3 [Sample.assignment 4 (Sample.reference 5 "x") (Sample.literal 6 1)]]
      (Sample.block 3 [Sample.assignment 4 (Sample.reference 5 "x") (Sample.literal 6 1)])
      (Sample.loopState (TypeInfo.native TypeID.Float false false)) rfl).2.1.2
      (Or.inr
        ⟨(Sample.reference 5 "x",
           [Sample.assignment 4 (Sample.reference 5 "x") (Sample.literal 6 1),
            Sample.block 3 [Sample.assignment 4 (Sample.reference 5 "x") (Sample.literal 6 1)],
            Sample.loopWritingIterator]),
         List.Mem.tail _ (List.Mem.tail _ (List.Mem.tail _ (List.Mem.head _))),
         rfl,
         Sample.assignment 4 (Sample.reference 5 "x") (Sample.literal 6 1), rfl, rfl,
         by decide⟩),
   by decide, by decide⟩

/-- C23, as stated, fails.  For the loop `for (auto& x : data) { }` over
`span<float, 4> data` the log of the Data Allocation pass shows that
`Loop::process` calls `processBaseWithoutChildren`, never the automatic
traversal `processBaseWithChildren`, and processes its children itself in the
middle of its own work: the target (node 2) after `tryToResolveType`, the body
(node 3) only after the iterator's type was registered.  The log of the Type
Check pass shows `processBaseWithoutChildren` as well.  And in the Code
Generation pass the loop, a kind other than Ternary, If and While, does not
have its children traversed either: only the target is processed, the body is
handed to the emitter. -/
theorem Loop_process_opts_out_in_every_pass :
    (process Env.reference Pass.DataAllocation Sample.functionScope [] Sample.loopOverData
        (Sample.loopState (TypeInfo.native TypeID.Dynamic false true))).state.trace =
      [Event.process 1 Pass.DataAllocation, Event.processBaseWithoutChildren 1,
       Event.tryToResolveType 2,
       Event.setTypeInfo ["f", "x"] (TypeInfo.native TypeID.Float false false),
       Event.tryToResolveType 1,
       Event.process 2 Pass.DataAllocation, Event.processBaseWithChildren 2,
       Event.setTypeInfo ["f", "x"] (TypeInfo.native TypeID.Float false true),
       Event.process 3 Pass.DataAllocation, Event.processBaseWithChildren 3] ∧
    Event.processBaseWithChildren 1 ∉
      (process Env.reference Pass.DataAllocation Sample.functionScope [] Sample.loopOverData
        (Sample.loopState (TypeInfo.native TypeID.Dynamic false true))).state.trace ∧
    (process Env.reference Pass.TypeCheck Sample.functionScope [] Sample.loopOverData
        (Sample.loopState (TypeInfo.native TypeID.Dynamic false true))).state.trace =
      [Event.process 1 Pass.TypeCheck, Event.processBaseWithoutChildren 1,
       Event.process 2 Pass.TypeCheck, Event.processBaseWithChildren 2,
       Event.process 3 Pass.TypeCheck, Event.processBaseWithChildren 3] ∧
    (process Env.reference Pass.CodeGeneration Sample.functionScope [] Sample.loopOverData
        { (process Env.reference Pass.DataAllocation Sample.functionScope [] Sample.loopOverData
            (Sample.loopState (TypeInfo.native TypeID.Dynamic false true))).state with
          trace := [] }).state.trace =
      [Event.process 1 Pass.CodeGeneration, Event.processBaseWithoutChildren 1,
       Event.process 2 Pass.CodeGeneration, Event.processBaseWithChildren 2,
       Event.allocateDirtyGlobalVariables (some 3),
       Event.emitLoop LoopTargetType.Span
         { id := ["f", "x"], typeInfo := TypeInfo.native TypeID.Float false true } none
         (some 3) true none] ∧
    Event.process 3 Pass.CodeGeneration ∉
      (process Env.reference Pass.CodeGeneration Sample.functionScope [] Sample.loopOverData
        { (process Env.reference Pass.DataAllocation Sample.functionScope [] Sample.loopOverData
            (Sample.loopState (TypeInfo.native TypeID.Dynamic false true))).state with
          trace := [] }).state.trace := by
  refine ⟨by decide, by decide, by decide, by decide, by decide⟩

/-- C23, amended.  For every node of a kind whose `process` is defined in this
file: the statement block, the return statement and break/continue use the
automatic traversal `processBaseWithChildren` (all children, in order, before
the work of the pass) in every pass; the ternary and the while-loop use it in
every pass but Code Generation, where they call
`processBaseWithoutChildren`; the if-statement and the for-each loop call
`processBaseWithoutChildren` in every pass and process their children
themselves: the if-statement calls `processAllChildren` in every pass but Code
Generation (a second time in Type Check), the for-each loop processes its
target and then its body in the Type Check and Register Allocation passes,
processes them inside its Data Allocation block, and processes only the target
in its Code Generation block. -/
theorem Statement_process_traversal_by_kind (env : Env) (scope : BaseScope)
    (anc : List Statement) (i : Nat) (l : Location) (cs : List Statement) (c : Compiler) :
    (∀ (pass : Pass) (path : NamespacedIdentifier) (isInlinedFunction hasReturnType : Bool),
      process env pass scope anc
          (Statement.node i l (Kind.StatementBlock path isInlinedFunction hasReturnType) cs) c =
        ((Statement.node i l (Kind.StatementBlock path isInlinedFunction hasReturnType)
            cs).processBaseWithChildren
          (Statement.childProcessing env pass anc
            (Statement.node i l (Kind.StatementBlock path isInlinedFunction hasReturnType) cs))
          (StatementBlock.createOrGetBlockScope i path scope (c.log (Event.process i pass))).1
          (StatementBlock.createOrGetBlockScope i path scope (c.log (Event.process i pass))).2).bind
          fun c1 =>
            (if pass = Pass.DataAllocation then
              StatementBlock.dataAllocation env
                (Statement.node i l (Kind.StatementBlock path isInlinedFunction hasReturnType) cs)
                path scope c1
             else Result.ok c1).bind fun c2 =>
            if pass = Pass.RegisterAllocation then
              StatementBlock.registerAllocation i isInlinedFunction hasReturnType c2
            else Result.ok c2) ∧
    (∀ pass : Pass,
      process env pass scope anc (Statement.node i l Kind.ReturnStatement cs) c =
        ((Statement.node i l Kind.ReturnStatement cs).processBaseWithChildren
          (Statement.childProcessing env pass anc (Statement.node i l Kind.ReturnStatement cs))
          scope (c.log (Event.process i pass))).bind fun c1 =>
            (if pass = Pass.TypeCheck then
              ReturnStatement.typeCheck env (Statement.node i l Kind.ReturnStatement cs) scope c1
             else Result.ok c1).bind fun c2 =>
            if pass = Pass.CodeGeneration then
              ReturnStatement.codeGeneration env (Statement.node i l Kind.ReturnStatement cs) anc c2
            else Result.ok c2) ∧
    (∀ (pass : Pass) (isBreak : Bool),
      process env pass scope anc (Statement.node i l (Kind.ControlFlowStatement isBreak) cs) c =
        ((Statement.node i l (Kind.ControlFlowStatement isBreak) cs).processBaseWithChildren
          (Statement.childProcessing env pass anc
            (Statement.node i l (Kind.ControlFlowStatement isBreak) cs))
          scope (c.log (Event.process i pass))).bind fun c1 =>
            (if pass = Pass.TypeCheck then
              ControlFlowStatement.typeCheck
                (Statement.node i l (Kind.ControlFlowStatement isBreak) cs) isBreak anc c1
             else Result.ok c1).bind fun c2 =>
            if pass = Pass.CodeGeneration then
              ControlFlowStatement.codeGeneration
                (Statement.node i l (Kind.ControlFlowStatement isBreak) cs) isBreak c2
            else Result.ok c2) ∧
    (∀ pass : Pass, pass ≠ Pass.CodeGeneration →
      process env pass scope anc (Statement.node i l Kind.TernaryOp cs) c =
        ((Statement.node i l Kind.TernaryOp cs).processBaseWithChildren
          (Statement.childProcessing env pass anc (Statement.node i l Kind.TernaryOp cs))
          scope (c.log (Event.process i pass))).bind fun c1 =>
            if pass = Pass.TypeCheck then
              TernaryOp.typeCheck env (Statement.node i l Kind.TernaryOp cs) c1
            else Result.ok c1) ∧
    process env Pass.CodeGeneration scope anc (Statement.node i l Kind.TernaryOp cs) c =
      ((Statement.node i l Kind.TernaryOp cs).processBaseWithoutChildren
        (c.log (Event.process i Pass.CodeGeneration))).bind
        (TernaryOp.codeGeneration env (Statement.node i l Kind.TernaryOp cs)) ∧
    (∀ pass : Pass, pass ≠ Pass.CodeGeneration →
      process env pass scope anc (Statement.node i l Kind.WhileLoop cs) c =
        ((Statement.node i l Kind.WhileLoop cs).processBaseWithChildren
          (Statement.childProcessing env pass anc (Statement.node i l Kind.WhileLoop cs))
          scope (c.log (Event.process i pass))).bind fun c1 =>
            if pass = Pass.TypeCheck then
              WhileLoop.typeCheck env (Statement.node i l Kind.WhileLoop cs) c1
            else Result.ok c1) ∧
    process env Pass.CodeGeneration scope anc (Statement.node i l Kind.WhileLoop cs) c =
      ((Statement.node i l Kind.WhileLoop cs).processBaseWithoutChildren
        (c.log (Event.process i Pass.CodeGeneration))).bind
        (WhileLoop.codeGeneration env scope (Statement.node i l Kind.WhileLoop cs)
          (Statement.childProcessing env Pass.CodeGeneration anc
            (Statement.node i l Kind.WhileLoop cs))) ∧
    (∀ pass : Pass,
      process env pass scope anc (Statement.node i l Kind.IfStatement cs) c =
        ((Statement.node i l Kind.IfStatement cs).processBaseWithoutChildren
          (c.log (Event.process i pass))).bind fun c1 =>
            if pass = Pass.CodeGeneration then
              IfStatement.codeGeneration (Statement.node i l Kind.IfStatement cs) c1
            else
              (processAllChildren env pass scope (Statement.node i l Kind.IfStatement cs :: anc) cs
                c1).bind fun c2 =>
                if pass = Pass.TypeCheck then
                  (processAllChildren env pass scope
                    (Statement.node i l Kind.IfStatement cs :: anc) cs c2).bind
                    (IfStatement.checkCondition (Statement.node i l Kind.IfStatement cs))
                else Result.ok c2) ∧
    (∀ pass : Pass,
      process env pass scope anc (Statement.node i l Kind.Loop cs) c =
        ((Statement.node i l Kind.Loop cs).processBaseWithoutChildren
          (c.log (Event.process i pass))).bind fun c1 =>
            match pass with
            | Pass.DataAllocation =>
              Loop.dataAllocation env scope anc (Statement.node i l Kind.Loop cs)
                (Statement.childProcessing env pass anc (Statement.node i l Kind.Loop cs)) c1
            | Pass.CodeGeneration =>
              Loop.codeGeneration scope (Statement.node i l Kind.Loop cs)
                (Statement.childProcessing env pass anc (Statement.node i l Kind.Loop cs)) c1
            | _ =>
              Loop.processTargetAndLoopBlock scope
                (Statement.childProcessing env pass anc (Statement.node i l Kind.Loop cs)) c1) ∧
    (∀ (pass : Pass) (k : Kind) (sc : BaseScope) (c0 : Compiler),
      (Statement.node i l k cs).processBaseWithChildren
          (Statement.childProcessing env pass anc (Statement.node i l k cs)) sc c0 =
        processAllChildren env pass sc (Statement.node i l k cs :: anc) cs
          (c0.log (Event.processBaseWithChildren i)) ∧
      (Statement.node i l k cs).processBaseWithoutChildren c0 =
        Result.ok (c0.log (Event.processBaseWithoutChildren i))) ∧
    (∀ (pass : Pass) (target loopBlock : Statement) (rest : List Statement) (c1 : Compiler),
      cs = target :: loopBlock :: rest →
      Loop.processTargetAndLoopBlock scope
          (Statement.childProcessing env pass anc (Statement.node i l Kind.Loop cs)) c1 =
        (process env pass scope (Statement.node i l Kind.Loop cs :: anc) target c1).bind
          (process env pass scope (Statement.node i l Kind.Loop cs :: anc) loopBlock) ∧
      ∀ c2, process env pass scope (Statement.node i l Kind.Loop cs :: anc) target c1 =
          Result.ok c2 →
        Loop.codeGeneration scope (Statement.node i l Kind.Loop cs)
            (Statement.childProcessing env pass anc (Statement.node i l Kind.Loop cs)) c1 =
          Loop.emit (Statement.node i l Kind.Loop cs) c2) := by
  refine ⟨?_, ?_, ?_, ?_, ?_, ?_, ?_, ?_, ?_, ?_, ?_⟩
  · intro pass path isInlinedFunction hasReturnType
    rw [process_eq]
    rfl
  · intro pass
    rw [process_eq]
    rfl
  · intro pass isBreak
    rw [process_eq]
    rfl
  · intro pass hpass
    rw [process_eq]
    simp only [Statement.dispatch, Statement.kind_node, Statement.id_node, TernaryOp.process,
      hpass, if_false]
    congr 1
    funext c1
    exact Result.bind_ok_right _
  · rw [process_eq]
    simp only [Statement.dispatch, Statement.kind_node, Statement.id_node, TernaryOp.process,
      if_true, reduceCtorEq, if_false, Statement.processBaseWithoutChildren, Result.bind]
  · intro pass hpass
    rw [process_eq]
    simp only [Statement.dispatch, Statement.kind_node, Statement.id_node, WhileLoop.process,
      hpass, if_false]
    congr 1
    funext c1
    exact Result.bind_ok_right _
  · rw [process_eq]
    simp only [Statement.dispatch, Statement.kind_node, Statement.id_node, WhileLoop.process,
      if_true, reduceCtorEq, if_false, Statement.processBaseWithoutChildren, Result.bind]
  · intro pass
    rw [process_eq]
    simp only [Statement.dispatch, Statement.kind_node, Statement.id_node, IfStatement.process,
      Statement.processBaseWithoutChildren, Result.bind, Statement.childProcessing,
      Statement.children_node]
    cases pass with
    | CodeGeneration =>
      simp only [ne_eq, not_true_eq_false, if_false, if_true, reduceCtorEq]
    | TypeCheck =>
      simp only [ne_eq, reduceCtorEq, not_false_eq_true, if_true, if_false]
      cases processAllChildren env Pass.TypeCheck scope
          (Statement.node i l Kind.IfStatement cs :: anc) cs
          ((c.log (Event.process i Pass.TypeCheck)).log
            (Event.processBaseWithoutChildren i)) with
      | ok c2 =>
        simp only
        cases processAllChildren env Pass.TypeCheck scope
            (Statement.node i l Kind.IfStatement cs :: anc) cs c2 with
        | ok c3 =>
          simp only
          cases IfStatement.checkCondition (Statement.node i l Kind.IfStatement cs) c3 <;> rfl
        | error e c3 => rfl
        | undefined c3 => rfl
      | error e c2 => rfl
      | undefined c2 => rfl
    | DataAllocation =>
      simp only [ne_eq, reduceCtorEq, not_false_eq_true, if_true, if_false]
    | RegisterAllocation =>
      simp only [ne_eq, reduceCtorEq, not_false_eq_true, if_true, if_false]
  · intro pass
    rw [process_eq]
    simp only [Statement.dispatch, Statement.kind_node, Statement.id_node, Loop.process,
      Statement.processBaseWithoutChildren, Result.bind]
    cases pass with
    | CodeGeneration =>
      simp only [ne_eq, not_true_eq_false, and_false, reduceCtorEq, if_false, if_true]
    | TypeCheck =>
      simp only [ne_eq, reduceCtorEq, not_false_eq_true, and_self, if_true, if_false]
      cases Loop.processTargetAndLoopBlock scope
          (Statement.childProcessing env Pass.TypeCheck anc (Statement.node i l Kind.Loop cs))
          ((c.log (Event.process i Pass.TypeCheck)).log
            (Event.processBaseWithoutChildren i)) <;> rfl
    | DataAllocation =>
      simp only [ne_eq, not_true_eq_false, false_and, reduceCtorEq, if_false, if_true]
      cases Loop.dataAllocation env scope anc (Statement.node i l Kind.Loop cs)
          (Statement.childProcessing env Pass.DataAllocation anc (Statement.node i l Kind.Loop cs))
          ((c.log (Event.process i Pass.DataAllocation)).log
            (Event.processBaseWithoutChildren i)) <;> rfl
    | RegisterAllocation =>
      simp only [ne_eq, reduceCtorEq, not_false_eq_true, and_self, if_true, if_false]
      cases Loop.processTargetAndLoopBlock scope
          (Statement.childProcessing env Pass.RegisterAllocation anc
            (Statement.node i l Kind.Loop cs))
          ((c.log (Event.process i Pass.RegisterAllocation)).log
            (Event.processBaseWithoutChildren i)) <;> rfl
  · intro pass k sc c0
    exact ⟨rfl, rfl⟩
  · intro pass target loopBlock rest c1 hcs
    subst hcs
    refine ⟨rfl, ?_⟩
    intro c2 h2
    simp only [Loop.codeGeneration, Statement.childProcessing, Statement.getSubExpr,
      Statement.children_node, List.get?_cons_zero, Option.map_some', h2, Result.bind]

/-- The loop `while (n) { }` uses the automatic traversal in the Type Check
pass; the loop `for (x : data) { }` processes its target and then its body
itself. -/
theorem Statement_process_traversal_by_kind_witness :
    Pass.TypeCheck ≠ Pass.CodeGeneration ∧
    process Env.reference Pass.TypeCheck Sample.functionScope [] Sample.countingLoop
        Compiler.initial =
      (Sample.countingLoop.processBaseWithChildren
        (Statement.childProcessing Env.reference Pass.TypeCheck [] Sample.countingLoop)
        Sample.functionScope (Compiler.initial.log (Event.process 1 Pass.TypeCheck))).bind
        (fun c1 =>
          if Pass.TypeCheck = Pass.TypeCheck then
            WhileLoop.typeCheck Env.reference Sample.countingLoop c1
          else Result.ok c1) ∧
    [Sample.dataReference 2, Sample.block 3 []] =
      Sample.dataReference 2 :: Sample.block 3 [] :: [] ∧
    Loop.processTargetAndLoopBlock Sample.functionScope
        (Statement.childProcessing Env.reference Pass.TypeCheck [] Sample.loopOverData)
        Compiler.initial =
      (process Env.reference Pass.TypeCheck Sample.functionScope [Sample.loopOverData]
        (Sample.dataReference 2) Compiler.initial).bind
        (process Env.reference Pass.TypeCheck Sample.functionScope [Sample.loopOverData]
          (Sample.block 3 [])) :=
  ⟨by decide,
   (Statement_process_traversal_by_kind Env.reference Sample.functionScope [] 1
      { line := 1, col := 1 } [Sample.reference 2 "n", Sample.block 3 []]
      Compiler.initial).2.2.2.2.2.1 Pass.TypeCheck (by decide),
   rfl,
   ((Statement_process_traversal_by_kind Env.reference Sample.functionScope [] 1
      { line := 1, col := 1 } [Sample.dataReference 2, Sample.block 3 []]
      Compiler.initial).2.2.2.2.2.2.2.2.2.2 Pass.TypeCheck (Sample.dataReference 2)
      (Sample.block 3 []) [] Compiler.initial rfl).1⟩

/-- C24. For every while-loop with a condition (sub-expression 0): the Type Check
block of `WhileLoop::process`, in whatever state it is entered, fails if and
only if the condition is a compile-time constant whose integer value is not
zero, and the error it then throws is 'Endless loop detected' at the loop's
location; for a condition that is not a compile-time constant, and for a
constant condition whose integer value is zero, the block returns normally
and changes nothing.  In the Type Check pass `process` is the traversal of the
children followed by this block, so for such a condition the pass on the loop
completes whenever the traversal of its children does. -/
theorem WhileLoop_typeCheck_rejects_only_nonzero_constant (env : Env) (scope : BaseScope)
    (anc : List Statement) (i : Nat) (l : Location) (cond : Statement) (rest : List Statement)
    (c : Compiler) :
    (∀ c1 : Compiler,
      (WhileLoop.typeCheck env (Statement.node i l Kind.WhileLoop (cond :: rest)) c1).isOk = false ↔
        ∃ v, env.constExpr cond = some v ∧ v.toInt ≠ 0) ∧
    (∀ (c1 c2 : Compiler) (e : Error),
      WhileLoop.typeCheck env (Statement.node i l Kind.WhileLoop (cond :: rest)) c1 =
          Result.error e c2 →
        e = { message := "Endless loop detected", location := l } ∧
          ∃ v, env.constExpr cond = some v ∧ v.toInt ≠ 0) ∧
    (env.constExpr cond = none →
      ∀ c1 : Compiler,
        WhileLoop.typeCheck env (Statement.node i l Kind.WhileLoop (cond :: rest)) c1 =
          Result.ok c1) ∧
    (∀ v, env.constExpr cond = some v → v.toInt = 0 →
      ∀ c1 : Compiler,
        WhileLoop.typeCheck env (Statement.node i l Kind.WhileLoop (cond :: rest)) c1 =
          Result.ok c1) ∧
    process env Pass.TypeCheck scope anc (Statement.node i l Kind.WhileLoop (cond :: rest)) c =
      ((Statement.node i l Kind.WhileLoop (cond :: rest)).processBaseWithChildren
          (Statement.childProcessing env Pass.TypeCheck anc
            (Statement.node i l Kind.WhileLoop (cond :: rest)))
          scope (c.log (Event.process i Pass.TypeCheck))).bind
        (WhileLoop.typeCheck env (Statement.node i l Kind.WhileLoop (cond :: rest))) ∧
    ((env.constExpr cond = none ∨ ∃ v, env.constExpr cond = some v ∧ v.toInt = 0) →
      ∀ c1 : Compiler,
        processAllChildren env Pass.TypeCheck scope
            (Statement.node i l Kind.WhileLoop (cond :: rest) :: anc) (cond :: rest)
            ((c.log (Event.process i Pass.TypeCheck)).log (Event.processBaseWithChildren i)) =
          Result.ok c1 →
        process env Pass.TypeCheck scope anc (Statement.node i l Kind.WhileLoop (cond :: rest)) c =
          Result.ok c1) := by
  have h0 : (Statement.node i l Kind.WhileLoop (cond :: rest)).getSubExpr 0 = some cond := rfl
  have hnone : env.constExpr cond = none → ∀ c1 : Compiler,
      WhileLoop.typeCheck env (Statement.node i l Kind.WhileLoop (cond :: rest)) c1 =
        Result.ok c1 := by
    intro h c1
    simp only [WhileLoop.typeCheck, h0, h]
  have hzero : ∀ v, env.constExpr cond = some v → v.toInt = 0 → ∀ c1 : Compiler,
      WhileLoop.typeCheck env (Statement.node i l Kind.WhileLoop (cond :: rest)) c1 =
        Result.ok c1 := by
    intro v h hv c1
    simp only [WhileLoop.typeCheck, h0, h, hv, ne_eq, not_true_eq_false, if_false]
  have hnz : ∀ v, env.constExpr cond = some v → v.toInt ≠ 0 → ∀ c1 : Compiler,
      WhileLoop.typeCheck env (Statement.node i l Kind.WhileLoop (cond :: rest)) c1 =
        Result.error { message := "Endless loop detected", location := l } c1 := by
    intro v h hv c1
    simp only [WhileLoop.typeCheck, h0, h, hv, ne_eq, not_false_eq_true, if_true,
      Location.throwError, Statement.location_node]
  have hproc : process env Pass.TypeCheck scope anc
        (Statement.node i l Kind.WhileLoop (cond :: rest)) c =
      ((Statement.node i l Kind.WhileLoop (cond :: rest)).processBaseWithChildren
          (Statement.childProcessing env Pass.TypeCheck anc
            (Statement.node i l Kind.WhileLoop (cond :: rest)))
          scope (c.log (Event.process i Pass.TypeCheck))).bind
        (WhileLoop.typeCheck env (Statement.node i l Kind.WhileLoop (cond :: rest))) := by
    rw [process_eq]
    simp only [Statement.dispatch, Statement.kind, WhileLoop.process, Statement.id]
    cases h : (Statement.node i l Kind.WhileLoop (cond :: rest)).processBaseWithChildren
        (Statement.childProcessing env Pass.TypeCheck anc
          (Statement.node i l Kind.WhileLoop (cond :: rest)))
        scope (c.log (Event.process i Pass.TypeCheck)) with
    | ok c1 =>
      simp only [Result.bind, h, reduceCtorEq, if_false, if_true]
      cases WhileLoop.typeCheck env (Statement.node i l Kind.WhileLoop (cond :: rest)) c1 <;> rfl
    | error e c1 => simp [Result.bind, h]
    | undefined c1 => simp [Result.bind, h]
  refine ⟨?_, ?_, hnone, hzero, hproc, ?_⟩
  · intro c1
    cases h : env.constExpr cond with
    | none => rw [hnone h c1]; simp [Result.isOk]
    | some v =>
      by_cases hv : v.toInt = 0
      · rw [hzero v h hv c1]; simp [Result.isOk, hv]
      · rw [hnz v h hv c1]; simp [Result.isOk, hv]
  · intro c1 c2 e he
    cases h : env.constExpr cond with
    | none => rw [hnone h c1] at he; exact absurd he (by simp)
    | some v =>
      by_cases hv : v.toInt = 0
      · rw [hzero v h hv c1] at he; exact absurd he (by simp)
      · rw [hnz v h hv c1] at he
        simp only [Result.error.injEq] at he
        exact ⟨he.1.symm, v, rfl, hv⟩
  · intro hc c1 htrav
    rw [hproc]
    have hb : (Statement.node i l Kind.WhileLoop (cond :: rest)).processBaseWithChildren
          (Statement.childProcessing env Pass.TypeCheck anc
            (Statement.node i l Kind.WhileLoop (cond :: rest)))
          scope (c.log (Event.process i Pass.TypeCheck)) = Result.ok c1 := htrav
    rw [hb]
    rcases hc with h | ⟨v, h, hv⟩
    · exact hnone h c1
    · exact hzero v h hv c1

/-- The loop `while (n) { }`, whose condition is a variable that is not zero at
any evaluation of the run `Sample.runtime`, passes the Type Check pass, and so
does `while (0) { }`; `while (1) { }` does not. -/
theorem WhileLoop_typeCheck_rejects_only_nonzero_constant_witness :
    Env.reference.constExpr (Sample.reference 2 "n") = none ∧
    (∀ n, WhileLoop.conditionHolds Sample.countingLoop (Sample.runtime.condition n) = true) ∧
    (∀ c1 : Compiler, WhileLoop.typeCheck Env.reference Sample.countingLoop c1 = Result.ok c1) ∧
    (process Env.reference Pass.TypeCheck Sample.functionScope [] Sample.countingLoop
      Compiler.initial).isOk = true ∧
    Env.reference.constExpr (Sample.literal 2 0) = some { type := TypeID.Integer, toInt := 0 } ∧
    (∀ c1 : Compiler, WhileLoop.typeCheck Env.reference Sample.zeroLoop c1 = Result.ok c1) ∧
    (process Env.reference Pass.TypeCheck Sample.functionScope [] Sample.zeroLoop
      Compiler.initial).isOk = true ∧
    (process Env.reference Pass.TypeCheck Sample.functionScope [] Sample.endlessLoop
      Compiler.initial).isOk = false :=
  ⟨rfl, fun _ => rfl,
   (WhileLoop_typeCheck_rejects_only_nonzero_constant Env.reference Sample.functionScope [] 1
      { line := 1, col := 1 } (Sample.reference 2 "n") [Sample.block 3 []]
      Compiler.initial).2.2.1 rfl,
   by decide, rfl,
   (WhileLoop_typeCheck_rejects_only_nonzero_constant Env.reference Sample.functionScope [] 1
      { line := 1, col := 1 } (Sample.literal 2 0) [Sample.block 3 []]
      Compiler.initial).2.2.2.1 { type := TypeID.Integer, toInt := 0 } rfl rfl,
   by decide, by decide⟩

/-- C25. For every if-statement, `IfStatement::process` in the Code Generation
pass returns normally and changes nothing but the log, to which it adds, in
this order: its own call, `processBaseWithoutChildren` (no child is processed),
one `allocateDirtyGlobalVariables` call for the true branch (child 1), one for
the false branch (child 2) if and only if there is one, and then exactly one
`emitBranch` call with the condition (child 0), the true branch and the false
branch, which is absent when there is none. -/
theorem IfStatement_codeGeneration_flush_then_branch (env : Env) (scope : BaseScope)
    (anc : List Statement) (i : Nat) (l : Location) (cs : List Statement) (c : Compiler) :
    process env Pass.CodeGeneration scope anc (Statement.node i l Kind.IfStatement cs) c =
      Result.ok
        { c with trace := c.trace ++
            ([Event.process i Pass.CodeGeneration, Event.processBaseWithoutChildren i,
              Event.allocateDirtyGlobalVariables ((cs.get? 1).map Statement.id)] ++
             (if (cs.get? 2).isSome then
               [Event.allocateDirtyGlobalVariables ((cs.get? 2).map Statement.id)] else []) ++
             [Event.emitBranch ((cs.get? 0).map Statement.id) ((cs.get? 1).map Statement.id)
               ((cs.get? 2).map Statement.id)]) } ∧
    (∀ cond t : Statement, cs = [cond, t] →
      (process env Pass.CodeGeneration scope anc (Statement.node i l Kind.IfStatement cs)
          c).state.trace =
        c.trace ++ [Event.process i Pass.CodeGeneration, Event.processBaseWithoutChildren i,
          Event.allocateDirtyGlobalVariables (some t.id),
          Event.emitBranch (some cond.id) (some t.id) none]) ∧
    (∀ (cond t f : Statement) (rest : List Statement), cs = cond :: t :: f :: rest →
      (process env Pass.CodeGeneration scope anc (Statement.node i l Kind.IfStatement cs)
          c).state.trace =
        c.trace ++ [Event.process i Pass.CodeGeneration, Event.processBaseWithoutChildren i,
          Event.allocateDirtyGlobalVariables (some t.id),
          Event.allocateDirtyGlobalVariables (some f.id),
          Event.emitBranch (some cond.id) (some t.id) (some f.id)]) := by
  have h : process env Pass.CodeGeneration scope anc (Statement.node i l Kind.IfStatement cs) c =
      Result.ok
        { c with trace := c.trace ++
            ([Event.process i Pass.CodeGeneration, Event.processBaseWithoutChildren i,
              Event.allocateDirtyGlobalVariables ((cs.get? 1).map Statement.id)] ++
             (if (cs.get? 2).isSome then
               [Event.allocateDirtyGlobalVariables ((cs.get? 2).map Statement.id)] else []) ++
             [Event.emitBranch ((cs.get? 0).map Statement.id) ((cs.get? 1).map Statement.id)
               ((cs.get? 2).map Statement.id)]) } := by
    rw [process_eq]
    simp only [Statement.dispatch, Statement.kind_node, IfStatement.process,
      Statement.processBaseWithoutChildren, Result.bind, Statement.id_node, ne_eq,
      not_true_eq_false, if_false, if_true, reduceCtorEq, IfStatement.codeGeneration,
      Statement.getSubExpr, Statement.children_node, Compiler.log]
    cases (cs.get? 2).isSome <;> simp
  refine ⟨h, ?_, ?_⟩
  · intro cond t hcs
    rw [h, hcs]
    rfl
  · intro cond t f rest hcs
    rw [h, hcs]
    rfl

/-- The statement `if (n) { } else { }` flushes for both branches (nodes 3 and 4)
before the one `emitBranch`; `if (n) { }` flushes for the true branch only. -/
theorem IfStatement_codeGeneration_flush_then_branch_witness :
    (process Env.reference Pass.CodeGeneration Sample.functionScope [] Sample.ifElse
        Compiler.initial).state.trace =
      [Event.process 1 Pass.CodeGeneration, Event.processBaseWithoutChildren 1,
       Event.allocateDirtyGlobalVariables (some 3), Event.allocateDirtyGlobalVariables (some 4),
       Event.emitBranch (some 2) (some 3) (some 4)] ∧
    (process Env.reference Pass.CodeGeneration Sample.functionScope [] Sample.ifThen
        Compiler.initial).state.trace =
      [Event.process 1 Pass.CodeGeneration, Event.processBaseWithoutChildren 1,
       Event.allocateDirtyGlobalVariables (some 3), Event.emitBranch (some 2) (some 3) none] :=
  ⟨(IfStatement_codeGeneration_flush_then_branch Env.reference Sample.functionScope [] 1
      { line := 1, col := 1 } [Sample.reference 2 "n", Sample.block 3 [], Sample.block 4 []]
      Compiler.initial).2.2 (Sample.reference 2 "n") (Sample.block 3 []) (Sample.block 4 []) []
      rfl,
   (IfStatement_codeGeneration_flush_then_branch Env.reference Sample.functionScope [] 1
      { line := 1, col := 1 } [Sample.reference 2 "n", Sample.block 3 []]
      Compiler.initial).2.1 (Sample.reference 2 "n") (Sample.block 3 []) rfl⟩

/-- C26. For every for-each loop with a target (child 0), `Loop::process` in the
Code Generation pass is: its own call and `processBaseWithoutChildren` are
logged, the target is processed, and then the rest of the block runs in the
state the target's processing has left.  That rest, for a loop whose target
kind is resolved, returns normally and changes nothing but the log, to which
it adds exactly two calls, in this order: `allocateDirtyGlobalVariables` for
the loop body (child 1), and one `emitLoop` on the emitter of the resolved
kind (Span: the span emitter, Dyn: the dyn emitter, CustomObject: the custom
emitter, which carries the resolved begin and size functions), created with
the iterator symbol, the target's register, the body and the flag
`loadIterator`. -/
theorem Loop_codeGeneration_emitter_matches_target (env : Env) (scope : BaseScope)
    (anc : List Statement) (i : Nat) (l : Location) (target : Statement) (rest : List Statement)
    (c : Compiler) :
    process env Pass.CodeGeneration scope anc (Statement.node i l Kind.Loop (target :: rest)) c =
      (process env Pass.CodeGeneration scope (Statement.node i l Kind.Loop (target :: rest) :: anc)
        target
        ((c.log (Event.process i Pass.CodeGeneration)).log
          (Event.processBaseWithoutChildren i))).bind
        (Loop.emit (Statement.node i l Kind.Loop (target :: rest))) ∧
    (∀ c1 : Compiler, c1.loopTargetType i = LoopTargetType.Span →
      Loop.emit (Statement.node i l Kind.Loop (target :: rest)) c1 =
        Result.ok { c1 with trace := c1.trace ++
          [Event.allocateDirtyGlobalVariables (rest.head?.map Statement.id),
           Event.emitLoop LoopTargetType.Span (c1.iterator i) (c1.reg target.id)
             (rest.head?.map Statement.id) (c1.loadIterator i) none] }) ∧
    (∀ c1 : Compiler, c1.loopTargetType i = LoopTargetType.Dyn →
      Loop.emit (Statement.node i l Kind.Loop (target :: rest)) c1 =
        Result.ok { c1 with trace := c1.trace ++
          [Event.allocateDirtyGlobalVariables (rest.head?.map Statement.id),
           Event.emitLoop LoopTargetType.Dyn (c1.iterator i) (c1.reg target.id)
             (rest.head?.map Statement.id) (c1.loadIterator i) none] }) ∧
    (∀ c1 : Compiler, c1.loopTargetType i = LoopTargetType.CustomObject →
      Loop.emit (Statement.node i l Kind.Loop (target :: rest)) c1 =
        Result.ok { c1 with trace := c1.trace ++
          [Event.allocateDirtyGlobalVariables (rest.head?.map Statement.id),
           Event.emitLoop LoopTargetType.CustomObject (c1.iterator i) (c1.reg target.id)
             (rest.head?.map Statement.id) (c1.loadIterator i)
             (some ((c1.customBegin i).2, c1.customSizeFunction i))] }) ∧
    (∀ c1 : Compiler,
      process env Pass.CodeGeneration scope (Statement.node i l Kind.Loop (target :: rest) :: anc)
          target
          ((c.log (Event.process i Pass.CodeGeneration)).log
            (Event.processBaseWithoutChildren i)) = Result.ok c1 →
      c1.loopTargetType i ≠ LoopTargetType.Undefined →
      (process env Pass.CodeGeneration scope anc (Statement.node i l Kind.Loop (target :: rest))
          c).isOk = true ∧
      (process env Pass.CodeGeneration scope anc (Statement.node i l Kind.Loop (target :: rest))
          c).state.trace =
        c1.trace ++
          [Event.allocateDirtyGlobalVariables (rest.head?.map Statement.id),
           Event.emitLoop (c1.loopTargetType i) (c1.iterator i) (c1.reg target.id)
             (rest.head?.map Statement.id) (c1.loadIterator i)
             (if c1.loopTargetType i = LoopTargetType.CustomObject then
               some ((c1.customBegin i).2, c1.customSizeFunction i) else none)]) := by
  have h1 : (Statement.node i l Kind.Loop (target :: rest)).getSubExpr 1 = rest.head? := by
    cases rest <;> rfl
  have hproc : process env Pass.CodeGeneration scope anc
        (Statement.node i l Kind.Loop (target :: rest)) c =
      (process env Pass.CodeGeneration scope (Statement.node i l Kind.Loop (target :: rest) :: anc)
        target
        ((c.log (Event.process i Pass.CodeGeneration)).log
          (Event.processBaseWithoutChildren i))).bind
        (Loop.emit (Statement.node i l Kind.Loop (target :: rest))) := by
    rw [process_eq]
    simp only [Statement.dispatch, Statement.kind_node, Loop.process,
      Statement.processBaseWithoutChildren, Result.bind, Statement.id_node, ne_eq,
      not_true_eq_false, and_false, if_false, if_true, reduceCtorEq, Loop.codeGeneration,
      Statement.childProcessing, Statement.getSubExpr, Statement.children_node,
      List.get?_cons_zero, Option.map_some']
  have hspan : ∀ c1 : Compiler, c1.loopTargetType i = LoopTargetType.Span →
      Loop.emit (Statement.node i l Kind.Loop (target :: rest)) c1 =
        Result.ok { c1 with trace := c1.trace ++
          [Event.allocateDirtyGlobalVariables (rest.head?.map Statement.id),
           Event.emitLoop LoopTargetType.Span (c1.iterator i) (c1.reg target.id)
             (rest.head?.map Statement.id) (c1.loadIterator i) none] } := by
    intro c1 hk
    have h0 : (Statement.node i l Kind.Loop (target :: rest)).getSubExpr 0 = some target := rfl
    simp [Loop.emit, h0, h1, Statement.id_node, hk, Compiler.log]
  have hdyn : ∀ c1 : Compiler, c1.loopTargetType i = LoopTargetType.Dyn →
      Loop.emit (Statement.node i l Kind.Loop (target :: rest)) c1 =
        Result.ok { c1 with trace := c1.trace ++
          [Event.allocateDirtyGlobalVariables (rest.head?.map Statement.id),
           Event.emitLoop LoopTargetType.Dyn (c1.iterator i) (c1.reg target.id)
             (rest.head?.map Statement.id) (c1.loadIterator i) none] } := by
    intro c1 hk
    have h0 : (Statement.node i l Kind.Loop (target :: rest)).getSubExpr 0 = some target := rfl
    simp [Loop.emit, h0, h1, Statement.id_node, hk, Compiler.log]
  have hcustom : ∀ c1 : Compiler, c1.loopTargetType i = LoopTargetType.CustomObject →
      Loop.emit (Statement.node i l Kind.Loop (target :: rest)) c1 =
        Result.ok { c1 with trace := c1.trace ++
          [Event.allocateDirtyGlobalVariables (rest.head?.map Statement.id),
           Event.emitLoop LoopTargetType.CustomObject (c1.iterator i) (c1.reg target.id)
             (rest.head?.map Statement.id) (c1.loadIterator i)
             (some ((c1.customBegin i).2, c1.customSizeFunction i))] } := by
    intro c1 hk
    have h0 : (Statement.node i l Kind.Loop (target :: rest)).getSubExpr 0 = some target := rfl
    simp [Loop.emit, h0, h1, Statement.id_node, hk, Compiler.log]
  refine ⟨hproc, hspan, hdyn, hcustom, ?_⟩
  intro c1 ht hk
  rw [hproc, ht]
  simp only [Result.bind]
  cases hkind : c1.loopTargetType i with
  | Undefined => exact absurd hkind hk
  | Span => rw [hspan c1 hkind]; simp [Result.isOk, Result.state]
  | Dyn => rw [hdyn c1 hkind]; simp [Result.isOk, Result.state]
  | CustomObject => rw [hcustom c1 hkind]; simp [Result.isOk, Result.state]

/-- The loop `for (auto& x : data) { }` over `span<float, 4> data`, after its
Data Allocation pass: the Code Generation pass processes the target (node 2),
flushes for the body (node 3) and calls `emitLoop` once, on the span emitter,
with the iterator `float& x`, the target's register, the body and the flag. -/
theorem Loop_codeGeneration_emitter_matches_target_witness :
    ((process Env.reference Pass.DataAllocation Sample.functionScope [] Sample.loopOverData
        (Sample.loopState (TypeInfo.native TypeID.Dynamic false true))).state.setReg 2
          (some 7)).loopTargetType 1 = LoopTargetType.Span ∧
    ((process Env.reference Pass.CodeGeneration Sample.functionScope [] Sample.loopOverData
        { ((process Env.reference Pass.DataAllocation Sample.functionScope [] Sample.loopOverData
            (Sample.loopState (TypeInfo.native TypeID.Dynamic false true))).state.setReg 2
              (some 7)) with trace := [] }).state.trace) =
      [Event.process 1 Pass.CodeGeneration, Event.processBaseWithoutChildren 1,
       Event.process 2 Pass.CodeGeneration, Event.processBaseWithChildren 2,
       Event.allocateDirtyGlobalVariables (some 3),
       Event.emitLoop LoopTargetType.Span
         { id := ["f", "x"], typeInfo := TypeInfo.native TypeID.Float false true } (some 7)
         (some 3) true none] :=
  ⟨by decide,
   ((Loop_codeGeneration_emitter_matches_target Env.reference Sample.functionScope [] 1
      { line := 1, col := 1 } (Sample.dataReference 2) [Sample.block 3 []]
      { ((process Env.reference Pass.DataAllocation Sample.functionScope [] Sample.loopOverData
          (Sample.loopState (TypeInfo.native TypeID.Dynamic false true))).state.setReg 2
            (some 7)) with trace := [] }).2.2.2.2 _ rfl (by decide)).2.trans (by decide)⟩

/-- A scope is not its own parent. -/
theorem BaseScope.mk_some_ne (t : ScopeType) (p : NamespacedIdentifier) (q : BaseScope) :
    BaseScope.mk t p (some q) ≠ q := by
  intro h
  have := congrArg sizeOf h
  simp at this
  omega

/-- C27. For every statement block (with identity `i` and path `path`) and every
enclosing scope `parent` that is not already the block's own scope:
`createOrGetBlockScope` returns `parent` itself if and only if `parent` is
class-level, and then it creates nothing (the state is unchanged).  For a
parent that is not class-level it returns the block's own scope: when the
block has none yet, a new register scope with that parent and the block's
path is created and stored; when it has one, that one is returned and nothing
changes.  After a call with a parent that is not class-level, every later call
(in a state in which the block's scope field still holds what the call left
there, with any parent that is not class-level) returns the same scope and
creates nothing.  `StatementBlock::process` processes the children of the
block with the scope this function returns. -/
theorem StatementBlock_createOrGetBlockScope_cases (i : Nat) (path : NamespacedIdentifier)
    (parent : BaseScope) (c : Compiler) (hown : c.blockScope i ≠ some parent) :
    ((StatementBlock.createOrGetBlockScope i path parent c).1 = parent ↔
      parent.getScopeType = ScopeType.Class) ∧
    (parent.getScopeType = ScopeType.Class →
      StatementBlock.createOrGetBlockScope i path parent c = (parent, c)) ∧
    (parent.getScopeType ≠ ScopeType.Class → c.blockScope i = none →
      StatementBlock.createOrGetBlockScope i path parent c =
        (BaseScope.RegisterScope parent path,
          c.setBlockScope i (BaseScope.RegisterScope parent path)) ∧
      (BaseScope.RegisterScope parent path).getParent = some parent ∧
      (BaseScope.RegisterScope parent path).getScopeType = ScopeType.Register ∧
      (c.setBlockScope i (BaseScope.RegisterScope parent path)).blockScope i =
        some (BaseScope.RegisterScope parent path)) ∧
    (parent.getScopeType ≠ ScopeType.Class → ∀ blockScope, c.blockScope i = some blockScope →
      StatementBlock.createOrGetBlockScope i path parent c = (blockScope, c)) ∧
    (parent.getScopeType ≠ ScopeType.Class →
      (StatementBlock.createOrGetBlockScope i path parent c).2.blockScope i =
          some (StatementBlock.createOrGetBlockScope i path parent c).1 ∧
      ∀ (later : BaseScope) (c2 : Compiler), later.getScopeType ≠ ScopeType.Class →
        c2.blockScope i = (StatementBlock.createOrGetBlockScope i path parent c).2.blockScope i →
        StatementBlock.createOrGetBlockScope i path later c2 =
          ((StatementBlock.createOrGetBlockScope i path parent c).1, c2)) ∧
    ∀ (env : Env) (pass : Pass) (anc : List Statement) (l : Location)
      (isInlinedFunction hasReturnType : Bool) (cs : List Statement),
      process env pass parent anc
          (Statement.node i l (Kind.StatementBlock path isInlinedFunction hasReturnType) cs) c =
        (processAllChildren env pass
          (StatementBlock.createOrGetBlockScope i path parent (c.log (Event.process i pass))).1
          (Statement.node i l (Kind.StatementBlock path isInlinedFunction hasReturnType) cs :: anc)
          cs
          ((StatementBlock.createOrGetBlockScope i path parent
            (c.log (Event.process i pass))).2.log (Event.processBaseWithChildren i))).bind
          fun c1 =>
            (if pass = Pass.DataAllocation then
              StatementBlock.dataAllocation env
                (Statement.node i l (Kind.StatementBlock path isInlinedFunction hasReturnType) cs)
                path parent c1
             else Result.ok c1).bind fun c2 =>
            if pass = Pass.RegisterAllocation then
              StatementBlock.registerAllocation i isInlinedFunction hasReturnType c2
            else Result.ok c2 := by
  refine ⟨?_, ?_, ?_, ?_, ?_, ?_⟩
  · unfold StatementBlock.createOrGetBlockScope
    by_cases hc : parent.getScopeType = ScopeType.Class
    · simp [hc]
    · simp only [hc, if_false, iff_false]
      cases hb : c.blockScope i with
      | none => exact BaseScope.mk_some_ne _ _ _
      | some bs =>
        intro h
        apply hown
        rw [hb]
        exact congrArg some h
  · intro hc
    simp [StatementBlock.createOrGetBlockScope, hc]
  · intro hc hb
    refine ⟨?_, rfl, rfl, ?_⟩
    · simp [StatementBlock.createOrGetBlockScope, hc, hb]
    · simp [Compiler.setBlockScope]
  · intro hc bs hb
    simp [StatementBlock.createOrGetBlockScope, hc, hb]
  · intro hc
    have h1 : (StatementBlock.createOrGetBlockScope i path parent c).2.blockScope i =
        some (StatementBlock.createOrGetBlockScope i path parent c).1 := by
      unfold StatementBlock.createOrGetBlockScope
      simp only [hc, if_false]
      cases hb : c.blockScope i with
      | none => simp [Compiler.setBlockScope]
      | some bs => exact hb
    refine ⟨h1, ?_⟩
    intro later c2 hl h2
    rw [h1] at h2
    simp [StatementBlock.createOrGetBlockScope, hl, h2]
  · intro env pass anc l isInlinedFunction hasReturnType cs
    rw [process_eq]
    rfl

/-- A block of the function `f` inside the function scope gets its own register
scope, whose parent is the function scope, and keeps it on the next call; in
the scope of a class it uses the class scope and creates nothing. -/
theorem StatementBlock_createOrGetBlockScope_cases_witness :
    Compiler.initial.blockScope 1 ≠ some Sample.functionScope ∧
    StatementBlock.createOrGetBlockScope 1 ["f"] Sample.functionScope Compiler.initial =
      (BaseScope.RegisterScope Sample.functionScope ["f"],
        Compiler.initial.setBlockScope 1 (BaseScope.RegisterScope Sample.functionScope ["f"])) ∧
    StatementBlock.createOrGetBlockScope 1 ["f"] Sample.functionScope
        (StatementBlock.createOrGetBlockScope 1 ["f"] Sample.functionScope Compiler.initial).2 =
      ((StatementBlock.createOrGetBlockScope 1 ["f"] Sample.functionScope Compiler.initial).1,
        (StatementBlock.createOrGetBlockScope 1 ["f"] Sample.functionScope Compiler.initial).2) ∧
    Compiler.initial.blockScope 1 ≠ some Sample.classScope ∧
    StatementBlock.createOrGetBlockScope 1 ["f"] Sample.classScope Compiler.initial =
      (Sample.classScope, Compiler.initial) :=
  ⟨by simp [Compiler.initial],
   ((StatementBlock_createOrGetBlockScope_cases 1 ["f"] Sample.functionScope Compiler.initial
      (by simp [Compiler.initial])).2.2.1 (by decide) rfl).1,
   ((StatementBlock_createOrGetBlockScope_cases 1 ["f"] Sample.functionScope Compiler.initial
      (by simp [Compiler.initial])).2.2.2.2.1 (by decide)).2 Sample.functionScope _ (by decide) rfl,
   by simp [Compiler.initial],
   (StatementBlock_createOrGetBlockScope_cases 1 ["f"] Sample.classScope Compiler.initial
      (by simp [Compiler.initial])).2.1 rfl⟩

/-- C28. The two copies of the runtime check in `WhileLoop::process` are the same
instruction sequence: what the comparison path issues after its jump on the
comparison and what the zero-test path issues after its three instructions of
the zero test are equal, whatever the operator and the condition register, and
are the eleven instructions `inc; cmp 10000000; jb ok; mov kind; mov [flag];
mov line; mov [flag+4]; mov col; mov [flag+8]; jmp exit; bind ok`.
Accordingly, with the runtime check enabled, the middle of the Code Generation
block is, on either path, the instructions of the path's own test followed by
one call of the helper `emitRuntimeCheck` with the counter register, the exit
label and the loop's location (the label `ok` is the next fresh label of the
assembler); with the runtime check disabled, it is the instructions of the
test alone. -/
theorem WhileLoop_runtime_check_is_one_helper (env : Env) (self : Statement) (exit why : Nat)
    (c : Compiler) :
    (∀ (op : Token) (cReg : Option Reg) (okBranch : Nat) (location : Location),
      (WhileLoop.compareBranch true op why exit okBranch location).drop
          (WhileLoop.intCompare op exit).length =
        (WhileLoop.zeroTestBranch true cReg why exit okBranch location).drop 3 ∧
      (WhileLoop.zeroTestBranch true cReg why exit okBranch location).drop 3 =
        [Instr.inc why, Instr.cmpImm why 10000000, Instr.jb okBranch,
         Instr.movErrorKindWhileLoop why,
         Instr.movToErrorFlag { offset := 0, size := 4 } why,
         Instr.movImm why location.line,
         Instr.movToErrorFlag { offset := 4, size := 4 } why,
         Instr.movImm why location.col,
         Instr.movToErrorFlag { offset := 8, size := 4 } why,
         Instr.jmp exit, Instr.bind okBranch] ∧
      (WhileLoop.compareBranch true op why exit okBranch location).take
          (WhileLoop.intCompare op exit).length = WhileLoop.intCompare op exit ∧
      (WhileLoop.zeroTestBranch true cReg why exit okBranch location).take 3 =
        [Instr.setInlineComment "check condition", Instr.cmpRegZero cReg, Instr.je exit] ∧
      WhileLoop.compareBranch false op why exit okBranch location = WhileLoop.intCompare op exit ∧
      WhileLoop.zeroTestBranch false cReg why exit okBranch location =
        [Instr.setInlineComment "check condition", Instr.cmpRegZero cReg, Instr.je exit]) ∧
    (∀ (c0 : Compiler) (location : Location),
      (emitRuntimeCheck why exit location c0).trace =
        c0.trace ++
          ((WhileLoop.zeroTestBranch true none why exit c0.nextLabel location).drop 3).map
            Event.asm ∧
      (emitRuntimeCheck why exit location c0).nextLabel = c0.nextLabel + 1) ∧
    (∀ cp op, WhileLoop.getCompareCondition self = some cp → cp.compareOp = some op →
      WhileLoop.codeGenerationTest env self exit why c =
        if env.isRuntimeErrorCheckEnabled then
          emitRuntimeCheck why exit self.location (c.emit (WhileLoop.intCompare op exit))
        else c.emit (WhileLoop.intCompare op exit)) ∧
    (WhileLoop.getCompareCondition self = none →
      WhileLoop.codeGenerationTest env self exit why c =
        if env.isRuntimeErrorCheckEnabled then
          emitRuntimeCheck why exit self.location
            (c.emit [Instr.setInlineComment "check condition",
              Instr.cmpRegZero (c.getSubRegister self 0), Instr.je exit])
        else
          c.emit [Instr.setInlineComment "check condition",
            Instr.cmpRegZero (c.getSubRegister self 0), Instr.je exit]) := by
  refine ⟨?_, ?_, ?_, ?_⟩
  · intro op cReg okBranch location
    refine ⟨?_, rfl, ?_, rfl, ?_, rfl⟩
    · simp [WhileLoop.compareBranch, WhileLoop.zeroTestBranch]
    · simp [WhileLoop.compareBranch]
    · simp [WhileLoop.compareBranch]
  · intro c0 location
    exact ⟨rfl, rfl⟩
  · intro cp op hcp hop
    simp only [WhileLoop.codeGenerationTest, hcp, hop, WhileLoop.compareBranch]
    cases env.isRuntimeErrorCheckEnabled
    · simp [Compiler.emit]
    · simp [Compiler.emit, emitRuntimeCheck]
  · intro hcp
    simp only [WhileLoop.codeGenerationTest, hcp, WhileLoop.zeroTestBranch]
    cases env.isRuntimeErrorCheckEnabled
    · simp [Compiler.emit]
    · simp [Compiler.emit, emitRuntimeCheck]

/-- The loops `while (a < b) { }` and `while (n) { }` compiled with the runtime
check: after the instructions of its own test, each issues the instructions of
the one helper. -/
theorem WhileLoop_runtime_check_is_one_helper_witness :
    WhileLoop.getCompareCondition Sample.compareLoop =
      some (Sample.lessThan 2 (Sample.reference 4 "a") (Sample.reference 5 "b")) ∧
    WhileLoop.codeGenerationTest Env.instrumented Sample.compareLoop 1 0
        (WhileLoop.codeGenerationHead Env.instrumented Sample.compareLoop Sample.loopEntry) =
      emitRuntimeCheck 0 1 { line := 1, col := 1 }
        ((WhileLoop.codeGenerationHead Env.instrumented Sample.compareLoop Sample.loopEntry).emit
          [Instr.jge 1]) ∧
    WhileLoop.getCompareCondition Sample.countingLoop = none ∧
    WhileLoop.codeGenerationTest Env.instrumented Sample.countingLoop 1 0
        (WhileLoop.codeGenerationHead Env.instrumented Sample.countingLoop Sample.loopEntry) =
      emitRuntimeCheck 0 1 { line := 1, col := 1 }
        ((WhileLoop.codeGenerationHead Env.instrumented Sample.countingLoop Sample.loopEntry).emit
          [Instr.setInlineComment "check condition", Instr.cmpRegZero (some 0), Instr.je 1]) :=
  ⟨rfl,
   (WhileLoop_runtime_check_is_one_helper Env.instrumented Sample.compareLoop 1 0
      (WhileLoop.codeGenerationHead Env.instrumented Sample.compareLoop Sample.loopEntry)).2.2.1
      (Sample.lessThan 2 (Sample.reference 4 "a") (Sample.reference 5 "b")) Token.lessThan rfl rfl,
   rfl,
   (WhileLoop_runtime_check_is_one_helper Env.instrumented Sample.countingLoop 1 0
      (WhileLoop.codeGenerationHead Env.instrumented Sample.countingLoop Sample.loopEntry)).2.2.2
      rfl⟩

/-- `IfStatement::process` as `process` calls it. -/
theorem process_IfStatement (env : Env) (pass : Pass) (scope : BaseScope) (anc : List Statement)
    (i : Nat) (l : Location) (cs : List Statement) (c : Compiler) :
    process env pass scope anc (Statement.node i l Kind.IfStatement cs) c =
      IfStatement.process pass scope (Statement.node i l Kind.IfStatement cs)
        (Statement.childProcessing env pass anc (Statement.node i l Kind.IfStatement cs))
        (c.log (Event.process i pass)) := by
  rw [process_eq]
  rfl

/-- The calls of `processAllChildren` in `IfStatement::process`, pass by pass,
for any processing of the children. -/
theorem IfStatement_process_cases (scope : BaseScope) (self : Statement) (ch : Children)
    (c : Compiler) :
    IfStatement.process Pass.TypeCheck scope self ch c =
      ((ch.processAll scope (c.log (Event.processBaseWithoutChildren self.id))).bind
        (ch.processAll scope)).bind (IfStatement.checkCondition self) ∧
    IfStatement.process Pass.DataAllocation scope self ch c =
      ch.processAll scope (c.log (Event.processBaseWithoutChildren self.id)) ∧
    IfStatement.process Pass.RegisterAllocation scope self ch c =
      ch.processAll scope (c.log (Event.processBaseWithoutChildren self.id)) ∧
    IfStatement.process Pass.CodeGeneration scope self ch c =
      IfStatement.codeGeneration self (c.log (Event.processBaseWithoutChildren self.id)) := by
  refine ⟨?_, ?_, ?_, ?_⟩
  · simp only [IfStatement.process, Statement.processBaseWithoutChildren, Result.bind, ne_eq,
      reduceCtorEq, not_false_eq_true, if_true, if_false]
    cases ch.processAll scope (c.log (Event.processBaseWithoutChildren self.id)) with
    | ok c2 =>
      simp only
      cases ch.processAll scope c2 with
      | ok c3 =>
        simp only
        cases IfStatement.checkCondition self c3 <;> rfl
      | error e c3 => rfl
      | undefined c3 => rfl
    | error e c2 => rfl
    | undefined c2 => rfl
  · simp only [IfStatement.process, Statement.processBaseWithoutChildren, Result.bind, ne_eq,
      reduceCtorEq, not_false_eq_true, if_true, if_false]
    cases ch.processAll scope (c.log (Event.processBaseWithoutChildren self.id)) <;> rfl
  · simp only [IfStatement.process, Statement.processBaseWithoutChildren, Result.bind, ne_eq,
      reduceCtorEq, not_false_eq_true, if_true, if_false]
    cases ch.processAll scope (c.log (Event.processBaseWithoutChildren self.id)) <;> rfl
  · simp only [IfStatement.process, Statement.processBaseWithoutChildren, Result.bind, ne_eq,
      not_true_eq_false, reduceCtorEq, if_true, if_false, IfStatement.codeGeneration]

/-- The check of the condition's type leaves the state as it is. -/
theorem IfStatement_checkCondition_state (self : Statement) (c : Compiler) :
    (IfStatement.checkCondition self c).state = c := by
  unfold IfStatement.checkCondition
  split
  · rfl
  · split <;> rfl

/-- The two entries that `IfStatement::process` logs for itself are not the
processing of a node with another identity. -/
theorem IfStatement_own_log_count (c : Compiler) (i j : Nat) (p q : Pass) (h : j ≠ i) :
    ((c.log (Event.process i p)).log (Event.processBaseWithoutChildren i)).trace.count
      (Event.process j q) = c.trace.count (Event.process j q) := by
  have h2 : ¬ i = j := fun e => h e.symm
  simp [Compiler.log, List.count_append, List.count_cons, h2]

/-- C29. For every if-statement and any processing of its children, one call of
`IfStatement::process` calls `processAllChildren` twice in the Type Check pass
(the second time in the state the first has left, and before the check of the
condition's type), once in the Data Allocation and in the Register Allocation
pass, and not at all in the Code Generation pass; `process` on an
if-statement is this function with the processing of the node's own children.
So, when the children have other identities than the if-statement and a
traversal of the children completes and logs the processing of each child
once, the call logs the processing of every child exactly twice in the Type
Check pass and exactly once in the Data Allocation and Register Allocation
passes; in the Code Generation pass it logs the processing of no child. -/
theorem IfStatement_process_children_per_pass (env : Env) (scope : BaseScope)
    (anc : List Statement) (i : Nat) (l : Location) (cs : List Statement) (c : Compiler) :
    (∀ (ch : Children) (c0 : Compiler),
      IfStatement.process Pass.TypeCheck scope (Statement.node i l Kind.IfStatement cs) ch c0 =
        ((ch.processAll scope (c0.log (Event.processBaseWithoutChildren i))).bind
          (ch.processAll scope)).bind
          (IfStatement.checkCondition (Statement.node i l Kind.IfStatement cs)) ∧
      IfStatement.process Pass.DataAllocation scope (Statement.node i l Kind.IfStatement cs) ch
          c0 =
        ch.processAll scope (c0.log (Event.processBaseWithoutChildren i)) ∧
      IfStatement.process Pass.RegisterAllocation scope (Statement.node i l Kind.IfStatement cs)
          ch c0 =
        ch.processAll scope (c0.log (Event.processBaseWithoutChildren i)) ∧
      IfStatement.process Pass.CodeGeneration scope (Statement.node i l Kind.IfStatement cs) ch
          c0 =
        IfStatement.codeGeneration (Statement.node i l Kind.IfStatement cs)
          (c0.log (Event.processBaseWithoutChildren i))) ∧
    (∀ pass : Pass,
      process env pass scope anc (Statement.node i l Kind.IfStatement cs) c =
        IfStatement.process pass scope (Statement.node i l Kind.IfStatement cs)
          (Statement.childProcessing env pass anc (Statement.node i l Kind.IfStatement cs))
          (c.log (Event.process i pass)) ∧
      (Statement.childProcessing env pass anc
          (Statement.node i l Kind.IfStatement cs)).processAll scope =
        processAllChildren env pass scope (Statement.node i l Kind.IfStatement cs :: anc) cs) ∧
    ((∀ s ∈ cs, s.id ≠ i) →
      (∀ s ∈ cs, ∀ pass : Pass,
        (process env Pass.CodeGeneration scope anc (Statement.node i l Kind.IfStatement cs)
            c).state.trace.count (Event.process s.id pass) =
          c.trace.count (Event.process s.id pass)) ∧
      ∀ pass : Pass, pass ≠ Pass.CodeGeneration →
        (∀ c1 : Compiler, ∃ c2 : Compiler,
          processAllChildren env pass scope (Statement.node i l Kind.IfStatement cs :: anc) cs
              c1 = Result.ok c2 ∧
            ∀ s ∈ cs, c2.trace.count (Event.process s.id pass) =
              c1.trace.count (Event.process s.id pass) + 1) →
        ∀ s ∈ cs,
          (process env pass scope anc (Statement.node i l Kind.IfStatement cs)
              c).state.trace.count (Event.process s.id pass) =
            c.trace.count (Event.process s.id pass) +
              (if pass = Pass.TypeCheck then 2 else 1)) := by
  refine ⟨fun ch c0 => IfStatement_process_cases scope _ ch c0,
    fun pass => ⟨process_IfStatement env pass scope anc i l cs c, rfl⟩, ?_⟩
  intro hid
  constructor
  · intro s hs pass
    rw [process_IfStatement, (IfStatement_process_cases scope _ _ _).2.2.2]
    have h2 : ¬ i = s.id := fun e => hid s hs e.symm
    simp only [IfStatement.codeGeneration, Statement.id_node, Result.state]
    split <;>
      simp [Compiler.log, List.count_append, List.count_cons, h2]
  · intro pass hpass htrav s hs
    rw [process_IfStatement]
    have hown := IfStatement_own_log_count c i s.id pass pass (hid s hs)
    obtain ⟨c2, hc2, hcount2⟩ :=
      htrav ((c.log (Event.process i pass)).log (Event.processBaseWithoutChildren i))
    have hpa : (Statement.childProcessing env pass anc
          (Statement.node i l Kind.IfStatement cs)).processAll scope =
        processAllChildren env pass scope (Statement.node i l Kind.IfStatement cs :: anc) cs :=
      rfl
    cases pass with
    | CodeGeneration => exact absurd rfl hpass
    | TypeCheck =>
      obtain ⟨c3, hc3, hcount3⟩ := htrav c2
      rw [(IfStatement_process_cases scope _ _ _).1, hpa, Statement.id_node, hc2]
      simp only [Result.bind, hc3, IfStatement_checkCondition_state, if_true]
      rw [hcount3 s hs, hcount2 s hs, hown]
    | DataAllocation =>
      rw [(IfStatement_process_cases scope _ _ _).2.1, hpa, Statement.id_node, hc2]
      simp only [Result.state, reduceCtorEq, if_false]
      rw [hcount2 s hs, hown]
    | RegisterAllocation =>
      rw [(IfStatement_process_cases scope _ _ _).2.2.1, hpa, Statement.id_node, hc2]
      simp only [Result.state, reduceCtorEq, if_false]
      rw [hcount2 s hs, hown]

/-- The processing of a variable reference in the reference instance completes
and logs two entries. -/
theorem process_reference_trace (pass : Pass) (scope : BaseScope) (anc : List Statement)
    (i : Nat) (name : String) (c1 : Compiler) :
    ∃ c2 : Compiler,
      process Env.reference pass scope anc (Sample.reference i name) c1 = Result.ok c2 ∧
        c2.blockScope = c1.blockScope ∧
        c2.trace = c1.trace ++ [Event.process i pass, Event.processBaseWithChildren i] := by
  rw [process_eq]
  refine ⟨_, rfl, rfl, ?_⟩
  simp [Compiler.log, Compiler.setTypeOf, Compiler.setReg, Sample.reference, Statement.id_node]

/-- The processing of an empty block of the function `f` outside the Code
Generation pass completes and logs two entries. -/
theorem process_emptyBlock_trace (pass : Pass) (hpass : pass ≠ Pass.CodeGeneration)
    (anc : List Statement) (i : Nat) (c1 : Compiler) :
    ∃ c2 : Compiler,
      process Env.reference pass Sample.functionScope anc (Sample.block i []) c1 =
          Result.ok c2 ∧
        c2.trace = c1.trace ++ [Event.process i pass, Event.processBaseWithChildren i] := by
  rw [process_eq]
  simp only [Statement.dispatch, Sample.block, Statement.kind_node, StatementBlock.process,
    StatementBlock.createOrGetBlockScope, Sample.functionScope, BaseScope.getScopeType,
    Statement.id_node, Statement.processBaseWithChildren, Statement.childProcessing,
    Statement.children_node, processAllChildren_nil, Result.bind, reduceCtorEq, if_false]
  cases pass with
  | CodeGeneration => exact absurd rfl hpass
  | TypeCheck =>
    cases hb : (c1.log (Event.process i Pass.TypeCheck)).blockScope i <;>
      simp [Compiler.log, Compiler.setBlockScope, Result.bind]
  | DataAllocation =>
    cases hb : (c1.log (Event.process i Pass.DataAllocation)).blockScope i <;>
      simp [Compiler.log, Compiler.setBlockScope, Result.bind, StatementBlock.dataAllocation,
        StatementBlock.destructorIds, Statement.forEachRecursive, forEachRecursiveChildren,
        StatementBlock.collectDestructorIds, StatementBlock.callDestructors]
  | RegisterAllocation =>
    cases hb : (c1.log (Event.process i Pass.RegisterAllocation)).blockScope i <;>
      simp [Compiler.log, Compiler.setBlockScope, Result.bind, StatementBlock.registerAllocation,
        Compiler.setReg]

/-- A traversal of the children of `if (n) { }` outside the Code Generation pass
completes and logs the processing of the condition and of the block, once
each. -/
theorem processAllChildren_ifThen (pass : Pass) (hpass : pass ≠ Pass.CodeGeneration)
    (c1 : Compiler) :
    ∃ c2 : Compiler,
      processAllChildren Env.reference pass Sample.functionScope [Sample.ifThen]
          [Sample.reference 2 "n", Sample.block 3 []] c1 = Result.ok c2 ∧
        c2.trace = c1.trace ++
          [Event.process 2 pass, Event.processBaseWithChildren 2,
           Event.process 3 pass, Event.processBaseWithChildren 3] := by
  obtain ⟨c2, h2, _, t2⟩ :=
    process_reference_trace pass Sample.functionScope [Sample.ifThen] 2 "n" c1
  obtain ⟨c3, h3, t3⟩ := process_emptyBlock_trace pass hpass [Sample.ifThen] 3 c2
  refine ⟨c3, ?_, ?_⟩
  · rw [processAllChildren_cons, h2]
    simp only [Result.bind]
    rw [processAllChildren_cons, h3]
    rfl
  · rw [t3, t2]
    simp

/-- The count of the processing of the two children of `if (n) { }` after one
traversal. -/
theorem processAllChildren_ifThen_count (pass : Pass) (hpass : pass ≠ Pass.CodeGeneration)
    (c1 : Compiler) :
    ∃ c2 : Compiler,
      processAllChildren Env.reference pass Sample.functionScope [Sample.ifThen]
          [Sample.reference 2 "n", Sample.block 3 []] c1 = Result.ok c2 ∧
        ∀ s ∈ [Sample.reference 2 "n", Sample.block 3 []],
          c2.trace.count (Event.process s.id pass) =
            c1.trace.count (Event.process s.id pass) + 1 := by
  obtain ⟨c2, h1, h2⟩ := processAllChildren_ifThen pass hpass c1
  refine ⟨c2, h1, ?_⟩
  intro s hs
  rw [h2]
  simp only [List.mem_cons, List.mem_singleton, List.not_mem_nil, or_false] at hs
  rcases hs with rfl | rfl
  · simp [Sample.reference, Statement.id_node, List.count_append, List.count_cons]
  · simp [Sample.block, Statement.id_node, List.count_append, List.count_cons]

/-- The statement `if (n) { }`: one call of `process` logs the processing of the
condition (node 2) and of the block (node 3) twice each in the Type Check pass,
once each in the Data Allocation pass, and not at all in the Code Generation
pass. -/
theorem IfStatement_process_children_per_pass_witness :
    (∀ s ∈ [Sample.reference 2 "n", Sample.block 3 []], s.id ≠ 1) ∧
    (∀ s ∈ [Sample.reference 2 "n", Sample.block 3 []],
      (process Env.reference Pass.TypeCheck Sample.functionScope [] Sample.ifThen
        Compiler.initial).state.trace.count (Event.process s.id Pass.TypeCheck) = 2) ∧
    (∀ s ∈ [Sample.reference 2 "n", Sample.block 3 []],
      (process Env.reference Pass.DataAllocation Sample.functionScope [] Sample.ifThen
        Compiler.initial).state.trace.count (Event.process s.id Pass.DataAllocation) = 1) ∧
    (∀ s ∈ [Sample.reference 2 "n", Sample.block 3 []],
      (process Env.reference Pass.CodeGeneration Sample.functionScope [] Sample.ifThen
        Compiler.initial).state.trace.count (Event.process s.id Pass.CodeGeneration) = 0) ∧
    (process Env.reference Pass.TypeCheck Sample.functionScope [] Sample.ifThen
        Compiler.initial).state.trace =
      [Event.process 1 Pass.TypeCheck, Event.processBaseWithoutChildren 1,
       Event.process 2 Pass.TypeCheck, Event.processBaseWithChildren 2,
       Event.process 3 Pass.TypeCheck, Event.processBaseWithChildren 3,
       Event.process 2 Pass.TypeCheck, Event.processBaseWithChildren 2,
       Event.process 3 Pass.TypeCheck, Event.processBaseWithChildren 3] :=
  ⟨by decide,
   fun s hs =>
     ((IfStatement_process_children_per_pass Env.reference Sample.functionScope [] 1
        { line := 1, col := 1 } [Sample.reference 2 "n", Sample.block 3 []]
        Compiler.initial).2.2 (by decide)).2 Pass.TypeCheck (by decide)
        (processAllChildren_ifThen_count Pass.TypeCheck (by decide)) s hs,
   fun s hs =>
     ((IfStatement_process_children_per_pass Env.reference Sample.functionScope [] 1
        { line := 1, col := 1 } [Sample.reference 2 "n", Sample.block 3 []]
        Compiler.initial).2.2 (by decide)).2 Pass.DataAllocation (by decide)
        (processAllChildren_ifThen_count Pass.DataAllocation (by decide)) s hs,
   fun s hs =>
     ((IfStatement_process_children_per_pass Env.reference Sample.functionScope [] 1
        { line := 1, col := 1 } [Sample.reference 2 "n", Sample.block 3 []]
        Compiler.initial).2.2 (by decide)).1 s hs Pass.CodeGeneration,
   by decide⟩

end jit
end snex
